import Mathlib

/-!
# MSP command engine (`src/main/msp/msp.c`)

A shallow embedding of the dispatch chain of `msp.c`: the stream-buffer cursor,
the dataflash reader, the reboot / batch stage, and the top-level entry point
`mspFcProcessCommand`, followed by the properties established about them.

Conventions of the embedding

* machine integers are `Nat` (or `Int` where the C type is signed) with explicit
  reductions `% 2^w` at the places where the C code truncates;
* a stream buffer `sbuf_t` is a pair of addresses `ptr`, `end` over a byte memory
  `mem`; memory is total, so that an access outside `[ptr, end)` is observable;
* preprocessor conditionals are fields of `BuildConfig`;
* collaborators that live outside `msp.c` are fields of `Services`.
-/

namespace Msp

/-! ## Machine integers -/

/-- Conversion to `uint8_t`. -/
def u8 (x : Int) : Nat := (x % 256).toNat

/-- Conversion to `uint16_t`. -/
def u16 (x : Int) : Nat := (x % 65536).toNat

/-- Conversion to `uint32_t`. -/
def u32 (x : Int) : Nat := (x % 4294967296).toNat

/-! ## Result codes and command codes -/

/-- The enumeration `mspResult_e` returned by every dispatch stage. -/
inductive mspResult_e where
  | MSP_RESULT_ACK
  | MSP_RESULT_ERROR
  | MSP_RESULT_NO_REPLY
  | MSP_RESULT_CMD_UNKNOWN
  deriving DecidableEq

open mspResult_e

/-! ## Stream buffers (`common/streambuf.h`) -/

/-- The cursor `sbuf_t`: `ptr` is the current position, `end_` the position one
past the last byte of the buffer, `mem` the memory both point into. -/
structure sbuf_t where
  mem : Nat → Nat
  ptr : Nat
  end_ : Nat

/-- Memory after storing the byte list `bytes` from address `addr` on. -/
def memWrite (mem : Nat → Nat) (addr : Nat) (bytes : List Nat) : Nat → Nat :=
  fun a => if addr ≤ a ∧ a < addr + bytes.length then bytes.getD (a - addr) 0 % 256 else mem a

/-- Modelled from the spec: `sbufInit` of streambuf.c, which is not part of the
sources; a cursor over `[ptr, end)`. -/
def sbufInit (mem : Nat → Nat) (ptr end_ : Nat) : sbuf_t :=
  { mem := mem, ptr := ptr, end_ := end_ }

/-- Modelled from the spec: `sbufBytesRemaining` of streambuf.c (`remaining()` of
the Cursor), the signed distance `end - ptr`. -/
def sbufBytesRemaining (buf : sbuf_t) : Int := (buf.end_ : Int) - (buf.ptr : Int)

/-- Modelled from the spec: `sbufPtr` of streambuf.c, the current position. -/
def sbufPtr (buf : sbuf_t) : Nat := buf.ptr

/-- Modelled from the spec: `sbufAdvance` of streambuf.c (`advance(n)` of the
Cursor); no run-time check. -/
def sbufAdvance (buf : sbuf_t) (size : Nat) : sbuf_t :=
  { buf with ptr := buf.ptr + size }

/-- Modelled from the spec: `sbufWriteU8` of streambuf.c (`writeU8` of the
Cursor); stores one byte at the current position and advances, with no run-time
check against `end`. -/
def sbufWriteU8 (dst : sbuf_t) (val : Nat) : sbuf_t :=
  { dst with mem := memWrite dst.mem dst.ptr [val], ptr := dst.ptr + 1 }

/-- Modelled from the spec: `sbufWriteU16` of streambuf.c; little-endian. -/
def sbufWriteU16 (dst : sbuf_t) (val : Nat) : sbuf_t :=
  sbufWriteU8 (sbufWriteU8 dst (val % 256)) (val / 256 % 256)

/-- Modelled from the spec: `sbufWriteU32` of streambuf.c; little-endian. -/
def sbufWriteU32 (dst : sbuf_t) (val : Nat) : sbuf_t :=
  sbufWriteU8 (sbufWriteU8 (sbufWriteU8 (sbufWriteU8 dst (val % 256)) (val / 256 % 256))
    (val / 65536 % 256)) (val / 16777216 % 256)

/-- Modelled from the spec: `sbufWriteData` of streambuf.c (`writeBytes` of the
Cursor); stores the bytes at the current position and advances past them. -/
def sbufWriteData (dst : sbuf_t) (data : List Nat) : sbuf_t :=
  { dst with mem := memWrite dst.mem dst.ptr data, ptr := dst.ptr + data.length }

/-- Modelled from the spec: `sbufReadU8` of streambuf.c (`readU8` of the Cursor);
returns the byte at the current position and advances, with no run-time check
against `end`. -/
def sbufReadU8 (src : sbuf_t) : Nat × sbuf_t :=
  (src.mem src.ptr % 256, { src with ptr := src.ptr + 1 })

/-- Modelled from the spec: `sbufReadU16` of streambuf.c; little-endian. -/
def sbufReadU16 (src : sbuf_t) : Nat × sbuf_t :=
  let lo := sbufReadU8 src
  let hi := sbufReadU8 lo.2
  (lo.1 + hi.1 * 256, hi.2)

/-- Modelled from the spec: `sbufReadU32` of streambuf.c; little-endian. -/
def sbufReadU32 (src : sbuf_t) : Nat × sbuf_t :=
  let b0 := sbufReadU8 src
  let b1 := sbufReadU8 b0.2
  let b2 := sbufReadU8 b1.2
  let b3 := sbufReadU8 b2.2
  (b0.1 + b1.1 * 256 + b2.1 * 65536 + b3.1 * 16777216, b3.2)

/-- The bytes of `mem` at the addresses `[start, stop)`. -/
def memSlice (mem : Nat → Nat) (start stop : Nat) : List Nat :=
  (List.range (stop - start)).map (fun i => mem (start + i))

/-- The bytes a handler has put into the reply: the memory of `dst` between the
position `start` the cursor had on entry and its current position. -/
def sbufWritten (start : Nat) (dst : sbuf_t) : List Nat :=
  memSlice dst.mem start dst.ptr

/-- A cursor over a fresh buffer holding exactly `payload` at address `0`; the
memory behind the payload reads `behind`. -/
def sbufOfPayload (payload : List Nat) (behind : Nat → Nat) : sbuf_t :=
  { mem := fun a => if a < payload.length then payload.getD a 0 else behind a,
    ptr := 0, end_ := payload.length }

/-- A reply cursor with `capacity` bytes of room in zeroed memory. -/
def sbufOfCapacity (capacity : Nat) : sbuf_t :=
  { mem := fun _ => 0, ptr := 0, end_ := capacity }

/-! ## Command codes (`msp/msp_protocol.h`) -/

/-- The commands named by a `case` label or a comparison in `msp.c`; every other
code is `other`. -/
inductive MspCmd where
  | MSP_API_VERSION | MSP_FC_VARIANT | MSP_FC_VERSION | MSP_BOARD_INFO | MSP_BUILD_INFO
  | MSP_ANALOG | MSP_DEBUG | MSP_UID | MSP_FEATURE_CONFIG | MSP_BEEPER_CONFIG
  | MSP_BATTERY_STATE | MSP_VOLTAGE_METERS | MSP_CURRENT_METERS | MSP_VOLTAGE_METER_CONFIG
  | MSP_CURRENT_METER_CONFIG | MSP_BATTERY_CONFIG | MSP_TRANSPONDER_CONFIG | MSP_OSD_CONFIG
  | MSP_STATUS_EX | MSP_STATUS | MSP_RAW_IMU | MSP_NAME | MSP_SERVO
  | MSP_SERVO_CONFIGURATIONS | MSP_SERVO_MIX_RULES | MSP_MOTOR | MSP_RC | MSP_ATTITUDE
  | MSP_ALTITUDE | MSP_SONAR_ALTITUDE | MSP_BOARD_ALIGNMENT_CONFIG | MSP_ARMING_CONFIG
  | MSP_RC_TUNING | MSP_PID | MSP_PIDNAMES | MSP_PID_CONTROLLER | MSP_MODE_RANGES
  | MSP_MODE_RANGES_EXTRA | MSP_ADJUSTMENT_RANGES | MSP_MOTOR_CONFIG | MSP_COMPASS_CONFIG
  | MSP_ESC_SENSOR_DATA | MSP_GPS_CONFIG | MSP_RAW_GPS | MSP_COMP_GPS | MSP_GPSSVINFO
  | MSP_GPS_RESCUE | MSP_GPS_RESCUE_PIDS | MSP_ACC_TRIM | MSP_MIXER_CONFIG | MSP_RX_CONFIG
  | MSP_FAILSAFE_CONFIG | MSP_RXFAIL_CONFIG | MSP_RSSI_CONFIG | MSP_RX_MAP
  | MSP_CF_SERIAL_CONFIG | MSP_LED_COLORS | MSP_LED_STRIP_CONFIG | MSP_LED_STRIP_MODECOLOR
  | MSP_DATAFLASH_SUMMARY | MSP_BLACKBOX_CONFIG | MSP_SDCARD_SUMMARY | MSP_MOTOR_3D_CONFIG
  | MSP_RC_DEADBAND | MSP_SENSOR_ALIGNMENT | MSP_ADVANCED_CONFIG | MSP_FILTER_CONFIG
  | MSP_PID_ADVANCED | MSP_SENSOR_CONFIG | MSP_VTX_CONFIG | MSP_TX_INFO | MSP_RTC
  | MSP_BOXNAMES | MSP_BOXIDS | MSP_REBOOT | MSP_MULTIPLE_MSP
  | MSP_SET_4WAY_IF | MSP_DATAFLASH_READ
  | MSP_SELECT_SETTING | MSP_COPY_PROFILE | MSP_SET_HEADING | MSP_SET_RAW_RC
  | MSP_SET_ACC_TRIM | MSP_SET_ARMING_CONFIG | MSP_SET_PID_CONTROLLER | MSP_SET_PID
  | MSP_SET_MODE_RANGE | MSP_SET_ADJUSTMENT_RANGE | MSP_SET_RC_TUNING | MSP_SET_MOTOR_CONFIG
  | MSP_SET_GPS_CONFIG | MSP_SET_GPS_RESCUE | MSP_SET_GPS_RESCUE_PIDS
  | MSP_SET_COMPASS_CONFIG | MSP_SET_MOTOR | MSP_SET_SERVO_CONFIGURATION
  | MSP_SET_SERVO_MIX_RULE | MSP_SET_MOTOR_3D_CONFIG | MSP_SET_RC_DEADBAND
  | MSP_SET_RESET_CURR_PID | MSP_SET_SENSOR_ALIGNMENT | MSP_SET_ADVANCED_CONFIG
  | MSP_SET_FILTER_CONFIG | MSP_SET_PID_ADVANCED | MSP_SET_SENSOR_CONFIG | MSP_RESET_CONF
  | MSP_ACC_CALIBRATION | MSP_MAG_CALIBRATION | MSP_EEPROM_WRITE | MSP_SET_BLACKBOX_CONFIG
  | MSP_SET_VTX_CONFIG | MSP_CAMERA_CONTROL | MSP_SET_ARMING_DISABLED | MSP_DATAFLASH_ERASE
  | MSP_SET_RAW_GPS | MSP_SET_FEATURE_CONFIG | MSP_SET_BEEPER_CONFIG
  | MSP_SET_BOARD_ALIGNMENT_CONFIG | MSP_SET_MIXER_CONFIG | MSP_SET_RX_CONFIG
  | MSP_SET_FAILSAFE_CONFIG | MSP_SET_RXFAIL_CONFIG | MSP_SET_RSSI_CONFIG | MSP_SET_RX_MAP
  | MSP_SET_CF_SERIAL_CONFIG | MSP_SET_LED_COLORS | MSP_SET_LED_STRIP_CONFIG
  | MSP_SET_LED_STRIP_MODECOLOR | MSP_SET_NAME | MSP_SET_RTC | MSP_SET_TX_INFO
  | MSP_SET_BOARD_INFO | MSP_SET_SIGNATURE
  | MSP_SET_TRANSPONDER_CONFIG | MSP_SET_VOLTAGE_METER_CONFIG | MSP_SET_CURRENT_METER_CONFIG
  | MSP_SET_BATTERY_CONFIG | MSP_SET_OSD_CONFIG | MSP_OSD_CHAR_WRITE
  | other (code : Nat)

open MspCmd

/-- The deferred actions `msp.c` registers through `mspPostProcessFn`. -/
inductive PostProcessAction where
  | mspRebootFn
  | esc4wayProcess
  | mspEscPassthroughFn
  deriving DecidableEq

/-- The function pointer type `mspPostProcessFnPtr`; `none` is `NULL`. -/
abbrev mspPostProcessFnPtr := Option PostProcessAction

/-- The struct `mspPacket_t` (msp.h): cursor, command and result. -/
structure mspPacket_t where
  buf : sbuf_t
  cmd : MspCmd
  result : mspResult_e

/-! ## Build configuration, collaborators and controller state -/

/-- The preprocessor conditionals that select code in `msp.c`, the constants it
takes from headers that are not part of the sources, and the assignment of code
bytes to commands made by `msp_protocol.h`. -/
structure BuildConfig where
  USE_BEEPER : Bool
  USE_SERVOS : Bool
  USE_MAG : Bool
  USE_ESC_SENSOR : Bool
  USE_GPS : Bool
  USE_GPS_RESCUE : Bool
  USE_ACC : Bool
  USE_LED_STRIP : Bool
  USE_LED_STRIP_STATUS_MODE : Bool
  USE_VTX_COMMON : Bool
  USE_RTC_TIME : Bool
  USE_USB_MSC : Bool
  USE_SERIAL_4WAY_BLHELI_INTERFACE : Bool
  USE_ESCSERIAL : Bool
  USE_FLASHFS : Bool
  USE_HUFFMAN : Bool
  USE_RX_MSP : Bool
  USE_BLACKBOX : Bool
  USE_CAMERA_CONTROL : Bool
  USE_BOARD_INFO : Bool
  USE_SIGNATURE : Bool
  USE_TRANSPONDER : Bool
  USE_OSD : Bool
  USE_MAX7456 : Bool
  MSP_PORT_DATAFLASH_INFO_SIZE : Nat
  HUFFMAN_INFO_SIZE : Nat
  PID_PROFILE_COUNT : Nat
  CONTROL_RATE_PROFILE_COUNT : Nat
  MAX_SUPPORTED_RC_CHANNEL_COUNT : Nat
  MAX_MODE_ACTIVATION_CONDITION_COUNT : Nat
  MAX_ADJUSTMENT_RANGE_COUNT : Nat
  MAX_SIMULTANEOUS_ADJUSTMENT_COUNT : Nat
  MAX_SUPPORTED_SERVOS : Nat
  MAX_SERVO_RULES : Nat
  LED_MAX_STRIP_LENGTH : Nat
  OSD_TIMER_COUNT : Nat
  OSD_STAT_COUNT : Nat
  OSD_ITEM_COUNT : Nat
  TRANSPONDER_PROVIDER_COUNT : Nat
  TRANSPONDER_NONE : Nat
  MAX_BOARD_NAME_LENGTH : Nat
  MAX_MANUFACTURER_ID_LENGTH : Nat
  SIGNATURE_LENGTH : Nat
  MAX_NAME_LENGTH : Nat
  transponderDataLength : Nat → Nat
  PROTOCOL_SIMONK : Nat
  PROTOCOL_BLHELI : Nat
  PROTOCOL_KISS : Nat
  PROTOCOL_KISSALL : Nat
  PROTOCOL_CASTLE : Nat
  ALL_MOTORS : Nat
  cmdOfCode : Nat → MspCmd
  USE_MULTI_GYRO : Bool
  USE_OSD_PROFILES : Bool
  USE_OSD_STICK_OVERLAY : Bool
  CONTROL_RATE_CONFIG_TPA_MAX : Nat
  OSD_WARNING_COUNT : Nat
  OSD_PROFILE_COUNT : Nat
  GYRO_CONFIG_USE_GYRO_1 : Nat
  GYRO_CONFIG_USE_GYRO_2 : Nat
  ALIGN_DEFAULT : Nat

/-- The state of `huffmanEncodeBufStreaming` (`huffmanState_t`, common/huffman.h). -/
structure huffmanState_t where
  bytesWritten : Nat
  outByte : Nat
  outBufLen : Nat
  outBit : Nat

/-- The calls `msp.c` makes into the persistent configuration store
(config/config_eeprom.h, fc/config.h), in the order they are made. -/
inductive EepromOp where
  | resetEEPROM
  | readEEPROM
  | writeEEPROM
  | writeEEPROMWithFeatures (featureMask : Nat)
  deriving DecidableEq

/-- The control-rate profile `controlRateConfig_t` (fc/controlrate_profile.h) as
far as `msp.c` reads and writes it. The arrays are indexed by the axes `FD_ROLL`,
`FD_PITCH`, `FD_YAW`; every field is a `uint8_t` but `tpa_breakpoint`, a
`uint16_t`. -/
structure controlRateConfig_t where
  rcRates : Nat → Nat
  rcExpo : Nat → Nat
  rates : Nat → Nat
  dynThrPID : Nat
  thrMid8 : Nat
  thrExpo8 : Nat
  tpa_breakpoint : Nat
  throttle_limit_type : Nat
  throttle_limit_percent : Nat

/-- The battery configuration `batteryConfig_t` (sensors/battery.h) as far as
`msp.c` reads and writes it: the cell voltages and the capacity are `uint16_t`,
the meter sources are enumerations of one byte. -/
structure batteryConfig_t where
  vbatmincellvoltage : Nat
  vbatmaxcellvoltage : Nat
  vbatwarningcellvoltage : Nat
  batteryCapacity : Nat
  voltageMeterSource : Nat
  currentMeterSource : Nat

/-- The OSD configuration `osdConfig_t` (osd/osd.h) as far as the query
`MSP_OSD_CONFIG` reads it. -/
structure osdConfig_t where
  units : Nat
  rssi_alarm : Nat
  cap_alarm : Nat
  alt_alarm : Nat
  item_pos : Nat → Nat
  timers : Nat → Nat
  enabledWarnings : Nat
  osdProfileIndex : Nat
  overlay_radio_mode : Nat

/-- The state the dispatch chain reads and writes: the file-scope variables of
`msp.c`, the flags and stores of the collaborators it consults, and `sys`, the
state of the flight-control subsystems whose layout is not visible in `msp.c`. -/
structure FcState where
  armed : Bool
  rebootMode : Nat
  escMode : Nat
  escPortIndex : Nat
  featureMaskIsCopied : Bool
  featureMaskCopy : Nat
  featureMask : Nat
  eeprom : List EepromOp
  flash : List Nat
  mscFilesystemReady : Bool
  esc4wayCount : Nat
  motorCount : Nat
  pidProfileIndex : Nat
  controlRateProfileIndex : Nat
  sys : Nat → Nat
  currentControlRateProfile : controlRateConfig_t
  batteryConfig : batteryConfig_t
  gyro_to_use : Nat
  gyroDeviceAlign : Nat → Nat
  mag_align : Nat
  gyroDetectionFlags : Nat
  osdConfig : osdConfig_t
  osdStatState : Nat → Nat
  video_system : Nat
  name : Nat → Nat
  ledstrip_profile : Nat

/-- The collaborators outside `msp.c` that the embedding leaves uninterpreted.

* `outReply cmd st` is the byte sequence the query handler of `cmd` serialises
  from the subsystems;
* `serializeBoxReply cmd page st` is the byte sequence `serializeBoxReply` of
  msp_box.c produces for the given page;
* `accepts cmd vals st` answers a test the handler of `cmd` delegates to a
  subsystem (a feature or status flag, a lookup that may return `NULL`, a setter
  that may refuse), `vals` being the decoded values it is asked about;
* `setConfig cmd src st` is the effect of a handler that decodes `src` field by
  field into configuration setters and always acknowledges: the number of
  bytes it consumes and the new subsystem state;
* `store cmd vals sys` is the new subsystem state after the handler of `cmd` has
  handed the decoded values `vals` to the setters;
* `flashfsEraseCompletely` is the content of the dataflash after an erase;
* `huffmanEncodeBufStreaming` is the entropy coder of common/huffman.c: from the
  coder state, the output memory and an input chunk it yields the status (`-1`
  on overflow), the new coder state and the new output memory. -/
structure Services where
  outReply : MspCmd → FcState → List Nat
  serializeBoxReply : MspCmd → Nat → FcState → List Nat
  accepts : MspCmd → List Nat → FcState → Bool
  setConfig : MspCmd → sbuf_t → FcState → Nat × (Nat → Nat)
  store : MspCmd → List Nat → (Nat → Nat) → (Nat → Nat)
  flashfsEraseCompletely : List Nat → List Nat
  huffmanEncodeBufStreaming :
    huffmanState_t → (Nat → Nat) → List Nat → Int × huffmanState_t × (Nat → Nat)

/-! ## Dataflash (`io/flashfs.h`) -/

/-- Modelled from the spec: `flashfsGetSize` of flashfs.c, the known current size
of the Dataflash Region, as a `uint32_t`. -/
def flashfsGetSize (st : FcState) : Nat := st.flash.length % 4294967296

/-- Modelled from the spec: `flashfsReadAbs` of flashfs.c; a read of `len` bytes
at the absolute offset `address`, clipped to `[0, size)`. The result is the list
of bytes delivered, its length the return value. -/
def flashfsReadAbs (st : FcState) (address len : Nat) : List Nat :=
  ((st.flash.drop address).take len).map (fun b => b % 256)

/-! ## The dataflash reader -/

/-- The enumerator `NO_COMPRESSION` of `compressionType_e`. -/
def NO_COMPRESSION : Nat := 0

/-- The enumerator `HUFFMAN` of `compressionType_e`. -/
def HUFFMAN : Nat := 1

/-- The loop `for (int i = bytesRead; i < size; i++) sbufWriteU8(dst, 0)` after
`n` further iterations are due. -/
def padWithZeros : Nat → sbuf_t → sbuf_t
  | 0, dst => dst
  | n + 1, dst => padWithZeros n (sbufWriteU8 dst 0)

/-- The loop `while (state.bytesWritten < state.outBufLen && address +
bytesReadTotal < flashfsSize)` of the compressed path; `none` when the fuel does
not suffice. The result is the coder state, the output memory and
`bytesReadTotal` at loop exit. -/
def huffmanReadLoop (svc : Services) (st : FcState) (address flashfsSize : Nat) :
    Nat → huffmanState_t → (Nat → Nat) → Nat → Option (huffmanState_t × (Nat → Nat) × Nat)
  | 0, _, _, _ => none
  | fuel + 1, state, mem, bytesReadTotal =>
    if state.bytesWritten < state.outBufLen ∧ u32 ((address : Int) + bytesReadTotal) < flashfsSize then
      let readBuffer := flashfsReadAbs st (u32 ((address : Int) + bytesReadTotal))
        (min 256 (u32 ((flashfsSize : Int) - address - bytesReadTotal)))
      let bytesRead := readBuffer.length
      let r := svc.huffmanEncodeBufStreaming state mem readBuffer
      if r.1 = -1 then some (r.2.1, r.2.2, bytesReadTotal)
      else huffmanReadLoop svc st address flashfsSize fuel r.2.1 r.2.2
        (u16 ((bytesReadTotal : Int) + bytesRead))
    else some (state, mem, bytesReadTotal)

/-- The length `readLen` that `serializeDataflashReadReply` passes to
`flashfsReadAbs` (lines 368-378): the requested size, clamped first against the
room of the reply and then against the rest of the volume. -/
def dataflashReadLen (cfg : BuildConfig) (st : FcState) (dst : sbuf_t) (address size : Nat) : Nat :=
  let readLen := size
  let bytesRemainingInBuf : Int := sbufBytesRemaining dst - cfg.MSP_PORT_DATAFLASH_INFO_SIZE
  let readLen := if (readLen : Int) > bytesRemainingInBuf then u16 bytesRemainingInBuf else readLen
  let flashfsSize := flashfsGetSize st
  if readLen > u32 ((flashfsSize : Int) - address) then u16 (u32 ((flashfsSize : Int) - address))
  else readLen

/-- The function `serializeDataflashReadReply`; `address` is a `uint32_t` and
`size` a `uint16_t`. `none` when the fuel does not suffice for the loop of the
compressed path. -/
def serializeDataflashReadReply (cfg : BuildConfig) (svc : Services) (st : FcState) (fuel : Nat)
    (dst : sbuf_t) (address size : Nat) (useLegacyFormat allowCompression : Bool) :
    Option sbuf_t :=
  let readLen := dataflashReadLen cfg st dst address size
  let flashfsSize := flashfsGetSize st
  let dst := sbufWriteU32 dst address
  let compressionMethod :=
    if cfg.USE_HUFFMAN then
      (if !allowCompression || useLegacyFormat then NO_COMPRESSION else HUFFMAN)
    else NO_COMPRESSION
  if compressionMethod = NO_COMPRESSION then
    let readLenPtr := sbufPtr dst
    let dst := if !useLegacyFormat then sbufWriteU8 (sbufWriteU16 dst readLen) 0 else dst
    let data := flashfsReadAbs st address readLen
    let bytesRead := data.length
    let dst := { dst with mem := memWrite dst.mem (sbufPtr dst) data }
    let dst :=
      if !useLegacyFormat then
        { dst with mem := memWrite dst.mem readLenPtr [bytesRead % 256, bytesRead / 256 % 256] }
      else dst
    let dst := sbufAdvance dst bytesRead
    let dst := if useLegacyFormat then padWithZeros (size - bytesRead) dst else dst
    some dst
  else
    let state : huffmanState_t :=
      { bytesWritten := 0,
        outByte := sbufPtr dst + 2 + 1 + cfg.HUFFMAN_INFO_SIZE,
        outBufLen := readLen,
        outBit := 128 }
    let mem := memWrite dst.mem state.outByte [0]
    match huffmanReadLoop svc st address flashfsSize fuel state mem 0 with
    | none => none
    | some (state, mem, bytesReadTotal) =>
      let bytesWritten := if state.outBit ≠ 128 then state.bytesWritten + 1 else state.bytesWritten
      let dst := { dst with mem := mem }
      let dst := sbufWriteU16 dst ((cfg.HUFFMAN_INFO_SIZE + bytesWritten) % 65536)
      let dst := sbufWriteU8 dst compressionMethod
      let dst := sbufWriteU16 dst bytesReadTotal
      some (sbufAdvance dst bytesWritten)

/-- The function `mspFcDataFlashReadCommand`; the result is the reply cursor and
the request cursor after the call. -/
def mspFcDataFlashReadCommand (cfg : BuildConfig) (svc : Services) (st : FcState) (fuel : Nat)
    (dst src : sbuf_t) : Option (sbuf_t × sbuf_t) :=
  let dataSize := u32 (sbufBytesRemaining src)
  let r := sbufReadU32 src
  let readAddress := r.1
  let src := r.2
  if dataSize ≥ 4 + 2 then
    let r := sbufReadU16 src
    let readLength := r.1
    let src := r.2
    let r : Bool × sbuf_t :=
      if sbufBytesRemaining src ≠ 0 then (decide ((sbufReadU8 src).1 ≠ 0), (sbufReadU8 src).2)
      else (false, src)
    let allowCompression : Bool := r.1
    let src := r.2
    (serializeDataflashReadReply cfg svc st fuel dst readAddress readLength false allowCompression).map
      (fun dst => (dst, src))
  else
    (serializeDataflashReadReply cfg svc st fuel dst readAddress 128 true false).map
      (fun dst => (dst, src))

/-! ## The read-only stages -/

/-- The axis index `FD_ROLL` (common/axis.h). -/
def FD_ROLL : Nat := 0

/-- The axis index `FD_PITCH` (common/axis.h). -/
def FD_PITCH : Nat := 1

/-- The axis index `FD_YAW` (common/axis.h). -/
def FD_YAW : Nat := 2

/-- The assignment `a[i] = v` to an array held as a function. -/
def arraySet (a : Nat → Nat) (i v : Nat) : Nat → Nat :=
  fun j => if j = i then v else a j

/-- The loop `for (i = 0; i < count; i++) sbufWriteU8(dst, a(i))`. -/
def sbufWriteU8s (a : Nat → Nat) (count : Nat) (dst : sbuf_t) : sbuf_t :=
  (List.range count).foldl (fun d i => sbufWriteU8 d (a i)) dst

/-- The loop `for (i = 0; i < count; i++) sbufWriteU16(dst, a(i))`. -/
def sbufWriteU16s (a : Nat → Nat) (count : Nat) (dst : sbuf_t) : sbuf_t :=
  (List.range count).foldl (fun d i => sbufWriteU16 d (a i)) dst

/-- The case `MSP_BATTERY_CONFIG` of `mspCommonProcessOutCommand` (lines 693-703). -/
def mspBatteryConfig (st : FcState) (dst : sbuf_t) : sbuf_t :=
  let dst := sbufWriteU8 dst ((st.batteryConfig.vbatmincellvoltage + 5) / 10)
  let dst := sbufWriteU8 dst ((st.batteryConfig.vbatmaxcellvoltage + 5) / 10)
  let dst := sbufWriteU8 dst ((st.batteryConfig.vbatwarningcellvoltage + 5) / 10)
  let dst := sbufWriteU16 dst st.batteryConfig.batteryCapacity
  let dst := sbufWriteU8 dst st.batteryConfig.voltageMeterSource
  let dst := sbufWriteU8 dst st.batteryConfig.currentMeterSource
  let dst := sbufWriteU16 dst st.batteryConfig.vbatmincellvoltage
  let dst := sbufWriteU16 dst st.batteryConfig.vbatmaxcellvoltage
  sbufWriteU16 dst st.batteryConfig.vbatwarningcellvoltage

/-- The case `MSP_OSD_CONFIG` of `mspCommonProcessOutCommand` (lines 733-815);
`osdStatGetState(i)` is `st.osdStatState i`. -/
def mspOsdConfig (cfg : BuildConfig) (st : FcState) (dst : sbuf_t) : sbuf_t :=
  let osdFlags := 0
  let osdFlags := if cfg.USE_OSD then osdFlags ||| 1 else osdFlags
  let osdFlags := if cfg.USE_MAX7456 then osdFlags ||| 16 else osdFlags
  let dst := sbufWriteU8 dst osdFlags
  let dst := if cfg.USE_MAX7456 then sbufWriteU8 dst st.video_system else sbufWriteU8 dst 0
  if cfg.USE_OSD then
    let dst := sbufWriteU8 dst st.osdConfig.units
    let dst := sbufWriteU8 dst st.osdConfig.rssi_alarm
    let dst := sbufWriteU16 dst st.osdConfig.cap_alarm
    let dst := sbufWriteU8 dst 0
    let dst := sbufWriteU8 dst cfg.OSD_ITEM_COUNT
    let dst := sbufWriteU16 dst st.osdConfig.alt_alarm
    let dst := sbufWriteU16s st.osdConfig.item_pos cfg.OSD_ITEM_COUNT dst
    let dst := sbufWriteU8 dst cfg.OSD_STAT_COUNT
    let dst := sbufWriteU8s st.osdStatState cfg.OSD_STAT_COUNT dst
    let dst := sbufWriteU8 dst cfg.OSD_TIMER_COUNT
    let dst := sbufWriteU16s st.osdConfig.timers cfg.OSD_TIMER_COUNT dst
    let dst := sbufWriteU16 dst (u16 ((st.osdConfig.enabledWarnings &&& 0xFFFF : Nat) : Int))
    let dst := sbufWriteU8 dst cfg.OSD_WARNING_COUNT
    let dst := sbufWriteU32 dst st.osdConfig.enabledWarnings
    let dst :=
      if cfg.USE_OSD_PROFILES then
        sbufWriteU8 (sbufWriteU8 dst cfg.OSD_PROFILE_COUNT) st.osdConfig.osdProfileIndex
      else sbufWriteU8 (sbufWriteU8 dst 1) 1
    if cfg.USE_OSD_STICK_OVERLAY then sbufWriteU8 dst st.osdConfig.overlay_radio_mode
    else sbufWriteU8 dst 0
  else dst

/-- Modelled from the spec: `strlen` of the C library on an array of `len` bytes,
the number of bytes before the first zero byte. An array without a zero byte is
not a C string; the scan is cut at `len`. -/
def strlen (a : Nat → Nat) (len : Nat) : Nat :=
  ((List.range len).takeWhile (fun i => a i != 0)).length

/-- The case `MSP_NAME` of `mspProcessOutCommand` (lines 900-907);
`pilotConfig()->name` is `st.name`, an array `char name[MAX_NAME_LENGTH + 1]`
(fc/config.h is not part of the sources). -/
def mspName (cfg : BuildConfig) (st : FcState) (dst : sbuf_t) : sbuf_t :=
  let nameLen := strlen st.name (cfg.MAX_NAME_LENGTH + 1)
  sbufWriteU8s st.name nameLen dst

/-- The case `MSP_RC_TUNING` of `mspProcessOutCommand` (lines 993-1012). -/
def mspRcTuning (st : FcState) (dst : sbuf_t) : sbuf_t :=
  let dst := sbufWriteU8 dst (st.currentControlRateProfile.rcRates FD_ROLL)
  let dst := sbufWriteU8 dst (st.currentControlRateProfile.rcExpo FD_ROLL)
  let dst := sbufWriteU8s st.currentControlRateProfile.rates 3 dst
  let dst := sbufWriteU8 dst st.currentControlRateProfile.dynThrPID
  let dst := sbufWriteU8 dst st.currentControlRateProfile.thrMid8
  let dst := sbufWriteU8 dst st.currentControlRateProfile.thrExpo8
  let dst := sbufWriteU16 dst st.currentControlRateProfile.tpa_breakpoint
  let dst := sbufWriteU8 dst (st.currentControlRateProfile.rcExpo FD_YAW)
  let dst := sbufWriteU8 dst (st.currentControlRateProfile.rcRates FD_YAW)
  let dst := sbufWriteU8 dst (st.currentControlRateProfile.rcRates FD_PITCH)
  let dst := sbufWriteU8 dst (st.currentControlRateProfile.rcExpo FD_PITCH)
  let dst := sbufWriteU8 dst st.currentControlRateProfile.throttle_limit_type
  sbufWriteU8 dst st.currentControlRateProfile.throttle_limit_percent

/-- The case `MSP_SENSOR_ALIGNMENT` of `mspProcessOutCommand` (lines 1340-1373);
`gyroDeviceConfig(i)->align` is `st.gyroDeviceAlign i`. -/
def mspSensorAlignment (cfg : BuildConfig) (st : FcState) (dst : sbuf_t) : sbuf_t :=
  let gyroAlignment :=
    if cfg.USE_MULTI_GYRO then
      (if st.gyro_to_use = cfg.GYRO_CONFIG_USE_GYRO_2 then st.gyroDeviceAlign 1
       else st.gyroDeviceAlign 0)
    else st.gyroDeviceAlign 0
  let dst := sbufWriteU8 dst gyroAlignment
  let dst := sbufWriteU8 dst gyroAlignment
  let dst := sbufWriteU8 dst st.mag_align
  let dst := sbufWriteU8 dst st.gyroDetectionFlags
  if cfg.USE_MULTI_GYRO then
    let dst := sbufWriteU8 dst st.gyro_to_use
    let dst := sbufWriteU8 dst (st.gyroDeviceAlign 0)
    sbufWriteU8 dst (st.gyroDeviceAlign 1)
  else
    let dst := sbufWriteU8 dst cfg.GYRO_CONFIG_USE_GYRO_1
    let dst := sbufWriteU8 dst (st.gyroDeviceAlign 0)
    sbufWriteU8 dst cfg.ALIGN_DEFAULT

/-- The function `getFeatureMask`. -/
def getFeatureMask (st : FcState) : Nat :=
  if st.featureMaskIsCopied then st.featureMaskCopy else st.featureMask

/-- The function `mspCommonProcessOutCommand`: whether the command was processed,
and the reply cursor afterwards. The handlers receive neither the request nor
the registration slot (`UNUSED(mspPostProcessFn)`). -/
def mspCommonProcessOutCommand (cfg : BuildConfig) (svc : Services) (st : FcState)
    (cmdMSP : MspCmd) (dst : sbuf_t) : Bool × sbuf_t :=
  match cmdMSP with
  | MSP_FEATURE_CONFIG => (true, sbufWriteU32 dst (getFeatureMask st))
  | MSP_BEEPER_CONFIG =>
    if cfg.USE_BEEPER then (true, sbufWriteData dst (svc.outReply cmdMSP st)) else (false, dst)
  | MSP_BATTERY_CONFIG => (true, mspBatteryConfig st dst)
  | MSP_OSD_CONFIG => (true, mspOsdConfig cfg st dst)
  | MSP_API_VERSION | MSP_FC_VARIANT | MSP_FC_VERSION | MSP_BOARD_INFO | MSP_BUILD_INFO
  | MSP_ANALOG | MSP_DEBUG | MSP_UID | MSP_BATTERY_STATE | MSP_VOLTAGE_METERS
  | MSP_CURRENT_METERS | MSP_VOLTAGE_METER_CONFIG | MSP_CURRENT_METER_CONFIG
  | MSP_TRANSPONDER_CONFIG =>
    (true, sbufWriteData dst (svc.outReply cmdMSP st))
  | _ => (false, dst)

/-- The function `mspProcessOutCommand`: whether the command was processed
(`!unsupportedCommand`), and the reply cursor afterwards. -/
def mspProcessOutCommand (cfg : BuildConfig) (svc : Services) (st : FcState)
    (cmdMSP : MspCmd) (dst : sbuf_t) : Bool × sbuf_t :=
  match cmdMSP with
  | MSP_RC_TUNING => (true, mspRcTuning st dst)
  | MSP_SENSOR_ALIGNMENT => (true, mspSensorAlignment cfg st dst)
  | MSP_NAME => (true, mspName cfg st dst)
  | MSP_STATUS_EX | MSP_STATUS | MSP_RAW_IMU | MSP_MOTOR | MSP_RC | MSP_ATTITUDE
  | MSP_ALTITUDE | MSP_SONAR_ALTITUDE | MSP_BOARD_ALIGNMENT_CONFIG | MSP_ARMING_CONFIG
  | MSP_PID | MSP_PIDNAMES | MSP_PID_CONTROLLER | MSP_MODE_RANGES
  | MSP_MODE_RANGES_EXTRA | MSP_ADJUSTMENT_RANGES | MSP_MOTOR_CONFIG | MSP_MIXER_CONFIG
  | MSP_RX_CONFIG | MSP_FAILSAFE_CONFIG | MSP_RXFAIL_CONFIG | MSP_RSSI_CONFIG | MSP_RX_MAP
  | MSP_CF_SERIAL_CONFIG | MSP_DATAFLASH_SUMMARY | MSP_BLACKBOX_CONFIG | MSP_SDCARD_SUMMARY
  | MSP_MOTOR_3D_CONFIG | MSP_RC_DEADBAND | MSP_ADVANCED_CONFIG
  | MSP_FILTER_CONFIG | MSP_PID_ADVANCED | MSP_SENSOR_CONFIG | MSP_TX_INFO =>
    (true, sbufWriteData dst (svc.outReply cmdMSP st))
  | MSP_SERVO | MSP_SERVO_CONFIGURATIONS | MSP_SERVO_MIX_RULES =>
    if cfg.USE_SERVOS then (true, sbufWriteData dst (svc.outReply cmdMSP st)) else (false, dst)
  | MSP_COMPASS_CONFIG =>
    if cfg.USE_MAG then (true, sbufWriteData dst (svc.outReply cmdMSP st)) else (false, dst)
  | MSP_ESC_SENSOR_DATA =>
    if cfg.USE_ESC_SENSOR then
      (if svc.accepts cmdMSP [] st then (true, sbufWriteData dst (svc.outReply cmdMSP st))
       else (false, dst))
    else (false, dst)
  | MSP_GPS_CONFIG | MSP_RAW_GPS | MSP_COMP_GPS | MSP_GPSSVINFO =>
    if cfg.USE_GPS then (true, sbufWriteData dst (svc.outReply cmdMSP st)) else (false, dst)
  | MSP_GPS_RESCUE | MSP_GPS_RESCUE_PIDS =>
    if cfg.USE_GPS && cfg.USE_GPS_RESCUE then (true, sbufWriteData dst (svc.outReply cmdMSP st))
    else (false, dst)
  | MSP_ACC_TRIM =>
    if cfg.USE_ACC then (true, sbufWriteData dst (svc.outReply cmdMSP st)) else (false, dst)
  | MSP_LED_COLORS | MSP_LED_STRIP_MODECOLOR =>
    if cfg.USE_LED_STRIP_STATUS_MODE then (true, sbufWriteData dst (svc.outReply cmdMSP st))
    else (false, dst)
  | MSP_LED_STRIP_CONFIG =>
    if cfg.USE_LED_STRIP then (true, sbufWriteData dst (svc.outReply cmdMSP st)) else (false, dst)
  | MSP_VTX_CONFIG =>
    if cfg.USE_VTX_COMMON then (true, sbufWriteData dst (svc.outReply cmdMSP st)) else (false, dst)
  | MSP_RTC =>
    if cfg.USE_RTC_TIME then (true, sbufWriteData dst (svc.outReply cmdMSP st)) else (false, dst)
  | _ => (false, dst)

/-! ## Stages that consume the request -/

/-- What a stage leaves behind: its return value, the two cursors, the content
of the registration slot `*mspPostProcessFn` (`none` when the pointer passed is
`NULL`), and the controller state. -/
structure StageResult where
  ret : mspResult_e
  src : sbuf_t
  dst : sbuf_t
  mspPostProcessFn : Option mspPostProcessFnPtr
  st : FcState

/-- What `mspFcProcessCommand` leaves behind: its return value, the request and
reply packets, the content of the registration slot, and the controller state. -/
structure ProcessResult where
  ret : mspResult_e
  cmd : mspPacket_t
  reply : mspPacket_t
  mspPostProcessFn : Option mspPostProcessFnPtr
  st : FcState

/-- The statement `if (mspPostProcessFn) { *mspPostProcessFn = fn; }`. -/
def registerPostProcessFn (mspPostProcessFn : Option mspPostProcessFnPtr)
    (fn : PostProcessAction) : Option mspPostProcessFnPtr :=
  match mspPostProcessFn with
  | none => none
  | some _ => some (some fn)

/-- The enumerator `MSP_REBOOT_FIRMWARE`. -/
def MSP_REBOOT_FIRMWARE : Nat := 0

/-- The enumerator `MSP_REBOOT_BOOTLOADER`. -/
def MSP_REBOOT_BOOTLOADER : Nat := 1

/-- The enumerator `MSP_REBOOT_MSC`. -/
def MSP_REBOOT_MSC : Nat := 2

/-- The enumerator `MSP_REBOOT_MSC_UTC`. -/
def MSP_REBOOT_MSC_UTC : Nat := 3

/-- The enumerator `MSP_REBOOT_COUNT`. -/
def MSP_REBOOT_COUNT : Nat := 4

/-- The constant `ESC_4WAY`. -/
def ESC_4WAY : Nat := 255

/-- A local `mspPacket_t` over `buf` whose `cmd` and `result` are not yet
assigned; the code assigns them before it reads them. -/
def localPacket (buf : sbuf_t) : mspPacket_t :=
  { buf := buf, cmd := MspCmd.other 0, result := MSP_RESULT_ACK }

/-- A call `mspFcProcessCommand(&packetIn, &packetOut, NULL)` made by the
`MSP_MULTIPLE_MSP` handler (lines 1642 and 1656): the request packet, the reply
packet and the controller state the call is made with, and what it leaves behind. -/
structure DispatchCall where
  cmd : mspPacket_t
  reply : mspPacket_t
  st : FcState
  res : ProcessResult

/-- The variables live in the two loops of the `MSP_MULTIPLE_MSP` handler. `calls`
is not a variable of the handler: it records the calls of `mspFcProcessCommand`
the two loops have made so far, in the order they were made, and nothing reads
it. -/
structure BatchState where
  src : sbuf_t
  dst : sbuf_t
  packetIn : mspPacket_t
  packetOut : mspPacket_t
  st : FcState
  bytesRemaining : Int
  maxMSPs : Nat
  calls : List DispatchCall := []

/-- The type of the recursive entry `mspFcProcessCommand(cmd, reply, mspPostProcessFn)`. -/
abbrev ProcessCommand :=
  mspPacket_t → mspPacket_t → Option mspPostProcessFnPtr → FcState → Option ProcessResult

/-- The sizing loop `while (sbufBytesRemaining(src) && bytesRemaining > 0)` of the
`MSP_MULTIPLE_MSP` handler; `none` when the fuel does not suffice. -/
def batchSizingLoop (cfg : BuildConfig) (processCommand : ProcessCommand) :
    Nat → BatchState → Option BatchState
  | 0, _ => none
  | fuel + 1, b =>
    if sbufBytesRemaining b.src ≠ 0 ∧ b.bytesRemaining > 0 then
      let r := sbufReadU8 b.src
      let newMSP := r.1
      let packetOut := { b.packetOut with buf := sbufInit b.dst.mem b.dst.ptr b.dst.end_ }
      let packetIn := { b.packetIn with cmd := cfg.cmdOfCode newMSP }
      match processCommand packetIn packetOut none b.st with
      | none => none
      | some res =>
        let mspSize := u8 ((sbufPtr res.reply.buf : Int) - b.dst.ptr)
        let mspSize := (mspSize + 1) % 256
        let bytesRemaining := b.bytesRemaining - mspSize
        let maxMSPs := if bytesRemaining ≥ 0 then (b.maxMSPs + 1) % 256 else b.maxMSPs
        batchSizingLoop cfg processCommand fuel
          { src := r.2, dst := { b.dst with mem := res.reply.buf.mem }, packetIn := res.cmd,
            packetOut := res.reply, st := res.st, bytesRemaining := bytesRemaining,
            maxMSPs := maxMSPs,
            calls := b.calls ++ [{ cmd := packetIn, reply := packetOut, st := b.st, res := res }] }
    else some b

/-- The emitting loop `for (int i = 0; i < maxMSPs; i++)` of the
`MSP_MULTIPLE_MSP` handler with `n` iterations left; `none` when a nested
dispatch runs out of fuel. -/
def batchEmitLoop (cfg : BuildConfig) (processCommand : ProcessCommand) :
    Nat → BatchState → Option BatchState
  | 0, b => some b
  | n + 1, b =>
    let sizePtr := sbufPtr b.packetOut.buf
    let packetOut := { b.packetOut with buf := sbufWriteU8 b.packetOut.buf 0 }
    let r := sbufReadU8 b.src
    let packetIn := { b.packetIn with cmd := cfg.cmdOfCode r.1 }
    match processCommand packetIn packetOut none b.st with
    | none => none
    | some res =>
      let size := u8 ((sbufPtr res.reply.buf : Int) - (sizePtr + 1))
      let buf := { res.reply.buf with mem := memWrite res.reply.buf.mem sizePtr [size] }
      batchEmitLoop cfg processCommand n
        { b with src := r.2, packetIn := res.cmd, packetOut := { res.reply with buf := buf },
                 st := res.st,
                 calls := b.calls ++
                   [{ cmd := packetIn, reply := packetOut, st := b.st, res := res }] }

/-- The `MSP_REBOOT` handler from `sbufWriteU8(dst, rebootMode)` on (lines
1609-1627), entered once `rebootMode` is resolved. -/
def mspRebootReply (cfg : BuildConfig) (st : FcState) (src dst : sbuf_t)
    (mspPostProcessFn : Option mspPostProcessFnPtr) : StageResult :=
  let dst := sbufWriteU8 dst st.rebootMode
  if cfg.USE_USB_MSC ∧ st.rebootMode = MSP_REBOOT_MSC then
    if st.mscFilesystemReady then
      { ret := MSP_RESULT_ACK, src := src, dst := sbufWriteU8 dst 1,
        mspPostProcessFn := registerPostProcessFn mspPostProcessFn .mspRebootFn, st := st }
    else
      { ret := MSP_RESULT_ACK, src := src, dst := sbufWriteU8 dst 0,
        mspPostProcessFn := mspPostProcessFn, st := st }
  else
    { ret := MSP_RESULT_ACK, src := src, dst := dst,
      mspPostProcessFn := registerPostProcessFn mspPostProcessFn .mspRebootFn, st := st }

/-- The function `mspFcProcessOutCommandWithArg`; `processCommand` is the entry
point the batch handler re-enters and `fuel` bounds its sizing loop. `none` when
the fuel does not suffice. -/
def mspFcProcessOutCommandWithArg (cfg : BuildConfig) (svc : Services)
    (processCommand : ProcessCommand) (fuel : Nat) (st : FcState) (cmdMSP : MspCmd)
    (src dst : sbuf_t) (mspPostProcessFn : Option mspPostProcessFnPtr) : Option StageResult :=
  match cmdMSP with
  | MSP_BOXNAMES | MSP_BOXIDS =>
    let r := if sbufBytesRemaining src ≠ 0 then sbufReadU8 src else (0, src)
    let page := r.1
    some { ret := MSP_RESULT_ACK, src := r.2,
           dst := sbufWriteData dst (svc.serializeBoxReply cmdMSP page st),
           mspPostProcessFn := mspPostProcessFn, st := st }
  | MSP_REBOOT =>
    if sbufBytesRemaining src ≠ 0 then
      let r := sbufReadU8 src
      let st := { st with rebootMode := r.1 }
      if st.rebootMode ≥ MSP_REBOOT_COUNT ∨
          (!cfg.USE_USB_MSC ∧
            (st.rebootMode = MSP_REBOOT_MSC ∨ st.rebootMode = MSP_REBOOT_MSC_UTC)) then
        some { ret := MSP_RESULT_ERROR, src := r.2, dst := dst,
               mspPostProcessFn := mspPostProcessFn, st := st }
      else
        some (mspRebootReply cfg st r.2 dst mspPostProcessFn)
    else
      some (mspRebootReply cfg { st with rebootMode := MSP_REBOOT_FIRMWARE } src dst
        mspPostProcessFn)
  | MSP_MULTIPLE_MSP =>
    if sbufBytesRemaining src = 0 then
      some { ret := MSP_RESULT_ERROR, src := src, dst := dst,
             mspPostProcessFn := mspPostProcessFn, st := st }
    else
      let bytesRemaining := sbufBytesRemaining dst - 1
      let packetIn := localPacket (sbufInit src.mem src.end_ src.end_)
      let resetInputPtr := src.ptr
      match batchSizingLoop cfg processCommand fuel
          { src := src, dst := dst, packetIn := packetIn, packetOut := localPacket dst, st := st,
            bytesRemaining := bytesRemaining, maxMSPs := 0 } with
      | none => none
      | some b =>
        let src := { b.src with ptr := resetInputPtr }
        let packetOut := { b.packetOut with buf := sbufInit b.dst.mem b.dst.ptr b.dst.end_ }
        match batchEmitLoop cfg processCommand b.maxMSPs
            { b with src := src, packetOut := packetOut } with
        | none => none
        | some b =>
          some { ret := MSP_RESULT_ACK, src := b.src,
                 dst := { b.packetOut.buf with end_ := dst.end_ },
                 mspPostProcessFn := mspPostProcessFn, st := b.st }
  | _ =>
    some { ret := MSP_RESULT_CMD_UNKNOWN, src := src, dst := dst,
           mspPostProcessFn := mspPostProcessFn, st := st }

/-- The function `mspFc4waySerialCommand` (compiled with
`USE_SERIAL_4WAY_BLHELI_INTERFACE`): the reply cursor, the request cursor, the
registration slot and the controller state afterwards. `esc4wayInit()` returns
`st.esc4wayCount`, `getMotorCount()` returns `st.motorCount`. -/
def mspFc4waySerialCommand (cfg : BuildConfig) (st : FcState) (dst src : sbuf_t)
    (mspPostProcessFn : Option mspPostProcessFnPtr) :
    sbuf_t × sbuf_t × Option mspPostProcessFnPtr × FcState :=
  let dataSize := u32 (sbufBytesRemaining src)
  let r : sbuf_t × FcState :=
    if dataSize = 0 then (src, { st with escMode := ESC_4WAY })
    else ((sbufReadU8 (sbufReadU8 src).2).2,
      { st with escMode := (sbufReadU8 src).1, escPortIndex := (sbufReadU8 (sbufReadU8 src).2).1 })
  let src := r.1
  let st := r.2
  if st.escMode = ESC_4WAY then
    (sbufWriteU8 dst st.esc4wayCount, src,
      registerPostProcessFn mspPostProcessFn .esc4wayProcess, st)
  else if cfg.USE_ESCSERIAL ∧
      (st.escMode = cfg.PROTOCOL_SIMONK ∨ st.escMode = cfg.PROTOCOL_BLHELI ∨
        st.escMode = cfg.PROTOCOL_KISS ∨ st.escMode = cfg.PROTOCOL_KISSALL ∨
        st.escMode = cfg.PROTOCOL_CASTLE) ∧
      (st.escPortIndex < st.motorCount ∨
        (st.escMode = cfg.PROTOCOL_KISS ∧ st.escPortIndex = cfg.ALL_MOTORS)) then
    (sbufWriteU8 dst 1, src, registerPostProcessFn mspPostProcessFn .mspEscPassthroughFn, st)
  else
    (sbufWriteU8 dst 0, src, mspPostProcessFn, st)

/-! ## The state-mutating stages -/

/-- What a state-mutating stage leaves behind: its return value, the request
cursor and the controller state. `fault` is set when the handler dereferences a
null pointer (line 1792): the behaviour is undefined from there on, the handler
has no return value and `ret`, `src` and `st` mean nothing. -/
structure InResult where
  ret : mspResult_e
  src : sbuf_t
  st : FcState
  fault : Bool := false

/-- The next `n` bytes of `src`, read one `sbufReadU8` after the other. -/
def readBytes : Nat → sbuf_t → List Nat × sbuf_t
  | 0, src => ([], src)
  | n + 1, src =>
    let r := sbufReadU8 src
    let rest := readBytes n r.2
    (r.1 :: rest.1, rest.2)

/-- The pattern `if (sbufBytesRemaining(src) >= k) { read n bytes }` of the
versioned fields. -/
def readIf (k : Int) (n : Nat) (src : sbuf_t) : List Nat × sbuf_t :=
  if sbufBytesRemaining src ≥ k then readBytes n src else ([], src)

/-- A handler that decodes the payload into configuration setters and
acknowledges; its effect is `Services.setConfig`. -/
def configHandler (svc : Services) (st : FcState) (cmdMSP : MspCmd) (src : sbuf_t) : InResult :=
  let r := svc.setConfig cmdMSP src st
  { ret := MSP_RESULT_ACK, src := sbufAdvance src r.1, st := { st with sys := r.2 } }

/-- The controller state after the handler of `cmdMSP` has handed the decoded
values `vals` to the subsystems. -/
def storeValues (svc : Services) (cmdMSP : MspCmd) (vals : List Nat) (st : FcState) : FcState :=
  { st with sys := svc.store cmdMSP vals st.sys }

/-- The macro `RATEPROFILE_MASK`. -/
def RATEPROFILE_MASK : Nat := 128

/-- Modelled from the spec: `changePidProfile` (fc/config.c is not part of the
sources); the active PID profile becomes `pidProfileIndex`. -/
def changePidProfile (st : FcState) (pidProfileIndex : Nat) : FcState :=
  { st with pidProfileIndex := pidProfileIndex }

/-- Modelled from the spec: `changeControlRateProfile` (fc/controlrate_profile.c is
not part of the sources); the active rate profile becomes `controlRateProfileIndex`. -/
def changeControlRateProfile (st : FcState) (controlRateProfileIndex : Nat) : FcState :=
  { st with controlRateProfileIndex := controlRateProfileIndex }

/-- The loop `while (remainingPortsInPacket--)` of the `MSP_SET_CF_SERIAL_CONFIG`
handler; `serialFindPortConfiguration(identifier)` is non-`NULL` exactly when
`svc.accepts` holds of the identifier. -/
def serialConfigLoop (svc : Services) : Nat → sbuf_t → FcState → InResult
  | 0, src, st => { ret := MSP_RESULT_ACK, src := src, st := st }
  | remainingPortsInPacket + 1, src, st =>
    let r := sbufReadU8 src
    let identifier := r.1
    if svc.accepts MSP_SET_CF_SERIAL_CONFIG [identifier] st then
      let f := readBytes 6 r.2
      serialConfigLoop svc remainingPortsInPacket f.2
        (storeValues svc MSP_SET_CF_SERIAL_CONFIG (identifier :: f.1) st)
    else
      { ret := MSP_RESULT_ERROR, src := r.2, st := st }

/-- The `MSP_SELECT_SETTING` handler (lines 1697-1714). -/
def mspSelectSetting (cfg : BuildConfig) (st : FcState) (src : sbuf_t) : InResult :=
  let r := sbufReadU8 src
  let value := r.1
  if value &&& RATEPROFILE_MASK = 0 then
    if !st.armed then
      let value := if value ≥ cfg.PID_PROFILE_COUNT then 0 else value
      { ret := MSP_RESULT_ACK, src := r.2, st := changePidProfile st value }
    else
      { ret := MSP_RESULT_ACK, src := r.2, st := st }
  else
    let value := value &&& 127
    let value := if value ≥ cfg.CONTROL_RATE_PROFILE_COUNT then 0 else value
    { ret := MSP_RESULT_ACK, src := r.2, st := changeControlRateProfile st value }

/-- The `MSP_EEPROM_WRITE` handler (lines 2222-2233). `writeEEPROMWithFeatures`
is modelled from the spec: it folds the staged mask into the live store. -/
def mspEepromWrite (st : FcState) (src : sbuf_t) : InResult :=
  if st.armed then
    { ret := MSP_RESULT_ERROR, src := src, st := st }
  else
    let st :=
      if st.featureMaskIsCopied then
        { st with eeprom := st.eeprom ++ [EepromOp.writeEEPROMWithFeatures st.featureMaskCopy],
                  featureMask := st.featureMaskCopy }
      else
        { st with eeprom := st.eeprom ++ [EepromOp.writeEEPROM] }
    { ret := MSP_RESULT_ACK, src := src,
      st := { st with eeprom := st.eeprom ++ [EepromOp.readEEPROM] } }

/-- The `MSP_SET_BOARD_INFO` handler (lines 2581-2605, compiled with
`USE_BOARD_INFO`); `boardInformationIsSet()` is false exactly when `svc.accepts`
holds. The values stored are the two length bytes and the bytes copied. -/
def mspSetBoardInfo (cfg : BuildConfig) (svc : Services) (st : FcState) (src : sbuf_t) : InResult :=
  if svc.accepts MSP_SET_BOARD_INFO [] st then
    let r := sbufReadU8 src
    let length := r.1
    let name := readBytes (min length cfg.MAX_BOARD_NAME_LENGTH) r.2
    let src := if length > cfg.MAX_BOARD_NAME_LENGTH then
      sbufAdvance name.2 (length - cfg.MAX_BOARD_NAME_LENGTH) else name.2
    let r2 := sbufReadU8 src
    let length2 := r2.1
    let manufacturerId := readBytes (min length2 cfg.MAX_MANUFACTURER_ID_LENGTH) r2.2
    let src := if length2 > cfg.MAX_MANUFACTURER_ID_LENGTH then
      sbufAdvance manufacturerId.2 (length2 - cfg.MAX_MANUFACTURER_ID_LENGTH) else manufacturerId.2
    { ret := MSP_RESULT_ACK, src := src,
      st := storeValues svc MSP_SET_BOARD_INFO
        (length :: name.1 ++ length2 :: manufacturerId.1) st }
  else
    { ret := MSP_RESULT_ERROR, src := src, st := st }

/-- The case `MSP_SET_RC_TUNING` of `mspProcessInCommand` (lines 1824-1874);
`initRcProcessing()` is the store call of the command with no values. -/
def mspSetRcTuning (cfg : BuildConfig) (svc : Services) (st : FcState) (src : sbuf_t) : InResult :=
  if sbufBytesRemaining src ≥ 10 then
    let p := st.currentControlRateProfile
    let r := sbufReadU8 src
    let p := if p.rcRates FD_PITCH = p.rcRates FD_ROLL then
      { p with rcRates := arraySet p.rcRates FD_PITCH r.1 } else p
    let p := { p with rcRates := arraySet p.rcRates FD_ROLL r.1 }
    let r := sbufReadU8 r.2
    let p := if p.rcExpo FD_PITCH = p.rcExpo FD_ROLL then
      { p with rcExpo := arraySet p.rcExpo FD_PITCH r.1 } else p
    let p := { p with rcExpo := arraySet p.rcExpo FD_ROLL r.1 }
    let r := sbufReadU8 r.2
    let p := { p with rates := arraySet p.rates 0 r.1 }
    let r := sbufReadU8 r.2
    let p := { p with rates := arraySet p.rates 1 r.1 }
    let r := sbufReadU8 r.2
    let p := { p with rates := arraySet p.rates 2 r.1 }
    let r := sbufReadU8 r.2
    let p := { p with dynThrPID := min r.1 cfg.CONTROL_RATE_CONFIG_TPA_MAX }
    let r := sbufReadU8 r.2
    let p := { p with thrMid8 := r.1 }
    let r := sbufReadU8 r.2
    let p := { p with thrExpo8 := r.1 }
    let r := sbufReadU16 r.2
    let p := { p with tpa_breakpoint := r.1 }
    let q : controlRateConfig_t × sbuf_t :=
      if sbufBytesRemaining r.2 ≥ 1 then
        ({ p with rcExpo := arraySet p.rcExpo FD_YAW (sbufReadU8 r.2).1 }, (sbufReadU8 r.2).2)
      else (p, r.2)
    let q : controlRateConfig_t × sbuf_t :=
      if sbufBytesRemaining q.2 ≥ 1 then
        ({ q.1 with rcRates := arraySet q.1.rcRates FD_YAW (sbufReadU8 q.2).1 }, (sbufReadU8 q.2).2)
      else q
    let q : controlRateConfig_t × sbuf_t :=
      if sbufBytesRemaining q.2 ≥ 1 then
        ({ q.1 with rcRates := arraySet q.1.rcRates FD_PITCH (sbufReadU8 q.2).1 },
          (sbufReadU8 q.2).2)
      else q
    let q : controlRateConfig_t × sbuf_t :=
      if sbufBytesRemaining q.2 ≥ 1 then
        ({ q.1 with rcExpo := arraySet q.1.rcExpo FD_PITCH (sbufReadU8 q.2).1 }, (sbufReadU8 q.2).2)
      else q
    let q : controlRateConfig_t × sbuf_t :=
      if sbufBytesRemaining q.2 ≥ 2 then
        ({ q.1 with throttle_limit_type := (sbufReadU8 q.2).1,
                    throttle_limit_percent := (sbufReadU8 (sbufReadU8 q.2).2).1 },
          (sbufReadU8 (sbufReadU8 q.2).2).2)
      else q
    { ret := MSP_RESULT_ACK, src := q.2,
      st := storeValues svc MSP_SET_RC_TUNING [] { st with currentControlRateProfile := q.1 } }
  else
    { ret := MSP_RESULT_ERROR, src := src, st := st }

/-- The case `MSP_SET_SENSOR_ALIGNMENT` of `mspProcessInCommand` (lines
1980-2016). -/
def mspSetSensorAlignment (cfg : BuildConfig) (st : FcState) (src : sbuf_t) : InResult :=
  let r := sbufReadU8 src
  let gyroAlignment := r.1
  let r := sbufReadU8 r.2
  let r := sbufReadU8 r.2
  let st := { st with mag_align := r.1 }
  if sbufBytesRemaining r.2 ≥ 3 then
    if cfg.USE_MULTI_GYRO then
      let r0 := sbufReadU8 r.2
      let st := { st with gyro_to_use := r0.1 }
      let r1 := sbufReadU8 r0.2
      let st := { st with gyroDeviceAlign := arraySet st.gyroDeviceAlign 0 r1.1 }
      let r2 := sbufReadU8 r1.2
      let st := { st with gyroDeviceAlign := arraySet st.gyroDeviceAlign 1 r2.1 }
      { ret := MSP_RESULT_ACK, src := r2.2, st := st }
    else
      let r0 := sbufReadU8 r.2
      let r1 := sbufReadU8 r0.2
      let st := { st with gyroDeviceAlign := arraySet st.gyroDeviceAlign 0 r1.1 }
      let r2 := sbufReadU8 r1.2
      { ret := MSP_RESULT_ACK, src := r2.2, st := st }
  else
    if cfg.USE_MULTI_GYRO then
      if st.gyro_to_use = cfg.GYRO_CONFIG_USE_GYRO_2 then
        { ret := MSP_RESULT_ACK, src := r.2,
          st := { st with gyroDeviceAlign := arraySet st.gyroDeviceAlign 1 gyroAlignment } }
      else
        { ret := MSP_RESULT_ACK, src := r.2,
          st := { st with gyroDeviceAlign := arraySet st.gyroDeviceAlign 0 gyroAlignment } }
    else
      { ret := MSP_RESULT_ACK, src := r.2,
        st := { st with gyroDeviceAlign := arraySet st.gyroDeviceAlign 0 gyroAlignment } }

/-- The case `MSP_SET_LED_STRIP_CONFIG` of `mspProcessInCommand` (lines 2518-2536,
compiled with `USE_LED_STRIP`); the store into `ledConfigs[i]` and
`reevaluateLedConfig()` are the store call of the command. -/
def mspSetLedStripConfig (cfg : BuildConfig) (svc : Services) (st : FcState) (src : sbuf_t) :
    InResult :=
  let dataSize := u32 (sbufBytesRemaining src)
  let r := sbufReadU8 src
  let i := r.1
  if i ≥ cfg.LED_MAX_STRIP_LENGTH ∨ dataSize ≠ 1 + 4 then
    { ret := MSP_RESULT_ERROR, src := r.2, st := st }
  else
    let v := sbufReadU32 r.2
    let st :=
      if cfg.USE_LED_STRIP_STATUS_MODE then storeValues svc MSP_SET_LED_STRIP_CONFIG [i, v.1] st
      else st
    if sbufBytesRemaining v.2 ≥ 1 then
      let p := sbufReadU8 v.2
      { ret := MSP_RESULT_ACK, src := p.2, st := { st with ledstrip_profile := p.1 } }
    else
      { ret := MSP_RESULT_ACK, src := v.2, st := st }

/-- The case `MSP_SET_NAME` of `mspProcessInCommand` (lines 2553-2558): the
`memset` over the `MAX_NAME_LENGTH + 1` bytes of the array, then the copy of
`MIN(MAX_NAME_LENGTH, dataSize)` bytes. -/
def mspSetName (cfg : BuildConfig) (st : FcState) (src : sbuf_t) : InResult :=
  let dataSize := u32 (sbufBytesRemaining src)
  let name : Nat → Nat := fun i => if i < cfg.MAX_NAME_LENGTH + 1 then 0 else st.name i
  let f := readBytes (min cfg.MAX_NAME_LENGTH dataSize) src
  { ret := MSP_RESULT_ACK, src := f.2, st := { st with name := memWrite name 0 f.1 } }

/-- The local array `char buf[capacity + 1]` of the `MSP_SET_BOARD_INFO` handler
after `sbufReadData(src, buf, MIN(length, capacity))` and `buf[length] = '\0'`
(lines 2584-2588 for `boardName`, lines 2590-2595 for `manufacturerId`). `stack` is
the memory from `&buf[0]` on as the handler finds it: the array is its indices
`0..capacity`, an index above `capacity` is memory behind the array. -/
def readNameBuffer (capacity length : Nat) (src : sbuf_t) (stack : Nat → Nat) : Nat → Nat :=
  arraySet (memWrite stack 0 (readBytes (min length capacity) src).1) length 0

/-- The local arrays `boardName` and `manufacturerId` of the `MSP_SET_BOARD_INFO`
handler when it reaches `setBoardName(boardName)` (lines 2582-2595), by the same
reads as `mspSetBoardInfo`. -/
def mspSetBoardInfoLocals (cfg : BuildConfig) (src : sbuf_t) (stackName stackId : Nat → Nat) :
    (Nat → Nat) × (Nat → Nat) :=
  let r := sbufReadU8 src
  let length := r.1
  let boardName := readNameBuffer cfg.MAX_BOARD_NAME_LENGTH length r.2 stackName
  let name := readBytes (min length cfg.MAX_BOARD_NAME_LENGTH) r.2
  let src := if length > cfg.MAX_BOARD_NAME_LENGTH then
    sbufAdvance name.2 (length - cfg.MAX_BOARD_NAME_LENGTH) else name.2
  let r2 := sbufReadU8 src
  let length2 := r2.1
  let manufacturerId := readNameBuffer cfg.MAX_MANUFACTURER_ID_LENGTH length2 r2.2 stackId
  (boardName, manufacturerId)

/-- The branch `(int8_t)addr == -1` of the `MSP_SET_OSD_CONFIG` handler (lines
2739-2783), the general OSD settings; `src` stands behind the address byte. The
fields of `osdConfig` that the handler assigns are assigned in `st.osdConfig`;
`changeOsdProfileIndex` of osd.c is the store call of the command. -/
def mspSetOsdConfigGeneral (cfg : BuildConfig) (svc : Services) (st : FcState) (addr : Nat)
    (src : sbuf_t) : InResult :=
  let vs := sbufReadU8 src
  let st := if cfg.USE_MAX7456 then { st with video_system := vs.1 } else st
  let un := sbufReadU8 vs.2
  let ra := sbufReadU8 un.2
  let ca := sbufReadU16 ra.2
  let sk := sbufReadU16 ca.2
  let aa := sbufReadU16 sk.2
  let o : osdConfig_t :=
    { st.osdConfig with units := un.1, rssi_alarm := ra.1, cap_alarm := ca.1, alt_alarm := aa.1 }
  let q : osdConfig_t × sbuf_t :=
    if sbufBytesRemaining aa.2 ≥ 2 then
      ({ o with enabledWarnings := (sbufReadU16 aa.2).1 }, (sbufReadU16 aa.2).2)
    else (o, aa.2)
  let q : osdConfig_t × sbuf_t :=
    if sbufBytesRemaining q.2 ≥ 4 then
      ({ q.1 with enabledWarnings := (sbufReadU32 q.2).1 }, (sbufReadU32 q.2).2)
    else q
  let st := { st with osdConfig := q.1 }
  let p : FcState × sbuf_t :=
    if sbufBytesRemaining q.2 ≥ 1 then
      (if cfg.USE_OSD_PROFILES then
          storeValues svc MSP_SET_OSD_CONFIG [addr, (sbufReadU8 q.2).1] st
        else st, (sbufReadU8 q.2).2)
    else (st, q.2)
  let p : FcState × sbuf_t :=
    if sbufBytesRemaining p.2 ≥ 1 then
      (if cfg.USE_OSD_STICK_OVERLAY then
          { p.1 with osdConfig :=
            { p.1.osdConfig with overlay_radio_mode := (sbufReadU8 p.2).1 } }
        else p.1, (sbufReadU8 p.2).2)
    else p
  { ret := MSP_RESULT_ACK, src := p.2, st := p.1 }

/-- The branch `(int8_t)addr == -2` of the `MSP_SET_OSD_CONFIG` handler (lines
2784-2793), the timers; `src` stands behind the address byte. In `timers` the
array is the indices below `OSD_TIMER_COUNT`; a larger index is memory behind the
array. -/
def mspSetOsdConfigTimer (cfg : BuildConfig) (st : FcState) (src : sbuf_t) : InResult :=
  let r2 := sbufReadU8 src
  let index := r2.1
  if index > cfg.OSD_TIMER_COUNT then
    { ret := MSP_RESULT_ERROR, src := r2.2, st := st }
  else
    let v := sbufReadU16 r2.2
    { ret := MSP_RESULT_ERROR, src := v.2,
      st := { st with osdConfig :=
        { st.osdConfig with timers := arraySet st.osdConfig.timers index v.1 } } }

/-- The last branch of the `MSP_SET_OSD_CONFIG` handler (lines 2794-2813), an
element position or a statistic; `src` stands behind the address byte.
`osdStatSetState` and `osdAnalyzeActiveElements` of osd.c are store calls of the
command. -/
def mspSetOsdConfigItem (cfg : BuildConfig) (svc : Services) (st : FcState) (addr : Nat)
    (src : sbuf_t) : InResult :=
  let v := sbufReadU16 src
  let value := v.1
  let s := if sbufBytesRemaining v.2 ≥ 1 then sbufReadU8 v.2 else (1, v.2)
  let screen := s.1
  if screen = 0 ∧ addr < cfg.OSD_STAT_COUNT then
    { ret := MSP_RESULT_ACK, src := s.2,
      st := storeValues svc MSP_SET_OSD_CONFIG [addr, if value ≠ 0 then 1 else 0, screen] st }
  else if addr < cfg.OSD_ITEM_COUNT then
    { ret := MSP_RESULT_ACK, src := s.2,
      st := storeValues svc MSP_SET_OSD_CONFIG [addr, value, screen]
        { st with osdConfig :=
          { st.osdConfig with item_pos := arraySet st.osdConfig.item_pos addr value } } }
  else
    { ret := MSP_RESULT_ERROR, src := s.2, st := st }

/-- The case `MSP_SET_OSD_CONFIG` of `mspCommonProcessInCommand` (lines 2734-2815,
compiled with `USE_OSD`). `(int8_t)addr == -1` is `addr = 255`, `(int8_t)addr ==
-2` is `addr = 254`. -/
def mspSetOsdConfig (cfg : BuildConfig) (svc : Services) (st : FcState) (src : sbuf_t) :
    InResult :=
  let r := sbufReadU8 src
  let addr := r.1
  if addr = 255 then mspSetOsdConfigGeneral cfg svc st addr r.2
  else if addr = 254 then mspSetOsdConfigTimer cfg st r.2
  else mspSetOsdConfigItem cfg svc st addr r.2

/-- The case `MSP_SET_BATTERY_CONFIG` of `mspCommonProcessInCommand` (lines
2720-2732). -/
def mspSetBatteryConfig (st : FcState) (src : sbuf_t) : InResult :=
  let b := st.batteryConfig
  let r := sbufReadU8 src
  let b := { b with vbatmincellvoltage := r.1 * 10 }
  let r := sbufReadU8 r.2
  let b := { b with vbatmaxcellvoltage := r.1 * 10 }
  let r := sbufReadU8 r.2
  let b := { b with vbatwarningcellvoltage := r.1 * 10 }
  let r := sbufReadU16 r.2
  let b := { b with batteryCapacity := r.1 }
  let r := sbufReadU8 r.2
  let b := { b with voltageMeterSource := r.1 }
  let r := sbufReadU8 r.2
  let b := { b with currentMeterSource := r.1 }
  if sbufBytesRemaining r.2 ≥ 6 then
    let r0 := sbufReadU16 r.2
    let r1 := sbufReadU16 r0.2
    let r2 := sbufReadU16 r1.2
    { ret := MSP_RESULT_ACK, src := r2.2,
      st := { st with batteryConfig :=
        { b with vbatmincellvoltage := r0.1, vbatmaxcellvoltage := r1.1,
                 vbatwarningcellvoltage := r2.1 } } }
  else
    { ret := MSP_RESULT_ACK, src := r.2, st := { st with batteryConfig := b } }

/-- The labelled cases of the `switch` of `mspProcessInCommand`; `none` when no
label compiled into the build matches `cmdMSP`, i.e. when control reaches
`default`. In the case `MSP_SET_MODE_RANGE` (lines 1777-1801)
`findBoxByPermanentId(i)` is not `NULL` exactly when `svc.accepts` holds of the
identifier: the first lookup is tested (line 1783), the second, for the linked
box, is dereferenced as it comes (line 1792), which is the `fault`. -/
def mspProcessInCommandCase (cfg : BuildConfig) (svc : Services) (st : FcState)
    (cmdMSP : MspCmd) (src : sbuf_t) : Option InResult :=
  let dataSize := u32 (sbufBytesRemaining src)
  let ack (src : sbuf_t) (st : FcState) : InResult := { ret := MSP_RESULT_ACK, src := src, st := st }
  let error (src : sbuf_t) (st : FcState) : InResult :=
    { ret := MSP_RESULT_ERROR, src := src, st := st }
  match cmdMSP with
  | MSP_SELECT_SETTING => some (mspSelectSetting cfg st src)
  | MSP_COPY_PROFILE =>
    let f := readBytes 3 src
    let value := f.1.getD 0 0
    some (ack f.2 (if value = 0 ∨ value = 1 then storeValues svc cmdMSP f.1 st else st))
  | MSP_SET_HEADING =>
    if cfg.USE_GPS || cfg.USE_MAG then some (configHandler svc st cmdMSP src) else none
  | MSP_SET_RAW_RC =>
    if cfg.USE_RX_MSP then
      let channelCount := u8 (dataSize / 2)
      if channelCount > cfg.MAX_SUPPORTED_RC_CHANNEL_COUNT then some (error src st)
      else
        let f := readBytes (2 * channelCount) src
        some (ack f.2 (storeValues svc cmdMSP f.1 st))
    else some (ack src st)
  | MSP_SET_ACC_TRIM => if cfg.USE_ACC then some (configHandler svc st cmdMSP src) else none
  | MSP_SET_PID_CONTROLLER => some (ack src st)
  | MSP_SET_MODE_RANGE =>
    let r := sbufReadU8 src
    if r.1 < cfg.MAX_MODE_ACTIVATION_CONDITION_COUNT then
      let r2 := sbufReadU8 r.2
      if svc.accepts cmdMSP [r2.1] st then
        let f := readBytes 3 r2.2
        if sbufBytesRemaining f.2 ≠ 0 then
          let g := readBytes 2 f.2
          if svc.accepts cmdMSP [g.1.getD 1 0] st then
            some (ack g.2 (storeValues svc cmdMSP (r.1 :: r2.1 :: f.1 ++ g.1) st))
          else some { ret := MSP_RESULT_ACK, src := g.2, st := st, fault := true }
        else some (ack f.2 (storeValues svc cmdMSP (r.1 :: r2.1 :: f.1) st))
      else some (error r2.2 st)
    else some (error r.2 st)
  | MSP_SET_ADJUSTMENT_RANGE =>
    let r := sbufReadU8 src
    if r.1 < cfg.MAX_ADJUSTMENT_RANGE_COUNT then
      let r2 := sbufReadU8 r.2
      if r2.1 < cfg.MAX_SIMULTANEOUS_ADJUSTMENT_COUNT then
        let f := readBytes 5 r2.2
        some (ack f.2 (storeValues svc cmdMSP (r.1 :: r2.1 :: f.1) st))
      else some (error r2.2 st)
    else some (error r.2 st)
  | MSP_SET_RC_TUNING => some (mspSetRcTuning cfg svc st src)
  | MSP_SET_SENSOR_ALIGNMENT => some (mspSetSensorAlignment cfg st src)
  | MSP_SET_GPS_CONFIG | MSP_SET_RAW_GPS =>
    if cfg.USE_GPS then some (configHandler svc st cmdMSP src) else none
  | MSP_SET_GPS_RESCUE | MSP_SET_GPS_RESCUE_PIDS =>
    if cfg.USE_GPS && cfg.USE_GPS_RESCUE then some (configHandler svc st cmdMSP src) else none
  | MSP_SET_COMPASS_CONFIG => if cfg.USE_MAG then some (configHandler svc st cmdMSP src) else none
  | MSP_SET_SERVO_CONFIGURATION =>
    if cfg.USE_SERVOS then
      if dataSize ≠ 1 + 12 then some (error src st)
      else
        let r := sbufReadU8 src
        if r.1 ≥ cfg.MAX_SUPPORTED_SERVOS then some (error r.2 st)
        else
          let f := readBytes 12 r.2
          some (ack f.2 (storeValues svc cmdMSP (r.1 :: f.1) st))
    else some (ack src st)
  | MSP_SET_SERVO_MIX_RULE =>
    if cfg.USE_SERVOS then
      let r := sbufReadU8 src
      if r.1 ≥ cfg.MAX_SERVO_RULES then some (error r.2 st)
      else
        let f := readBytes 7 r.2
        some (ack f.2 (storeValues svc cmdMSP (r.1 :: f.1) st))
    else some (ack src st)
  | MSP_SET_ARMING_CONFIG | MSP_SET_PID | MSP_SET_MOTOR_CONFIG | MSP_SET_MOTOR
  | MSP_SET_MOTOR_3D_CONFIG | MSP_SET_RC_DEADBAND | MSP_SET_RESET_CURR_PID
  | MSP_SET_ADVANCED_CONFIG | MSP_SET_FILTER_CONFIG
  | MSP_SET_PID_ADVANCED | MSP_SET_SENSOR_CONFIG | MSP_SET_BOARD_ALIGNMENT_CONFIG
  | MSP_SET_MIXER_CONFIG | MSP_SET_RX_CONFIG | MSP_SET_FAILSAFE_CONFIG | MSP_SET_RSSI_CONFIG
  | MSP_SET_RX_MAP | MSP_SET_TX_INFO =>
    some (configHandler svc st cmdMSP src)
  | MSP_SET_NAME => some (mspSetName cfg st src)
  | MSP_RESET_CONF =>
    if !st.armed then
      some (ack src (storeValues svc cmdMSP []
        { st with eeprom := st.eeprom ++ [EepromOp.resetEEPROM, EepromOp.readEEPROM] }))
    else some (ack src st)
  | MSP_ACC_CALIBRATION =>
    if cfg.USE_ACC then
      some (ack src (if !st.armed then storeValues svc cmdMSP [] st else st))
    else none
  | MSP_MAG_CALIBRATION => some (ack src (if !st.armed then storeValues svc cmdMSP [] st else st))
  | MSP_EEPROM_WRITE => some (mspEepromWrite st src)
  | MSP_SET_BLACKBOX_CONFIG =>
    if cfg.USE_BLACKBOX then some (configHandler svc st cmdMSP src) else none
  | MSP_SET_VTX_CONFIG =>
    if cfg.USE_VTX_COMMON then some (configHandler svc st cmdMSP src) else none
  | MSP_CAMERA_CONTROL =>
    if cfg.USE_CAMERA_CONTROL then
      if st.armed then some (error src st)
      else
        let r := sbufReadU8 src
        some (ack r.2 (storeValues svc cmdMSP [r.1] st))
    else none
  | MSP_SET_ARMING_DISABLED => some (ack src st)
  | MSP_DATAFLASH_ERASE =>
    if cfg.USE_FLASHFS then
      some (ack src { st with flash := svc.flashfsEraseCompletely st.flash })
    else none
  | MSP_SET_FEATURE_CONFIG =>
    let r := sbufReadU32 src
    some (ack r.2 { st with featureMaskCopy := r.1, featureMaskIsCopied := true })
  | MSP_SET_BEEPER_CONFIG =>
    if cfg.USE_BEEPER then some (configHandler svc st cmdMSP src) else none
  | MSP_SET_RXFAIL_CONFIG =>
    let r := sbufReadU8 src
    if r.1 < cfg.MAX_SUPPORTED_RC_CHANNEL_COUNT then
      let f := readBytes 3 r.2
      some (ack f.2 (storeValues svc cmdMSP (r.1 :: f.1) st))
    else some (error r.2 st)
  | MSP_SET_CF_SERIAL_CONFIG =>
    let portConfigSize := 1 + 2 + 1 * 4
    if dataSize % portConfigSize ≠ 0 then some (error src st)
    else some (serialConfigLoop svc (u8 (dataSize / portConfigSize)) src st)
  | MSP_SET_LED_COLORS =>
    if cfg.USE_LED_STRIP_STATUS_MODE then some (configHandler svc st cmdMSP src) else none
  | MSP_SET_LED_STRIP_CONFIG =>
    if cfg.USE_LED_STRIP then some (mspSetLedStripConfig cfg svc st src) else none
  | MSP_SET_LED_STRIP_MODECOLOR =>
    if cfg.USE_LED_STRIP_STATUS_MODE then
      let f := readBytes 3 src
      if svc.accepts cmdMSP f.1 st then some (ack f.2 (storeValues svc cmdMSP f.1 st))
      else some (error f.2 st)
    else none
  | MSP_SET_RTC => if cfg.USE_RTC_TIME then some (configHandler svc st cmdMSP src) else none
  | MSP_SET_BOARD_INFO => if cfg.USE_BOARD_INFO then some (mspSetBoardInfo cfg svc st src) else none
  | MSP_SET_SIGNATURE =>
    if cfg.USE_BOARD_INFO && cfg.USE_SIGNATURE then
      if svc.accepts cmdMSP [] st then
        let f := readBytes cfg.SIGNATURE_LENGTH src
        some (ack f.2 (storeValues svc cmdMSP f.1 st))
      else some (error src st)
    else none
  | _ => none

/-- The function `mspProcessInCommand`: a labelled case, or `default`, which
returns `MSP_RESULT_ERROR`. -/
def mspProcessInCommand (cfg : BuildConfig) (svc : Services) (st : FcState)
    (cmdMSP : MspCmd) (src : sbuf_t) : InResult :=
  match mspProcessInCommandCase cfg svc st cmdMSP src with
  | some r => r
  | none => { ret := MSP_RESULT_ERROR, src := src, st := st }

/-- The labelled cases of the `switch` of `mspCommonProcessInCommand`; `none`
when control reaches `default`. -/
def mspCommonProcessInCommandCase (cfg : BuildConfig) (svc : Services) (st : FcState)
    (cmdMSP : MspCmd) (src : sbuf_t) : Option InResult :=
  let dataSize := u32 (sbufBytesRemaining src)
  let ack (src : sbuf_t) (st : FcState) : InResult := { ret := MSP_RESULT_ACK, src := src, st := st }
  let error (src : sbuf_t) (st : FcState) : InResult :=
    { ret := MSP_RESULT_ERROR, src := src, st := st }
  match cmdMSP with
  | MSP_SET_TRANSPONDER_CONFIG =>
    if cfg.USE_TRANSPONDER then
      let r := sbufReadU8 src
      let provider := r.1
      let bytesRemaining := u8 ((dataSize : Int) - 1)
      if provider > cfg.TRANSPONDER_PROVIDER_COUNT then some (error r.2 st)
      else
        let requirementIndex := u8 ((provider : Int) - 1)
        let transponderDataSize := cfg.transponderDataLength requirementIndex % 256
        let st := storeValues svc cmdMSP [provider] st
        if provider = cfg.TRANSPONDER_NONE then some (ack r.2 st)
        else if bytesRemaining ≠ transponderDataSize then some (error r.2 st)
        else
          let f := readBytes transponderDataSize r.2
          some (ack f.2 (storeValues svc cmdMSP (provider :: f.1) st))
    else none
  | MSP_SET_VOLTAGE_METER_CONFIG | MSP_SET_CURRENT_METER_CONFIG =>
    some (configHandler svc st cmdMSP src)
  | MSP_SET_BATTERY_CONFIG => some (mspSetBatteryConfig st src)
  | MSP_SET_OSD_CONFIG => if cfg.USE_OSD then some (mspSetOsdConfig cfg svc st src) else none
  | MSP_OSD_CHAR_WRITE =>
    if cfg.USE_OSD then
      if cfg.USE_MAX7456 then
        let f := readBytes 55 src
        some (ack f.2 (storeValues svc cmdMSP f.1 st))
      else some (error src st)
    else none
  | _ => none

/-- The function `mspCommonProcessInCommand`: a labelled case, or `default`,
which returns `mspProcessInCommand(cmdMSP, src)`. The registration slot is
`UNUSED`. -/
def mspCommonProcessInCommand (cfg : BuildConfig) (svc : Services) (st : FcState)
    (cmdMSP : MspCmd) (src : sbuf_t) : InResult :=
  match mspCommonProcessInCommandCase cfg svc st cmdMSP src with
  | some r => r
  | none => mspProcessInCommand cfg svc st cmdMSP src

/-! ## The top-level dispatch entry point -/

/-- The comparison `cmdMSP == MSP_SET_4WAY_IF`. -/
def isSet4wayIf : MspCmd → Bool
  | MSP_SET_4WAY_IF => true
  | _ => false

/-- The comparison `cmdMSP == MSP_DATAFLASH_READ`. -/
def isDataflashRead : MspCmd → Bool
  | MSP_DATAFLASH_READ => true
  | _ => false

/-- The commands whose handler can fault: `MSP_SET_MODE_RANGE` alone. -/
def isSetModeRange : MspCmd → Bool
  | MSP_SET_MODE_RANGE => true
  | _ => false

/-- The function `mspFcProcessCommand`. The first argument is the fuel: it bounds
the depth of the re-entry made by the batch handler and the number of
iterations of each unbounded loop; `none` when it does not suffice, and for
every fuel when the state-mutating stage faults, so that there is no return
value. -/
def mspFcProcessCommand (cfg : BuildConfig) (svc : Services) : Nat → ProcessCommand
  | 0 => fun _ _ _ _ => none
  | fuel + 1 => fun cmd reply mspPostProcessFn st =>
    let dst := reply.buf
    let src := cmd.buf
    let cmdMSP := cmd.cmd
    let reply := { reply with cmd := cmd.cmd }
    let finish (ret : mspResult_e) (src dst : sbuf_t) (fn : Option mspPostProcessFnPtr)
        (st : FcState) : ProcessResult :=
      { ret := ret, cmd := { cmd with buf := src },
        reply := { reply with buf := dst, result := ret }, mspPostProcessFn := fn, st := st }
    let c := mspCommonProcessOutCommand cfg svc st cmdMSP dst
    if c.1 then some (finish MSP_RESULT_ACK src c.2 mspPostProcessFn st)
    else
      let o := mspProcessOutCommand cfg svc st cmdMSP c.2
      if o.1 then some (finish MSP_RESULT_ACK src o.2 mspPostProcessFn st)
      else
        match mspFcProcessOutCommandWithArg cfg svc (mspFcProcessCommand cfg svc fuel) fuel st
            cmdMSP src o.2 mspPostProcessFn with
        | none => none
        | some w =>
          if w.ret ≠ MSP_RESULT_CMD_UNKNOWN then
            some (finish w.ret w.src w.dst w.mspPostProcessFn w.st)
          else if cfg.USE_SERIAL_4WAY_BLHELI_INTERFACE && isSet4wayIf cmdMSP then
            let r := mspFc4waySerialCommand cfg w.st w.dst w.src w.mspPostProcessFn
            some (finish MSP_RESULT_ACK r.2.1 r.1 r.2.2.1 r.2.2.2)
          else if cfg.USE_FLASHFS && isDataflashRead cmdMSP then
            match mspFcDataFlashReadCommand cfg svc w.st fuel w.dst w.src with
            | none => none
            | some r => some (finish MSP_RESULT_ACK r.2 r.1 w.mspPostProcessFn w.st)
          else
            let r := mspCommonProcessInCommand cfg svc w.st cmdMSP w.src
            if r.fault then none
            else some (finish r.ret r.src w.dst w.mspPostProcessFn r.st)

/-! ## A concrete target, used to evaluate the embedding -/

/-- Modelled from the spec: the code bytes `msp/msp_protocol.h` assigns to the
commands named in `msp.c` (the header is not part of the sources). -/
def protocolCodes : List (Nat × MspCmd) :=
  [(1, MSP_API_VERSION), (2, MSP_FC_VARIANT), (3, MSP_FC_VERSION), (4, MSP_BOARD_INFO),
   (5, MSP_BUILD_INFO), (10, MSP_NAME), (11, MSP_SET_NAME), (32, MSP_BATTERY_CONFIG),
   (33, MSP_SET_BATTERY_CONFIG), (34, MSP_MODE_RANGES), (35, MSP_SET_MODE_RANGE),
   (36, MSP_FEATURE_CONFIG), (37, MSP_SET_FEATURE_CONFIG), (38, MSP_BOARD_ALIGNMENT_CONFIG),
   (39, MSP_SET_BOARD_ALIGNMENT_CONFIG), (40, MSP_CURRENT_METER_CONFIG),
   (41, MSP_SET_CURRENT_METER_CONFIG), (42, MSP_MIXER_CONFIG), (43, MSP_SET_MIXER_CONFIG),
   (44, MSP_RX_CONFIG), (45, MSP_SET_RX_CONFIG), (46, MSP_LED_COLORS), (47, MSP_SET_LED_COLORS),
   (48, MSP_LED_STRIP_CONFIG), (49, MSP_SET_LED_STRIP_CONFIG), (50, MSP_RSSI_CONFIG),
   (51, MSP_SET_RSSI_CONFIG), (52, MSP_ADJUSTMENT_RANGES), (53, MSP_SET_ADJUSTMENT_RANGE),
   (54, MSP_CF_SERIAL_CONFIG), (55, MSP_SET_CF_SERIAL_CONFIG), (56, MSP_VOLTAGE_METER_CONFIG),
   (57, MSP_SET_VOLTAGE_METER_CONFIG), (58, MSP_SONAR_ALTITUDE), (59, MSP_PID_CONTROLLER),
   (60, MSP_SET_PID_CONTROLLER), (61, MSP_ARMING_CONFIG), (62, MSP_SET_ARMING_CONFIG),
   (64, MSP_RX_MAP), (65, MSP_SET_RX_MAP), (68, MSP_REBOOT), (70, MSP_DATAFLASH_SUMMARY),
   (71, MSP_DATAFLASH_READ), (72, MSP_DATAFLASH_ERASE), (75, MSP_FAILSAFE_CONFIG),
   (76, MSP_SET_FAILSAFE_CONFIG), (77, MSP_RXFAIL_CONFIG), (78, MSP_SET_RXFAIL_CONFIG),
   (79, MSP_SDCARD_SUMMARY), (80, MSP_BLACKBOX_CONFIG), (81, MSP_SET_BLACKBOX_CONFIG),
   (82, MSP_TRANSPONDER_CONFIG), (83, MSP_SET_TRANSPONDER_CONFIG), (84, MSP_OSD_CONFIG),
   (85, MSP_SET_OSD_CONFIG), (87, MSP_OSD_CHAR_WRITE), (88, MSP_VTX_CONFIG),
   (89, MSP_SET_VTX_CONFIG), (90, MSP_ADVANCED_CONFIG), (91, MSP_SET_ADVANCED_CONFIG),
   (92, MSP_FILTER_CONFIG), (93, MSP_SET_FILTER_CONFIG), (94, MSP_PID_ADVANCED),
   (95, MSP_SET_PID_ADVANCED), (96, MSP_SENSOR_CONFIG), (97, MSP_SET_SENSOR_CONFIG),
   (98, MSP_CAMERA_CONTROL), (99, MSP_SET_ARMING_DISABLED), (101, MSP_STATUS),
   (102, MSP_RAW_IMU), (103, MSP_SERVO), (104, MSP_MOTOR), (105, MSP_RC), (106, MSP_RAW_GPS),
   (107, MSP_COMP_GPS), (108, MSP_ATTITUDE), (109, MSP_ALTITUDE), (110, MSP_ANALOG),
   (111, MSP_RC_TUNING), (112, MSP_PID), (116, MSP_BOXNAMES), (117, MSP_PIDNAMES),
   (119, MSP_BOXIDS), (120, MSP_SERVO_CONFIGURATIONS), (124, MSP_MOTOR_3D_CONFIG),
   (125, MSP_RC_DEADBAND), (126, MSP_SENSOR_ALIGNMENT), (127, MSP_LED_STRIP_MODECOLOR),
   (128, MSP_VOLTAGE_METERS), (129, MSP_CURRENT_METERS), (130, MSP_BATTERY_STATE),
   (131, MSP_MOTOR_CONFIG), (132, MSP_GPS_CONFIG), (133, MSP_COMPASS_CONFIG),
   (134, MSP_ESC_SENSOR_DATA), (135, MSP_GPS_RESCUE), (136, MSP_GPS_RESCUE_PIDS),
   (150, MSP_STATUS_EX), (160, MSP_UID), (164, MSP_GPSSVINFO), (183, MSP_COPY_PROFILE),
   (184, MSP_BEEPER_CONFIG), (185, MSP_SET_BEEPER_CONFIG), (186, MSP_SET_TX_INFO),
   (187, MSP_TX_INFO), (200, MSP_SET_RAW_RC), (201, MSP_SET_RAW_GPS), (202, MSP_SET_PID),
   (204, MSP_SET_RC_TUNING), (205, MSP_ACC_CALIBRATION), (206, MSP_MAG_CALIBRATION),
   (208, MSP_RESET_CONF), (210, MSP_SELECT_SETTING), (211, MSP_SET_HEADING),
   (212, MSP_SET_SERVO_CONFIGURATION), (214, MSP_SET_MOTOR), (217, MSP_SET_MOTOR_3D_CONFIG),
   (218, MSP_SET_RC_DEADBAND), (219, MSP_SET_RESET_CURR_PID), (220, MSP_SET_SENSOR_ALIGNMENT),
   (221, MSP_SET_LED_STRIP_MODECOLOR), (222, MSP_SET_MOTOR_CONFIG), (223, MSP_SET_GPS_CONFIG),
   (224, MSP_SET_COMPASS_CONFIG), (225, MSP_SET_GPS_RESCUE), (226, MSP_SET_GPS_RESCUE_PIDS),
   (230, MSP_MULTIPLE_MSP), (238, MSP_MODE_RANGES_EXTRA), (239, MSP_SET_ACC_TRIM),
   (240, MSP_ACC_TRIM), (241, MSP_SERVO_MIX_RULES), (242, MSP_SET_SERVO_MIX_RULE),
   (245, MSP_SET_4WAY_IF), (246, MSP_SET_RTC), (247, MSP_RTC), (248, MSP_SET_BOARD_INFO),
   (249, MSP_SET_SIGNATURE), (250, MSP_EEPROM_WRITE), (254, MSP_DEBUG)]

/-- The command of a code byte: its entry in `protocolCodes`; a code without a
command named in `msp.c` is `other`. -/
def protocolCmdOfCode (code : Nat) : MspCmd :=
  match protocolCodes.lookup code with
  | some c => c
  | none => MspCmd.other code

/-- A build with every optional feature compiled in, the trailer reserve at
its asserted minimum of 16, and the code bytes of `msp_protocol.h`. -/
def fullBuild : BuildConfig :=
  { USE_BEEPER := true, USE_SERVOS := true, USE_MAG := true, USE_ESC_SENSOR := true,
    USE_GPS := true, USE_GPS_RESCUE := true, USE_ACC := true, USE_LED_STRIP := true,
    USE_LED_STRIP_STATUS_MODE := true, USE_VTX_COMMON := true, USE_RTC_TIME := true,
    USE_USB_MSC := true, USE_SERIAL_4WAY_BLHELI_INTERFACE := true, USE_ESCSERIAL := true,
    USE_FLASHFS := true, USE_HUFFMAN := true, USE_RX_MSP := true, USE_BLACKBOX := true,
    USE_CAMERA_CONTROL := true, USE_BOARD_INFO := true, USE_SIGNATURE := true,
    USE_TRANSPONDER := true, USE_OSD := true, USE_MAX7456 := true,
    MSP_PORT_DATAFLASH_INFO_SIZE := 16, HUFFMAN_INFO_SIZE := 2, PID_PROFILE_COUNT := 3,
    CONTROL_RATE_PROFILE_COUNT := 6, MAX_SUPPORTED_RC_CHANNEL_COUNT := 18,
    MAX_MODE_ACTIVATION_CONDITION_COUNT := 20, MAX_ADJUSTMENT_RANGE_COUNT := 15,
    MAX_SIMULTANEOUS_ADJUSTMENT_COUNT := 4, MAX_SUPPORTED_SERVOS := 8, MAX_SERVO_RULES := 16,
    LED_MAX_STRIP_LENGTH := 32, OSD_TIMER_COUNT := 2, OSD_STAT_COUNT := 24, OSD_ITEM_COUNT := 50,
    TRANSPONDER_PROVIDER_COUNT := 3, TRANSPONDER_NONE := 0, MAX_BOARD_NAME_LENGTH := 20,
    MAX_MANUFACTURER_ID_LENGTH := 4, SIGNATURE_LENGTH := 32, MAX_NAME_LENGTH := 16,
    transponderDataLength := fun _ => 6,
    PROTOCOL_SIMONK := 0, PROTOCOL_BLHELI := 1, PROTOCOL_KISS := 2, PROTOCOL_KISSALL := 3,
    PROTOCOL_CASTLE := 4, ALL_MOTORS := 255,
    cmdOfCode := protocolCmdOfCode,
    USE_MULTI_GYRO := true, USE_OSD_PROFILES := true, USE_OSD_STICK_OVERLAY := true,
    CONTROL_RATE_CONFIG_TPA_MAX := 100, OSD_WARNING_COUNT := 16, OSD_PROFILE_COUNT := 3,
    GYRO_CONFIG_USE_GYRO_1 := 0, GYRO_CONFIG_USE_GYRO_2 := 1, ALIGN_DEFAULT := 0 }

/-- The build `fullBuild` without USB mass storage. -/
def buildWithoutMsc : BuildConfig := { fullBuild with USE_USB_MSC := false }

/-- Collaborators that serialise nothing, accept everything and leave the
subsystems alone; the coder copies its input to the output when it fits into
the output region and reports overflow otherwise. -/
def idleServices : Services :=
  { outReply := fun _ _ => [],
    serializeBoxReply := fun _ _ _ => [],
    accepts := fun _ _ _ => true,
    setConfig := fun _ _ st => (0, st.sys),
    store := fun _ _ sys => sys,
    flashfsEraseCompletely := fun flash => flash.map (fun _ => 255),
    huffmanEncodeBufStreaming := fun state mem input =>
      if state.bytesWritten + input.length > state.outBufLen then (-1, state, mem)
      else
        (0, { state with bytesWritten := state.bytesWritten + input.length,
                         outByte := state.outByte + input.length },
          memWrite mem state.outByte input) }

/-- A disarmed controller with the dataflash content `flash`. -/
def idleState (flash : List Nat) : FcState :=
  { armed := false, rebootMode := 0, escMode := 0, escPortIndex := 0,
    featureMaskIsCopied := false, featureMaskCopy := 0, featureMask := 0, eeprom := [],
    flash := flash, mscFilesystemReady := false, esc4wayCount := 0, motorCount := 4,
    pidProfileIndex := 0, controlRateProfileIndex := 0, sys := fun _ => 0,
    currentControlRateProfile :=
      { rcRates := fun _ => 100, rcExpo := fun _ => 0, rates := fun _ => 70, dynThrPID := 10,
        thrMid8 := 50, thrExpo8 := 0, tpa_breakpoint := 1650, throttle_limit_type := 0,
        throttle_limit_percent := 100 },
    batteryConfig :=
      { vbatmincellvoltage := 330, vbatmaxcellvoltage := 430, vbatwarningcellvoltage := 350,
        batteryCapacity := 1300, voltageMeterSource := 1, currentMeterSource := 1 },
    gyro_to_use := 0, gyroDeviceAlign := fun _ => 1, mag_align := 1, gyroDetectionFlags := 1,
    osdConfig :=
      { units := 0, rssi_alarm := 20, cap_alarm := 2200, alt_alarm := 100,
        item_pos := fun _ => 0, timers := fun _ => 0, enabledWarnings := 0,
        osdProfileIndex := 1, overlay_radio_mode := 2 },
    osdStatState := fun _ => 0, video_system := 0, name := fun _ => 0, ledstrip_profile := 0 }

/-- A request packet for `cmd` with the payload `payload`; the memory behind
the payload reads `behind`. -/
def requestPacket (cmd : MspCmd) (payload : List Nat) (behind : Nat → Nat) : mspPacket_t :=
  { buf := sbufOfPayload payload behind, cmd := cmd, result := MSP_RESULT_ACK }

/-- A reply packet with `capacity` bytes of room. -/
def replyPacket (capacity : Nat) : mspPacket_t :=
  { buf := sbufOfCapacity capacity, cmd := MspCmd.other 0, result := MSP_RESULT_ACK }

/-- The little-endian bytes of a `uint16_t`. -/
def le16 (v : Nat) : List Nat := [v % 256, v / 256 % 256]

/-- The little-endian bytes of a `uint32_t`. -/
def le32 (v : Nat) : List Nat := [v % 256, v / 256 % 256, v / 65536 % 256, v / 16777216 % 256]

/-- A dataflash of 1000 bytes, byte `i` holding `i % 251`. -/
def flash1000 : List Nat := (List.range 1000).map (fun i => i % 251)

/-- A dataflash of 200 bytes, each holding `7`. -/
def flash200 : List Nat := List.replicate 200 7

/-- The result of a state-mutating case, if there is one, is `MSP_RESULT_ACK` or
`MSP_RESULT_ERROR`. -/
def AckOrError (x : Option InResult) : Prop :=
  ∀ r, x = some r → r.ret = MSP_RESULT_ACK ∨ r.ret = MSP_RESULT_ERROR

/-- The result of a state-mutating case, if there is one, is not a fault. -/
def NoFault (x : Option InResult) : Prop :=
  ∀ r, x = some r → r.fault = false

/-- A read-only stage that does not process the command leaves the reply
cursor `dst` as it was. -/
def LeavesDst (dst : sbuf_t) (x : Bool × sbuf_t) : Prop :=
  x.1 = false → x.2 = dst

/-- The comparison `cmdMSP == MSP_MULTIPLE_MSP`. -/
def isMultipleMsp : MspCmd → Bool
  | MSP_MULTIPLE_MSP => true
  | _ => false

/-- The build `fullBuild` with the code byte 116 assigned to `MSP_BOXNAMES`. -/
def boxBuild : BuildConfig :=
  { fullBuild with
    cmdOfCode := fun code => if code = 116 then MSP_BOXNAMES else fullBuild.cmdOfCode code }

/-- The collaborators `idleServices` with a box serialiser that produces `n`
bytes for every page. -/
def boxServices (n : Nat) : Services :=
  { idleServices with serializeBoxReply := fun _ _ _ => List.replicate n 0 }

/-- The collaborators `idleServices` with every delegated test answered in the
negative: no port is found, a setter refuses, board information is already set. -/
def refusingServices : Services :=
  { idleServices with accepts := fun _ _ _ => false }

/-- The chunks the loop of the compressed path hands to the coder and the coder
accepts, in order: the trace of `huffmanReadLoop`, by the same recursion. A
chunk on which the coder reports overflow ends the trace and is not part of it. -/
def huffmanAcceptedChunks (svc : Services) (st : FcState) (address flashfsSize : Nat) :
    Nat → huffmanState_t → (Nat → Nat) → Nat → List (List Nat)
  | 0, _, _, _ => []
  | fuel + 1, state, mem, bytesReadTotal =>
    if state.bytesWritten < state.outBufLen ∧ u32 ((address : Int) + bytesReadTotal) < flashfsSize then
      let readBuffer := flashfsReadAbs st (u32 ((address : Int) + bytesReadTotal))
        (min 256 (u32 ((flashfsSize : Int) - address - bytesReadTotal)))
      let bytesRead := readBuffer.length
      let r := svc.huffmanEncodeBufStreaming state mem readBuffer
      if r.1 = -1 then []
      else readBuffer :: huffmanAcceptedChunks svc st address flashfsSize fuel r.2.1 r.2.2
        (u16 ((bytesReadTotal : Int) + bytesRead))
    else []

/-- The `n` port records of 7 bytes each that a `MSP_SET_CF_SERIAL_CONFIG`
payload holds from the cursor `src` on. -/
def serialConfigRecords : Nat → sbuf_t → List (List Nat)
  | 0, _ => []
  | n + 1, src => (readBytes 7 src).1 :: serialConfigRecords n (readBytes 7 src).2

/-- The controller state after the port records have been applied in order, up to
but not including the first record whose port identifier is not found. -/
def applySerialRecords (svc : Services) : List (List Nat) → FcState → FcState
  | [], st => st
  | r :: rs, st =>
    if svc.accepts MSP_SET_CF_SERIAL_CONFIG [r.headD 0] st then
      applySerialRecords svc rs (storeValues svc MSP_SET_CF_SERIAL_CONFIG r st)
    else st

/-- Whether the port identifier of every record is found, each looked up after
the records before it have been applied. -/
def serialRecordsFound (svc : Services) : List (List Nat) → FcState → Bool
  | [], _ => true
  | r :: rs, st =>
    if svc.accepts MSP_SET_CF_SERIAL_CONFIG [r.headD 0] st then
      serialRecordsFound svc rs (storeValues svc MSP_SET_CF_SERIAL_CONFIG r st)
    else false

/-- Collaborators with two serial ports, identifiers 0 and 1: a port is found
when its identifier is below 2, and a port record stores its function mask (the
u16 after the identifier) in the subsystem state at the index of the port. -/
def serialServices : Services :=
  { idleServices with
    accepts := fun _ vals _ => decide (vals.headD 0 < 2),
    store := fun _ vals sys =>
      fun i => if i = vals.headD 0 then vals.getD 1 0 + 256 * vals.getD 2 0 else sys i }

/-- The cursor `d` is the cursor `dst` after exactly the bytes `bytes` have been
written through it: it stands behind them, has the same end, the memory between
the two positions holds the bytes, and the memory below `dst` is untouched. -/
def WritesFrom (dst d : sbuf_t) (bytes : List Nat) : Prop :=
  d.ptr = dst.ptr + bytes.length ∧ d.end_ = dst.end_ ∧ sbufWritten dst.ptr d = bytes ∧
    ∀ a, a < dst.ptr → d.mem a = dst.mem a

/-- The sub-reply sizes the sizing loop of the `MSP_MULTIPLE_MSP` handler
measures, in order: the distance `sbufPtr(&packetOut.buf) - dst->ptr` of each
pass through the loop body, before it is stored in the `uint8_t mspSize`; by the
same recursion as `batchSizingLoop`. -/
def batchMeasuredSizes (cfg : BuildConfig) (processCommand : ProcessCommand) :
    Nat → BatchState → List Int
  | 0, _ => []
  | fuel + 1, b =>
    if sbufBytesRemaining b.src ≠ 0 ∧ b.bytesRemaining > 0 then
      let r := sbufReadU8 b.src
      let newMSP := r.1
      let packetOut := { b.packetOut with buf := sbufInit b.dst.mem b.dst.ptr b.dst.end_ }
      let packetIn := { b.packetIn with cmd := cfg.cmdOfCode newMSP }
      match processCommand packetIn packetOut none b.st with
      | none => []
      | some res =>
        let mspSize := u8 ((sbufPtr res.reply.buf : Int) - b.dst.ptr)
        let mspSize := (mspSize + 1) % 256
        let bytesRemaining := b.bytesRemaining - mspSize
        let maxMSPs := if bytesRemaining ≥ 0 then (b.maxMSPs + 1) % 256 else b.maxMSPs
        ((sbufPtr res.reply.buf : Int) - b.dst.ptr) ::
          batchMeasuredSizes cfg processCommand fuel
            { src := r.2, dst := { b.dst with mem := res.reply.buf.mem }, packetIn := res.cmd,
              packetOut := res.reply, st := res.st, bytesRemaining := bytesRemaining,
              maxMSPs := maxMSPs,
              calls := b.calls ++
                [{ cmd := packetIn, reply := packetOut, st := b.st, res := res }] }
    else []

/-- The count of the byte budget in the words of the specification: the largest
`k` such that the first `k` sub-reply sizes, each with one byte more for its
length prefix, add up to at most `room`. -/
def fittingCount : List Int → Int → Nat
  | [], _ => 0
  | s :: rest, room => if s + 1 ≤ room then fittingCount rest (room - (s + 1)) + 1 else 0

/-- The cursors on which the batch command re-enters itself without end: the
cursor stands one byte behind its end, and the two bytes from there on are the
codes of `MSP_SELECT_SETTING` and `MSP_MULTIPLE_MSP`. -/
def BehindEnd (buf : sbuf_t) : Prop :=
  buf.ptr = buf.end_ + 1 ∧ buf.mem (buf.end_ + 1) % 256 = 210 ∧
    buf.mem (buf.end_ + 2) % 256 = 230

/-- A coder that compresses: it emits four bits, the low nibble, for every input
byte, the high half of an output byte first; it reports overflow when the output
region is full. `outBit` is `0x80` at a byte boundary. -/
def nibbleEncode : List Nat → huffmanState_t → (Nat → Nat) → Int × huffmanState_t × (Nat → Nat)
  | [], s, m => (0, s, m)
  | b :: rest, s, m =>
    if s.bytesWritten ≥ s.outBufLen then (-1, s, m)
    else if s.outBit = 128 then
      nibbleEncode rest { s with outBit := 8 } (arraySet m s.outByte (b % 16 * 16))
    else
      nibbleEncode rest
        { s with outBit := 128, outByte := s.outByte + 1, bytesWritten := s.bytesWritten + 1 }
        (arraySet m s.outByte (m s.outByte + b % 16))

/-- The collaborators `idleServices` with the coder `nibbleEncode`. -/
def nibbleServices : Services :=
  { idleServices with huffmanEncodeBufStreaming := fun s m input => nibbleEncode input s m }

/-- The collaborators `idleServices` with the identifiers below `n` the only ones
a delegated lookup finds: `findBoxByPermanentId(i)` is `NULL` from `n` on. -/
def boxIdServices (n : Nat) : Services :=
  { idleServices with accepts := fun _ vals _ => vals.all (fun v => decide (v < n)) }

theorem memSlice_length (mem : Nat → Nat) (a b : Nat) : (memSlice mem a b).length = b - a := by
  simp [memSlice]

theorem memSlice_append (mem : Nat → Nat) {a b c : Nat} (hab : a ≤ b) (hbc : b ≤ c) :
    memSlice mem a c = memSlice mem a b ++ memSlice mem b c := by
  apply List.ext_getElem
  · simp [memSlice]; omega
  · intro i h1 h2
    simp only [memSlice_length] at h1
    by_cases hi : i < b - a
    · rw [List.getElem_append_left (by simpa [memSlice_length] using hi)]
      simp [memSlice]
    · rw [List.getElem_append_right (by simpa [memSlice_length] using hi)]
      simp only [memSlice, List.getElem_map, List.getElem_range, List.length_map, List.length_range]
      congr 1
      omega

theorem memSlice_congr (m' : Nat → Nat) {m : Nat → Nat} {a b : Nat}
    (h : ∀ x, a ≤ x → x < b → m x = m' x) : memSlice m a b = memSlice m' a b := by
  apply List.ext_getElem
  · simp [memSlice]
  · intro i h1 _
    simp only [memSlice_length] at h1
    simp only [memSlice, List.getElem_map, List.getElem_range]
    exact h _ (by omega) (by omega)

theorem memWrite_of_not_mem {mem : Nat → Nat} {addr : Nat} {bytes : List Nat} {x : Nat}
    (h : x < addr ∨ addr + bytes.length ≤ x) : memWrite mem addr bytes x = mem x := by
  unfold memWrite
  rw [if_neg]
  omega

theorem memSlice_memWrite (mem : Nat → Nat) (addr : Nat) (bytes : List Nat)
    (hb : ∀ b ∈ bytes, b < 256) :
    memSlice (memWrite mem addr bytes) addr (addr + bytes.length) = bytes := by
  apply List.ext_getElem
  · simp [memSlice]
  · intro i h1 h2
    simp only [memSlice, List.getElem_map, List.getElem_range, memWrite]
    rw [if_pos (by omega)]
    have : addr + i - addr = i := by omega
    rw [this, List.getD_eq_getElem _ _ h2]
    exact Nat.mod_eq_of_lt (hb _ (List.getElem_mem h2))

theorem memSlice_padWithZeros (n : Nat) (dst : sbuf_t) :
    (padWithZeros n dst).ptr = dst.ptr + n ∧
    (padWithZeros n dst).end_ = dst.end_ ∧
    (∀ x, x < dst.ptr → (padWithZeros n dst).mem x = dst.mem x) ∧
    memSlice (padWithZeros n dst).mem dst.ptr (dst.ptr + n) = List.replicate n 0 := by
  induction n generalizing dst with
  | zero => simp [padWithZeros, memSlice]
  | succ n ih =>
    obtain ⟨h1, h2, h3, h4⟩ := ih (sbufWriteU8 dst 0)
    simp only [padWithZeros]
    have hp : (sbufWriteU8 dst 0).ptr = dst.ptr + 1 := rfl
    refine ⟨by rw [h1, hp]; omega, by rw [h2]; rfl, ?_, ?_⟩
    · intro x hx
      rw [h3 x (by rw [hp]; omega)]
      exact memWrite_of_not_mem (Or.inl hx)
    · rw [memSlice_append _ (Nat.le_succ dst.ptr) (by omega), List.replicate_succ]
      have e1 : memSlice (padWithZeros n (sbufWriteU8 dst 0)).mem dst.ptr (dst.ptr + 1) = [0] := by
        rw [memSlice_congr (memWrite dst.mem dst.ptr [0])]
        · exact memSlice_memWrite dst.mem dst.ptr [0] (by simp)
        · intro x _ hx
          exact h3 x (by rw [hp]; exact hx)
      rw [hp] at h4
      have e2 : dst.ptr + (n + 1) = dst.ptr + 1 + n := by omega
      rw [e1, e2, h4]
      rfl

/-! ## Properties of the dataflash reader -/

theorem flashfsReadAbs_length_le (st : FcState) (address len : Nat) :
    (flashfsReadAbs st address len).length ≤ len := by
  simp [flashfsReadAbs]

theorem flashfsReadAbs_lt (st : FcState) (address len : Nat) :
    ∀ b ∈ flashfsReadAbs st address len, b < 256 := by
  intro b hb
  simp only [flashfsReadAbs, List.mem_map] at hb
  obtain ⟨a, _, rfl⟩ := hb
  exact Nat.mod_lt _ (by decide)

theorem u16_lt (x : Int) : u16 x < 65536 := by
  unfold u16
  have h1 := Int.emod_lt_of_pos x (show (0 : Int) < 65536 by decide)
  have h2 := Int.emod_nonneg x (show (65536 : Int) ≠ 0 by decide)
  omega

theorem u16_of_nonneg (x : Int) (h : 0 ≤ x) : (u16 x : Int) ≤ x := by
  unfold u16
  have h1 := Int.emod_lt_of_pos x (show (0 : Int) < 65536 by decide)
  have h2 := Int.emod_nonneg x (show (65536 : Int) ≠ 0 by decide)
  omega

theorem dataflashReadLen_lt (cfg : BuildConfig) (st : FcState) (dst : sbuf_t)
    (address size : Nat) (hs : size < 65536) :
    dataflashReadLen cfg st dst address size < 65536 := by
  unfold dataflashReadLen
  simp only []
  split_ifs <;> first | exact u16_lt _ | exact hs

theorem dataflashReadLen_le (cfg : BuildConfig) (st : FcState) (dst : sbuf_t)
    (address size : Nat)
    (hcap : (cfg.MSP_PORT_DATAFLASH_INFO_SIZE : Int) ≤ sbufBytesRemaining dst) :
    dataflashReadLen cfg st dst address size ≤ size ∧
    (dataflashReadLen cfg st dst address size : Int) ≤
      sbufBytesRemaining dst - cfg.MSP_PORT_DATAFLASH_INFO_SIZE := by
  unfold dataflashReadLen
  simp only []
  have key : ∀ (r : Nat) (x : Nat), (if r > x then u16 (x : Int) else r) ≤ r := by
    intro r x
    split
    · have := u16_of_nonneg (x : Int) (by omega)
      omega
    · exact le_refl _
  have h0 := u16_of_nonneg (sbufBytesRemaining dst - cfg.MSP_PORT_DATAFLASH_INFO_SIZE) (by omega)
  have h1 := key (if (size : Int) > sbufBytesRemaining dst - cfg.MSP_PORT_DATAFLASH_INFO_SIZE
      then u16 (sbufBytesRemaining dst - cfg.MSP_PORT_DATAFLASH_INFO_SIZE) else size)
    (u32 ((flashfsGetSize st : Int) - address))
  constructor
  · refine le_trans h1 ?_
    split <;> omega
  · have : ((if (size : Int) > sbufBytesRemaining dst - cfg.MSP_PORT_DATAFLASH_INFO_SIZE
        then u16 (sbufBytesRemaining dst - cfg.MSP_PORT_DATAFLASH_INFO_SIZE) else size : Nat) : Int)
        ≤ sbufBytesRemaining dst - cfg.MSP_PORT_DATAFLASH_INFO_SIZE := by
      split <;> omega
    omega

theorem le32_lt (v : Nat) : ∀ b ∈ le32 v, b < 256 := by
  intro b hb
  simp only [le32, List.mem_cons, List.mem_singleton, List.not_mem_nil, or_false] at hb
  rcases hb with rfl | rfl | rfl | rfl <;> exact Nat.mod_lt _ (by decide)

theorem le16_lt (v : Nat) : ∀ b ∈ le16 v, b < 256 := by
  intro b hb
  simp only [le16, List.mem_cons, List.mem_singleton, List.not_mem_nil, or_false] at hb
  rcases hb with rfl | rfl <;> exact Nat.mod_lt _ (by decide)

theorem sbufWriteU8_mem (dst : sbuf_t) (v x : Nat) :
    (sbufWriteU8 dst v).mem x = if x = dst.ptr then v % 256 else dst.mem x := by
  simp only [sbufWriteU8, memWrite, List.length_singleton]
  by_cases h : x = dst.ptr
  · subst h
    simp
  · rw [if_neg h, if_neg (by omega)]

theorem sbufWriteU32_slice (dst : sbuf_t) (v : Nat) :
    (sbufWriteU32 dst v).ptr = dst.ptr + 4 ∧ (sbufWriteU32 dst v).end_ = dst.end_ ∧
    memSlice (sbufWriteU32 dst v).mem dst.ptr (dst.ptr + 4) = le32 v := by
  refine ⟨rfl, rfl, ?_⟩
  have h4 : dst.ptr + 4 - dst.ptr = 4 := by omega
  simp only [memSlice, h4, sbufWriteU32, sbufWriteU8_mem, le32]
  simp [List.range_succ, sbufWriteU8]
  split_ifs <;> first | rfl | omega

theorem serializeDataflashReadReply_uncompressed_eq (cfg : BuildConfig) (svc : Services)
    (st : FcState) (fuel : Nat) (dst : sbuf_t) (address size : Nat)
    (useLegacyFormat allowCompression : Bool)
    (hc : cfg.USE_HUFFMAN = false ∨ allowCompression = false ∨ useLegacyFormat = true) :
    serializeDataflashReadReply cfg svc st fuel dst address size useLegacyFormat allowCompression =
      some (
        let readLen := dataflashReadLen cfg st dst address size
        let dst := sbufWriteU32 dst address
        let readLenPtr := sbufPtr dst
        let dst := if !useLegacyFormat then sbufWriteU8 (sbufWriteU16 dst readLen) 0 else dst
        let data := flashfsReadAbs st address readLen
        let bytesRead := data.length
        let dst := { dst with mem := memWrite dst.mem (sbufPtr dst) data }
        let dst :=
          if !useLegacyFormat then
            { dst with mem := memWrite dst.mem readLenPtr [bytesRead % 256, bytesRead / 256 % 256] }
          else dst
        let dst := sbufAdvance dst bytesRead
        if useLegacyFormat then padWithZeros (size - bytesRead) dst else dst) := by
  have hm : (if cfg.USE_HUFFMAN = true then
      (if (!allowCompression || useLegacyFormat) = true then NO_COMPRESSION else HUFFMAN)
      else NO_COMPRESSION) = NO_COMPRESSION := by
    rcases hc with h | h | h <;> simp [h]
  simp only [serializeDataflashReadReply, hm, if_true]

theorem modernReply_slice (dst : sbuf_t) (address readLen : Nat) (data : List Nat)
    (hd : ∀ b ∈ data, b < 256) :
    memSlice (memWrite (memWrite
      (sbufWriteU8 (sbufWriteU16 (sbufWriteU32 dst address) readLen) 0).mem (dst.ptr + 7) data)
      (dst.ptr + 4) [data.length % 256, data.length / 256 % 256]) dst.ptr
      (dst.ptr + 7 + data.length) = le32 address ++ le16 data.length ++ [0] ++ data := by
  obtain ⟨hp, -, hs⟩ := sbufWriteU32_slice dst address
  rw [memSlice_append _ (show dst.ptr ≤ dst.ptr + 4 by omega) (by omega),
    memSlice_append _ (show dst.ptr + 4 ≤ dst.ptr + 6 by omega) (by omega),
    memSlice_append _ (show dst.ptr + 6 ≤ dst.ptr + 7 by omega) (by omega)]
  have s1 : memSlice (memWrite (memWrite
      (sbufWriteU8 (sbufWriteU16 (sbufWriteU32 dst address) readLen) 0).mem (dst.ptr + 7) data)
      (dst.ptr + 4) [data.length % 256, data.length / 256 % 256]) dst.ptr (dst.ptr + 4)
      = le32 address := by
    rw [← hs]
    apply memSlice_congr
    intro x _ hx
    rw [memWrite_of_not_mem (Or.inl hx), memWrite_of_not_mem (Or.inl (by omega))]
    simp only [sbufWriteU16, sbufWriteU8, hp]
    rw [memWrite_of_not_mem (Or.inl (by omega)), memWrite_of_not_mem (Or.inl (by omega)),
      memWrite_of_not_mem (Or.inl (by omega))]
  have s2 : memSlice (memWrite (memWrite
      (sbufWriteU8 (sbufWriteU16 (sbufWriteU32 dst address) readLen) 0).mem (dst.ptr + 7) data)
      (dst.ptr + 4) [data.length % 256, data.length / 256 % 256]) (dst.ptr + 4) (dst.ptr + 6)
      = le16 data.length :=
    memSlice_memWrite _ (dst.ptr + 4) [data.length % 256, data.length / 256 % 256]
      (le16_lt data.length)
  have s3 : memSlice (memWrite (memWrite
      (sbufWriteU8 (sbufWriteU16 (sbufWriteU32 dst address) readLen) 0).mem (dst.ptr + 7) data)
      (dst.ptr + 4) [data.length % 256, data.length / 256 % 256]) (dst.ptr + 6) (dst.ptr + 7)
      = [0] := by
    rw [memSlice_congr (memWrite
      (sbufWriteU16 (sbufWriteU32 dst address) readLen).mem (dst.ptr + 6) [0])]
    · exact memSlice_memWrite _ (dst.ptr + 6) [0] (by simp)
    · intro x hx1 hx2
      rw [memWrite_of_not_mem (Or.inr (by simp only [List.length_cons, List.length_nil]; omega)),
        memWrite_of_not_mem (Or.inl (by omega))]
      simp only [sbufWriteU8, sbufWriteU16, hp]
  have s4 : memSlice (memWrite (memWrite
      (sbufWriteU8 (sbufWriteU16 (sbufWriteU32 dst address) readLen) 0).mem (dst.ptr + 7) data)
      (dst.ptr + 4) [data.length % 256, data.length / 256 % 256]) (dst.ptr + 7)
      (dst.ptr + 7 + data.length) = data := by
    rw [memSlice_congr (memWrite
      (sbufWriteU8 (sbufWriteU16 (sbufWriteU32 dst address) readLen) 0).mem (dst.ptr + 7) data)]
    · exact memSlice_memWrite _ (dst.ptr + 7) data hd
    · intro x hx1 _
      rw [memWrite_of_not_mem (Or.inr (by simp only [List.length_cons, List.length_nil]; omega))]
  rw [s1, s2, s3, s4]
  simp

/-- C5: a modern-format, uncompressed dataflash read replies with the address as
a little-endian u32, a little-endian u16 length field equal to the number `n` of
bytes actually read from the store, a compression byte 0, and then exactly those
`n` bytes. -/
theorem serializeDataflashReadReply_modern_uncompressed (cfg : BuildConfig) (svc : Services)
    (st : FcState) (fuel : Nat) (dst : sbuf_t) (address size : Nat) (allowCompression : Bool)
    (hsize : size < 65536)
    (hc : cfg.USE_HUFFMAN = false ∨ allowCompression = false) :
    ∃ d, serializeDataflashReadReply cfg svc st fuel dst address size false allowCompression
        = some d ∧
      sbufWritten dst.ptr d =
        le32 address ++
          le16 (flashfsReadAbs st address (dataflashReadLen cfg st dst address size)).length ++
          [0] ++ flashfsReadAbs st address (dataflashReadLen cfg st dst address size) ∧
      (flashfsReadAbs st address (dataflashReadLen cfg st dst address size)).length < 65536 := by
  have hlen : (flashfsReadAbs st address (dataflashReadLen cfg st dst address size)).length
      < 65536 :=
    lt_of_le_of_lt (flashfsReadAbs_length_le _ _ _) (dataflashReadLen_lt cfg st dst address size hsize)
  rw [serializeDataflashReadReply_uncompressed_eq cfg svc st fuel dst address size false
    allowCompression (by rcases hc with h | h <;> simp [h])]
  refine ⟨_, rfl, ?_, hlen⟩
  have e1 : (sbufWriteU8 (sbufWriteU16 (sbufWriteU32 dst address)
      (dataflashReadLen cfg st dst address size)) 0).ptr = dst.ptr + 7 := rfl
  have e2 : (sbufWriteU32 dst address).ptr = dst.ptr + 4 := rfl
  simp only [Bool.not_false, if_true, Bool.false_eq_true, if_false, sbufWritten, sbufAdvance,
    sbufPtr, e1, e2]
  exact modernReply_slice dst address _ _ (flashfsReadAbs_lt _ _ _)

set_option maxRecDepth 100000 in
/-- C5, evaluated on the example of the specification: store size 1000, address
900, requested length 200, reply capacity 300; the number of bytes read is 100. -/
theorem serializeDataflashReadReply_modern_uncompressed_witness :
    (flashfsReadAbs (idleState flash1000) 900
      (dataflashReadLen fullBuild (idleState flash1000) (sbufOfCapacity 300) 900 200)).length = 100 ∧
    le32 900 = [132, 3, 0, 0] ∧
    ∃ d, serializeDataflashReadReply fullBuild idleServices (idleState flash1000) 0
        (sbufOfCapacity 300) 900 200 false false = some d ∧
      sbufWritten (sbufOfCapacity 300).ptr d =
        le32 900 ++
          le16 (flashfsReadAbs (idleState flash1000) 900
            (dataflashReadLen fullBuild (idleState flash1000) (sbufOfCapacity 300) 900 200)).length ++
          [0] ++ flashfsReadAbs (idleState flash1000) 900
            (dataflashReadLen fullBuild (idleState flash1000) (sbufOfCapacity 300) 900 200) ∧
      (flashfsReadAbs (idleState flash1000) 900
        (dataflashReadLen fullBuild (idleState flash1000) (sbufOfCapacity 300) 900 200)).length
        < 65536 :=
  ⟨by decide, by decide,
    serializeDataflashReadReply_modern_uncompressed fullBuild idleServices (idleState flash1000) 0
      (sbufOfCapacity 300) 900 200 false (by decide) (Or.inr rfl)⟩

theorem legacyReply_slice (dst : sbuf_t) (address k : Nat) (data : List Nat)
    (hd : ∀ b ∈ data, b < 256) :
    (padWithZeros k
      { mem := memWrite (sbufWriteU32 dst address).mem (dst.ptr + 4) data,
        ptr := dst.ptr + 4 + data.length, end_ := dst.end_ }).ptr
      = dst.ptr + 4 + data.length + k ∧
    sbufWritten dst.ptr (padWithZeros k
      { mem := memWrite (sbufWriteU32 dst address).mem (dst.ptr + 4) data,
        ptr := dst.ptr + 4 + data.length, end_ := dst.end_ })
      = le32 address ++ data ++ List.replicate k 0 := by
  obtain ⟨-, -, hs⟩ := sbufWriteU32_slice dst address
  obtain ⟨h1, -, h3, h4⟩ := memSlice_padWithZeros k
    { mem := memWrite (sbufWriteU32 dst address).mem (dst.ptr + 4) data,
      ptr := dst.ptr + 4 + data.length, end_ := dst.end_ }
  simp only [] at h1 h3 h4
  refine ⟨h1, ?_⟩
  simp only [sbufWritten]
  rw [h1, memSlice_append _ (show dst.ptr ≤ dst.ptr + 4 by omega) (by omega),
    memSlice_append _ (show dst.ptr + 4 ≤ dst.ptr + 4 + data.length by omega) (by omega), h4]
  have s1 : memSlice (padWithZeros k
      { mem := memWrite (sbufWriteU32 dst address).mem (dst.ptr + 4) data,
        ptr := dst.ptr + 4 + data.length, end_ := dst.end_ }).mem dst.ptr (dst.ptr + 4)
      = le32 address := by
    rw [← hs]
    apply memSlice_congr
    intro x _ hx
    rw [h3 x (by omega), memWrite_of_not_mem (Or.inl hx)]
  have s2 : memSlice (padWithZeros k
      { mem := memWrite (sbufWriteU32 dst address).mem (dst.ptr + 4) data,
        ptr := dst.ptr + 4 + data.length, end_ := dst.end_ }).mem (dst.ptr + 4)
      (dst.ptr + 4 + data.length) = data := by
    rw [memSlice_congr (memWrite (sbufWriteU32 dst address).mem (dst.ptr + 4) data)]
    · exact memSlice_memWrite _ _ _ hd
    · intro x _ hx
      exact h3 x hx
  rw [s1, s2]
  simp

theorem serializeDataflashReadReply_legacy_eq (cfg : BuildConfig) (svc : Services)
    (st : FcState) (fuel : Nat) (dst : sbuf_t) (address size : Nat) (allowCompression : Bool) :
    serializeDataflashReadReply cfg svc st fuel dst address size true allowCompression =
      some (padWithZeros
        (size - (flashfsReadAbs st address (dataflashReadLen cfg st dst address size)).length)
        { mem := memWrite (sbufWriteU32 dst address).mem (dst.ptr + 4)
            (flashfsReadAbs st address (dataflashReadLen cfg st dst address size)),
          ptr := dst.ptr + 4 +
            (flashfsReadAbs st address (dataflashReadLen cfg st dst address size)).length,
          end_ := dst.end_ }) := by
  rw [serializeDataflashReadReply_uncompressed_eq cfg svc st fuel dst address size true
    allowCompression (Or.inr (Or.inr rfl))]
  rfl

set_option maxRecDepth 100000 in
/-- C6 fails on the code: a legacy read into a reply buffer with only 10 bytes of
room, from a store of 200 bytes, replies with 4 + 200 bytes, i.e. 200 data
bytes and not 128: the room left after the reserved trailer is negative and is
assigned to the 16-bit read length. -/
theorem mspFcDataFlashReadCommand_legacy_counterexample :
    (mspFcDataFlashReadCommand fullBuild idleServices (idleState flash200) 1 (sbufOfCapacity 10)
      (sbufOfPayload [0, 0, 0, 0] (fun _ => 0))).map (fun r => (sbufWritten 0 r.1).length)
      = some 204 := by
  decide

/-- The legacy reply where the read length does not wrap: a dataflash read whose
payload is shorter than 6 bytes, into a reply buffer with at least
`MSP_PORT_DATAFLASH_INFO_SIZE` bytes of room, replies with the 4-byte
little-endian address followed by exactly 128 data bytes: the bytes actually read
from the store and then zero bytes up to 128, with no length field and no
compression byte. -/
theorem mspFcDataFlashReadCommand_legacy (cfg : BuildConfig) (svc : Services) (st : FcState)
    (fuel : Nat) (dst src : sbuf_t)
    (hwf : 0 ≤ sbufBytesRemaining src) (hshort : sbufBytesRemaining src < 6)
    (hcap : (cfg.MSP_PORT_DATAFLASH_INFO_SIZE : Int) ≤ sbufBytesRemaining dst) :
    ∃ d s, mspFcDataFlashReadCommand cfg svc st fuel dst src = some (d, s) ∧
      sbufWritten dst.ptr d =
        le32 (sbufReadU32 src).1 ++
          flashfsReadAbs st (sbufReadU32 src).1
            (dataflashReadLen cfg st dst (sbufReadU32 src).1 128) ++
          List.replicate (128 - (flashfsReadAbs st (sbufReadU32 src).1
            (dataflashReadLen cfg st dst (sbufReadU32 src).1 128)).length) 0 ∧
      (flashfsReadAbs st (sbufReadU32 src).1
        (dataflashReadLen cfg st dst (sbufReadU32 src).1 128)).length ≤ 128 ∧
      (sbufWritten dst.ptr d).length = 4 + 128 := by
  have hds : ¬ (u32 (sbufBytesRemaining src) ≥ 4 + 2) := by
    unfold u32
    omega
  have hn : (flashfsReadAbs st (sbufReadU32 src).1
      (dataflashReadLen cfg st dst (sbufReadU32 src).1 128)).length ≤ 128 :=
    le_trans (flashfsReadAbs_length_le _ _ _) (dataflashReadLen_le cfg st dst _ 128 hcap).1
  obtain ⟨hptr, hw⟩ := legacyReply_slice dst (sbufReadU32 src).1
    (128 - (flashfsReadAbs st (sbufReadU32 src).1
      (dataflashReadLen cfg st dst (sbufReadU32 src).1 128)).length)
    (flashfsReadAbs st (sbufReadU32 src).1 (dataflashReadLen cfg st dst (sbufReadU32 src).1 128))
    (flashfsReadAbs_lt _ _ _)
  simp only [mspFcDataFlashReadCommand, if_neg hds, serializeDataflashReadReply_legacy_eq,
    Option.map_some']
  refine ⟨_, _, rfl, hw, hn, ?_⟩
  rw [hw]
  simp only [List.length_append, List.length_replicate, le32, List.length_cons, List.length_nil]
  omega

/-- The legacy reply, evaluated: a read of address 900 from a store of 1000
bytes into a reply buffer with 300 bytes of room. -/
theorem mspFcDataFlashReadCommand_legacy_witness :
    ∃ d s, mspFcDataFlashReadCommand fullBuild idleServices (idleState flash1000) 0
        (sbufOfCapacity 300) (sbufOfPayload [132, 3, 0, 0] (fun _ => 0)) = some (d, s) ∧
      (sbufWritten (sbufOfCapacity 300).ptr d).length = 4 + 128 := by
  obtain ⟨d, s, h1, -, -, h4⟩ := mspFcDataFlashReadCommand_legacy fullBuild idleServices
    (idleState flash1000) 0 (sbufOfCapacity 300) (sbufOfPayload [132, 3, 0, 0] (fun _ => 0))
    (by decide) (by decide) (by decide)
  exact ⟨d, s, h1, h4⟩

set_option maxRecDepth 100000 in
/-- C4 fails on the code: with a store of 1000 bytes, a request for 200 bytes at
address 2000 makes `serializeDataflashReadReply` ask the store for 200 bytes,
although nothing is left of the store from that address on; and with a store of
200 bytes, a request for 128 bytes into a reply buffer with 10 bytes of room asks
the store for 200 bytes, more than the 128 requested. -/
theorem dataflashReadLen_exceeds_bound :
    (flashfsGetSize (idleState flash1000) = 1000 ∧
      dataflashReadLen fullBuild (idleState flash1000) (sbufOfCapacity 300) 2000 200 = 200 ∧
      ¬ (200 ≤ min 200 (min (300 - fullBuild.MSP_PORT_DATAFLASH_INFO_SIZE) (1000 - 2000)))) ∧
    (flashfsGetSize (idleState flash200) = 200 ∧
      dataflashReadLen fullBuild (idleState flash200) (sbufOfCapacity 10) 0 128 = 200 ∧
      ¬ (200 ≤ min 128 (min (10 - fullBuild.MSP_PORT_DATAFLASH_INFO_SIZE) (200 - 0)))) := by
  decide

theorem dataflashReadLen_le_store (cfg : BuildConfig) (st : FcState) (dst : sbuf_t)
    (address size : Nat) (haddr : address ≤ flashfsGetSize st) :
    dataflashReadLen cfg st dst address size ≤ flashfsGetSize st - address := by
  have hF : flashfsGetSize st < 4294967296 := Nat.mod_lt _ (by decide)
  have hu : u32 ((flashfsGetSize st : Int) - address) = flashfsGetSize st - address := by
    unfold u32
    omega
  unfold dataflashReadLen
  simp only [hu]
  have := u16_of_nonneg ((flashfsGetSize st - address : Nat) : Int) (by omega)
  split_ifs <;> omega

theorem flashfsReadAbs_ne_nil (st : FcState) (a t : Nat)
    (h : u32 ((a : Int) + t) < flashfsGetSize st) :
    flashfsReadAbs st (u32 ((a : Int) + t))
      (min 256 (u32 ((flashfsGetSize st : Int) - a - t))) ≠ [] := by
  have hF : flashfsGetSize st ≤ st.flash.length := Nat.mod_le _ _
  have hF2 : flashfsGetSize st < 4294967296 := Nat.mod_lt _ (by decide)
  have hc : 0 < u32 ((flashfsGetSize st : Int) - a - t) := by
    unfold u32 at h ⊢
    omega
  intro hnil
  have hl := congrArg List.length hnil
  simp only [flashfsReadAbs, List.length_map, List.length_take, List.length_drop,
    List.length_nil] at hl
  omega

theorem huffmanReadLoop_returns (svc : Services) (st : FcState) (address L k : Nat)
    (hover : ∀ state mem input, state.bytesWritten < state.outBufLen →
      (svc.huffmanEncodeBufStreaming state mem input).2.1.outBufLen = state.outBufLen ∧
      (svc.huffmanEncodeBufStreaming state mem input).2.1.bytesWritten ≤ state.outBufLen + k)
    (hprog : ∀ state mem input, input ≠ [] →
      (svc.huffmanEncodeBufStreaming state mem input).1 ≠ -1 →
      state.bytesWritten < (svc.huffmanEncodeBufStreaming state mem input).2.1.bytesWritten) :
    ∀ (fuel : Nat) (state : huffmanState_t) (mem : Nat → Nat) (total : Nat),
      state.outBufLen = L → state.bytesWritten ≤ L + k → L - state.bytesWritten < fuel →
      ∃ r, huffmanReadLoop svc st address (flashfsGetSize st) fuel state mem total = some r ∧
        r.1.bytesWritten ≤ L + k := by
  intro fuel
  induction fuel with
  | zero => intro state mem total _ _ h; omega
  | succ fuel ih =>
    intro state mem total hL hbw hfuel
    unfold huffmanReadLoop
    by_cases hg : state.bytesWritten < state.outBufLen ∧
        u32 ((address : Int) + total) < flashfsGetSize st
    · rw [if_pos hg]
      obtain ⟨ho1, ho2⟩ := hover state mem
        (flashfsReadAbs st (u32 ((address : Int) + total))
          (min 256 (u32 ((flashfsGetSize st : Int) - address - total)))) hg.1
      simp only []
      by_cases hs : (svc.huffmanEncodeBufStreaming state mem
          (flashfsReadAbs st (u32 ((address : Int) + total))
            (min 256 (u32 ((flashfsGetSize st : Int) - address - total))))).1 = -1
      · rw [if_pos hs]
        exact ⟨_, rfl, by rw [hL] at ho2; exact ho2⟩
      · rw [if_neg hs]
        have hp := hprog state mem _ (flashfsReadAbs_ne_nil st address total hg.2) hs
        exact ih _ _ _ (by rw [ho1, hL]) (by rw [hL] at ho2; exact ho2) (by omega)
    · rw [if_neg hg]
      exact ⟨_, rfl, hbw⟩

set_option maxRecDepth 100000 in
/-- C7 fails on the code: a legacy read into a reply buffer with 100 bytes of
room, which is more than the reserved trailer of 16, writes 132 bytes. The
clamp of `readLen` against the room (lines 369-372) bounds the bytes read from
the store; the padding loop of the legacy format (lines 409-411) runs to the
requested `size`, which is not clamped. -/
theorem mspFcDataFlashReadCommand_capacity_counterexample :
    (fullBuild.MSP_PORT_DATAFLASH_INFO_SIZE : Int) ≤ sbufBytesRemaining (sbufOfCapacity 100) ∧
    sbufBytesRemaining (sbufOfCapacity 100) = 100 ∧
    (mspFcDataFlashReadCommand fullBuild idleServices (idleState flash1000) 1 (sbufOfCapacity 100)
      (sbufOfPayload [0, 0, 0, 0] (fun _ => 0))).map (fun r => (sbufWritten 0 r.1).length)
      = some 132 := by
  decide

/-- The replies that stay within the room: into a reply buffer with at least
`MSP_PORT_DATAFLASH_INFO_SIZE`
(itself at least 16) bytes of room, an uncompressed modern-format read writes no
more bytes than the room there is; a legacy-format read writes exactly 4 bytes
plus the requested size, whatever the room; and a compressed read writes no more
bytes than the room there is provided the entropy coder keeps its output region
length, never counts more than `k` bytes beyond it with `k + 10` at most the
reserved trailer, and counts at least one more byte for every chunk it accepts. -/
theorem serializeDataflashReadReply_within_capacity (cfg : BuildConfig) (svc : Services)
    (st : FcState) (dst : sbuf_t) (address size : Nat)
    (hinfo : 16 ≤ cfg.MSP_PORT_DATAFLASH_INFO_SIZE)
    (hcap : (cfg.MSP_PORT_DATAFLASH_INFO_SIZE : Int) ≤ sbufBytesRemaining dst) :
    (∀ fuel allowCompression, (cfg.USE_HUFFMAN = false ∨ allowCompression = false) →
      ∃ d, serializeDataflashReadReply cfg svc st fuel dst address size false allowCompression
          = some d ∧
        ((sbufWritten dst.ptr d).length : Int) ≤ sbufBytesRemaining dst) ∧
    (∀ fuel allowCompression,
      ∃ d, serializeDataflashReadReply cfg svc st fuel dst address size true allowCompression
          = some d ∧
        (sbufWritten dst.ptr d).length = 4 + size) ∧
    (∀ k fuel, cfg.USE_HUFFMAN = true → k + 10 ≤ cfg.MSP_PORT_DATAFLASH_INFO_SIZE →
      (∀ state mem input, state.bytesWritten < state.outBufLen →
        (svc.huffmanEncodeBufStreaming state mem input).2.1.outBufLen = state.outBufLen ∧
        (svc.huffmanEncodeBufStreaming state mem input).2.1.bytesWritten
          ≤ state.outBufLen + k) →
      (∀ state mem input, input ≠ [] →
        (svc.huffmanEncodeBufStreaming state mem input).1 ≠ -1 →
        state.bytesWritten < (svc.huffmanEncodeBufStreaming state mem input).2.1.bytesWritten) →
      dataflashReadLen cfg st dst address size < fuel →
      ∃ d, serializeDataflashReadReply cfg svc st fuel dst address size false true = some d ∧
        ((sbufWritten dst.ptr d).length : Int) ≤ sbufBytesRemaining dst) := by
  obtain ⟨hr1, hr2⟩ := dataflashReadLen_le cfg st dst address size hcap
  have hn := flashfsReadAbs_length_le st address (dataflashReadLen cfg st dst address size)
  refine ⟨?_, ?_, ?_⟩
  · intro fuel allowCompression hc
    rw [serializeDataflashReadReply_uncompressed_eq cfg svc st fuel dst address size false
      allowCompression (by rcases hc with h | h <;> simp [h])]
    refine ⟨_, rfl, ?_⟩
    have e1 : (sbufWriteU8 (sbufWriteU16 (sbufWriteU32 dst address)
        (dataflashReadLen cfg st dst address size)) 0).ptr = dst.ptr + 7 := rfl
    simp only [Bool.not_false, if_true, Bool.false_eq_true, if_false, sbufWritten, sbufAdvance,
      sbufPtr, e1, memSlice_length]
    omega
  · intro fuel allowCompression
    rw [serializeDataflashReadReply_legacy_eq]
    obtain ⟨-, hw⟩ := legacyReply_slice dst address
      (size - (flashfsReadAbs st address (dataflashReadLen cfg st dst address size)).length)
      (flashfsReadAbs st address (dataflashReadLen cfg st dst address size))
      (flashfsReadAbs_lt _ _ _)
    refine ⟨_, rfl, ?_⟩
    rw [hw]
    simp only [List.length_append, List.length_replicate, le32, List.length_cons,
      List.length_nil]
    omega
  · intro k fuel hH hk hover hprog hfuel
    obtain ⟨r, hr, hbw⟩ := huffmanReadLoop_returns svc st address
      (dataflashReadLen cfg st dst address size) k hover hprog fuel
      { bytesWritten := 0,
        outByte := sbufPtr (sbufWriteU32 dst address) + 2 + 1 + cfg.HUFFMAN_INFO_SIZE,
        outBufLen := dataflashReadLen cfg st dst address size, outBit := 128 }
      (memWrite (sbufWriteU32 dst address).mem
        (sbufPtr (sbufWriteU32 dst address) + 2 + 1 + cfg.HUFFMAN_INFO_SIZE) [0]) 0
      rfl (by simp) (by simpa using hfuel)
    have hm : ¬ (HUFFMAN = NO_COMPRESSION) := by decide
    simp only [serializeDataflashReadReply, hH, if_true, Bool.not_true, Bool.or_false,
      Bool.false_eq_true, if_false, hm, hr]
    refine ⟨_, rfl, ?_⟩
    have e2 : (sbufWriteU32 dst address).ptr = dst.ptr + 4 := rfl
    simp only [sbufWritten, sbufAdvance, memSlice_length, sbufWriteU16, sbufWriteU8, e2]
    split_ifs <;> omega

set_option maxRecDepth 100000 in
/-- The replies that stay within the room, evaluated on the build `fullBuild` with the coder of
`idleServices`, which never counts beyond its output region: a read of 200 bytes
at address 900 from a store of 1000 bytes into a reply buffer with 300 bytes of
room. -/
theorem serializeDataflashReadReply_within_capacity_witness :
    (∃ d, serializeDataflashReadReply fullBuild idleServices (idleState flash1000) 0
        (sbufOfCapacity 300) 900 200 false false = some d ∧
      ((sbufWritten (sbufOfCapacity 300).ptr d).length : Int)
        ≤ sbufBytesRemaining (sbufOfCapacity 300)) ∧
    (∃ d, serializeDataflashReadReply fullBuild idleServices (idleState flash1000) 0
        (sbufOfCapacity 300) 900 200 true false = some d ∧
      (sbufWritten (sbufOfCapacity 300).ptr d).length = 4 + 200) ∧
    (∃ d, serializeDataflashReadReply fullBuild idleServices (idleState flash1000) 101
        (sbufOfCapacity 300) 900 200 false true = some d ∧
      ((sbufWritten (sbufOfCapacity 300).ptr d).length : Int)
        ≤ sbufBytesRemaining (sbufOfCapacity 300)) := by
  have h := serializeDataflashReadReply_within_capacity fullBuild idleServices
    (idleState flash1000) (sbufOfCapacity 300) 900 200 (by decide) (by decide)
  refine ⟨h.1 0 false (Or.inr rfl), h.2.1 0 false, h.2.2 0 101 rfl (by decide) ?_ ?_ (by decide)⟩
  · intro state mem input hlt
    simp only [idleServices]
    split_ifs
    · simp
      omega
    · simp
      omega
  · intro state mem input hne
    simp only [idleServices]
    have : 0 < input.length := List.length_pos.mpr hne
    split_ifs
    · simp
    · simp
      omega

/-! ## Properties of the dispatch chain -/

theorem configHandler_ret (svc : Services) (st : FcState) (cmdMSP : MspCmd) (src : sbuf_t) :
    (configHandler svc st cmdMSP src).ret = MSP_RESULT_ACK := rfl

theorem mspSelectSetting_ret (cfg : BuildConfig) (st : FcState) (src : sbuf_t) :
    (mspSelectSetting cfg st src).ret = MSP_RESULT_ACK := by
  unfold mspSelectSetting
  simp only []
  split_ifs <;> rfl

theorem mspEepromWrite_ret (st : FcState) (src : sbuf_t) :
    (mspEepromWrite st src).ret = MSP_RESULT_ACK ∨
    (mspEepromWrite st src).ret = MSP_RESULT_ERROR := by
  unfold mspEepromWrite
  split_ifs <;> simp

theorem serialConfigLoop_ret (svc : Services) (n : Nat) (src : sbuf_t) (st : FcState) :
    (serialConfigLoop svc n src st).ret = MSP_RESULT_ACK ∨
    (serialConfigLoop svc n src st).ret = MSP_RESULT_ERROR := by
  induction n generalizing src st with
  | zero => exact Or.inl rfl
  | succ n ih =>
    unfold serialConfigLoop
    simp only []
    split_ifs
    · exact ih _ _
    · exact Or.inr rfl

theorem mspSetBoardInfo_ret (cfg : BuildConfig) (svc : Services) (st : FcState) (src : sbuf_t) :
    (mspSetBoardInfo cfg svc st src).ret = MSP_RESULT_ACK ∨
    (mspSetBoardInfo cfg svc st src).ret = MSP_RESULT_ERROR := by
  unfold mspSetBoardInfo
  split_ifs <;> simp

theorem mspSetRcTuning_ret (cfg : BuildConfig) (svc : Services) (st : FcState) (src : sbuf_t) :
    (mspSetRcTuning cfg svc st src).ret = MSP_RESULT_ACK ∨
    (mspSetRcTuning cfg svc st src).ret = MSP_RESULT_ERROR := by
  unfold mspSetRcTuning
  by_cases h : sbufBytesRemaining src ≥ 10
  · rw [if_pos h]
    exact Or.inl rfl
  · rw [if_neg h]
    exact Or.inr rfl

theorem mspSetSensorAlignment_ret (cfg : BuildConfig) (st : FcState) (src : sbuf_t) :
    (mspSetSensorAlignment cfg st src).ret = MSP_RESULT_ACK := by
  unfold mspSetSensorAlignment
  simp only []
  split_ifs <;> rfl

theorem mspSetBatteryConfig_ret (st : FcState) (src : sbuf_t) :
    (mspSetBatteryConfig st src).ret = MSP_RESULT_ACK := by
  unfold mspSetBatteryConfig
  simp only []
  split_ifs <;> rfl

theorem mspSetLedStripConfig_ret (cfg : BuildConfig) (svc : Services) (st : FcState)
    (src : sbuf_t) :
    (mspSetLedStripConfig cfg svc st src).ret = MSP_RESULT_ACK ∨
    (mspSetLedStripConfig cfg svc st src).ret = MSP_RESULT_ERROR := by
  unfold mspSetLedStripConfig
  simp only []
  split_ifs <;> first | exact Or.inl rfl | exact Or.inr rfl

theorem mspSetName_ret (cfg : BuildConfig) (st : FcState) (src : sbuf_t) :
    (mspSetName cfg st src).ret = MSP_RESULT_ACK := rfl

theorem mspSetOsdConfig_ret (cfg : BuildConfig) (svc : Services) (st : FcState) (src : sbuf_t) :
    (mspSetOsdConfig cfg svc st src).ret = MSP_RESULT_ACK ∨
    (mspSetOsdConfig cfg svc st src).ret = MSP_RESULT_ERROR := by
  unfold mspSetOsdConfig
  by_cases h1 : (sbufReadU8 src).1 = 255
  · rw [if_pos h1]
    exact Or.inl rfl
  · rw [if_neg h1]
    by_cases h2 : (sbufReadU8 src).1 = 254
    · rw [if_pos h2]
      unfold mspSetOsdConfigTimer
      by_cases h3 : (sbufReadU8 (sbufReadU8 src).2).1 > cfg.OSD_TIMER_COUNT
      · rw [if_pos h3]
        exact Or.inr rfl
      · rw [if_neg h3]
        exact Or.inr rfl
    · rw [if_neg h2]
      unfold mspSetOsdConfigItem
      by_cases h3 : (if sbufBytesRemaining (sbufReadU16 (sbufReadU8 src).2).2 ≥ 1 then
          sbufReadU8 (sbufReadU16 (sbufReadU8 src).2).2
          else (1, (sbufReadU16 (sbufReadU8 src).2).2)).1 = 0 ∧
          (sbufReadU8 src).1 < cfg.OSD_STAT_COUNT
      · rw [if_pos h3]
        exact Or.inl rfl
      · rw [if_neg h3]
        by_cases h4 : (sbufReadU8 src).1 < cfg.OSD_ITEM_COUNT
        · rw [if_pos h4]
          exact Or.inl rfl
        · rw [if_neg h4]
          exact Or.inr rfl

theorem ackOrError_none : AckOrError none := by
  intro r h
  cases h

theorem ackOrError_some (a : InResult) (h : a.ret = MSP_RESULT_ACK ∨ a.ret = MSP_RESULT_ERROR) :
    AckOrError (some a) := by
  intro r hr
  cases hr
  exact h

theorem ackOrError_ite (c : Prop) [Decidable c] (a b : Option InResult)
    (ha : AckOrError a) (hb : AckOrError b) : AckOrError (if c then a else b) := by
  split_ifs
  · exact ha
  · exact hb

theorem mspProcessInCommandCase_ackOrError (cfg : BuildConfig) (svc : Services) (st : FcState)
    (cmdMSP : MspCmd) (src : sbuf_t) :
    AckOrError (mspProcessInCommandCase cfg svc st cmdMSP src) := by
  cases cmdMSP <;>
    repeat' first
      | exact ackOrError_none
      | refine ackOrError_some _ ?_
      | refine ackOrError_ite _ _ _ ?_ ?_
      | exact Or.inl rfl
      | exact Or.inr rfl
      | exact Or.inl (mspSelectSetting_ret _ _ _)
      | exact mspSetRcTuning_ret _ _ _ _
      | exact Or.inl (mspSetSensorAlignment_ret _ _ _)
      | exact mspEepromWrite_ret _ _
      | exact mspSetBoardInfo_ret _ _ _ _
      | exact serialConfigLoop_ret _ _ _ _
      | exact mspSetLedStripConfig_ret _ _ _ _

theorem mspCommonProcessInCommandCase_ackOrError (cfg : BuildConfig) (svc : Services)
    (st : FcState) (cmdMSP : MspCmd) (src : sbuf_t) :
    AckOrError (mspCommonProcessInCommandCase cfg svc st cmdMSP src) := by
  cases cmdMSP <;>
    repeat' first
      | exact ackOrError_none
      | refine ackOrError_some _ ?_
      | refine ackOrError_ite _ _ _ ?_ ?_
      | exact Or.inl rfl
      | exact Or.inr rfl
      | exact Or.inl (mspSetBatteryConfig_ret _ _)
      | exact mspSetOsdConfig_ret _ _ _ _

theorem mspProcessInCommand_ret (cfg : BuildConfig) (svc : Services) (st : FcState)
    (cmdMSP : MspCmd) (src : sbuf_t) :
    (mspProcessInCommand cfg svc st cmdMSP src).ret = MSP_RESULT_ACK ∨
    (mspProcessInCommand cfg svc st cmdMSP src).ret = MSP_RESULT_ERROR := by
  have h := mspProcessInCommandCase_ackOrError cfg svc st cmdMSP src
  unfold mspProcessInCommand
  cases hc : mspProcessInCommandCase cfg svc st cmdMSP src with
  | none => exact Or.inr rfl
  | some r => exact h r hc

theorem mspCommonProcessInCommand_ret (cfg : BuildConfig) (svc : Services) (st : FcState)
    (cmdMSP : MspCmd) (src : sbuf_t) :
    (mspCommonProcessInCommand cfg svc st cmdMSP src).ret = MSP_RESULT_ACK ∨
    (mspCommonProcessInCommand cfg svc st cmdMSP src).ret = MSP_RESULT_ERROR := by
  have h := mspCommonProcessInCommandCase_ackOrError cfg svc st cmdMSP src
  unfold mspCommonProcessInCommand
  cases hc : mspCommonProcessInCommandCase cfg svc st cmdMSP src with
  | none => exact mspProcessInCommand_ret cfg svc st cmdMSP src
  | some r => exact h r hc

theorem mspSelectSetting_fault (cfg : BuildConfig) (st : FcState) (src : sbuf_t) :
    (mspSelectSetting cfg st src).fault = false := by
  unfold mspSelectSetting
  simp only []
  split_ifs <;> rfl

theorem mspEepromWrite_fault (st : FcState) (src : sbuf_t) :
    (mspEepromWrite st src).fault = false := by
  unfold mspEepromWrite
  split_ifs <;> rfl

theorem serialConfigLoop_fault (svc : Services) (n : Nat) (src : sbuf_t) (st : FcState) :
    (serialConfigLoop svc n src st).fault = false := by
  induction n generalizing src st with
  | zero => rfl
  | succ n ih =>
    unfold serialConfigLoop
    simp only []
    split_ifs
    · exact ih _ _
    · rfl

theorem mspSetBoardInfo_fault (cfg : BuildConfig) (svc : Services) (st : FcState) (src : sbuf_t) :
    (mspSetBoardInfo cfg svc st src).fault = false := by
  unfold mspSetBoardInfo
  split_ifs <;> rfl

theorem mspSetRcTuning_fault (cfg : BuildConfig) (svc : Services) (st : FcState) (src : sbuf_t) :
    (mspSetRcTuning cfg svc st src).fault = false := by
  unfold mspSetRcTuning
  by_cases h : sbufBytesRemaining src ≥ 10
  · rw [if_pos h]
  · rw [if_neg h]

theorem mspSetSensorAlignment_fault (cfg : BuildConfig) (st : FcState) (src : sbuf_t) :
    (mspSetSensorAlignment cfg st src).fault = false := by
  unfold mspSetSensorAlignment
  simp only []
  split_ifs <;> rfl

theorem mspSetBatteryConfig_fault (st : FcState) (src : sbuf_t) :
    (mspSetBatteryConfig st src).fault = false := by
  unfold mspSetBatteryConfig
  simp only []
  split_ifs <;> rfl

theorem mspSetLedStripConfig_fault (cfg : BuildConfig) (svc : Services) (st : FcState)
    (src : sbuf_t) : (mspSetLedStripConfig cfg svc st src).fault = false := by
  unfold mspSetLedStripConfig
  simp only []
  split_ifs <;> rfl

theorem mspSetOsdConfig_fault (cfg : BuildConfig) (svc : Services) (st : FcState)
    (src : sbuf_t) : (mspSetOsdConfig cfg svc st src).fault = false := by
  unfold mspSetOsdConfig
  by_cases h1 : (sbufReadU8 src).1 = 255
  · rw [if_pos h1]
    rfl
  · rw [if_neg h1]
    by_cases h2 : (sbufReadU8 src).1 = 254
    · rw [if_pos h2]
      unfold mspSetOsdConfigTimer
      by_cases h3 : (sbufReadU8 (sbufReadU8 src).2).1 > cfg.OSD_TIMER_COUNT
      · rw [if_pos h3]
      · rw [if_neg h3]
    · rw [if_neg h2]
      unfold mspSetOsdConfigItem
      by_cases h3 : (if sbufBytesRemaining (sbufReadU16 (sbufReadU8 src).2).2 ≥ 1 then
          sbufReadU8 (sbufReadU16 (sbufReadU8 src).2).2
          else (1, (sbufReadU16 (sbufReadU8 src).2).2)).1 = 0 ∧
          (sbufReadU8 src).1 < cfg.OSD_STAT_COUNT
      · rw [if_pos h3]
      · rw [if_neg h3]
        by_cases h4 : (sbufReadU8 src).1 < cfg.OSD_ITEM_COUNT
        · rw [if_pos h4]
        · rw [if_neg h4]

theorem noFault_none : NoFault none := by
  intro r h
  cases h

theorem noFault_some (a : InResult) (h : a.fault = false) : NoFault (some a) := by
  intro r hr
  cases hr
  exact h

theorem noFault_ite (c : Prop) [Decidable c] (a b : Option InResult)
    (ha : NoFault a) (hb : NoFault b) : NoFault (if c then a else b) := by
  split_ifs
  · exact ha
  · exact hb

/-- No case of `mspProcessInCommand` other than `MSP_SET_MODE_RANGE` faults. -/
theorem mspProcessInCommandCase_noFault (cfg : BuildConfig) (svc : Services) (st : FcState)
    (cmdMSP : MspCmd) (src : sbuf_t) (h : isSetModeRange cmdMSP = false) :
    NoFault (mspProcessInCommandCase cfg svc st cmdMSP src) := by
  cases cmdMSP <;>
    first
    | exact absurd h (by decide)
    | repeat' first
        | exact noFault_none
        | refine noFault_some _ ?_
        | refine noFault_ite _ _ _ ?_ ?_
        | rfl
        | exact mspSelectSetting_fault _ _ _
        | exact mspSetRcTuning_fault _ _ _ _
        | exact mspSetSensorAlignment_fault _ _ _
        | exact mspEepromWrite_fault _ _
        | exact mspSetBoardInfo_fault _ _ _ _
        | exact serialConfigLoop_fault _ _ _ _
        | exact mspSetLedStripConfig_fault _ _ _ _

theorem mspCommonProcessInCommandCase_noFault (cfg : BuildConfig) (svc : Services)
    (st : FcState) (cmdMSP : MspCmd) (src : sbuf_t) :
    NoFault (mspCommonProcessInCommandCase cfg svc st cmdMSP src) := by
  cases cmdMSP <;>
    repeat' first
      | exact noFault_none
      | refine noFault_some _ ?_
      | refine noFault_ite _ _ _ ?_ ?_
      | rfl
      | exact mspSetBatteryConfig_fault _ _
      | exact mspSetOsdConfig_fault _ _ _ _

/-- A state-mutating stage faults on no command other than `MSP_SET_MODE_RANGE`. -/
theorem mspCommonProcessInCommand_fault (cfg : BuildConfig) (svc : Services) (st : FcState)
    (cmdMSP : MspCmd) (src : sbuf_t) (h : isSetModeRange cmdMSP = false) :
    (mspCommonProcessInCommand cfg svc st cmdMSP src).fault = false := by
  have h1 := mspCommonProcessInCommandCase_noFault cfg svc st cmdMSP src
  have h2 := mspProcessInCommandCase_noFault cfg svc st cmdMSP src h
  unfold mspCommonProcessInCommand
  cases hc : mspCommonProcessInCommandCase cfg svc st cmdMSP src with
  | some r => exact h1 r hc
  | none =>
    dsimp only
    unfold mspProcessInCommand
    cases hp : mspProcessInCommandCase cfg svc st cmdMSP src with
    | some r => exact h2 r hp
    | none => rfl

theorem mspRebootReply_ret (cfg : BuildConfig) (st : FcState) (src dst : sbuf_t)
    (fn : Option mspPostProcessFnPtr) :
    (mspRebootReply cfg st src dst fn).ret = MSP_RESULT_ACK := by
  unfold mspRebootReply
  simp only []
  split_ifs <;> rfl

theorem mspFcProcessOutCommandWithArg_ret (cfg : BuildConfig) (svc : Services)
    (processCommand : ProcessCommand) (fuel : Nat) (st : FcState) (cmdMSP : MspCmd)
    (src dst : sbuf_t) (fn : Option mspPostProcessFnPtr) (w : StageResult)
    (h : mspFcProcessOutCommandWithArg cfg svc processCommand fuel st cmdMSP src dst fn = some w) :
    (w.ret = MSP_RESULT_ACK ∨ w.ret = MSP_RESULT_ERROR) ∨
    (w.ret = MSP_RESULT_CMD_UNKNOWN ∧ w.src = src ∧ w.dst = dst ∧ w.mspPostProcessFn = fn ∧
      w.st = st) := by
  unfold mspFcProcessOutCommandWithArg at h
  split at h
  · cases h; exact Or.inl (Or.inl rfl)
  · cases h; exact Or.inl (Or.inl rfl)
  · by_cases h0 : sbufBytesRemaining src ≠ 0
    · rw [if_pos h0] at h
      dsimp only at h
      split_ifs at h <;> cases h <;>
        first
        | exact Or.inl (Or.inr rfl)
        | exact Or.inl (Or.inl (mspRebootReply_ret _ _ _ _ _))
    · rw [if_neg h0] at h
      cases h
      exact Or.inl (Or.inl (mspRebootReply_ret _ _ _ _ _))
  · by_cases h0 : sbufBytesRemaining src = 0
    · rw [if_pos h0] at h
      cases h
      exact Or.inl (Or.inr rfl)
    · rw [if_neg h0] at h
      dsimp only at h
      split at h
      · cases h
      · split at h
        · cases h
        · cases h
          exact Or.inl (Or.inl rfl)
  · cases h
    exact Or.inr ⟨rfl, rfl, rfl, rfl, rfl⟩

theorem leavesDst_true (dst d : sbuf_t) : LeavesDst dst (true, d) := by
  intro h
  cases h

theorem leavesDst_false (dst : sbuf_t) : LeavesDst dst (false, dst) := fun _ => rfl

theorem leavesDst_ite (dst : sbuf_t) (c : Prop) [Decidable c] (a b : Bool × sbuf_t)
    (ha : LeavesDst dst a) (hb : LeavesDst dst b) : LeavesDst dst (if c then a else b) := by
  split_ifs
  · exact ha
  · exact hb

theorem mspCommonProcessOutCommand_leavesDst (cfg : BuildConfig) (svc : Services) (st : FcState)
    (cmdMSP : MspCmd) (dst : sbuf_t) :
    LeavesDst dst (mspCommonProcessOutCommand cfg svc st cmdMSP dst) := by
  cases cmdMSP <;>
    repeat' first
      | exact leavesDst_false _
      | exact leavesDst_true _ _
      | refine leavesDst_ite _ _ _ _ ?_ ?_

theorem mspProcessOutCommand_leavesDst (cfg : BuildConfig) (svc : Services) (st : FcState)
    (cmdMSP : MspCmd) (dst : sbuf_t) :
    LeavesDst dst (mspProcessOutCommand cfg svc st cmdMSP dst) := by
  cases cmdMSP <;>
    repeat' first
      | exact leavesDst_false _
      | exact leavesDst_true _ _
      | refine leavesDst_ite _ _ _ _ ?_ ?_

theorem mspFcProcessCommand_succ (cfg : BuildConfig) (svc : Services) (fuel : Nat)
    (cmd reply : mspPacket_t) (fn : Option mspPostProcessFnPtr) (st : FcState) :
    mspFcProcessCommand cfg svc (fuel + 1) cmd reply fn st =
      if (mspCommonProcessOutCommand cfg svc st cmd.cmd reply.buf).1 then
        some { ret := MSP_RESULT_ACK, cmd := cmd,
               reply := { buf := (mspCommonProcessOutCommand cfg svc st cmd.cmd reply.buf).2,
                          cmd := cmd.cmd, result := MSP_RESULT_ACK },
               mspPostProcessFn := fn, st := st }
      else if (mspProcessOutCommand cfg svc st cmd.cmd reply.buf).1 then
        some { ret := MSP_RESULT_ACK, cmd := cmd,
               reply := { buf := (mspProcessOutCommand cfg svc st cmd.cmd reply.buf).2,
                          cmd := cmd.cmd, result := MSP_RESULT_ACK },
               mspPostProcessFn := fn, st := st }
      else
        match mspFcProcessOutCommandWithArg cfg svc (mspFcProcessCommand cfg svc fuel) fuel st
            cmd.cmd cmd.buf reply.buf fn with
        | none => none
        | some w =>
          if w.ret ≠ MSP_RESULT_CMD_UNKNOWN then
            some { ret := w.ret, cmd := { cmd with buf := w.src },
                   reply := { buf := w.dst, cmd := cmd.cmd, result := w.ret },
                   mspPostProcessFn := w.mspPostProcessFn, st := w.st }
          else if cfg.USE_SERIAL_4WAY_BLHELI_INTERFACE && isSet4wayIf cmd.cmd then
            some { ret := MSP_RESULT_ACK,
                   cmd := { cmd with
                     buf := (mspFc4waySerialCommand cfg w.st w.dst w.src w.mspPostProcessFn).2.1 },
                   reply := { buf := (mspFc4waySerialCommand cfg w.st w.dst w.src
                                w.mspPostProcessFn).1,
                              cmd := cmd.cmd, result := MSP_RESULT_ACK },
                   mspPostProcessFn :=
                     (mspFc4waySerialCommand cfg w.st w.dst w.src w.mspPostProcessFn).2.2.1,
                   st := (mspFc4waySerialCommand cfg w.st w.dst w.src w.mspPostProcessFn).2.2.2 }
          else if cfg.USE_FLASHFS && isDataflashRead cmd.cmd then
            match mspFcDataFlashReadCommand cfg svc w.st fuel w.dst w.src with
            | none => none
            | some r =>
              some { ret := MSP_RESULT_ACK, cmd := { cmd with buf := r.2 },
                     reply := { buf := r.1, cmd := cmd.cmd, result := MSP_RESULT_ACK },
                     mspPostProcessFn := w.mspPostProcessFn, st := w.st }
          else if (mspCommonProcessInCommand cfg svc w.st cmd.cmd w.src).fault then none
          else
            some { ret := (mspCommonProcessInCommand cfg svc w.st cmd.cmd w.src).ret,
                   cmd := { cmd with buf := (mspCommonProcessInCommand cfg svc w.st cmd.cmd w.src).src },
                   reply := { buf := w.dst, cmd := cmd.cmd,
                              result := (mspCommonProcessInCommand cfg svc w.st cmd.cmd w.src).ret },
                   mspPostProcessFn := w.mspPostProcessFn,
                   st := (mspCommonProcessInCommand cfg svc w.st cmd.cmd w.src).st } := by
  have hc := mspCommonProcessOutCommand_leavesDst cfg svc st cmd.cmd reply.buf
  simp only [mspFcProcessCommand]
  by_cases h1 : (mspCommonProcessOutCommand cfg svc st cmd.cmd reply.buf).1 = true
  · simp only [h1, if_true]
  · have h1' : (mspCommonProcessOutCommand cfg svc st cmd.cmd reply.buf).1 = false := by
      simpa using h1
    have h2 := hc h1'
    simp only [h1', h2, Bool.false_eq_true, if_false]
    by_cases h3 : (mspProcessOutCommand cfg svc st cmd.cmd reply.buf).1 = true
    · simp only [h3, if_true]
    · have h3' : (mspProcessOutCommand cfg svc st cmd.cmd reply.buf).1 = false := by
        simpa using h3
      have h4 := mspProcessOutCommand_leavesDst cfg svc st cmd.cmd reply.buf h3'
      simp only [h3', h4, Bool.false_eq_true, if_false]

theorem mspFcProcessOutCommandWithArg_isSome (cfg : BuildConfig) (svc : Services)
    (processCommand : ProcessCommand) (fuel : Nat) (st : FcState) (cmdMSP : MspCmd)
    (src dst : sbuf_t) (fn : Option mspPostProcessFnPtr) (hb : isMultipleMsp cmdMSP = false) :
    ∃ w, mspFcProcessOutCommandWithArg cfg svc processCommand fuel st cmdMSP src dst fn
      = some w := by
  unfold mspFcProcessOutCommandWithArg
  split
  · exact ⟨_, rfl⟩
  · exact ⟨_, rfl⟩
  · dsimp only
    split_ifs <;> exact ⟨_, rfl⟩
  · exact absurd hb (by decide)
  · exact ⟨_, rfl⟩

theorem mspFcDataFlashReadCommand_isSome (cfg : BuildConfig) (svc : Services) (st : FcState)
    (fuel : Nat) (dst src : sbuf_t) (hH : cfg.USE_HUFFMAN = false) :
    ∃ r, mspFcDataFlashReadCommand cfg svc st fuel dst src = some r := by
  unfold mspFcDataFlashReadCommand
  simp only []
  split_ifs <;>
    · rw [serializeDataflashReadReply_uncompressed_eq _ _ _ _ _ _ _ _ _ (Or.inl hH)]
      exact ⟨_, rfl⟩

/-- The return values of `mspFcProcessCommand`: whenever it returns, it returns
`MSP_RESULT_ACK` or `MSP_RESULT_ERROR` (never `MSP_RESULT_CMD_UNKNOWN`, never
`MSP_RESULT_NO_REPLY`) and stores that value in the reply; it does return for
every command other than the batch command, `MSP_SET_MODE_RANGE` and, in builds
with the entropy coder, the dataflash read; and for every command code that no
dispatch stage claims it returns `MSP_RESULT_ERROR`. -/
theorem mspFcProcessCommand_ack_or_error (cfg : BuildConfig) (svc : Services) :
    (∀ fuel cmd reply fn st r, mspFcProcessCommand cfg svc fuel cmd reply fn st = some r →
      (r.ret = MSP_RESULT_ACK ∨ r.ret = MSP_RESULT_ERROR) ∧ r.reply.result = r.ret) ∧
    (∀ fuel cmd reply fn st, isMultipleMsp cmd.cmd = false →
      (cfg.USE_FLASHFS && cfg.USE_HUFFMAN && isDataflashRead cmd.cmd) = false →
      isSetModeRange cmd.cmd = false →
      ∃ r, mspFcProcessCommand cfg svc (fuel + 1) cmd reply fn st = some r) ∧
    (∀ fuel cmd reply fn st,
      (mspCommonProcessOutCommand cfg svc st cmd.cmd reply.buf).1 = false →
      (mspProcessOutCommand cfg svc st cmd.cmd reply.buf).1 = false →
      (∃ w, mspFcProcessOutCommandWithArg cfg svc (mspFcProcessCommand cfg svc fuel) fuel st
          cmd.cmd cmd.buf reply.buf fn = some w ∧ w.ret = MSP_RESULT_CMD_UNKNOWN) →
      (cfg.USE_SERIAL_4WAY_BLHELI_INTERFACE && isSet4wayIf cmd.cmd) = false →
      (cfg.USE_FLASHFS && isDataflashRead cmd.cmd) = false →
      mspCommonProcessInCommandCase cfg svc st cmd.cmd cmd.buf = none →
      mspProcessInCommandCase cfg svc st cmd.cmd cmd.buf = none →
      ∃ r, mspFcProcessCommand cfg svc (fuel + 1) cmd reply fn st = some r ∧
        r.ret = MSP_RESULT_ERROR) := by
  refine ⟨?_, ?_, ?_⟩
  · intro fuel cmd reply fn st r h
    cases fuel with
    | zero => cases h
    | succ fuel =>
      rw [mspFcProcessCommand_succ] at h
      by_cases h1 : (mspCommonProcessOutCommand cfg svc st cmd.cmd reply.buf).1 = true
      · rw [if_pos h1] at h
        cases h
        exact ⟨Or.inl rfl, rfl⟩
      · rw [if_neg h1] at h
        by_cases h2 : (mspProcessOutCommand cfg svc st cmd.cmd reply.buf).1 = true
        · rw [if_pos h2] at h
          cases h
          exact ⟨Or.inl rfl, rfl⟩
        · rw [if_neg h2] at h
          cases hw : mspFcProcessOutCommandWithArg cfg svc (mspFcProcessCommand cfg svc fuel) fuel
              st cmd.cmd cmd.buf reply.buf fn with
          | none =>
            rw [hw] at h
            cases h
          | some w =>
            rw [hw] at h
            dsimp only at h
            have hr := mspFcProcessOutCommandWithArg_ret _ _ _ _ _ _ _ _ _ _ hw
            by_cases h3 : w.ret ≠ MSP_RESULT_CMD_UNKNOWN
            · rw [if_pos h3] at h
              cases h
              rcases hr with hr | hr
              · exact ⟨hr, rfl⟩
              · exact absurd hr.1 h3
            · rw [if_neg h3] at h
              by_cases h4 : (cfg.USE_SERIAL_4WAY_BLHELI_INTERFACE && isSet4wayIf cmd.cmd) = true
              · rw [if_pos h4] at h
                cases h
                exact ⟨Or.inl rfl, rfl⟩
              · rw [if_neg h4] at h
                by_cases h5 : (cfg.USE_FLASHFS && isDataflashRead cmd.cmd) = true
                · rw [if_pos h5] at h
                  cases hd : mspFcDataFlashReadCommand cfg svc w.st fuel w.dst w.src with
                  | none =>
                    rw [hd] at h
                    cases h
                  | some d =>
                    rw [hd] at h
                    cases h
                    exact ⟨Or.inl rfl, rfl⟩
                · rw [if_neg h5] at h
                  split at h
                  · cases h
                  · cases h
                    exact ⟨mspCommonProcessInCommand_ret _ _ _ _ _, rfl⟩
  · intro fuel cmd reply fn st hb hd hm
    rw [mspFcProcessCommand_succ]
    by_cases h1 : (mspCommonProcessOutCommand cfg svc st cmd.cmd reply.buf).1 = true
    · rw [if_pos h1]
      exact ⟨_, rfl⟩
    · rw [if_neg h1]
      by_cases h2 : (mspProcessOutCommand cfg svc st cmd.cmd reply.buf).1 = true
      · rw [if_pos h2]
        exact ⟨_, rfl⟩
      · rw [if_neg h2]
        obtain ⟨w, hw⟩ := mspFcProcessOutCommandWithArg_isSome cfg svc
          (mspFcProcessCommand cfg svc fuel) fuel st cmd.cmd cmd.buf reply.buf fn hb
        rw [hw]
        dsimp only
        by_cases h3 : w.ret ≠ MSP_RESULT_CMD_UNKNOWN
        · rw [if_pos h3]
          exact ⟨_, rfl⟩
        · rw [if_neg h3]
          by_cases h4 : (cfg.USE_SERIAL_4WAY_BLHELI_INTERFACE && isSet4wayIf cmd.cmd) = true
          · rw [if_pos h4]
            exact ⟨_, rfl⟩
          · rw [if_neg h4]
            by_cases h5 : (cfg.USE_FLASHFS && isDataflashRead cmd.cmd) = true
            · rw [if_pos h5]
              have hH : cfg.USE_HUFFMAN = false := by
                simp only [Bool.and_eq_true] at h5
                simp only [h5.1, h5.2, Bool.true_and, Bool.and_true] at hd
                exact hd
              obtain ⟨r, hr⟩ := mspFcDataFlashReadCommand_isSome cfg svc w.st fuel w.dst w.src hH
              rw [hr]
              exact ⟨_, rfl⟩
            · rw [if_neg h5, mspCommonProcessInCommand_fault cfg svc w.st cmd.cmd w.src hm]
              exact ⟨_, rfl⟩
  · intro fuel cmd reply fn st h1 h2 hw h4 h5 h6 h7
    obtain ⟨w, hw, hu⟩ := hw
    have hr := mspFcProcessOutCommandWithArg_ret _ _ _ _ _ _ _ _ _ _ hw
    have hs : w.src = cmd.buf ∧ w.st = st := by
      rcases hr with hr | hr
      · rcases hr with hr | hr <;> rw [hu] at hr <;> cases hr
      · exact ⟨hr.2.1, hr.2.2.2.2⟩
    have hf : (mspCommonProcessInCommand cfg svc st cmd.cmd cmd.buf).fault = false := by
      simp only [mspCommonProcessInCommand, h6, mspProcessInCommand, h7]
    rw [mspFcProcessCommand_succ]
    simp only [h1, h2, hw, hu, h4, h5, hs.1, hs.2, hf, Bool.false_eq_true, if_false, ne_eq,
      not_true_eq_false]
    refine ⟨_, rfl, ?_⟩
    simp only [mspCommonProcessInCommand, h6, mspProcessInCommand, h7]

/-- A command code that no stage claims (code 100, which `msp_protocol.h` assigns
to no command) is answered with `MSP_RESULT_ERROR`. -/
theorem mspFcProcessCommand_ack_or_error_witness :
    ∃ r, mspFcProcessCommand fullBuild idleServices (0 + 1)
        (requestPacket (fullBuild.cmdOfCode 100) [1, 2] (fun _ => 0)) (replyPacket 64)
        (some none) (idleState []) = some r ∧ r.ret = MSP_RESULT_ERROR :=
  (mspFcProcessCommand_ack_or_error fullBuild idleServices).2.2 0
    (requestPacket (MspCmd.other 100) [1, 2] (fun _ => 0)) (replyPacket 64) (some none)
    (idleState []) rfl rfl ⟨_, rfl, rfl⟩ rfl rfl rfl rfl

/-- C2 fails on the code: handed an empty payload, the `MSP_SELECT_SETTING`
handler leaves the request cursor at position 1 although the payload ends at 0,
and makes the byte behind the payload (here 2) the active PID profile; handed an
empty payload, `mspFcDataFlashReadCommand` leaves the cursor at position 4. -/
theorem mspFcProcessCommand_reads_past_end :
    (mspFcProcessCommand fullBuild idleServices 1
      (requestPacket MSP_SELECT_SETTING [] (fun _ => 2)) (replyPacket 64) (some none)
      (idleState [])).map (fun r => (r.cmd.buf.ptr, r.cmd.buf.end_, r.st.pidProfileIndex))
      = some (1, 0, 2) ∧
    (mspFcProcessCommand fullBuild idleServices 1
      (requestPacket MSP_DATAFLASH_READ [] (fun _ => 0)) (replyPacket 256) (some none)
      (idleState [])).map (fun r => (r.cmd.buf.ptr, r.cmd.buf.end_)) = some (4, 0) := by
  decide

/-- C3: when `mspCommonProcessOutCommand` or `mspProcessOutCommand` claims the
command, `mspFcProcessCommand` returns `MSP_RESULT_ACK`, leaves the request
packet (hence its cursor) as it was, leaves the registration slot and the
controller state as they were, and the reply is what that stage wrote. -/
theorem mspFcProcessCommand_read_only_stage (cfg : BuildConfig) (svc : Services) (fuel : Nat)
    (cmd reply : mspPacket_t) (fn : Option mspPostProcessFnPtr) (st : FcState)
    (h : (mspCommonProcessOutCommand cfg svc st cmd.cmd reply.buf).1 = true ∨
      (mspProcessOutCommand cfg svc st cmd.cmd reply.buf).1 = true) :
    ∃ r, mspFcProcessCommand cfg svc (fuel + 1) cmd reply fn st = some r ∧
      r.ret = MSP_RESULT_ACK ∧ r.cmd = cmd ∧ r.mspPostProcessFn = fn ∧ r.st = st ∧
      r.reply.buf =
        (if (mspCommonProcessOutCommand cfg svc st cmd.cmd reply.buf).1 then
          (mspCommonProcessOutCommand cfg svc st cmd.cmd reply.buf).2
        else (mspProcessOutCommand cfg svc st cmd.cmd reply.buf).2) := by
  rw [mspFcProcessCommand_succ]
  by_cases h1 : (mspCommonProcessOutCommand cfg svc st cmd.cmd reply.buf).1 = true
  · rw [if_pos h1, if_pos h1]
    exact ⟨_, rfl, rfl, rfl, rfl, rfl, rfl⟩
  · have h2 : (mspProcessOutCommand cfg svc st cmd.cmd reply.buf).1 = true := by
      rcases h with h | h
      · exact absurd h h1
      · exact h
    rw [if_neg h1, if_neg h1, if_pos h2]
    exact ⟨_, rfl, rfl, rfl, rfl, rfl, rfl⟩

/-- C3, evaluated on the feature-mask query of the build `fullBuild`. -/
theorem mspFcProcessCommand_read_only_stage_witness :
    ∃ r, mspFcProcessCommand fullBuild idleServices (0 + 1)
        (requestPacket MSP_FEATURE_CONFIG [9] (fun _ => 0)) (replyPacket 64) (some none)
        (idleState []) = some r ∧
      r.ret = MSP_RESULT_ACK ∧ r.cmd = requestPacket MSP_FEATURE_CONFIG [9] (fun _ => 0) ∧
      r.mspPostProcessFn = some none := by
  obtain ⟨r, h1, h2, h3, h4, -, -⟩ := mspFcProcessCommand_read_only_stage fullBuild idleServices 0
    (requestPacket MSP_FEATURE_CONFIG [9] (fun _ => 0)) (replyPacket 64) (some none)
    (idleState []) (Or.inl rfl)
  exact ⟨r, h1, h2, h3, h4⟩

theorem mspFcProcessCommand_reboot (cfg : BuildConfig) (svc : Services) (fuel : Nat)
    (src : sbuf_t) (res : mspResult_e) (reply : mspPacket_t) (fn : Option mspPostProcessFnPtr)
    (st : FcState) (w : StageResult) (hret : w.ret ≠ MSP_RESULT_CMD_UNKNOWN)
    (hw : mspFcProcessOutCommandWithArg cfg svc (mspFcProcessCommand cfg svc fuel) fuel st
      MSP_REBOOT src reply.buf fn = some w) :
    mspFcProcessCommand cfg svc (fuel + 1) { buf := src, cmd := MSP_REBOOT, result := res } reply
        fn st =
      some { ret := w.ret, cmd := { buf := w.src, cmd := MSP_REBOOT, result := res },
             reply := { buf := w.dst, cmd := MSP_REBOOT, result := w.ret },
             mspPostProcessFn := w.mspPostProcessFn, st := w.st } := by
  have hc : (mspCommonProcessOutCommand cfg svc st MSP_REBOOT reply.buf).1 = false := rfl
  have ho : (mspProcessOutCommand cfg svc st MSP_REBOOT reply.buf).1 = false := rfl
  rw [mspFcProcessCommand_succ]
  simp only [hc, ho, hw, Bool.false_eq_true, if_false, if_pos hret]

theorem sbufWritten_head (start : Nat) (dst : sbuf_t) (h : start < dst.ptr) :
    (sbufWritten start dst).head? = some (dst.mem start) := by
  have hpos : 0 < dst.ptr - start := by omega
  obtain ⟨k, hk⟩ := Nat.exists_eq_succ_of_ne_zero (Nat.pos_iff_ne_zero.mp hpos)
  simp [sbufWritten, memSlice, hk, List.range_succ_eq_map]

/-- C8: a reboot request with an empty payload resolves the target to firmware
(0): the result is `MSP_RESULT_ACK`, the reply is exactly the single byte 0, and
`mspRebootFn` is registered in the slot the caller passed. -/
theorem mspFcProcessCommand_reboot_empty_payload (cfg : BuildConfig) (svc : Services)
    (fuel : Nat) (src : sbuf_t) (res : mspResult_e) (reply : mspPacket_t)
    (f0 : mspPostProcessFnPtr) (st : FcState) (hempty : sbufBytesRemaining src = 0) :
    ∃ r, mspFcProcessCommand cfg svc (fuel + 1) { buf := src, cmd := MSP_REBOOT, result := res }
        reply (some f0) st = some r ∧
      r.ret = MSP_RESULT_ACK ∧ r.st.rebootMode = MSP_REBOOT_FIRMWARE ∧
      sbufWritten reply.buf.ptr r.reply.buf = [0] ∧
      r.mspPostProcessFn = some (some PostProcessAction.mspRebootFn) := by
  have hw : mspFcProcessOutCommandWithArg cfg svc (mspFcProcessCommand cfg svc fuel) fuel st
      MSP_REBOOT src reply.buf (some f0) =
      some { ret := MSP_RESULT_ACK, src := src, dst := sbufWriteU8 reply.buf 0,
             mspPostProcessFn := some (some PostProcessAction.mspRebootFn),
             st := { st with rebootMode := MSP_REBOOT_FIRMWARE } } := by
    simp [mspFcProcessOutCommandWithArg, hempty, mspRebootReply, MSP_REBOOT_FIRMWARE,
      MSP_REBOOT_MSC, registerPostProcessFn]
  rw [mspFcProcessCommand_reboot cfg svc fuel src res reply (some f0) st _ (by simp) hw]
  refine ⟨_, rfl, rfl, rfl, ?_, rfl⟩
  exact memSlice_memWrite reply.buf.mem reply.buf.ptr [0] (by simp)

/-- C8, evaluated on the build `fullBuild`. -/
theorem mspFcProcessCommand_reboot_empty_payload_witness :
    ∃ r, mspFcProcessCommand fullBuild idleServices (0 + 1)
        { buf := sbufOfPayload [] (fun _ => 0), cmd := MSP_REBOOT, result := MSP_RESULT_ACK }
        (replyPacket 64) (some none) (idleState []) = some r ∧
      r.ret = MSP_RESULT_ACK ∧ sbufWritten (replyPacket 64).buf.ptr r.reply.buf = [0] ∧
      r.mspPostProcessFn = some (some PostProcessAction.mspRebootFn) := by
  obtain ⟨r, h1, h2, -, h4, h5⟩ := mspFcProcessCommand_reboot_empty_payload fullBuild
    idleServices 0 (sbufOfPayload [] (fun _ => 0)) MSP_RESULT_ACK (replyPacket 64) none
    (idleState []) (by decide)
  exact ⟨r, h1, h2, h4, h5⟩

/-- C9: a reboot request whose target byte is not a supported target (a value of
at least `MSP_REBOOT_COUNT`, or one of the two mass-storage targets in a build
without `USE_USB_MSC`) yields `MSP_RESULT_ERROR`, leaves the reply buffer as it
was and leaves the registration slot as it was. -/
theorem mspFcProcessCommand_reboot_unsupported (cfg : BuildConfig) (svc : Services)
    (fuel : Nat) (src : sbuf_t) (res : mspResult_e) (reply : mspPacket_t)
    (fn : Option mspPostProcessFnPtr) (st : FcState) (hne : sbufBytesRemaining src ≠ 0)
    (hbad : (sbufReadU8 src).1 ≥ MSP_REBOOT_COUNT ∨
      (cfg.USE_USB_MSC = false ∧
        ((sbufReadU8 src).1 = MSP_REBOOT_MSC ∨ (sbufReadU8 src).1 = MSP_REBOOT_MSC_UTC))) :
    ∃ r, mspFcProcessCommand cfg svc (fuel + 1) { buf := src, cmd := MSP_REBOOT, result := res }
        reply fn st = some r ∧
      r.ret = MSP_RESULT_ERROR ∧ r.reply.buf = reply.buf ∧ r.mspPostProcessFn = fn := by
  have hcond : (sbufReadU8 src).1 ≥ MSP_REBOOT_COUNT ∨
      ((!cfg.USE_USB_MSC) = true ∧
        ((sbufReadU8 src).1 = MSP_REBOOT_MSC ∨ (sbufReadU8 src).1 = MSP_REBOOT_MSC_UTC)) := by
    rcases hbad with h | ⟨h1, h2⟩
    · exact Or.inl h
    · exact Or.inr ⟨by simp [h1], h2⟩
  have hw : mspFcProcessOutCommandWithArg cfg svc (mspFcProcessCommand cfg svc fuel) fuel st
      MSP_REBOOT src reply.buf fn =
      some { ret := MSP_RESULT_ERROR, src := (sbufReadU8 src).2, dst := reply.buf,
             mspPostProcessFn := fn, st := { st with rebootMode := (sbufReadU8 src).1 } } := by
    simp only [mspFcProcessOutCommandWithArg, if_pos hne, if_pos hcond]
  rw [mspFcProcessCommand_reboot cfg svc fuel src res reply fn st _ (by simp) hw]
  exact ⟨_, rfl, rfl, rfl, rfl⟩

/-- C9, evaluated: target byte 2 (`MSP_REBOOT_MSC`) in the build without USB
mass storage. -/
theorem mspFcProcessCommand_reboot_unsupported_witness :
    ∃ r, mspFcProcessCommand buildWithoutMsc idleServices (0 + 1)
        { buf := sbufOfPayload [2] (fun _ => 0), cmd := MSP_REBOOT, result := MSP_RESULT_ACK }
        (replyPacket 64) (some none) (idleState []) = some r ∧
      r.ret = MSP_RESULT_ERROR ∧ r.reply.buf = (replyPacket 64).buf ∧
      r.mspPostProcessFn = some none :=
  mspFcProcessCommand_reboot_unsupported buildWithoutMsc idleServices 0
    (sbufOfPayload [2] (fun _ => 0)) MSP_RESULT_ACK (replyPacket 64) (some none) (idleState [])
    (by decide) (Or.inr ⟨rfl, Or.inl (by decide)⟩)

theorem sbufWriteU8_head (dst : sbuf_t) (v : Nat) :
    (sbufWriteU8 dst v).mem dst.ptr = v % 256 := by
  rw [sbufWriteU8_mem, if_pos rfl]

theorem sbufWriteU8_twice_head (dst : sbuf_t) (v w : Nat) :
    (sbufWriteU8 (sbufWriteU8 dst v) w).mem dst.ptr = v % 256 := by
  rw [sbufWriteU8_mem, if_neg (by simp [sbufWriteU8]), sbufWriteU8_head]

/-- C10 fails as stated: in a build with USB mass storage, a reboot request for
the supported target `MSP_REBOOT_MSC` (2) while the filesystem is not ready is
acknowledged with the reply bytes 2, 0 and leaves the registration slot empty. -/
theorem mspFcProcessCommand_reboot_counterexample :
    (mspFcProcessCommand fullBuild idleServices 1
      (requestPacket MSP_REBOOT [2] (fun _ => 0)) (replyPacket 64) (some none)
      (idleState [])).map
        (fun r => (decide (r.ret = MSP_RESULT_ACK), sbufWritten 0 r.reply.buf,
          decide (r.mspPostProcessFn = some none)))
      = some (true, [2, 0], true) := by
  decide

/-- C10 (amended): for every supported reboot target the reboot request yields
`MSP_RESULT_ACK` and a reply whose first byte echoes the target, and it registers
exactly one PostProcessAction, `mspRebootFn`, in the slot the caller passed;
except that for the target `MSP_REBOOT_MSC` with the filesystem not ready the
slot is left as it was. -/
theorem mspFcProcessCommand_reboot_supported (cfg : BuildConfig) (svc : Services)
    (fuel : Nat) (src : sbuf_t) (res : mspResult_e) (reply : mspPacket_t)
    (f0 : mspPostProcessFnPtr) (st : FcState) (hne : sbufBytesRemaining src ≠ 0)
    (hlt : (sbufReadU8 src).1 < MSP_REBOOT_COUNT)
    (hmsc : cfg.USE_USB_MSC = true ∨
      ((sbufReadU8 src).1 ≠ MSP_REBOOT_MSC ∧ (sbufReadU8 src).1 ≠ MSP_REBOOT_MSC_UTC)) :
    ∃ r, mspFcProcessCommand cfg svc (fuel + 1) { buf := src, cmd := MSP_REBOOT, result := res }
        reply (some f0) st = some r ∧
      r.ret = MSP_RESULT_ACK ∧
      (sbufWritten reply.buf.ptr r.reply.buf).head? = some (sbufReadU8 src).1 ∧
      r.mspPostProcessFn =
        (if cfg.USE_USB_MSC = true ∧ (sbufReadU8 src).1 = MSP_REBOOT_MSC ∧
            st.mscFilesystemReady = false then some f0
          else some (some PostProcessAction.mspRebootFn)) := by
  have hcond : ¬ ((sbufReadU8 src).1 ≥ MSP_REBOOT_COUNT ∨
      ((!cfg.USE_USB_MSC) = true ∧
        ((sbufReadU8 src).1 = MSP_REBOOT_MSC ∨ (sbufReadU8 src).1 = MSP_REBOOT_MSC_UTC))) := by
    rintro (h | ⟨h1, h2⟩)
    · omega
    · rcases hmsc with h | ⟨h3, h4⟩
      · simp [h] at h1
      · rcases h2 with h2 | h2
        · exact h3 h2
        · exact h4 h2
  have hb : (sbufReadU8 src).1 % 256 = (sbufReadU8 src).1 :=
    Nat.mod_eq_of_lt (lt_trans hlt (by decide))
  have hw : mspFcProcessOutCommandWithArg cfg svc (mspFcProcessCommand cfg svc fuel) fuel st
      MSP_REBOOT src reply.buf (some f0) =
      some (mspRebootReply cfg { st with rebootMode := (sbufReadU8 src).1 } (sbufReadU8 src).2
        reply.buf (some f0)) := by
    simp only [mspFcProcessOutCommandWithArg, if_pos hne, if_neg hcond]
  rw [mspFcProcessCommand_reboot cfg svc fuel src res reply (some f0) st _
    (by rw [mspRebootReply_ret]; simp) hw]
  refine ⟨_, rfl, mspRebootReply_ret _ _ _ _ _, ?_, ?_⟩
  · dsimp only
    unfold mspRebootReply
    dsimp only
    split_ifs <;>
      · rw [sbufWritten_head _ _ (by simp only [sbufWriteU8]; omega)]
        first
        | rw [sbufWriteU8_twice_head, hb]
        | rw [sbufWriteU8_head, hb]
  · dsimp only
    unfold mspRebootReply
    dsimp only
    by_cases h1 : cfg.USE_USB_MSC = true ∧ (sbufReadU8 src).1 = MSP_REBOOT_MSC
    · by_cases h2 : st.mscFilesystemReady = true
      · simp [h1, h2, registerPostProcessFn]
      · simp [h1, h2]
    · rw [if_neg h1, if_neg (by tauto)]
      rfl

/-- C10 (amended), evaluated: target byte 1 (`MSP_REBOOT_BOOTLOADER`). -/
theorem mspFcProcessCommand_reboot_supported_witness :
    ∃ r, mspFcProcessCommand fullBuild idleServices (0 + 1)
        { buf := sbufOfPayload [1] (fun _ => 0), cmd := MSP_REBOOT, result := MSP_RESULT_ACK }
        (replyPacket 64) (some none) (idleState []) = some r ∧
      r.ret = MSP_RESULT_ACK ∧
      (sbufWritten (replyPacket 64).buf.ptr r.reply.buf).head? = some 1 ∧
      r.mspPostProcessFn = some (some PostProcessAction.mspRebootFn) := by
  obtain ⟨r, h1, h2, h3, h4⟩ := mspFcProcessCommand_reboot_supported fullBuild idleServices 0
    (sbufOfPayload [1] (fun _ => 0)) MSP_RESULT_ACK (replyPacket 64) none (idleState [])
    (by decide) (by decide) (Or.inl rfl)
  exact ⟨r, h1, h2, h3, h4⟩

/-! ## The mass-storage reboot target -/

theorem sbufWriteU8_pair_slice (dst : sbuf_t) (a b : Nat) :
    sbufWritten dst.ptr (sbufWriteU8 (sbufWriteU8 dst a) b) = [a % 256, b % 256] := by
  have hp : (sbufWriteU8 (sbufWriteU8 dst a) b).ptr = dst.ptr + 2 := rfl
  have h2 : dst.ptr + 2 - dst.ptr = 2 := by omega
  simp only [sbufWritten, memSlice, hp, h2, sbufWriteU8_mem]
  simp [List.range_succ, sbufWriteU8]

/-- C11: in a build with USB mass storage, a reboot request for the target
`MSP_REBOOT_MSC` is acknowledged and replies with the target byte followed by a
readiness byte; when the filesystem is ready the byte is 1 and `mspRebootFn` is
registered in the slot the caller passed, when it is not ready the byte is 0 and
the slot is left as it was. -/
theorem mspFcProcessCommand_reboot_msc (cfg : BuildConfig) (svc : Services)
    (fuel : Nat) (src : sbuf_t) (res : mspResult_e) (reply : mspPacket_t)
    (f0 : mspPostProcessFnPtr) (st : FcState) (hmsc : cfg.USE_USB_MSC = true)
    (hne : sbufBytesRemaining src ≠ 0) (htarget : (sbufReadU8 src).1 = MSP_REBOOT_MSC) :
    ∃ r, mspFcProcessCommand cfg svc (fuel + 1) { buf := src, cmd := MSP_REBOOT, result := res }
        reply (some f0) st = some r ∧
      r.ret = MSP_RESULT_ACK ∧ r.reply.result = MSP_RESULT_ACK ∧
      sbufWritten reply.buf.ptr r.reply.buf =
        [MSP_REBOOT_MSC, if st.mscFilesystemReady then 1 else 0] ∧
      r.mspPostProcessFn =
        (if st.mscFilesystemReady then some (some PostProcessAction.mspRebootFn) else some f0) := by
  have hcond : ¬ ((sbufReadU8 src).1 ≥ MSP_REBOOT_COUNT ∨
      ((!cfg.USE_USB_MSC) = true ∧
        ((sbufReadU8 src).1 = MSP_REBOOT_MSC ∨ (sbufReadU8 src).1 = MSP_REBOOT_MSC_UTC))) := by
    rintro (h | ⟨h1, -⟩)
    · rw [htarget] at h
      exact absurd h (by decide)
    · simp [hmsc] at h1
  have hw : mspFcProcessOutCommandWithArg cfg svc (mspFcProcessCommand cfg svc fuel) fuel st
      MSP_REBOOT src reply.buf (some f0) =
      some (mspRebootReply cfg { st with rebootMode := (sbufReadU8 src).1 } (sbufReadU8 src).2
        reply.buf (some f0)) := by
    simp only [mspFcProcessOutCommandWithArg, if_pos hne, if_neg hcond]
  rw [mspFcProcessCommand_reboot cfg svc fuel src res reply (some f0) st _
    (by rw [mspRebootReply_ret]; simp) hw]
  have hm : cfg.USE_USB_MSC = true ∧ (sbufReadU8 src).1 = MSP_REBOOT_MSC := ⟨hmsc, htarget⟩
  refine ⟨_, rfl, mspRebootReply_ret _ _ _ _ _, mspRebootReply_ret _ _ _ _ _, ?_, ?_⟩
  · dsimp only
    unfold mspRebootReply
    dsimp only
    rw [if_pos hm]
    by_cases hr : st.mscFilesystemReady = true
    · rw [if_pos hr, if_pos hr]
      dsimp only
      rw [sbufWriteU8_pair_slice, htarget]
      rfl
    · rw [if_neg hr, if_neg hr]
      dsimp only
      rw [sbufWriteU8_pair_slice, htarget]
      rfl
  · dsimp only
    unfold mspRebootReply
    dsimp only
    rw [if_pos hm]
    by_cases hr : st.mscFilesystemReady = true
    · rw [if_pos hr, if_pos hr]
      rfl
    · rw [if_neg hr, if_neg hr]

/-- C11, evaluated on the build `fullBuild`: the filesystem is not ready, the
reply is the target byte 2 and the readiness byte 0, and the empty slot stays
empty. -/
theorem mspFcProcessCommand_reboot_msc_witness :
    ∃ r, mspFcProcessCommand fullBuild idleServices (0 + 1)
        { buf := sbufOfPayload [2] (fun _ => 0), cmd := MSP_REBOOT, result := MSP_RESULT_ACK }
        (replyPacket 64) (some none) (idleState []) = some r ∧
      r.ret = MSP_RESULT_ACK ∧
      sbufWritten (replyPacket 64).buf.ptr r.reply.buf = [2, 0] ∧
      r.mspPostProcessFn = some none := by
  obtain ⟨r, h1, h2, -, h4, h5⟩ := mspFcProcessCommand_reboot_msc fullBuild idleServices 0
    (sbufOfPayload [2] (fun _ => 0)) MSP_RESULT_ACK (replyPacket 64) none (idleState [])
    rfl (by decide) (by decide)
  exact ⟨r, h1, h2, h4, h5⟩

/-! ## Requests that reach the state-mutating stages -/

theorem mspFcProcessCommand_in (cfg : BuildConfig) (svc : Services) (fuel : Nat)
    (cmd reply : mspPacket_t) (fn : Option mspPostProcessFnPtr) (st : FcState)
    (h1 : (mspCommonProcessOutCommand cfg svc st cmd.cmd reply.buf).1 = false)
    (h2 : (mspProcessOutCommand cfg svc st cmd.cmd reply.buf).1 = false)
    (h3 : mspFcProcessOutCommandWithArg cfg svc (mspFcProcessCommand cfg svc fuel) fuel st
      cmd.cmd cmd.buf reply.buf fn =
      some { ret := MSP_RESULT_CMD_UNKNOWN, src := cmd.buf, dst := reply.buf,
             mspPostProcessFn := fn, st := st })
    (h4 : isSet4wayIf cmd.cmd = false) (h5 : isDataflashRead cmd.cmd = false)
    (h6 : isSetModeRange cmd.cmd = false) :
    mspFcProcessCommand cfg svc (fuel + 1) cmd reply fn st =
      some { ret := (mspCommonProcessInCommand cfg svc st cmd.cmd cmd.buf).ret,
             cmd := { cmd with buf := (mspCommonProcessInCommand cfg svc st cmd.cmd cmd.buf).src },
             reply := { buf := reply.buf, cmd := cmd.cmd,
                        result := (mspCommonProcessInCommand cfg svc st cmd.cmd cmd.buf).ret },
             mspPostProcessFn := fn,
             st := (mspCommonProcessInCommand cfg svc st cmd.cmd cmd.buf).st } := by
  rw [mspFcProcessCommand_succ]
  simp only [h1, h2, h3, h4, h5, mspCommonProcessInCommand_fault cfg svc st cmd.cmd cmd.buf h6,
    Bool.false_eq_true, if_false, Bool.and_false, ne_eq, not_true_eq_false]

theorem mspFcProcessCommand_select_setting (cfg : BuildConfig) (svc : Services) (fuel : Nat)
    (src : sbuf_t) (res : mspResult_e) (reply : mspPacket_t) (fn : Option mspPostProcessFnPtr)
    (st : FcState) :
    mspFcProcessCommand cfg svc (fuel + 1)
        { buf := src, cmd := MSP_SELECT_SETTING, result := res } reply fn st =
      some { ret := (mspSelectSetting cfg st src).ret,
             cmd := { buf := (mspSelectSetting cfg st src).src, cmd := MSP_SELECT_SETTING,
                      result := res },
             reply := { buf := reply.buf, cmd := MSP_SELECT_SETTING,
                        result := (mspSelectSetting cfg st src).ret },
             mspPostProcessFn := fn, st := (mspSelectSetting cfg st src).st } :=
  mspFcProcessCommand_in cfg svc fuel { buf := src, cmd := MSP_SELECT_SETTING, result := res }
    reply fn st rfl rfl rfl rfl rfl rfl

theorem mspFcProcessCommand_eeprom_write (cfg : BuildConfig) (svc : Services) (fuel : Nat)
    (src : sbuf_t) (res : mspResult_e) (reply : mspPacket_t) (fn : Option mspPostProcessFnPtr)
    (st : FcState) :
    mspFcProcessCommand cfg svc (fuel + 1)
        { buf := src, cmd := MSP_EEPROM_WRITE, result := res } reply fn st =
      some { ret := (mspEepromWrite st src).ret,
             cmd := { buf := (mspEepromWrite st src).src, cmd := MSP_EEPROM_WRITE, result := res },
             reply := { buf := reply.buf, cmd := MSP_EEPROM_WRITE,
                        result := (mspEepromWrite st src).ret },
             mspPostProcessFn := fn, st := (mspEepromWrite st src).st } :=
  mspFcProcessCommand_in cfg svc fuel { buf := src, cmd := MSP_EEPROM_WRITE, result := res }
    reply fn st rfl rfl rfl rfl rfl rfl

/-- C12: a select-active-profile request whose selector byte has the top bit set
is acknowledged and, armed or not, makes the low 7 bits of the selector the active
rate profile when that value is below `CONTROL_RATE_PROFILE_COUNT`, and 0
otherwise; the active PID profile stays as it was. -/
theorem mspFcProcessCommand_select_rate_profile (cfg : BuildConfig) (svc : Services)
    (fuel : Nat) (src : sbuf_t) (res : mspResult_e) (reply : mspPacket_t)
    (fn : Option mspPostProcessFnPtr) (st : FcState)
    (hbit : (sbufReadU8 src).1 &&& RATEPROFILE_MASK ≠ 0) :
    ∃ r, mspFcProcessCommand cfg svc (fuel + 1)
        { buf := src, cmd := MSP_SELECT_SETTING, result := res } reply fn st = some r ∧
      r.ret = MSP_RESULT_ACK ∧
      r.st.controlRateProfileIndex =
        (if (sbufReadU8 src).1 % 128 < cfg.CONTROL_RATE_PROFILE_COUNT then
          (sbufReadU8 src).1 % 128 else 0) ∧
      r.st.pidProfileIndex = st.pidProfileIndex := by
  rw [mspFcProcessCommand_select_setting]
  have hm : (sbufReadU8 src).1 &&& 127 = (sbufReadU8 src).1 % 128 :=
    Nat.and_pow_two_sub_one_eq_mod _ 7
  refine ⟨_, rfl, mspSelectSetting_ret _ _ _, ?_, ?_⟩
  · simp only [mspSelectSetting, if_neg hbit, changeControlRateProfile, hm]
    split_ifs <;> first | rfl | omega
  · simp only [mspSelectSetting, if_neg hbit, changeControlRateProfile]

/-- C12, evaluated with a rate-profile count of 6: selector `0x85` selects the
rate profile 5 on an armed controller, selector `0x88` selects the rate
profile 0. -/
theorem mspFcProcessCommand_select_rate_profile_witness :
    fullBuild.CONTROL_RATE_PROFILE_COUNT = 6 ∧
    (∃ r, mspFcProcessCommand fullBuild idleServices (0 + 1)
        { buf := sbufOfPayload [0x85] (fun _ => 0), cmd := MSP_SELECT_SETTING,
          result := MSP_RESULT_ACK }
        (replyPacket 64) (some none) { idleState [] with armed := true } = some r ∧
      r.ret = MSP_RESULT_ACK ∧ r.st.controlRateProfileIndex = 5) ∧
    (∃ r, mspFcProcessCommand fullBuild idleServices (0 + 1)
        { buf := sbufOfPayload [0x88] (fun _ => 0), cmd := MSP_SELECT_SETTING,
          result := MSP_RESULT_ACK }
        (replyPacket 64) (some none) (idleState []) = some r ∧
      r.ret = MSP_RESULT_ACK ∧ r.st.controlRateProfileIndex = 0) := by
  refine ⟨rfl, ?_, ?_⟩
  · obtain ⟨r, h1, h2, h3, -⟩ := mspFcProcessCommand_select_rate_profile fullBuild idleServices 0
      (sbufOfPayload [0x85] (fun _ => 0)) MSP_RESULT_ACK (replyPacket 64) (some none)
      { idleState [] with armed := true } (by decide)
    exact ⟨r, h1, h2, h3.trans (by decide)⟩
  · obtain ⟨r, h1, h2, h3, -⟩ := mspFcProcessCommand_select_rate_profile fullBuild idleServices 0
      (sbufOfPayload [0x88] (fun _ => 0)) MSP_RESULT_ACK (replyPacket 64) (some none)
      (idleState []) (by decide)
    exact ⟨r, h1, h2, h3.trans (by decide)⟩

/-- C13: a select-active-profile request whose selector byte has the top bit
clear is acknowledged; when the controller is not armed the active PID profile
becomes the selector value, or 0 when the value is at least `PID_PROFILE_COUNT`;
when it is armed the controller state is left as it was; in neither case is the
active rate profile changed. -/
theorem mspFcProcessCommand_select_pid_profile (cfg : BuildConfig) (svc : Services)
    (fuel : Nat) (src : sbuf_t) (res : mspResult_e) (reply : mspPacket_t)
    (fn : Option mspPostProcessFnPtr) (st : FcState)
    (hbit : (sbufReadU8 src).1 &&& RATEPROFILE_MASK = 0) :
    ∃ r, mspFcProcessCommand cfg svc (fuel + 1)
        { buf := src, cmd := MSP_SELECT_SETTING, result := res } reply fn st = some r ∧
      r.ret = MSP_RESULT_ACK ∧
      (st.armed = false → r.st.pidProfileIndex =
        (if (sbufReadU8 src).1 ≥ cfg.PID_PROFILE_COUNT then 0 else (sbufReadU8 src).1)) ∧
      (st.armed = true → r.st = st) ∧
      r.st.controlRateProfileIndex = st.controlRateProfileIndex := by
  rw [mspFcProcessCommand_select_setting]
  refine ⟨_, rfl, mspSelectSetting_ret _ _ _, ?_, ?_, ?_⟩
  · intro ha
    simp only [mspSelectSetting, if_pos hbit, ha, Bool.not_false, if_true, changePidProfile]
  · intro ha
    simp only [mspSelectSetting, if_pos hbit, ha, Bool.not_true, Bool.false_eq_true, if_false]
  · simp only [mspSelectSetting, if_pos hbit, changePidProfile]
    split_ifs <;> rfl

/-- C13, evaluated with a PID-profile count of 3: selector 2 selects the PID
profile 2 on a disarmed controller, selector 7 selects the PID profile 0. -/
theorem mspFcProcessCommand_select_pid_profile_witness :
    fullBuild.PID_PROFILE_COUNT = 3 ∧
    (∃ r, mspFcProcessCommand fullBuild idleServices (0 + 1)
        { buf := sbufOfPayload [2] (fun _ => 0), cmd := MSP_SELECT_SETTING,
          result := MSP_RESULT_ACK }
        (replyPacket 64) (some none) (idleState []) = some r ∧
      r.ret = MSP_RESULT_ACK ∧ r.st.pidProfileIndex = 2) ∧
    (∃ r, mspFcProcessCommand fullBuild idleServices (0 + 1)
        { buf := sbufOfPayload [7] (fun _ => 0), cmd := MSP_SELECT_SETTING,
          result := MSP_RESULT_ACK }
        (replyPacket 64) (some none) (idleState []) = some r ∧
      r.ret = MSP_RESULT_ACK ∧ r.st.pidProfileIndex = 0) := by
  refine ⟨rfl, ?_, ?_⟩
  · obtain ⟨r, h1, h2, h3, -, -⟩ := mspFcProcessCommand_select_pid_profile fullBuild idleServices
      0 (sbufOfPayload [2] (fun _ => 0)) MSP_RESULT_ACK (replyPacket 64) (some none)
      (idleState []) (by decide)
    exact ⟨r, h1, h2, (h3 rfl).trans (by decide)⟩
  · obtain ⟨r, h1, h2, h3, -, -⟩ := mspFcProcessCommand_select_pid_profile fullBuild idleServices
      0 (sbufOfPayload [7] (fun _ => 0)) MSP_RESULT_ACK (replyPacket 64) (some none)
      (idleState []) (by decide)
    exact ⟨r, h1, h2, (h3 rfl).trans (by decide)⟩

/-- C14: `MSP_EEPROM_WRITE` on an armed controller returns `MSP_RESULT_ERROR` and
leaves the controller state as it was: no call into the configuration store is
made (neither `writeEEPROM`, nor `writeEEPROMWithFeatures`, nor `readEEPROM`) and
the feature-mask shadow is unchanged. -/
theorem mspFcProcessCommand_eeprom_write_armed (cfg : BuildConfig) (svc : Services)
    (fuel : Nat) (src : sbuf_t) (res : mspResult_e) (reply : mspPacket_t)
    (fn : Option mspPostProcessFnPtr) (st : FcState) (harmed : st.armed = true) :
    ∃ r, mspFcProcessCommand cfg svc (fuel + 1)
        { buf := src, cmd := MSP_EEPROM_WRITE, result := res } reply fn st = some r ∧
      r.ret = MSP_RESULT_ERROR ∧ r.reply.result = MSP_RESULT_ERROR ∧ r.st = st ∧
      r.st.eeprom = st.eeprom ∧
      r.st.featureMaskIsCopied = st.featureMaskIsCopied ∧
      r.st.featureMaskCopy = st.featureMaskCopy ∧ r.st.featureMask = st.featureMask := by
  rw [mspFcProcessCommand_eeprom_write]
  have h : mspEepromWrite st src = { ret := MSP_RESULT_ERROR, src := src, st := st } := by
    simp only [mspEepromWrite, harmed, if_true]
  rw [h]
  exact ⟨_, rfl, rfl, rfl, rfl, rfl, rfl, rfl, rfl⟩

/-- C14, evaluated on an armed controller with a staged feature mask. -/
theorem mspFcProcessCommand_eeprom_write_armed_witness :
    ∃ r, mspFcProcessCommand fullBuild idleServices (0 + 1)
        { buf := sbufOfPayload [] (fun _ => 0), cmd := MSP_EEPROM_WRITE,
          result := MSP_RESULT_ACK }
        (replyPacket 64) (some none)
        { idleState [] with armed := true, featureMaskIsCopied := true, featureMaskCopy := 5 }
        = some r ∧
      r.ret = MSP_RESULT_ERROR ∧ r.st.eeprom = [] ∧ r.st.featureMaskCopy = 5 := by
  obtain ⟨r, h1, h2, -, -, h5, -, h7, -⟩ := mspFcProcessCommand_eeprom_write_armed fullBuild
    idleServices 0 (sbufOfPayload [] (fun _ => 0)) MSP_RESULT_ACK (replyPacket 64) (some none)
    { idleState [] with armed := true, featureMaskIsCopied := true, featureMaskCopy := 5 } rfl
  exact ⟨r, h1, h2, h5, h7⟩

/-! ## The arming gate -/

theorem mspCommonProcessInCommand_reset_conf_armed (cfg : BuildConfig) (svc : Services)
    (st : FcState) (src : sbuf_t) (harmed : st.armed = true) :
    mspCommonProcessInCommand cfg svc st MSP_RESET_CONF src =
      { ret := MSP_RESULT_ACK, src := src, st := st } := by
  have hc : mspCommonProcessInCommandCase cfg svc st MSP_RESET_CONF src = none := rfl
  have hp : mspProcessInCommandCase cfg svc st MSP_RESET_CONF src =
      (if !st.armed then
        some { ret := MSP_RESULT_ACK, src := src,
               st := storeValues svc MSP_RESET_CONF []
                 { st with eeprom := st.eeprom ++ [EepromOp.resetEEPROM, EepromOp.readEEPROM] } }
      else some { ret := MSP_RESULT_ACK, src := src, st := st }) := rfl
  unfold mspCommonProcessInCommand
  rw [hc]
  dsimp only
  unfold mspProcessInCommand
  rw [hp, harmed]
  rfl

theorem mspCommonProcessInCommand_acc_calibration_armed (cfg : BuildConfig) (svc : Services)
    (st : FcState) (src : sbuf_t) (harmed : st.armed = true) :
    mspCommonProcessInCommand cfg svc st MSP_ACC_CALIBRATION src =
      { ret := if cfg.USE_ACC then MSP_RESULT_ACK else MSP_RESULT_ERROR, src := src, st := st } := by
  have hc : mspCommonProcessInCommandCase cfg svc st MSP_ACC_CALIBRATION src = none := rfl
  have hp : mspProcessInCommandCase cfg svc st MSP_ACC_CALIBRATION src =
      (if cfg.USE_ACC then
        some { ret := MSP_RESULT_ACK, src := src,
               st := if !st.armed then storeValues svc MSP_ACC_CALIBRATION [] st else st }
      else none) := rfl
  unfold mspCommonProcessInCommand
  rw [hc]
  dsimp only
  unfold mspProcessInCommand
  rw [hp, harmed]
  cases cfg.USE_ACC <;> rfl

theorem mspCommonProcessInCommand_mag_calibration_armed (cfg : BuildConfig) (svc : Services)
    (st : FcState) (src : sbuf_t) (harmed : st.armed = true) :
    mspCommonProcessInCommand cfg svc st MSP_MAG_CALIBRATION src =
      { ret := MSP_RESULT_ACK, src := src, st := st } := by
  have hc : mspCommonProcessInCommandCase cfg svc st MSP_MAG_CALIBRATION src = none := rfl
  have hp : mspProcessInCommandCase cfg svc st MSP_MAG_CALIBRATION src =
      some { ret := MSP_RESULT_ACK, src := src,
             st := if !st.armed then storeValues svc MSP_MAG_CALIBRATION [] st else st } := rfl
  unfold mspCommonProcessInCommand
  rw [hc]
  dsimp only
  unfold mspProcessInCommand
  rw [hp, harmed]
  rfl

theorem mspCommonProcessInCommand_camera_control_armed (cfg : BuildConfig) (svc : Services)
    (st : FcState) (src : sbuf_t) (harmed : st.armed = true) :
    mspCommonProcessInCommand cfg svc st MSP_CAMERA_CONTROL src =
      { ret := MSP_RESULT_ERROR, src := src, st := st } := by
  have hc : mspCommonProcessInCommandCase cfg svc st MSP_CAMERA_CONTROL src = none := rfl
  have hp : mspProcessInCommandCase cfg svc st MSP_CAMERA_CONTROL src =
      (if cfg.USE_CAMERA_CONTROL then
        (if st.armed then some { ret := MSP_RESULT_ERROR, src := src, st := st }
         else
          some { ret := MSP_RESULT_ACK, src := (sbufReadU8 src).2,
                 st := storeValues svc MSP_CAMERA_CONTROL [(sbufReadU8 src).1] st })
      else none) := rfl
  unfold mspCommonProcessInCommand
  rw [hc]
  dsimp only
  unfold mspProcessInCommand
  rw [hp, harmed]
  cases cfg.USE_CAMERA_CONTROL <;> rfl

theorem mspSelectSetting_armed (cfg : BuildConfig) (st : FcState) (src : sbuf_t)
    (harmed : st.armed = true) (hbit : (sbufReadU8 src).1 &&& RATEPROFILE_MASK = 0) :
    mspSelectSetting cfg st src =
      { ret := MSP_RESULT_ACK, src := (sbufReadU8 src).2, st := st } := by
  simp only [mspSelectSetting, if_pos hbit, harmed, Bool.not_true, Bool.false_eq_true, if_false]

theorem mspEepromWrite_armed (st : FcState) (src : sbuf_t) (harmed : st.armed = true) :
    mspEepromWrite st src = { ret := MSP_RESULT_ERROR, src := src, st := st } := by
  simp only [mspEepromWrite, harmed, if_true]

/-- What the entry point answers to one of the commands behind the arming gate
when the controller is armed: the result code and the controller state. -/
theorem mspFcProcessCommand_gated_armed (cfg : BuildConfig) (svc : Services) (fuel : Nat)
    (src : sbuf_t) (res : mspResult_e) (reply : mspPacket_t) (fn : Option mspPostProcessFnPtr)
    (st : FcState) (harmed : st.armed = true) :
    (∃ r, mspFcProcessCommand cfg svc (fuel + 1)
        { buf := src, cmd := MSP_RESET_CONF, result := res } reply fn st = some r ∧
      r.ret = MSP_RESULT_ACK ∧ r.st = st) ∧
    (∃ r, mspFcProcessCommand cfg svc (fuel + 1)
        { buf := src, cmd := MSP_ACC_CALIBRATION, result := res } reply fn st = some r ∧
      r.ret = (if cfg.USE_ACC then MSP_RESULT_ACK else MSP_RESULT_ERROR) ∧ r.st = st) ∧
    (∃ r, mspFcProcessCommand cfg svc (fuel + 1)
        { buf := src, cmd := MSP_MAG_CALIBRATION, result := res } reply fn st = some r ∧
      r.ret = MSP_RESULT_ACK ∧ r.st = st) ∧
    (∃ r, mspFcProcessCommand cfg svc (fuel + 1)
        { buf := src, cmd := MSP_EEPROM_WRITE, result := res } reply fn st = some r ∧
      r.ret = MSP_RESULT_ERROR ∧ r.st = st) ∧
    (∃ r, mspFcProcessCommand cfg svc (fuel + 1)
        { buf := src, cmd := MSP_CAMERA_CONTROL, result := res } reply fn st = some r ∧
      r.ret = MSP_RESULT_ERROR ∧ r.st = st) ∧
    ((sbufReadU8 src).1 &&& RATEPROFILE_MASK = 0 →
      ∃ r, mspFcProcessCommand cfg svc (fuel + 1)
        { buf := src, cmd := MSP_SELECT_SETTING, result := res } reply fn st = some r ∧
      r.ret = MSP_RESULT_ACK ∧ r.st = st) := by
  refine ⟨?_, ?_, ?_, ?_, ?_, ?_⟩
  · rw [mspFcProcessCommand_in cfg svc fuel { buf := src, cmd := MSP_RESET_CONF, result := res }
      reply fn st rfl rfl rfl rfl rfl rfl]
    dsimp only
    rw [mspCommonProcessInCommand_reset_conf_armed cfg svc st src harmed]
    exact ⟨_, rfl, rfl, rfl⟩
  · rw [mspFcProcessCommand_in cfg svc fuel
      { buf := src, cmd := MSP_ACC_CALIBRATION, result := res } reply fn st rfl rfl rfl rfl rfl rfl]
    dsimp only
    rw [mspCommonProcessInCommand_acc_calibration_armed cfg svc st src harmed]
    exact ⟨_, rfl, rfl, rfl⟩
  · rw [mspFcProcessCommand_in cfg svc fuel
      { buf := src, cmd := MSP_MAG_CALIBRATION, result := res } reply fn st rfl rfl rfl rfl rfl rfl]
    dsimp only
    rw [mspCommonProcessInCommand_mag_calibration_armed cfg svc st src harmed]
    exact ⟨_, rfl, rfl, rfl⟩
  · rw [mspFcProcessCommand_eeprom_write, mspEepromWrite_armed st src harmed]
    exact ⟨_, rfl, rfl, rfl⟩
  · rw [mspFcProcessCommand_in cfg svc fuel
      { buf := src, cmd := MSP_CAMERA_CONTROL, result := res } reply fn st rfl rfl rfl rfl rfl rfl]
    dsimp only
    rw [mspCommonProcessInCommand_camera_control_armed cfg svc st src harmed]
    exact ⟨_, rfl, rfl, rfl⟩
  · intro hbit
    rw [mspFcProcessCommand_select_setting, mspSelectSetting_armed cfg st src harmed hbit]
    exact ⟨_, rfl, rfl, rfl⟩

/-- C15 fails as stated: on an armed controller the reset-configuration command
`MSP_RESET_CONF` is answered with `MSP_RESULT_ACK`, not with `MSP_RESULT_ERROR`. -/
theorem mspFcProcessCommand_arming_gate_counterexample :
    (mspFcProcessCommand fullBuild idleServices 1
      (requestPacket MSP_RESET_CONF [] (fun _ => 0)) (replyPacket 64) (some none)
      { idleState [] with armed := true }).map
        (fun r => (decide (r.ret = MSP_RESULT_ACK), decide (r.ret = MSP_RESULT_ERROR)))
      = some (true, false) := by
  decide

/-- C15 (amended): on an armed controller, `MSP_EEPROM_WRITE` and
`MSP_CAMERA_CONTROL` return `MSP_RESULT_ERROR`, while `MSP_RESET_CONF`,
`MSP_MAG_CALIBRATION`, `MSP_ACC_CALIBRATION` (in a build with `USE_ACC`) and the
selection of a PID profile by `MSP_SELECT_SETTING` return `MSP_RESULT_ACK`. -/
theorem mspFcProcessCommand_arming_gate_result (cfg : BuildConfig) (svc : Services)
    (fuel : Nat) (src : sbuf_t) (res : mspResult_e) (reply : mspPacket_t)
    (fn : Option mspPostProcessFnPtr) (st : FcState) (harmed : st.armed = true) :
    (∃ r, mspFcProcessCommand cfg svc (fuel + 1)
        { buf := src, cmd := MSP_EEPROM_WRITE, result := res } reply fn st = some r ∧
      r.ret = MSP_RESULT_ERROR) ∧
    (∃ r, mspFcProcessCommand cfg svc (fuel + 1)
        { buf := src, cmd := MSP_CAMERA_CONTROL, result := res } reply fn st = some r ∧
      r.ret = MSP_RESULT_ERROR) ∧
    (∃ r, mspFcProcessCommand cfg svc (fuel + 1)
        { buf := src, cmd := MSP_RESET_CONF, result := res } reply fn st = some r ∧
      r.ret = MSP_RESULT_ACK) ∧
    (∃ r, mspFcProcessCommand cfg svc (fuel + 1)
        { buf := src, cmd := MSP_MAG_CALIBRATION, result := res } reply fn st = some r ∧
      r.ret = MSP_RESULT_ACK) ∧
    (cfg.USE_ACC = true →
      ∃ r, mspFcProcessCommand cfg svc (fuel + 1)
        { buf := src, cmd := MSP_ACC_CALIBRATION, result := res } reply fn st = some r ∧
      r.ret = MSP_RESULT_ACK) ∧
    ((sbufReadU8 src).1 &&& RATEPROFILE_MASK = 0 →
      ∃ r, mspFcProcessCommand cfg svc (fuel + 1)
        { buf := src, cmd := MSP_SELECT_SETTING, result := res } reply fn st = some r ∧
      r.ret = MSP_RESULT_ACK) := by
  obtain ⟨⟨r1, h1, e1, -⟩, ⟨r2, h2, e2, -⟩, ⟨r3, h3, e3, -⟩, ⟨r4, h4, e4, -⟩, ⟨r5, h5, e5, -⟩, h6⟩ :=
    mspFcProcessCommand_gated_armed cfg svc fuel src res reply fn st harmed
  refine ⟨⟨r4, h4, e4⟩, ⟨r5, h5, e5⟩, ⟨r1, h1, e1⟩, ⟨r3, h3, e3⟩, ?_, ?_⟩
  · intro hacc
    exact ⟨r2, h2, by rw [e2, if_pos hacc]⟩
  · intro hbit
    obtain ⟨r6, h6, e6, -⟩ := h6 hbit
    exact ⟨r6, h6, e6⟩

/-- C15 (amended), evaluated on an armed controller: the accelerometer
calibration request is acknowledged. -/
theorem mspFcProcessCommand_arming_gate_result_witness :
    ∃ r, mspFcProcessCommand fullBuild idleServices (0 + 1)
        { buf := sbufOfPayload [] (fun _ => 0), cmd := MSP_ACC_CALIBRATION,
          result := MSP_RESULT_ACK }
        (replyPacket 64) (some none) { idleState [] with armed := true } = some r ∧
      r.ret = MSP_RESULT_ACK :=
  (mspFcProcessCommand_arming_gate_result fullBuild idleServices 0
    (sbufOfPayload [] (fun _ => 0)) MSP_RESULT_ACK (replyPacket 64) (some none)
    { idleState [] with armed := true } rfl).2.2.2.2.1 rfl

/-- C16: on an armed controller none of the commands behind the arming gate
(`MSP_RESET_CONF`, `MSP_ACC_CALIBRATION`, `MSP_MAG_CALIBRATION`,
`MSP_EEPROM_WRITE`, `MSP_CAMERA_CONTROL`, and `MSP_SELECT_SETTING` with a PID
profile selector) performs its action: the controller state after the request,
which holds the configuration store, the calibration state and the active PID
profile, is the state before it. -/
theorem mspFcProcessCommand_arming_gate_frame (cfg : BuildConfig) (svc : Services)
    (fuel : Nat) (src : sbuf_t) (res : mspResult_e) (reply : mspPacket_t)
    (fn : Option mspPostProcessFnPtr) (st : FcState) (harmed : st.armed = true)
    (cmdMSP : MspCmd)
    (hcmd : cmdMSP = MSP_RESET_CONF ∨ cmdMSP = MSP_ACC_CALIBRATION ∨
      cmdMSP = MSP_MAG_CALIBRATION ∨ cmdMSP = MSP_EEPROM_WRITE ∨ cmdMSP = MSP_CAMERA_CONTROL ∨
      (cmdMSP = MSP_SELECT_SETTING ∧ (sbufReadU8 src).1 &&& RATEPROFILE_MASK = 0)) :
    ∃ r, mspFcProcessCommand cfg svc (fuel + 1)
        { buf := src, cmd := cmdMSP, result := res } reply fn st = some r ∧
      r.st = st ∧ r.st.eeprom = st.eeprom ∧ r.st.sys = st.sys ∧
      r.st.pidProfileIndex = st.pidProfileIndex := by
  obtain ⟨⟨r1, h1, -, e1⟩, ⟨r2, h2, -, e2⟩, ⟨r3, h3, -, e3⟩, ⟨r4, h4, -, e4⟩, ⟨r5, h5, -, e5⟩, h6⟩ :=
    mspFcProcessCommand_gated_armed cfg svc fuel src res reply fn st harmed
  rcases hcmd with rfl | rfl | rfl | rfl | rfl | ⟨rfl, hbit⟩
  · exact ⟨r1, h1, e1, by rw [e1], by rw [e1], by rw [e1]⟩
  · exact ⟨r2, h2, e2, by rw [e2], by rw [e2], by rw [e2]⟩
  · exact ⟨r3, h3, e3, by rw [e3], by rw [e3], by rw [e3]⟩
  · exact ⟨r4, h4, e4, by rw [e4], by rw [e4], by rw [e4]⟩
  · exact ⟨r5, h5, e5, by rw [e5], by rw [e5], by rw [e5]⟩
  · obtain ⟨r6, h6, -, e6⟩ := h6 hbit
    exact ⟨r6, h6, e6, by rw [e6], by rw [e6], by rw [e6]⟩

/-- C16, evaluated on an armed controller whose active PID profile is 1: the
request to select the PID profile 2 leaves it at 1. -/
theorem mspFcProcessCommand_arming_gate_frame_witness :
    ∃ r, mspFcProcessCommand fullBuild idleServices (0 + 1)
        { buf := sbufOfPayload [2] (fun _ => 0), cmd := MSP_SELECT_SETTING,
          result := MSP_RESULT_ACK }
        (replyPacket 64) (some none) { idleState [] with armed := true, pidProfileIndex := 1 }
        = some r ∧
      r.st.pidProfileIndex = 1 := by
  obtain ⟨r, h1, -, -, -, h5⟩ := mspFcProcessCommand_arming_gate_frame fullBuild idleServices 0
    (sbufOfPayload [2] (fun _ => 0)) MSP_RESULT_ACK (replyPacket 64) (some none)
    { idleState [] with armed := true, pidProfileIndex := 1 } rfl MSP_SELECT_SETTING
    (Or.inr (Or.inr (Or.inr (Or.inr (Or.inr ⟨rfl, by decide⟩)))))
  exact ⟨r, h1, h5⟩

/-! ## The feature-mask shadow -/

theorem sbufReadU32_le32 (v : Nat) (behind : Nat → Nat) (hv : v < 4294967296) :
    (sbufReadU32 (sbufOfPayload (le32 v) behind)).1 = v := by
  simp [sbufReadU32, sbufReadU8, sbufOfPayload, le32]
  omega

theorem mspFcProcessCommand_feature_config (cfg : BuildConfig) (svc : Services) (fuel : Nat)
    (src : sbuf_t) (res : mspResult_e) (reply : mspPacket_t) (fn : Option mspPostProcessFnPtr)
    (st : FcState) :
    ∃ r, mspFcProcessCommand cfg svc (fuel + 1)
        { buf := src, cmd := MSP_FEATURE_CONFIG, result := res } reply fn st = some r ∧
      r.ret = MSP_RESULT_ACK ∧ r.st = st ∧
      sbufWritten reply.buf.ptr r.reply.buf = le32 (getFeatureMask st) := by
  have hc : mspCommonProcessOutCommand cfg svc st MSP_FEATURE_CONFIG reply.buf =
      (true, sbufWriteU32 reply.buf (getFeatureMask st)) := rfl
  rw [mspFcProcessCommand_succ]
  simp only [hc, if_true]
  refine ⟨_, rfl, rfl, rfl, ?_⟩
  exact (sbufWriteU32_slice reply.buf (getFeatureMask st)).2.2

theorem mspFcProcessCommand_set_feature_config (cfg : BuildConfig) (svc : Services)
    (fuel : Nat) (src : sbuf_t) (res : mspResult_e) (reply : mspPacket_t)
    (fn : Option mspPostProcessFnPtr) (st : FcState) :
    mspFcProcessCommand cfg svc (fuel + 1)
        { buf := src, cmd := MSP_SET_FEATURE_CONFIG, result := res } reply fn st =
      some { ret := MSP_RESULT_ACK,
             cmd := { buf := (sbufReadU32 src).2, cmd := MSP_SET_FEATURE_CONFIG, result := res },
             reply := { buf := reply.buf, cmd := MSP_SET_FEATURE_CONFIG,
                        result := MSP_RESULT_ACK },
             mspPostProcessFn := fn,
             st := { st with featureMaskCopy := (sbufReadU32 src).1,
                             featureMaskIsCopied := true } } :=
  mspFcProcessCommand_in cfg svc fuel
    { buf := src, cmd := MSP_SET_FEATURE_CONFIG, result := res } reply fn st rfl rfl rfl rfl rfl rfl

/-- C17: the feature-mask query `MSP_FEATURE_CONFIG` replies with one
little-endian u32: the live feature mask as long as no mask has been staged; a
stage request `MSP_SET_FEATURE_CONFIG` carrying the value `v` is acknowledged,
leaves the live mask as it was, and from then on the query replies with `v`
whatever the live mask is. -/
theorem mspFcProcessCommand_feature_mask_shadow (cfg : BuildConfig) (svc : Services)
    (fuel : Nat) (src : sbuf_t) (res : mspResult_e) (reply : mspPacket_t)
    (fn : Option mspPostProcessFnPtr) (st : FcState) :
    (st.featureMaskIsCopied = false →
      ∃ r, mspFcProcessCommand cfg svc (fuel + 1)
          { buf := src, cmd := MSP_FEATURE_CONFIG, result := res } reply fn st = some r ∧
        r.ret = MSP_RESULT_ACK ∧
        sbufWritten reply.buf.ptr r.reply.buf = le32 st.featureMask) ∧
    (∀ v behind, v < 4294967296 →
      ∃ r1, mspFcProcessCommand cfg svc (fuel + 1)
          { buf := sbufOfPayload (le32 v) behind, cmd := MSP_SET_FEATURE_CONFIG, result := res }
          reply fn st = some r1 ∧
        r1.ret = MSP_RESULT_ACK ∧ r1.st.featureMask = st.featureMask ∧
        ∀ live, ∃ r2, mspFcProcessCommand cfg svc (fuel + 1)
            { buf := src, cmd := MSP_FEATURE_CONFIG, result := res } reply fn
            { r1.st with featureMask := live } = some r2 ∧
          r2.ret = MSP_RESULT_ACK ∧
          sbufWritten reply.buf.ptr r2.reply.buf = le32 v) := by
  constructor
  · intro hno
    obtain ⟨r, h1, h2, -, h4⟩ := mspFcProcessCommand_feature_config cfg svc fuel src res reply fn st
    refine ⟨r, h1, h2, ?_⟩
    rw [h4]
    simp only [getFeatureMask, hno, Bool.false_eq_true, if_false]
  · intro v behind hv
    rw [mspFcProcessCommand_set_feature_config]
    refine ⟨_, rfl, rfl, rfl, ?_⟩
    intro live
    obtain ⟨r, h1, h2, -, h4⟩ := mspFcProcessCommand_feature_config cfg svc fuel src res reply fn
      { st with featureMaskCopy := (sbufReadU32 (sbufOfPayload (le32 v) behind)).1,
                featureMaskIsCopied := true, featureMask := live }
    refine ⟨r, h1, h2, ?_⟩
    rw [h4]
    simp only [getFeatureMask, if_true, sbufReadU32_le32 v behind hv]

/-- C17, evaluated: with the live mask 7 and nothing staged the query replies
7, 0, 0, 0; after the value 300 has been staged it replies 44, 1, 0, 0 also when
the live mask is 9. -/
theorem mspFcProcessCommand_feature_mask_shadow_witness :
    (∃ r, mspFcProcessCommand fullBuild idleServices (0 + 1)
        { buf := sbufOfPayload [] (fun _ => 0), cmd := MSP_FEATURE_CONFIG,
          result := MSP_RESULT_ACK }
        (replyPacket 64) (some none) { idleState [] with featureMask := 7 } = some r ∧
      sbufWritten (replyPacket 64).buf.ptr r.reply.buf = [7, 0, 0, 0]) ∧
    (∃ r1, mspFcProcessCommand fullBuild idleServices (0 + 1)
        { buf := sbufOfPayload (le32 300) (fun _ => 0), cmd := MSP_SET_FEATURE_CONFIG,
          result := MSP_RESULT_ACK }
        (replyPacket 64) (some none) { idleState [] with featureMask := 7 } = some r1 ∧
      r1.st.featureMask = 7 ∧
      ∃ r2, mspFcProcessCommand fullBuild idleServices (0 + 1)
          { buf := sbufOfPayload [] (fun _ => 0), cmd := MSP_FEATURE_CONFIG,
            result := MSP_RESULT_ACK }
          (replyPacket 64) (some none) { r1.st with featureMask := 9 } = some r2 ∧
        sbufWritten (replyPacket 64).buf.ptr r2.reply.buf = [44, 1, 0, 0]) := by
  have h := mspFcProcessCommand_feature_mask_shadow fullBuild idleServices 0
    (sbufOfPayload [] (fun _ => 0)) MSP_RESULT_ACK (replyPacket 64) (some none)
    { idleState [] with featureMask := 7 }
  constructor
  · obtain ⟨r, h1, -, h3⟩ := h.1 rfl
    exact ⟨r, h1, h3⟩
  · obtain ⟨r1, h1, -, h3, h4⟩ := h.2 300 (fun _ => 0) (by decide)
    obtain ⟨r2, h5, -, h7⟩ := h4 9
    exact ⟨r1, h1, h3, r2, h5, h7⟩

/-- C18 fails as stated: after the value 5 has been staged, a commit request
`MSP_EEPROM_WRITE` on a disarmed controller is acknowledged and leaves the
feature-mask shadow present, so that the query function still answers 5 once the
live mask has become 9. -/
theorem mspFcProcessCommand_commit_counterexample :
    (mspFcProcessCommand fullBuild idleServices 1
      (requestPacket MSP_EEPROM_WRITE [] (fun _ => 0)) (replyPacket 64) (some none)
      { idleState [] with featureMaskIsCopied := true, featureMaskCopy := 5 }).map
        (fun r => (decide (r.ret = MSP_RESULT_ACK), r.st.featureMaskIsCopied,
          getFeatureMask { r.st with featureMask := 9 }))
      = some (true, true, 5) := by
  decide

/-- C18 (amended): a commit request `MSP_EEPROM_WRITE` on a disarmed controller
is acknowledged and does not clear the feature-mask shadow: whether a mask is
staged and which one are as before the commit, so a later feature-mask query
still reports the staged mask when there is one, whatever the live mask, and the
live mask when there is none. -/
theorem mspFcProcessCommand_commit_keeps_shadow (cfg : BuildConfig) (svc : Services)
    (fuel : Nat) (src : sbuf_t) (res : mspResult_e) (reply : mspPacket_t)
    (fn : Option mspPostProcessFnPtr) (st : FcState) (hdisarmed : st.armed = false) :
    ∃ r, mspFcProcessCommand cfg svc (fuel + 1)
        { buf := src, cmd := MSP_EEPROM_WRITE, result := res } reply fn st = some r ∧
      r.ret = MSP_RESULT_ACK ∧
      r.st.featureMaskIsCopied = st.featureMaskIsCopied ∧
      r.st.featureMaskCopy = st.featureMaskCopy ∧
      ∀ live, getFeatureMask { r.st with featureMask := live } =
        (if st.featureMaskIsCopied then st.featureMaskCopy else live) := by
  rw [mspFcProcessCommand_eeprom_write]
  by_cases hs : st.featureMaskIsCopied = true
  · have h : mspEepromWrite st src =
        { ret := MSP_RESULT_ACK, src := src,
          st := { st with
            eeprom := st.eeprom ++ [EepromOp.writeEEPROMWithFeatures st.featureMaskCopy] ++
              [EepromOp.readEEPROM],
            featureMask := st.featureMaskCopy } } := by
      simp only [mspEepromWrite, hdisarmed, hs, Bool.false_eq_true, if_false, if_true]
    rw [h]
    refine ⟨_, rfl, rfl, rfl, rfl, ?_⟩
    intro live
    simp only [getFeatureMask, hs, if_true]
  · have hs' : st.featureMaskIsCopied = false := by simpa using hs
    have h : mspEepromWrite st src =
        { ret := MSP_RESULT_ACK, src := src,
          st := { st with
            eeprom := st.eeprom ++ [EepromOp.writeEEPROM] ++ [EepromOp.readEEPROM] } } := by
      simp only [mspEepromWrite, hdisarmed, hs', Bool.false_eq_true, if_false]
    rw [h]
    refine ⟨_, rfl, rfl, rfl, rfl, ?_⟩
    intro live
    simp only [getFeatureMask, hs', Bool.false_eq_true, if_false]

/-- C18 (amended), evaluated on a disarmed controller with the staged mask 5. -/
theorem mspFcProcessCommand_commit_keeps_shadow_witness :
    ∃ r, mspFcProcessCommand fullBuild idleServices (0 + 1)
        { buf := sbufOfPayload [] (fun _ => 0), cmd := MSP_EEPROM_WRITE,
          result := MSP_RESULT_ACK }
        (replyPacket 64) (some none)
        { idleState [] with featureMaskIsCopied := true, featureMaskCopy := 5 } = some r ∧
      r.ret = MSP_RESULT_ACK ∧ r.st.featureMaskIsCopied = true ∧ r.st.featureMaskCopy = 5 := by
  obtain ⟨r, h1, h2, h3, h4, -⟩ := mspFcProcessCommand_commit_keeps_shadow fullBuild idleServices
    0 (sbufOfPayload [] (fun _ => 0)) MSP_RESULT_ACK (replyPacket 64) (some none)
    { idleState [] with featureMaskIsCopied := true, featureMaskCopy := 5 } rfl
  exact ⟨r, h1, h2, h3, h4⟩

/-- C19: a commit request `MSP_EEPROM_WRITE` on a disarmed controller returns
`MSP_RESULT_ACK` and calls into the configuration store, in this order,
`writeEEPROMWithFeatures` with the staged mask when a mask is staged, or
`writeEEPROM` when none is, and then `readEEPROM`. -/
theorem mspFcProcessCommand_commit (cfg : BuildConfig) (svc : Services)
    (fuel : Nat) (src : sbuf_t) (res : mspResult_e) (reply : mspPacket_t)
    (fn : Option mspPostProcessFnPtr) (st : FcState) (hdisarmed : st.armed = false) :
    ∃ r, mspFcProcessCommand cfg svc (fuel + 1)
        { buf := src, cmd := MSP_EEPROM_WRITE, result := res } reply fn st = some r ∧
      r.ret = MSP_RESULT_ACK ∧ r.reply.result = MSP_RESULT_ACK ∧
      r.st.eeprom = st.eeprom ++
        [if st.featureMaskIsCopied then EepromOp.writeEEPROMWithFeatures st.featureMaskCopy
          else EepromOp.writeEEPROM,
         EepromOp.readEEPROM] := by
  rw [mspFcProcessCommand_eeprom_write]
  by_cases hs : st.featureMaskIsCopied = true
  · refine ⟨_, rfl, ?_, ?_, ?_⟩ <;>
      simp [mspEepromWrite, hdisarmed, hs]
  · have hs' : st.featureMaskIsCopied = false := by simpa using hs
    refine ⟨_, rfl, ?_, ?_, ?_⟩ <;>
      simp [mspEepromWrite, hdisarmed, hs']

/-- C19, evaluated: with the mask 5 staged the store sees
`writeEEPROMWithFeatures 5` and then `readEEPROM`. -/
theorem mspFcProcessCommand_commit_witness :
    ∃ r, mspFcProcessCommand fullBuild idleServices (0 + 1)
        { buf := sbufOfPayload [] (fun _ => 0), cmd := MSP_EEPROM_WRITE,
          result := MSP_RESULT_ACK }
        (replyPacket 64) (some none)
        { idleState [] with featureMaskIsCopied := true, featureMaskCopy := 5 } = some r ∧
      r.ret = MSP_RESULT_ACK ∧
      r.st.eeprom = [EepromOp.writeEEPROMWithFeatures 5, EepromOp.readEEPROM] := by
  obtain ⟨r, h1, h2, -, h4⟩ := mspFcProcessCommand_commit fullBuild idleServices
    0 (sbufOfPayload [] (fun _ => 0)) MSP_RESULT_ACK (replyPacket 64) (some none)
    { idleState [] with featureMaskIsCopied := true, featureMaskCopy := 5 } rfl
  exact ⟨r, h1, h2, h4⟩

/-! ## Board information -/

theorem mspCommonProcessInCommand_set_board_info (cfg : BuildConfig) (svc : Services)
    (st : FcState) (src : sbuf_t) (hinfo : cfg.USE_BOARD_INFO = true) :
    mspCommonProcessInCommand cfg svc st MSP_SET_BOARD_INFO src =
      mspSetBoardInfo cfg svc st src := by
  have hc : mspCommonProcessInCommandCase cfg svc st MSP_SET_BOARD_INFO src = none := rfl
  have hp : mspProcessInCommandCase cfg svc st MSP_SET_BOARD_INFO src =
      (if cfg.USE_BOARD_INFO then some (mspSetBoardInfo cfg svc st src) else none) := rfl
  unfold mspCommonProcessInCommand
  rw [hc]
  dsimp only
  unfold mspProcessInCommand
  rw [hp, hinfo]
  rfl

/-- C29: in a build with `USE_BOARD_INFO`, `MSP_SET_BOARD_INFO` invoked when
`boardInformationIsSet()` holds returns `MSP_RESULT_ERROR`, leaves the request
cursor where it was and leaves the controller state, which holds the stored
board name and manufacturer id, as it was. -/
theorem mspFcProcessCommand_set_board_info_already_set (cfg : BuildConfig) (svc : Services)
    (fuel : Nat) (src : sbuf_t) (res : mspResult_e) (reply : mspPacket_t)
    (fn : Option mspPostProcessFnPtr) (st : FcState) (hinfo : cfg.USE_BOARD_INFO = true)
    (hset : svc.accepts MSP_SET_BOARD_INFO [] st = false) :
    ∃ r, mspFcProcessCommand cfg svc (fuel + 1)
        { buf := src, cmd := MSP_SET_BOARD_INFO, result := res } reply fn st = some r ∧
      r.ret = MSP_RESULT_ERROR ∧ r.reply.result = MSP_RESULT_ERROR ∧
      r.cmd.buf = src ∧ r.st = st ∧ r.reply.buf = reply.buf := by
  rw [mspFcProcessCommand_in cfg svc fuel
    { buf := src, cmd := MSP_SET_BOARD_INFO, result := res } reply fn st rfl rfl rfl rfl rfl rfl]
  dsimp only
  rw [mspCommonProcessInCommand_set_board_info cfg svc st src hinfo]
  have h : mspSetBoardInfo cfg svc st src = { ret := MSP_RESULT_ERROR, src := src, st := st } := by
    simp only [mspSetBoardInfo, hset, Bool.false_eq_true, if_false]
  rw [h]
  exact ⟨_, rfl, rfl, rfl, rfl, rfl, rfl⟩

/-- C29, evaluated on the build `fullBuild` with board information already
set: the payload of six bytes is left unread. -/
theorem mspFcProcessCommand_set_board_info_already_set_witness :
    ∃ r, mspFcProcessCommand fullBuild refusingServices (0 + 1)
        { buf := sbufOfPayload [1, 65, 4, 66, 67, 68] (fun _ => 0), cmd := MSP_SET_BOARD_INFO,
          result := MSP_RESULT_ACK }
        (replyPacket 64) (some none) (idleState []) = some r ∧
      r.ret = MSP_RESULT_ERROR ∧ r.cmd.buf.ptr = 0 ∧ r.st = idleState [] := by
  obtain ⟨r, h1, h2, -, h4, h5, -⟩ := mspFcProcessCommand_set_board_info_already_set fullBuild
    refusingServices 0 (sbufOfPayload [1, 65, 4, 66, 67, 68] (fun _ => 0)) MSP_RESULT_ACK
    (replyPacket 64) (some none) (idleState []) rfl rfl
  exact ⟨r, h1, h2, by rw [h4]; rfl, h5⟩

/-! ## The compressed dataflash reply -/

theorem u16_natCast (a b : Nat) : u16 ((a : Int) + b) = (a + b) % 65536 := by
  unfold u16
  omega

theorem headerWrite_slice (d : sbuf_t) (x c t : Nat) :
    (sbufWriteU16 (sbufWriteU8 (sbufWriteU16 d x) c) t).ptr = d.ptr + 5 ∧
    (sbufWriteU16 (sbufWriteU8 (sbufWriteU16 d x) c) t).end_ = d.end_ ∧
    memSlice (sbufWriteU16 (sbufWriteU8 (sbufWriteU16 d x) c) t).mem d.ptr (d.ptr + 5) =
      le16 x ++ [c % 256] ++ le16 t ∧
    ∀ a, a < d.ptr ∨ d.ptr + 5 ≤ a →
      (sbufWriteU16 (sbufWriteU8 (sbufWriteU16 d x) c) t).mem a = d.mem a := by
  refine ⟨rfl, rfl, ?_, ?_⟩
  · have h5 : d.ptr + 5 - d.ptr = 5 := by omega
    simp only [memSlice, h5, sbufWriteU16, sbufWriteU8_mem, le16]
    simp [List.range_succ, sbufWriteU8]
    split_ifs <;> first | rfl | omega
  · intro a ha
    simp only [sbufWriteU16, sbufWriteU8_mem]
    simp only [sbufWriteU8]
    split_ifs <;> first | rfl | omega

theorem huffmanReadLoop_trace (svc : Services) (st : FcState) (address F : Nat) :
    ∀ (fuel : Nat) (state : huffmanState_t) (mem : Nat → Nat) (total : Nat)
      (r : huffmanState_t × (Nat → Nat) × Nat),
      huffmanReadLoop svc st address F fuel state mem total = some r → total < 65536 →
      r.2.2 = (total + ((huffmanAcceptedChunks svc st address F fuel state mem total).map
        List.length).sum) % 65536 ∧
      ∀ c ∈ huffmanAcceptedChunks svc st address F fuel state mem total, c.length ≤ 256 := by
  intro fuel
  induction fuel with
  | zero => intro state mem total r h; cases h
  | succ fuel ih =>
    intro state mem total r h ht
    unfold huffmanReadLoop at h
    unfold huffmanAcceptedChunks
    by_cases hg : state.bytesWritten < state.outBufLen ∧ u32 ((address : Int) + total) < F
    · rw [if_pos hg] at h
      rw [if_pos hg]
      simp only [] at h ⊢
      by_cases hs : (svc.huffmanEncodeBufStreaming state mem
          (flashfsReadAbs st (u32 ((address : Int) + total))
            (min 256 (u32 ((F : Int) - address - total))))).1 = -1
      · rw [if_pos hs] at h
        rw [if_pos hs]
        cases h
        simp [Nat.mod_eq_of_lt ht]
      · rw [if_neg hs] at h
        rw [if_neg hs]
        obtain ⟨h1, h2⟩ := ih _ _ _ r h (u16_lt _)
        constructor
        · rw [h1, u16_natCast]
          simp only [List.map_cons, List.sum_cons]
          omega
        · intro c hc
          rcases List.mem_cons.mp hc with rfl | hc
          · exact le_trans (flashfsReadAbs_length_le _ _ _) (min_le_left _ _)
          · exact h2 c hc
    · rw [if_neg hg] at h
      rw [if_neg hg]
      cases h
      simp [Nat.mod_eq_of_lt ht]

theorem huffmanReadLoop_mem (svc : Services) (st : FcState) (address F : Nat)
    (hpres : ∀ state mem input a, a < state.outByte →
      (svc.huffmanEncodeBufStreaming state mem input).2.2 a = mem a)
    (hmono : ∀ state mem input,
      state.outByte ≤ (svc.huffmanEncodeBufStreaming state mem input).2.1.outByte) :
    ∀ (fuel : Nat) (state : huffmanState_t) (mem : Nat → Nat) (total : Nat)
      (r : huffmanState_t × (Nat → Nat) × Nat),
      huffmanReadLoop svc st address F fuel state mem total = some r →
      ∀ a, a < state.outByte → r.2.1 a = mem a := by
  intro fuel
  induction fuel with
  | zero => intro state mem total r h; cases h
  | succ fuel ih =>
    intro state mem total r h a ha
    unfold huffmanReadLoop at h
    by_cases hg : state.bytesWritten < state.outBufLen ∧ u32 ((address : Int) + total) < F
    · rw [if_pos hg] at h
      simp only [] at h
      by_cases hs : (svc.huffmanEncodeBufStreaming state mem
          (flashfsReadAbs st (u32 ((address : Int) + total))
            (min 256 (u32 ((F : Int) - address - total))))).1 = -1
      · rw [if_pos hs] at h
        cases h
        exact hpres _ _ _ _ ha
      · rw [if_neg hs] at h
        rw [ih _ _ _ r h a (lt_of_lt_of_le ha (hmono _ _ _))]
        exact hpres _ _ _ _ ha
    · rw [if_neg hg] at h
      cases h
      rfl

theorem nibbleEncode_outBufLen (input : List Nat) : ∀ (s : huffmanState_t) (m : Nat → Nat),
    (nibbleEncode input s m).2.1.outBufLen = s.outBufLen := by
  induction input with
  | nil => intro s m; rfl
  | cons b rest ih =>
    intro s m
    unfold nibbleEncode
    split_ifs
    · rfl
    · rw [ih]
    · rw [ih]

theorem nibbleEncode_outByte (input : List Nat) : ∀ (s : huffmanState_t) (m : Nat → Nat),
    s.outByte ≤ (nibbleEncode input s m).2.1.outByte := by
  induction input with
  | nil => intro s m; exact le_refl _
  | cons b rest ih =>
    intro s m
    unfold nibbleEncode
    split_ifs
    · exact le_refl _
    · exact ih { s with outBit := 8 } _
    · exact le_trans (Nat.le_succ _) (ih
        { s with outBit := 128, outByte := s.outByte + 1, bytesWritten := s.bytesWritten + 1 } _)

theorem nibbleEncode_mem (input : List Nat) : ∀ (s : huffmanState_t) (m : Nat → Nat) (a : Nat),
    a < s.outByte → (nibbleEncode input s m).2.2 a = m a := by
  induction input with
  | nil => intro s m a _; rfl
  | cons b rest ih =>
    intro s m a ha
    unfold nibbleEncode
    split_ifs
    · rfl
    · rw [ih { s with outBit := 8 } _ a ha]
      simp only [arraySet]
      rw [if_neg (by omega)]
    · rw [ih
        { s with outBit := 128, outByte := s.outByte + 1, bytesWritten := s.bytesWritten + 1 }
        _ a (Nat.lt_succ_of_lt ha)]
      simp only [arraySet]
      rw [if_neg (by omega)]

/-- The accounting of `nibbleEncode`: an accepted input of `n` bytes adds `n`
half bytes. -/
theorem nibbleEncode_count (input : List Nat) : ∀ (s : huffmanState_t) (m : Nat → Nat),
    s.bytesWritten ≤ (nibbleEncode input s m).2.1.bytesWritten ∧
    ((nibbleEncode input s m).1 ≠ -1 →
      2 * (nibbleEncode input s m).2.1.bytesWritten +
        (if (nibbleEncode input s m).2.1.outBit = 128 then 0 else 1) =
      2 * s.bytesWritten + (if s.outBit = 128 then 0 else 1) + input.length) := by
  induction input with
  | nil => intro s m; exact ⟨le_refl _, fun _ => rfl⟩
  | cons b rest ih =>
    intro s m
    unfold nibbleEncode
    by_cases h1 : s.bytesWritten ≥ s.outBufLen
    · rw [if_pos h1]
      exact ⟨le_refl _, fun h => absurd rfl h⟩
    · rw [if_neg h1]
      by_cases h2 : s.outBit = 128
      · rw [if_pos h2]
        obtain ⟨e1, e2⟩ := ih { s with outBit := 8 } (arraySet m s.outByte (b % 16 * 16))
        refine ⟨e1, fun h => ?_⟩
        have := e2 h
        simp only [List.length_cons, Nat.reduceEqDiff, if_false] at this ⊢
        rw [if_pos h2]
        omega
      · rw [if_neg h2]
        obtain ⟨e1, e2⟩ := ih
          { s with outBit := 128, outByte := s.outByte + 1, bytesWritten := s.bytesWritten + 1 }
          (arraySet m s.outByte (m s.outByte + b % 16))
        refine ⟨le_trans (Nat.le_succ _) e1, fun h => ?_⟩
        have := e2 h
        simp only [List.length_cons, if_true] at this ⊢
        rw [if_neg h2]
        omega

/-- The chunk the loop of the compressed path reads at `bytesReadTotal = t`, in a
store below 4 GiB - 64 KiB: 256 bytes, or what is left up to the end of the
store. -/
theorem flashfsReadAbs_chunk_length (st : FcState) (a t : Nat)
    (hflash : st.flash.length + 65536 ≤ 4294967296) (ht : t < 65536)
    (h : a + t < flashfsGetSize st) :
    (flashfsReadAbs st (u32 ((a : Int) + t))
      (min 256 (u32 ((flashfsGetSize st : Int) - a - t)))).length =
      min 256 (flashfsGetSize st - a - t) := by
  have hF : flashfsGetSize st = st.flash.length := by
    unfold flashfsGetSize
    omega
  have h1 : u32 ((a : Int) + t) = a + t := by
    unfold u32
    omega
  have h2 : u32 ((flashfsGetSize st : Int) - a - t) = flashfsGetSize st - a - t := by
    unfold u32
    omega
  rw [h1, h2]
  simp only [flashfsReadAbs, List.length_map, List.length_take, List.length_drop]
  omega

/-- The loop of the compressed path returns when the fuel exceeds twice the
output-region length by two, for a read that starts inside a store below 4 GiB -
64 KiB and a coder that keeps its output-region length, never counts backwards
and counts at least one more byte for every chunk of 256 bytes it accepts. -/
theorem huffmanReadLoop_returns_of_full (svc : Services) (st : FcState) (address L : Nat)
    (hflash : st.flash.length + 65536 ≤ 4294967296) (haddr : address < flashfsGetSize st)
    (hlen : ∀ state mem input,
      (svc.huffmanEncodeBufStreaming state mem input).2.1.outBufLen = state.outBufLen)
    (hbw : ∀ state mem input,
      state.bytesWritten ≤ (svc.huffmanEncodeBufStreaming state mem input).2.1.bytesWritten)
    (hfull : ∀ state mem input, input.length = 256 →
      (svc.huffmanEncodeBufStreaming state mem input).1 ≠ -1 →
      state.bytesWritten < (svc.huffmanEncodeBufStreaming state mem input).2.1.bytesWritten) :
    ∀ (fuel : Nat) (state : huffmanState_t) (mem : Nat → Nat) (total : Nat),
      state.outBufLen = L → total < 65536 →
      2 * (L - state.bytesWritten) +
        (if address + total + 256 ≤ flashfsGetSize st then 0 else 1) + 1 ≤ fuel →
      ∃ r, huffmanReadLoop svc st address (flashfsGetSize st) fuel state mem total = some r := by
  have hF : flashfsGetSize st = st.flash.length := by
    unfold flashfsGetSize
    omega
  intro fuel
  induction fuel with
  | zero => intro state mem total _ _ h; omega
  | succ fuel ih =>
    intro state mem total hL ht hfuel
    unfold huffmanReadLoop
    by_cases hg : state.bytesWritten < state.outBufLen ∧
        u32 ((address : Int) + total) < flashfsGetSize st
    · rw [if_pos hg]
      have hpos : address + total < flashfsGetSize st := by
        have := hg.2
        unfold u32 at this
        omega
      have hcl := flashfsReadAbs_chunk_length st address total hflash ht hpos
      simp only []
      by_cases hs : (svc.huffmanEncodeBufStreaming state mem
          (flashfsReadAbs st (u32 ((address : Int) + total))
            (min 256 (u32 ((flashfsGetSize st : Int) - address - total))))).1 = -1
      · rw [if_pos hs]
        exact ⟨_, rfl⟩
      · rw [if_neg hs]
        have hl1 := hlen state mem (flashfsReadAbs st (u32 ((address : Int) + total))
            (min 256 (u32 ((flashfsGetSize st : Int) - address - total))))
        have hb1 := hbw state mem (flashfsReadAbs st (u32 ((address : Int) + total))
            (min 256 (u32 ((flashfsGetSize st : Int) - address - total))))
        have hlt := hg.1
        rw [hL] at hlt
        by_cases hc : address + total + 256 ≤ flashfsGetSize st
        · have hc256 : (flashfsReadAbs st (u32 ((address : Int) + total))
              (min 256 (u32 ((flashfsGetSize st : Int) - address - total)))).length = 256 := by
            rw [hcl]
            omega
          have hf1 := hfull state mem _ hc256 hs
          rw [if_pos hc] at hfuel
          apply ih _ _ _ (by rw [hl1, hL]) (u16_lt _)
          split_ifs <;> omega
        · rw [if_neg hc] at hfuel
          have hclen : (flashfsReadAbs st (u32 ((address : Int) + total))
              (min 256 (u32 ((flashfsGetSize st : Int) - address - total)))).length =
              flashfsGetSize st - address - total := by
            rw [hcl]
            omega
          rw [u16_natCast, hclen]
          by_cases hw : total + (flashfsGetSize st - address - total) < 65536
          · rw [Nat.mod_eq_of_lt hw]
            obtain ⟨f, rfl⟩ : ∃ f, fuel = f + 1 := ⟨fuel - 1, by omega⟩
            unfold huffmanReadLoop
            rw [if_neg]
            · exact ⟨_, rfl⟩
            · intro hcon
              have := hcon.2
              unfold u32 at this
              omega
          · apply ih _ _ _ (by rw [hl1, hL]) (Nat.mod_lt _ (by decide))
            have : address + (total + (flashfsGetSize st - address - total)) % 65536 + 256 ≤
                flashfsGetSize st := by omega
            rw [if_pos this]
            omega
    · rw [if_neg hg]
      exact ⟨_, rfl⟩

/-- C30: a modern-format dataflash read with compression allowed, in a build
with the entropy coder, replies with the little-endian u32 address, a
little-endian u16 equal to `HUFFMAN_INFO_SIZE` plus the number of bytes the coder
emitted (a trailing partially filled byte counted as one), the marker `HUFFMAN`,
a little-endian u16 equal to the total length of the chunks the coder accepted
(each of at most 256 bytes, a chunk reported as overflow not counted), and then
the emitted bytes; and the read returns when the fuel exceeds twice the
output-region length by two. The coder is a parameter: it writes only from its
output position on, never moves that position back, keeps its output-region
length, never counts backwards, and counts at least one more byte for every
chunk of 256 bytes it accepts (as every coder does that emits at least one bit
for a byte). The address is a `uint32_t` and the store is below 4 GiB - 64 KiB. -/
theorem serializeDataflashReadReply_compressed (cfg : BuildConfig) (svc : Services)
    (st : FcState) (dst : sbuf_t) (address size fuel : Nat)
    (hH : cfg.USE_HUFFMAN = true) (hinfo : cfg.HUFFMAN_INFO_SIZE = 2)
    (hpres : ∀ state mem input a, a < state.outByte →
      (svc.huffmanEncodeBufStreaming state mem input).2.2 a = mem a)
    (hmono : ∀ state mem input,
      state.outByte ≤ (svc.huffmanEncodeBufStreaming state mem input).2.1.outByte)
    (hlen : ∀ state mem input,
      (svc.huffmanEncodeBufStreaming state mem input).2.1.outBufLen = state.outBufLen)
    (hbw : ∀ state mem input,
      state.bytesWritten ≤ (svc.huffmanEncodeBufStreaming state mem input).2.1.bytesWritten)
    (hfull : ∀ state mem input, input.length = 256 →
      (svc.huffmanEncodeBufStreaming state mem input).1 ≠ -1 →
      state.bytesWritten < (svc.huffmanEncodeBufStreaming state mem input).2.1.bytesWritten)
    (hflash : st.flash.length + 65536 ≤ 4294967296) (haddr : address < 4294967296)
    (hfuel : 2 * dataflashReadLen cfg st dst address size + 2 ≤ fuel) :
    ∃ (state : huffmanState_t) (m : Nat → Nat) (total : Nat) (d : sbuf_t),
      huffmanReadLoop svc st address (flashfsGetSize st) fuel
        { bytesWritten := 0, outByte := dst.ptr + 9,
          outBufLen := dataflashReadLen cfg st dst address size, outBit := 128 }
        (memWrite (sbufWriteU32 dst address).mem (dst.ptr + 9) [0]) 0 = some (state, m, total) ∧
      serializeDataflashReadReply cfg svc st fuel dst address size false true = some d ∧
      sbufWritten dst.ptr d =
        le32 address ++
        le16 (cfg.HUFFMAN_INFO_SIZE +
          (if state.outBit ≠ 128 then state.bytesWritten + 1 else state.bytesWritten)) ++
        [HUFFMAN] ++ le16 total ++
        memSlice m (dst.ptr + 9) (dst.ptr + 9 +
          (if state.outBit ≠ 128 then state.bytesWritten + 1 else state.bytesWritten)) ∧
      total = ((huffmanAcceptedChunks svc st address (flashfsGetSize st) fuel
        { bytesWritten := 0, outByte := dst.ptr + 9,
          outBufLen := dataflashReadLen cfg st dst address size, outBit := 128 }
        (memWrite (sbufWriteU32 dst address).mem (dst.ptr + 9) [0]) 0).map List.length).sum
          % 65536 ∧
      ∀ c ∈ huffmanAcceptedChunks svc st address (flashfsGetSize st) fuel
        { bytesWritten := 0, outByte := dst.ptr + 9,
          outBufLen := dataflashReadLen cfg st dst address size, outBit := 128 }
        (memWrite (sbufWriteU32 dst address).mem (dst.ptr + 9) [0]) 0, c.length ≤ 256 := by
  obtain ⟨r, hr⟩ : ∃ r, huffmanReadLoop svc st address (flashfsGetSize st) fuel
      { bytesWritten := 0, outByte := dst.ptr + 9,
        outBufLen := dataflashReadLen cfg st dst address size, outBit := 128 }
      (memWrite (sbufWriteU32 dst address).mem (dst.ptr + 9) [0]) 0 = some r := by
    by_cases ha : address < flashfsGetSize st
    · apply huffmanReadLoop_returns_of_full svc st address
        (dataflashReadLen cfg st dst address size) hflash ha hlen hbw hfull fuel _ _ 0 rfl
        (by decide)
      simp only [Nat.sub_zero]
      split_ifs <;> omega
    · obtain ⟨f, rfl⟩ : ∃ f, fuel = f + 1 := ⟨fuel - 1, by omega⟩
      unfold huffmanReadLoop
      rw [if_neg]
      · exact ⟨_, rfl⟩
      · intro hcon
        have := hcon.2
        unfold u32 at this
        omega
  obtain ⟨htot, hchunks⟩ := huffmanReadLoop_trace svc st address (flashfsGetSize st) fuel _ _ _ r hr
    (by decide)
  have hmem := huffmanReadLoop_mem svc st address (flashfsGetSize st) hpres hmono fuel _ _ _ r hr
  obtain ⟨state, m, total⟩ := r
  have hm : ¬ (HUFFMAN = NO_COMPRESSION) := by decide
  have e2 : (sbufWriteU32 dst address).ptr = dst.ptr + 4 := rfl
  have e9 : dst.ptr + 4 + 2 + 1 + 2 = dst.ptr + 9 := by omega
  have hser : serializeDataflashReadReply cfg svc st fuel dst address size false true =
      some (sbufAdvance (sbufWriteU16 (sbufWriteU8 (sbufWriteU16
        { sbufWriteU32 dst address with mem := m }
        ((2 + (if state.outBit ≠ 128 then state.bytesWritten + 1 else state.bytesWritten))
          % 65536)) HUFFMAN) total)
        (if state.outBit ≠ 128 then state.bytesWritten + 1 else state.bytesWritten)) := by
    simp only [serializeDataflashReadReply, hH, if_true, Bool.not_true, Bool.or_false,
      Bool.false_eq_true, if_false, hm, sbufPtr, e2, hinfo, e9, hr]
  refine ⟨state, m, total, _, hr, hser, ?_, by simpa using htot, hchunks⟩
  rw [hinfo]
  generalize (if state.outBit ≠ 128 then state.bytesWritten + 1 else state.bytesWritten) = bw
  have hDp : ({ sbufWriteU32 dst address with mem := m } : sbuf_t).ptr = dst.ptr + 4 := rfl
  have hDm : ({ sbufWriteU32 dst address with mem := m } : sbuf_t).mem = m := rfl
  generalize ({ sbufWriteU32 dst address with mem := m } : sbuf_t) = D at hDp hDm ⊢
  obtain ⟨hp, -, hs, hrest⟩ := headerWrite_slice D ((2 + bw) % 65536) HUFFMAN total
  rw [hDp] at hp hs hrest
  rw [hDm] at hrest
  simp only [sbufWritten, sbufAdvance, hp]
  have e14 : dst.ptr + 4 + 5 + bw = dst.ptr + 9 + bw := by omega
  rw [e14, memSlice_append _ (show dst.ptr ≤ dst.ptr + 4 by omega) (by omega),
    memSlice_append _ (show dst.ptr + 4 ≤ dst.ptr + 9 by omega) (by omega)]
  have s1 : memSlice (sbufWriteU16 (sbufWriteU8 (sbufWriteU16 D
      ((2 + bw) % 65536)) HUFFMAN) total).mem dst.ptr (dst.ptr + 4) = le32 address := by
    rw [← (sbufWriteU32_slice dst address).2.2]
    apply memSlice_congr
    intro x _ hx
    rw [hrest x (Or.inl hx)]
    have := hmem x (show x < dst.ptr + 9 by omega)
    simp only [] at this
    rw [this, memWrite_of_not_mem (Or.inl (by omega))]
  have s2 : memSlice (sbufWriteU16 (sbufWriteU8 (sbufWriteU16 D
      ((2 + bw) % 65536)) HUFFMAN) total).mem (dst.ptr + 4) (dst.ptr + 9) =
      le16 (2 + bw) ++ [HUFFMAN] ++ le16 total := by
    have e : dst.ptr + 4 + 5 = dst.ptr + 9 := by omega
    rw [e] at hs
    rw [hs]
    simp only [le16, HUFFMAN]
    have h1 : (2 + bw) % 65536 % 256 = (2 + bw) % 256 := by omega
    have h2 : (2 + bw) % 65536 / 256 % 256 = (2 + bw) / 256 % 256 := by omega
    rw [h1, h2]
  have s3 : memSlice (sbufWriteU16 (sbufWriteU8 (sbufWriteU16 D
      ((2 + bw) % 65536)) HUFFMAN) total).mem (dst.ptr + 9) (dst.ptr + 9 + bw) =
      memSlice m (dst.ptr + 9) (dst.ptr + 9 + bw) := by
    apply memSlice_congr
    intro x hx _
    exact hrest x (Or.inr (by omega))
  rw [s1, s2, s3]
  simp only [List.append_assoc]


set_option maxRecDepth 1000000 in
/-- C30, evaluated on the build `fullBuild` with the coder `nibbleEncode`, which
emits half a byte for a byte: a compressed read of 200 bytes at address 900 from
a store of 1000 bytes into a reply buffer with 300 bytes of room. -/
theorem serializeDataflashReadReply_compressed_witness :
    ∃ (state : huffmanState_t) (m : Nat → Nat) (total : Nat) (d : sbuf_t),
      serializeDataflashReadReply fullBuild nibbleServices (idleState flash1000) 402
        (sbufOfCapacity 300) 900 200 false true = some d ∧
      sbufWritten (sbufOfCapacity 300).ptr d =
        le32 900 ++
        le16 (fullBuild.HUFFMAN_INFO_SIZE +
          (if state.outBit ≠ 128 then state.bytesWritten + 1 else state.bytesWritten)) ++
        [HUFFMAN] ++ le16 total ++
        memSlice m ((sbufOfCapacity 300).ptr + 9) ((sbufOfCapacity 300).ptr + 9 +
          (if state.outBit ≠ 128 then state.bytesWritten + 1 else state.bytesWritten)) := by
  obtain ⟨state, m, total, d, -, h2, h3, -, -⟩ := serializeDataflashReadReply_compressed
    fullBuild nibbleServices (idleState flash1000) (sbufOfCapacity 300) 900 200 402 rfl rfl
    (fun state mem input a ha => nibbleEncode_mem input state mem a ha)
    (fun state mem input => nibbleEncode_outByte input state mem)
    (fun state mem input => nibbleEncode_outBufLen input state mem)
    (fun state mem input => (nibbleEncode_count input state mem).1)
    (fun state mem input h256 hs => by
      have h := (nibbleEncode_count input state mem).2 hs
      rw [h256] at h
      show state.bytesWritten < (nibbleEncode input state mem).2.1.bytesWritten
      split_ifs at h <;> omega)
    (by decide) (by decide) (by decide)
  exact ⟨state, m, total, d, h2, h3⟩

set_option maxRecDepth 1000000 in
/-- The compressed read of the example, evaluated: the 100 bytes up to the end of
the store are accepted as one chunk and emitted as 50 bytes; the reply is the
address, the length field 52, the marker, the total 100 and 50 bytes. -/
theorem serializeDataflashReadReply_compressed_example :
    (serializeDataflashReadReply fullBuild nibbleServices (idleState flash1000) 402
        (sbufOfCapacity 300) 900 200 false true).map
      (fun d => ((sbufWritten 0 d).take 9, (sbufWritten 0 d).length)) =
      some (le32 900 ++ le16 52 ++ [HUFFMAN] ++ le16 100, 59) := by
  decide

/-! ## Serial port configuration -/

theorem serialConfigLoop_records (svc : Services) (n : Nat) (src : sbuf_t) (st : FcState) :
    (serialConfigLoop svc n src st).st =
      applySerialRecords svc (serialConfigRecords n src) st ∧
    (serialConfigLoop svc n src st).ret =
      (if serialRecordsFound svc (serialConfigRecords n src) st then MSP_RESULT_ACK
       else MSP_RESULT_ERROR) := by
  induction n generalizing src st with
  | zero => exact ⟨rfl, rfl⟩
  | succ n ih =>
    have hrec : serialConfigRecords (n + 1) src =
        ((sbufReadU8 src).1 :: (readBytes 6 (sbufReadU8 src).2).1) ::
          serialConfigRecords n (readBytes 6 (sbufReadU8 src).2).2 := rfl
    rw [hrec]
    unfold serialConfigLoop
    simp only [applySerialRecords, serialRecordsFound, List.headD_cons]
    by_cases ha : svc.accepts MSP_SET_CF_SERIAL_CONFIG [(sbufReadU8 src).1] st = true
    · simp only [ha, if_true]
      exact ih _ _
    · have ha' : svc.accepts MSP_SET_CF_SERIAL_CONFIG [(sbufReadU8 src).1] st = false := by
        simpa using ha
      simp only [ha', Bool.false_eq_true, if_false, and_self]

theorem mspCommonProcessInCommand_set_cf_serial_config (cfg : BuildConfig) (svc : Services)
    (st : FcState) (src : sbuf_t) :
    mspCommonProcessInCommand cfg svc st MSP_SET_CF_SERIAL_CONFIG src =
      (if u32 (sbufBytesRemaining src) % 7 ≠ 0 then
        { ret := MSP_RESULT_ERROR, src := src, st := st }
       else serialConfigLoop svc (u8 (u32 (sbufBytesRemaining src) / 7)) src st) := by
  have hc : mspCommonProcessInCommandCase cfg svc st MSP_SET_CF_SERIAL_CONFIG src = none := rfl
  have hp : mspProcessInCommandCase cfg svc st MSP_SET_CF_SERIAL_CONFIG src =
      (if u32 (sbufBytesRemaining src) % 7 ≠ 0 then
        some { ret := MSP_RESULT_ERROR, src := src, st := st }
       else some (serialConfigLoop svc (u8 (u32 (sbufBytesRemaining src) / 7)) src st)) := rfl
  unfold mspCommonProcessInCommand
  rw [hc]
  dsimp only
  unfold mspProcessInCommand
  rw [hp]
  split_ifs <;> rfl

set_option maxRecDepth 100000 in
/-- C28 fails as stated: with the ports 0 and 1 present, a payload of two port
records, the first for port 0 with function mask 5 and the second for the
unknown port 9, returns `MSP_RESULT_ERROR` after the function mask of port 0 has
been changed from 0 to 5. -/
theorem mspFcProcessCommand_set_cf_serial_config_counterexample :
    (idleState []).sys 0 = 0 ∧
    (mspFcProcessCommand fullBuild serialServices 1
      (requestPacket MSP_SET_CF_SERIAL_CONFIG [0, 5, 0, 1, 1, 1, 1, 9, 0, 0, 0, 0, 0, 0]
        (fun _ => 0))
      (replyPacket 64) (some none) (idleState [])).map
        (fun r => (decide (r.ret = MSP_RESULT_ERROR), r.st.sys 0))
      = some (true, 5) := by
  decide

/-- The handler of `MSP_SET_CF_SERIAL_CONFIG` for every payload, with the count of
records as the handler keeps it, the payload length divided by 7 in a
`uint8_t`. -/
theorem mspFcProcessCommand_set_cf_serial_config_count (cfg : BuildConfig) (svc : Services)
    (fuel : Nat) (src : sbuf_t) (res : mspResult_e) (reply : mspPacket_t)
    (fn : Option mspPostProcessFnPtr) (st : FcState) :
    ∃ r, mspFcProcessCommand cfg svc (fuel + 1)
        { buf := src, cmd := MSP_SET_CF_SERIAL_CONFIG, result := res } reply fn st = some r ∧
      (u32 (sbufBytesRemaining src) % 7 ≠ 0 → r.ret = MSP_RESULT_ERROR ∧ r.st = st) ∧
      (u32 (sbufBytesRemaining src) % 7 = 0 →
        r.st = applySerialRecords svc
          (serialConfigRecords (u8 (u32 (sbufBytesRemaining src) / 7)) src) st ∧
        r.ret = (if serialRecordsFound svc
            (serialConfigRecords (u8 (u32 (sbufBytesRemaining src) / 7)) src) st
          then MSP_RESULT_ACK else MSP_RESULT_ERROR) ∧
        (0 < u8 (u32 (sbufBytesRemaining src) / 7) →
          svc.accepts MSP_SET_CF_SERIAL_CONFIG [(sbufReadU8 src).1] st = false →
          r.ret = MSP_RESULT_ERROR ∧ r.st = st)) := by
  rw [mspFcProcessCommand_in cfg svc fuel
    { buf := src, cmd := MSP_SET_CF_SERIAL_CONFIG, result := res } reply fn st rfl rfl rfl rfl rfl rfl]
  dsimp only
  rw [mspCommonProcessInCommand_set_cf_serial_config]
  refine ⟨_, rfl, ?_, ?_⟩
  · intro h
    rw [if_pos h]
    exact ⟨rfl, rfl⟩
  · intro h
    rw [if_neg (by simpa using h)]
    obtain ⟨h1, h2⟩ := serialConfigLoop_records svc (u8 (u32 (sbufBytesRemaining src) / 7)) src st
    refine ⟨h1, h2, ?_⟩
    intro hpos hrej
    obtain ⟨n, hn⟩ := Nat.exists_eq_succ_of_ne_zero (Nat.pos_iff_ne_zero.mp hpos)
    rw [hn]
    unfold serialConfigLoop
    simp only [hrej, Bool.false_eq_true, if_false, and_self]

theorem u8_count (n : Nat) (h : n / 7 < 256) : u8 (n / 7) = n / 7 := by
  simp only [u8]
  omega

/-- C28 (amended): on a payload of fewer than 256 port records, the count the
handler keeps in a `uint8_t`, `MSP_SET_CF_SERIAL_CONFIG` returns
`MSP_RESULT_ERROR` with the controller state as it was when the payload length is
not a multiple of the 7-byte port record, and also when the payload is not empty
and its first record names a port that is not found; otherwise it applies the
records in order up to the first one that names a port that is not found, and
returns `MSP_RESULT_ERROR` exactly when there is such a record, the records
before it staying applied. -/
theorem mspFcProcessCommand_set_cf_serial_config (cfg : BuildConfig) (svc : Services)
    (fuel : Nat) (src : sbuf_t) (res : mspResult_e) (reply : mspPacket_t)
    (fn : Option mspPostProcessFnPtr) (st : FcState)
    (hn : u32 (sbufBytesRemaining src) / 7 < 256) :
    ∃ r, mspFcProcessCommand cfg svc (fuel + 1)
        { buf := src, cmd := MSP_SET_CF_SERIAL_CONFIG, result := res } reply fn st = some r ∧
      (u32 (sbufBytesRemaining src) % 7 ≠ 0 → r.ret = MSP_RESULT_ERROR ∧ r.st = st) ∧
      (u32 (sbufBytesRemaining src) % 7 = 0 →
        r.st = applySerialRecords svc
          (serialConfigRecords (u32 (sbufBytesRemaining src) / 7) src) st ∧
        r.ret = (if serialRecordsFound svc
            (serialConfigRecords (u32 (sbufBytesRemaining src) / 7) src) st
          then MSP_RESULT_ACK else MSP_RESULT_ERROR) ∧
        (u32 (sbufBytesRemaining src) ≠ 0 →
          svc.accepts MSP_SET_CF_SERIAL_CONFIG [(sbufReadU8 src).1] st = false →
          r.ret = MSP_RESULT_ERROR ∧ r.st = st)) := by
  obtain ⟨r, h1, h2, h3⟩ := mspFcProcessCommand_set_cf_serial_config_count cfg svc fuel src res
    reply fn st
  rw [u8_count _ hn] at h3
  refine ⟨r, h1, h2, fun h7 => ?_⟩
  obtain ⟨e1, e2, e3⟩ := h3 h7
  refine ⟨e1, e2, fun hne hrej => e3 ?_ hrej⟩
  omega

/-- C28 (amended), evaluated: a single record for the unknown port 9 returns
`MSP_RESULT_ERROR` and leaves the controller state as it was. -/
theorem mspFcProcessCommand_set_cf_serial_config_witness :
    ∃ r, mspFcProcessCommand fullBuild serialServices (0 + 1)
        { buf := sbufOfPayload [9, 0, 0, 0, 0, 0, 0] (fun _ => 0),
          cmd := MSP_SET_CF_SERIAL_CONFIG, result := MSP_RESULT_ACK }
        (replyPacket 64) (some none) (idleState []) = some r ∧
      r.ret = MSP_RESULT_ERROR ∧ r.st = idleState [] := by
  obtain ⟨r, h1, -, h3⟩ := mspFcProcessCommand_set_cf_serial_config fullBuild serialServices 0
    (sbufOfPayload [9, 0, 0, 0, 0, 0, 0] (fun _ => 0)) MSP_RESULT_ACK (replyPacket 64)
    (some none) (idleState []) (by decide)
  obtain ⟨-, -, h4⟩ := h3 (by decide)
  obtain ⟨h5, h6⟩ := h4 (by decide) (by decide)
  exact ⟨r, h1, h5, h6⟩

/-! ## Replies as byte sequences -/

theorem writesFrom_refl (dst : sbuf_t) : WritesFrom dst dst [] := by
  refine ⟨rfl, rfl, ?_, fun _ _ => rfl⟩
  simp [sbufWritten, memSlice]

theorem writesFrom_data (dst d : sbuf_t) (bs data : List Nat) (h : WritesFrom dst d bs) :
    WritesFrom dst (sbufWriteData d data) (bs ++ data.map (fun b => b % 256)) := by
  obtain ⟨h1, h2, h3, h4⟩ := h
  have hmem : ∀ x, (memWrite d.mem d.ptr data) x =
      memWrite d.mem d.ptr (data.map (fun b => b % 256)) x := by
    intro x
    simp only [memWrite, List.length_map]
    split_ifs with hx
    · have hlt : x - d.ptr < data.length := by omega
      rw [List.getD_eq_getElem _ _ hlt, List.getD_eq_getElem _ _ (by simpa using hlt)]
      simp
    · rfl
  refine ⟨?_, h2, ?_, ?_⟩
  · simp only [sbufWriteData, h1, List.length_append, List.length_map]
    omega
  · simp only [sbufWritten, sbufWriteData]
    rw [memSlice_append _ (show dst.ptr ≤ d.ptr by omega) (by omega)]
    congr 1
    · rw [← h3]
      apply memSlice_congr
      intro x _ hx
      exact memWrite_of_not_mem (Or.inl hx)
    · rw [memSlice_congr (memWrite d.mem d.ptr (data.map (fun b => b % 256)))
        (fun x _ _ => hmem x)]
      have := memSlice_memWrite d.mem d.ptr (data.map (fun b => b % 256))
        (by
          intro b hb
          obtain ⟨a, -, rfl⟩ := List.mem_map.mp hb
          exact Nat.mod_lt _ (by decide))
      rw [List.length_map] at this
      exact this
  · intro a ha
    simp only [sbufWriteData]
    rw [memWrite_of_not_mem (Or.inl (by omega))]
    exact h4 a ha

theorem sbufWriteU8_eq_data (d : sbuf_t) (v : Nat) : sbufWriteU8 d v = sbufWriteData d [v] := rfl

theorem writesFrom_u8 (dst d : sbuf_t) (bs : List Nat) (v : Nat) (h : WritesFrom dst d bs) :
    WritesFrom dst (sbufWriteU8 d v) (bs ++ [v % 256]) := by
  rw [sbufWriteU8_eq_data]
  exact writesFrom_data dst d bs [v] h

theorem writesFrom_u16 (dst d : sbuf_t) (bs : List Nat) (v : Nat) (h : WritesFrom dst d bs) :
    WritesFrom dst (sbufWriteU16 d v) (bs ++ le16 v) := by
  have := writesFrom_u8 dst _ _ (v / 256 % 256) (writesFrom_u8 dst d bs (v % 256) h)
  simpa [sbufWriteU16, le16] using this

theorem writesFrom_u32 (dst d : sbuf_t) (bs : List Nat) (v : Nat) (h : WritesFrom dst d bs) :
    WritesFrom dst (sbufWriteU32 d v) (bs ++ le32 v) := by
  have := writesFrom_u8 dst _ _ (v / 16777216 % 256)
    (writesFrom_u8 dst _ _ (v / 65536 % 256)
      (writesFrom_u8 dst _ _ (v / 256 % 256) (writesFrom_u8 dst d bs (v % 256) h)))
  simpa [sbufWriteU32, le32] using this

theorem writesFrom_u8s (dst d : sbuf_t) (bs : List Nat) (a : Nat → Nat) (n : Nat)
    (h : WritesFrom dst d bs) :
    WritesFrom dst (sbufWriteU8s a n d) (bs ++ (List.range n).map (fun i => a i % 256)) := by
  induction n with
  | zero => simpa [sbufWriteU8s] using h
  | succ n ih =>
    have := writesFrom_u8 dst _ _ (a n) ih
    simpa [sbufWriteU8s, List.range_succ, List.foldl_append] using this

theorem writesFrom_u16s (dst d : sbuf_t) (bs : List Nat) (a : Nat → Nat) (n : Nat)
    (h : WritesFrom dst d bs) :
    WritesFrom dst (sbufWriteU16s a n d) (bs ++ (List.range n).flatMap (fun i => le16 (a i))) := by
  induction n with
  | zero => simpa [sbufWriteU16s] using h
  | succ n ih =>
    have := writesFrom_u16 dst _ _ (a n) ih
    simpa [sbufWriteU16s, List.range_succ, List.foldl_append, List.flatMap_append] using this

/-! ## The OSD configuration reply -/

theorem length_flatMap_le16 (a : Nat → Nat) (n : Nat) :
    ((List.range n).flatMap (fun i => le16 (a i))).length = 2 * n := by
  induction n with
  | zero => rfl
  | succ n ih =>
    simp only [List.range_succ, List.flatMap_append, List.length_append, ih]
    simp [le16]
    omega

theorem mspOsdConfig_writes (cfg : BuildConfig) (st : FcState) (dst : sbuf_t)
    (hosd : cfg.USE_OSD = true) :
    ∃ pre post, WritesFrom dst (mspOsdConfig cfg st dst)
        (pre ++ le16 (st.osdConfig.enabledWarnings % 65536) ++ [cfg.OSD_WARNING_COUNT % 256] ++
          le32 st.osdConfig.enabledWarnings ++ post) ∧
      pre.length = 10 + 2 * cfg.OSD_ITEM_COUNT + 1 + cfg.OSD_STAT_COUNT + 1 +
        2 * cfg.OSD_TIMER_COUNT ∧
      post.length = 3 := by
  have hu : u16 ((st.osdConfig.enabledWarnings &&& 0xFFFF : Nat) : Int) =
      st.osdConfig.enabledWarnings % 65536 := by
    rw [show st.osdConfig.enabledWarnings &&& 0xFFFF = st.osdConfig.enabledWarnings % 65536 from
      Nat.and_pow_two_sub_one_eq_mod _ 16]
    unfold u16
    omega
  obtain ⟨d1, pre, hfront, hlen, hd⟩ : ∃ d1 pre, WritesFrom dst d1 pre ∧
      pre.length = 10 + 2 * cfg.OSD_ITEM_COUNT + 1 + cfg.OSD_STAT_COUNT + 1 +
        2 * cfg.OSD_TIMER_COUNT ∧
      mspOsdConfig cfg st dst =
        (let d := sbufWriteU32 (sbufWriteU8 (sbufWriteU16 d1
            (st.osdConfig.enabledWarnings % 65536)) cfg.OSD_WARNING_COUNT)
            st.osdConfig.enabledWarnings
         let d := if cfg.USE_OSD_PROFILES then
            sbufWriteU8 (sbufWriteU8 d cfg.OSD_PROFILE_COUNT) st.osdConfig.osdProfileIndex
           else sbufWriteU8 (sbufWriteU8 d 1) 1
         if cfg.USE_OSD_STICK_OVERLAY then sbufWriteU8 d st.osdConfig.overlay_radio_mode
         else sbufWriteU8 d 0) := by
    refine ⟨_, _,
      writesFrom_u16s dst _ _ st.osdConfig.timers cfg.OSD_TIMER_COUNT
        (writesFrom_u8 dst _ _ cfg.OSD_TIMER_COUNT
          (writesFrom_u8s dst _ _ st.osdStatState cfg.OSD_STAT_COUNT
            (writesFrom_u8 dst _ _ cfg.OSD_STAT_COUNT
              (writesFrom_u16s dst _ _ st.osdConfig.item_pos cfg.OSD_ITEM_COUNT
                (writesFrom_u16 dst _ _ st.osdConfig.alt_alarm
                  (writesFrom_u8 dst _ _ cfg.OSD_ITEM_COUNT
                    (writesFrom_u8 dst _ _ 0
                      (writesFrom_u16 dst _ _ st.osdConfig.cap_alarm
                        (writesFrom_u8 dst _ _ st.osdConfig.rssi_alarm
                          (writesFrom_u8 dst _ _ st.osdConfig.units
                            (writesFrom_u8 dst _ _ (if cfg.USE_MAX7456 then st.video_system else 0)
                              (writesFrom_u8 dst _ _
                                (if cfg.USE_MAX7456 then
                                  (if cfg.USE_OSD then 0 ||| 1 else 0) ||| 16
                                 else (if cfg.USE_OSD then 0 ||| 1 else 0))
                                (writesFrom_refl dst))))))))))))), ?_, ?_⟩
    · have hl : ∀ v, (le16 v).length = 2 := fun _ => rfl
      simp only [List.length_append, List.length_map, List.length_range, length_flatMap_le16,
        hl, List.length_cons, List.length_nil]
    · simp only [mspOsdConfig, hosd, if_true, hu]
      cases cfg.USE_MAX7456 <;> rfl
  rw [hd]
  have h1 := writesFrom_u32 dst _ _ st.osdConfig.enabledWarnings
    (writesFrom_u8 dst _ _ cfg.OSD_WARNING_COUNT
      (writesFrom_u16 dst _ _ (st.osdConfig.enabledWarnings % 65536) hfront))
  by_cases hP : cfg.USE_OSD_PROFILES = true
  · by_cases hS : cfg.USE_OSD_STICK_OVERLAY = true
    · refine ⟨pre, [cfg.OSD_PROFILE_COUNT % 256, st.osdConfig.osdProfileIndex % 256,
        st.osdConfig.overlay_radio_mode % 256], ?_, hlen, rfl⟩
      have h2 := writesFrom_u8 dst _ _ st.osdConfig.overlay_radio_mode
        (writesFrom_u8 dst _ _ st.osdConfig.osdProfileIndex
          (writesFrom_u8 dst _ _ cfg.OSD_PROFILE_COUNT h1))
      simpa [hP, hS, List.append_assoc] using h2
    · refine ⟨pre, [cfg.OSD_PROFILE_COUNT % 256, st.osdConfig.osdProfileIndex % 256, 0],
        ?_, hlen, rfl⟩
      have h2 := writesFrom_u8 dst _ _ 0
        (writesFrom_u8 dst _ _ st.osdConfig.osdProfileIndex
          (writesFrom_u8 dst _ _ cfg.OSD_PROFILE_COUNT h1))
      simpa [hP, hS, List.append_assoc] using h2
  · by_cases hS : cfg.USE_OSD_STICK_OVERLAY = true
    · refine ⟨pre, [1, 1, st.osdConfig.overlay_radio_mode % 256], ?_, hlen, rfl⟩
      have h2 := writesFrom_u8 dst _ _ st.osdConfig.overlay_radio_mode
        (writesFrom_u8 dst _ _ 1 (writesFrom_u8 dst _ _ 1 h1))
      simpa [hP, hS, List.append_assoc] using h2
    · refine ⟨pre, [1, 1, 0], ?_, hlen, rfl⟩
      have h2 := writesFrom_u8 dst _ _ 0
        (writesFrom_u8 dst _ _ 1 (writesFrom_u8 dst _ _ 1 h1))
      simpa [hP, hS, List.append_assoc] using h2

/-- C24: in a build with the OSD feature, the reply to `MSP_OSD_CONFIG` carries
the enabled-warnings bitmask `w` twice: after the `pre` bytes that end with the
timers, as a little-endian u16 equal to `w mod 2^16`, then the byte
`OSD_WARNING_COUNT`, then `w` as a little-endian u32; three bytes follow. -/
theorem mspFcProcessCommand_osd_config_warnings (cfg : BuildConfig) (svc : Services)
    (fuel : Nat) (src : sbuf_t) (res : mspResult_e) (reply : mspPacket_t)
    (fn : Option mspPostProcessFnPtr) (st : FcState) (hosd : cfg.USE_OSD = true) :
    ∃ r pre post, mspFcProcessCommand cfg svc (fuel + 1)
        { buf := src, cmd := MSP_OSD_CONFIG, result := res } reply fn st = some r ∧
      r.ret = MSP_RESULT_ACK ∧
      sbufWritten reply.buf.ptr r.reply.buf =
        pre ++ le16 (st.osdConfig.enabledWarnings % 65536) ++ [cfg.OSD_WARNING_COUNT % 256] ++
          le32 st.osdConfig.enabledWarnings ++ post ∧
      pre.length = 10 + 2 * cfg.OSD_ITEM_COUNT + 1 + cfg.OSD_STAT_COUNT + 1 +
        2 * cfg.OSD_TIMER_COUNT ∧
      post.length = 3 := by
  have hc : mspCommonProcessOutCommand cfg svc st MSP_OSD_CONFIG reply.buf =
      (true, mspOsdConfig cfg st reply.buf) := rfl
  obtain ⟨pre, post, hw, h1, h2⟩ := mspOsdConfig_writes cfg st reply.buf hosd
  rw [mspFcProcessCommand_succ]
  simp only [hc, if_true]
  exact ⟨_, pre, post, rfl, rfl, hw.2.2.1, h1, h2⟩

/-- C24, evaluated on the build `fullBuild` with the enabled-warnings bitmask
`0x12345`: the low word is sent as 69, 35 and the full value as 69, 35, 1, 0. -/
theorem mspFcProcessCommand_osd_config_warnings_witness :
    ∃ r pre post, mspFcProcessCommand fullBuild idleServices (0 + 1)
        { buf := sbufOfPayload [] (fun _ => 0), cmd := MSP_OSD_CONFIG, result := MSP_RESULT_ACK }
        (replyPacket 256) (some none)
        { idleState [] with osdConfig := { (idleState []).osdConfig with
            enabledWarnings := 0x12345 } } = some r ∧
      sbufWritten (replyPacket 256).buf.ptr r.reply.buf =
        pre ++ [69, 35] ++ [16] ++ [69, 35, 1, 0] ++ post := by
  obtain ⟨r, pre, post, h1, -, h3, -, -⟩ := mspFcProcessCommand_osd_config_warnings fullBuild
    idleServices 0 (sbufOfPayload [] (fun _ => 0)) MSP_RESULT_ACK (replyPacket 256) (some none)
    { idleState [] with osdConfig := { (idleState []).osdConfig with
        enabledWarnings := 0x12345 } } rfl
  exact ⟨r, pre, post, h1, h3⟩

/-! ## Round trips -/

theorem mspBatteryConfig_writes (st : FcState) (dst : sbuf_t) :
    WritesFrom dst (mspBatteryConfig st dst)
      ([(st.batteryConfig.vbatmincellvoltage + 5) / 10 % 256,
        (st.batteryConfig.vbatmaxcellvoltage + 5) / 10 % 256,
        (st.batteryConfig.vbatwarningcellvoltage + 5) / 10 % 256] ++
        le16 st.batteryConfig.batteryCapacity ++
        [st.batteryConfig.voltageMeterSource % 256, st.batteryConfig.currentMeterSource % 256] ++
        le16 st.batteryConfig.vbatmincellvoltage ++ le16 st.batteryConfig.vbatmaxcellvoltage ++
        le16 st.batteryConfig.vbatwarningcellvoltage) := by
  have h := writesFrom_u16 dst _ _ st.batteryConfig.vbatwarningcellvoltage
    (writesFrom_u16 dst _ _ st.batteryConfig.vbatmaxcellvoltage
      (writesFrom_u16 dst _ _ st.batteryConfig.vbatmincellvoltage
        (writesFrom_u8 dst _ _ st.batteryConfig.currentMeterSource
          (writesFrom_u8 dst _ _ st.batteryConfig.voltageMeterSource
            (writesFrom_u16 dst _ _ st.batteryConfig.batteryCapacity
              (writesFrom_u8 dst _ _ ((st.batteryConfig.vbatwarningcellvoltage + 5) / 10)
                (writesFrom_u8 dst _ _ ((st.batteryConfig.vbatmaxcellvoltage + 5) / 10)
                  (writesFrom_u8 dst _ _ ((st.batteryConfig.vbatmincellvoltage + 5) / 10)
                    (writesFrom_refl dst)))))))))
  simpa [mspBatteryConfig, List.append_assoc] using h

theorem mspSetBatteryConfig_decode (st2 : FcState) (behind : Nat → Nat)
    (a b c cap vs cs mn mx wn : Nat) (hcap : cap < 65536) (hvs : vs < 256) (hcs : cs < 256)
    (hmn : mn < 65536) (hmx : mx < 65536) (hwn : wn < 65536) :
    (mspSetBatteryConfig st2
      (sbufOfPayload ([a, b, c] ++ le16 cap ++ [vs % 256, cs % 256] ++ le16 mn ++ le16 mx ++
        le16 wn) behind)).ret = MSP_RESULT_ACK ∧
    (mspSetBatteryConfig st2
      (sbufOfPayload ([a, b, c] ++ le16 cap ++ [vs % 256, cs % 256] ++ le16 mn ++ le16 mx ++
        le16 wn) behind)).st.batteryConfig =
      { vbatmincellvoltage := mn, vbatmaxcellvoltage := mx, vbatwarningcellvoltage := wn,
        batteryCapacity := cap, voltageMeterSource := vs, currentMeterSource := cs } := by
  simp [mspSetBatteryConfig, sbufOfPayload, sbufReadU8, sbufReadU16, sbufBytesRemaining, le16]
  omega

theorem mspFcProcessCommand_set_battery_config (cfg : BuildConfig) (svc : Services)
    (fuel : Nat) (src : sbuf_t) (res : mspResult_e) (reply : mspPacket_t)
    (fn : Option mspPostProcessFnPtr) (st : FcState) :
    mspFcProcessCommand cfg svc (fuel + 1)
        { buf := src, cmd := MSP_SET_BATTERY_CONFIG, result := res } reply fn st =
      some { ret := (mspSetBatteryConfig st src).ret,
             cmd := { buf := (mspSetBatteryConfig st src).src, cmd := MSP_SET_BATTERY_CONFIG,
                      result := res },
             reply := { buf := reply.buf, cmd := MSP_SET_BATTERY_CONFIG,
                        result := (mspSetBatteryConfig st src).ret },
             mspPostProcessFn := fn, st := (mspSetBatteryConfig st src).st } :=
  mspFcProcessCommand_in cfg svc fuel
    { buf := src, cmd := MSP_SET_BATTERY_CONFIG, result := res } reply fn st rfl rfl rfl rfl rfl rfl

/-- C26: feeding the complete reply of the battery-config query
`MSP_BATTERY_CONFIG`, 13 bytes, as the payload of `MSP_SET_BATTERY_CONFIG` is
acknowledged and makes the battery configuration equal to the one the reply was
made from: minimum, maximum and warning cell voltage, capacity and both meter
sources. The fields hold values of their C types. -/
theorem mspFcProcessCommand_battery_config_roundtrip (cfg : BuildConfig) (svc : Services)
    (fuel : Nat) (src : sbuf_t) (res res2 : mspResult_e) (reply reply2 : mspPacket_t)
    (fn fn2 : Option mspPostProcessFnPtr) (st st2 : FcState) (behind : Nat → Nat)
    (hmn : st.batteryConfig.vbatmincellvoltage < 65536)
    (hmx : st.batteryConfig.vbatmaxcellvoltage < 65536)
    (hwn : st.batteryConfig.vbatwarningcellvoltage < 65536)
    (hcap : st.batteryConfig.batteryCapacity < 65536)
    (hvs : st.batteryConfig.voltageMeterSource < 256)
    (hcs : st.batteryConfig.currentMeterSource < 256) :
    ∃ r1, mspFcProcessCommand cfg svc (fuel + 1)
        { buf := src, cmd := MSP_BATTERY_CONFIG, result := res } reply fn st = some r1 ∧
      (sbufWritten reply.buf.ptr r1.reply.buf).length = 13 ∧
      ∃ r2, mspFcProcessCommand cfg svc (fuel + 1)
          { buf := sbufOfPayload (sbufWritten reply.buf.ptr r1.reply.buf) behind,
            cmd := MSP_SET_BATTERY_CONFIG, result := res2 } reply2 fn2 st2 = some r2 ∧
        r2.ret = MSP_RESULT_ACK ∧ r2.st.batteryConfig = st.batteryConfig := by
  have hc : mspCommonProcessOutCommand cfg svc st MSP_BATTERY_CONFIG reply.buf =
      (true, mspBatteryConfig st reply.buf) := rfl
  have hw := (mspBatteryConfig_writes st reply.buf).2.2.1
  rw [mspFcProcessCommand_succ]
  simp only [hc, if_true]
  refine ⟨_, rfl, ?_, ?_⟩
  · rw [hw]
    rfl
  · dsimp only
    rw [hw, mspFcProcessCommand_set_battery_config]
    obtain ⟨h1, h2⟩ := mspSetBatteryConfig_decode st2 behind
      ((st.batteryConfig.vbatmincellvoltage + 5) / 10 % 256)
      ((st.batteryConfig.vbatmaxcellvoltage + 5) / 10 % 256)
      ((st.batteryConfig.vbatwarningcellvoltage + 5) / 10 % 256)
      st.batteryConfig.batteryCapacity st.batteryConfig.voltageMeterSource
      st.batteryConfig.currentMeterSource st.batteryConfig.vbatmincellvoltage
      st.batteryConfig.vbatmaxcellvoltage st.batteryConfig.vbatwarningcellvoltage
      hcap hvs hcs hmn hmx hwn
    exact ⟨_, rfl, h1, h2⟩

/-- C26, evaluated on the battery configuration of `idleState` (3.30 V, 4.30 V,
3.50 V, 1300 mAh), fed back to a controller whose battery configuration is all
zero. -/
theorem mspFcProcessCommand_battery_config_roundtrip_witness :
    ∃ r1, mspFcProcessCommand fullBuild idleServices (0 + 1)
        { buf := sbufOfPayload [] (fun _ => 0), cmd := MSP_BATTERY_CONFIG,
          result := MSP_RESULT_ACK } (replyPacket 64) (some none) (idleState []) = some r1 ∧
      ∃ r2, mspFcProcessCommand fullBuild idleServices (0 + 1)
          { buf := sbufOfPayload (sbufWritten (replyPacket 64).buf.ptr r1.reply.buf) (fun _ => 0),
            cmd := MSP_SET_BATTERY_CONFIG, result := MSP_RESULT_ACK } (replyPacket 64) (some none)
          { idleState [] with batteryConfig :=
            { vbatmincellvoltage := 0, vbatmaxcellvoltage := 0, vbatwarningcellvoltage := 0,
              batteryCapacity := 0, voltageMeterSource := 0, currentMeterSource := 0 } }
          = some r2 ∧
        r2.ret = MSP_RESULT_ACK ∧
        r2.st.batteryConfig.vbatmincellvoltage = 330 ∧ r2.st.batteryConfig.batteryCapacity = 1300 := by
  obtain ⟨r1, h1, -, r2, h2, h3, h4⟩ := mspFcProcessCommand_battery_config_roundtrip fullBuild
    idleServices 0 (sbufOfPayload [] (fun _ => 0)) MSP_RESULT_ACK MSP_RESULT_ACK (replyPacket 64)
    (replyPacket 64) (some none) (some none) (idleState [])
    { idleState [] with batteryConfig :=
      { vbatmincellvoltage := 0, vbatmaxcellvoltage := 0, vbatwarningcellvoltage := 0,
        batteryCapacity := 0, voltageMeterSource := 0, currentMeterSource := 0 } }
    (fun _ => 0) (by decide) (by decide) (by decide) (by decide) (by decide) (by decide)
  exact ⟨r1, h1, r2, h2, h3, by rw [h4]; rfl, by rw [h4]; rfl⟩

theorem mspSensorAlignment_writes (cfg : BuildConfig) (st : FcState) (dst : sbuf_t) :
    WritesFrom dst (mspSensorAlignment cfg st dst)
      [(if cfg.USE_MULTI_GYRO then
          (if st.gyro_to_use = cfg.GYRO_CONFIG_USE_GYRO_2 then st.gyroDeviceAlign 1
           else st.gyroDeviceAlign 0)
         else st.gyroDeviceAlign 0) % 256,
        (if cfg.USE_MULTI_GYRO then
          (if st.gyro_to_use = cfg.GYRO_CONFIG_USE_GYRO_2 then st.gyroDeviceAlign 1
           else st.gyroDeviceAlign 0)
         else st.gyroDeviceAlign 0) % 256,
        st.mag_align % 256, st.gyroDetectionFlags % 256,
        (if cfg.USE_MULTI_GYRO then st.gyro_to_use else cfg.GYRO_CONFIG_USE_GYRO_1) % 256,
        st.gyroDeviceAlign 0 % 256,
        (if cfg.USE_MULTI_GYRO then st.gyroDeviceAlign 1 else cfg.ALIGN_DEFAULT) % 256] := by
  have h := fun (x y z : Nat) => writesFrom_u8 dst _ _ z
    (writesFrom_u8 dst _ _ y
      (writesFrom_u8 dst _ _ x
        (writesFrom_u8 dst _ _ st.gyroDetectionFlags
          (writesFrom_u8 dst _ _ st.mag_align
            (writesFrom_u8 dst _ _ (if cfg.USE_MULTI_GYRO then
                (if st.gyro_to_use = cfg.GYRO_CONFIG_USE_GYRO_2 then st.gyroDeviceAlign 1
                 else st.gyroDeviceAlign 0)
               else st.gyroDeviceAlign 0)
              (writesFrom_u8 dst _ _ (if cfg.USE_MULTI_GYRO then
                  (if st.gyro_to_use = cfg.GYRO_CONFIG_USE_GYRO_2 then st.gyroDeviceAlign 1
                   else st.gyroDeviceAlign 0)
                 else st.gyroDeviceAlign 0)
                (writesFrom_refl dst)))))))
  by_cases hM : cfg.USE_MULTI_GYRO = true
  · simpa [mspSensorAlignment, hM] using
      h st.gyro_to_use (st.gyroDeviceAlign 0) (st.gyroDeviceAlign 1)
  · have hM' : cfg.USE_MULTI_GYRO = false := by simpa using hM
    simpa [mspSensorAlignment, hM'] using
      h cfg.GYRO_CONFIG_USE_GYRO_1 (st.gyroDeviceAlign 0) cfg.ALIGN_DEFAULT

/-- The set command on a payload of six bytes: the alignment bytes of the frame
before API 1.41, then selected gyro and the two alignments. -/
theorem mspSetSensorAlignment_decode6 (cfg : BuildConfig) (st2 : FcState) (behind : Nat → Nat)
    (g g2 m x y z : Nat) (hm : m < 256) (hx : x < 256) (hy : y < 256) (hz : z < 256) :
    (mspSetSensorAlignment cfg st2 (sbufOfPayload [g, g2, m, x, y, z] behind)).ret
      = MSP_RESULT_ACK ∧
    (mspSetSensorAlignment cfg st2 (sbufOfPayload [g, g2, m, x, y, z] behind)).st.mag_align
      = m ∧
    (mspSetSensorAlignment cfg st2
      (sbufOfPayload [g, g2, m, x, y, z] behind)).st.gyroDeviceAlign 0 = y ∧
    (mspSetSensorAlignment cfg st2
      (sbufOfPayload [g, g2, m, x, y, z] behind)).st.gyroDeviceAlign 1 =
        (if cfg.USE_MULTI_GYRO then z else st2.gyroDeviceAlign 1) ∧
    (mspSetSensorAlignment cfg st2 (sbufOfPayload [g, g2, m, x, y, z] behind)).st.gyro_to_use =
        (if cfg.USE_MULTI_GYRO then x else st2.gyro_to_use) := by
  by_cases hM : cfg.USE_MULTI_GYRO = true
  · simp [mspSetSensorAlignment, sbufOfPayload, sbufReadU8, sbufBytesRemaining, arraySet, hM,
      Nat.mod_eq_of_lt hm, Nat.mod_eq_of_lt hx, Nat.mod_eq_of_lt hy, Nat.mod_eq_of_lt hz]
  · have hM' : cfg.USE_MULTI_GYRO = false := by simpa using hM
    simp [mspSetSensorAlignment, sbufOfPayload, sbufReadU8, sbufBytesRemaining, arraySet, hM',
      Nat.mod_eq_of_lt hm, Nat.mod_eq_of_lt hx, Nat.mod_eq_of_lt hy, Nat.mod_eq_of_lt hz]

/-- The set command on a payload of seven bytes reads the fourth byte as the
selected gyro, the fifth as the alignment of the first gyro and the sixth as the
alignment of the second; the seventh byte is not read. -/
theorem mspSetSensorAlignment_decode7 (cfg : BuildConfig) (st2 : FcState) (behind : Nat → Nat)
    (g g2 m f x y z : Nat) (hm : m < 256) (hf : f < 256) (hx : x < 256) (hy : y < 256) :
    (mspSetSensorAlignment cfg st2 (sbufOfPayload [g, g2, m, f, x, y, z] behind)).ret
      = MSP_RESULT_ACK ∧
    (mspSetSensorAlignment cfg st2 (sbufOfPayload [g, g2, m, f, x, y, z] behind)).st.mag_align
      = m ∧
    (mspSetSensorAlignment cfg st2
      (sbufOfPayload [g, g2, m, f, x, y, z] behind)).st.gyroDeviceAlign 0 = x ∧
    (mspSetSensorAlignment cfg st2
      (sbufOfPayload [g, g2, m, f, x, y, z] behind)).st.gyroDeviceAlign 1 =
        (if cfg.USE_MULTI_GYRO then y else st2.gyroDeviceAlign 1) ∧
    (mspSetSensorAlignment cfg st2 (sbufOfPayload [g, g2, m, f, x, y, z] behind)).st.gyro_to_use =
        (if cfg.USE_MULTI_GYRO then f else st2.gyro_to_use) := by
  by_cases hM : cfg.USE_MULTI_GYRO = true
  · simp [mspSetSensorAlignment, sbufOfPayload, sbufReadU8, sbufBytesRemaining, arraySet, hM,
      Nat.mod_eq_of_lt hm, Nat.mod_eq_of_lt hx, Nat.mod_eq_of_lt hy, Nat.mod_eq_of_lt hf]
  · have hM' : cfg.USE_MULTI_GYRO = false := by simpa using hM
    simp [mspSetSensorAlignment, sbufOfPayload, sbufReadU8, sbufBytesRemaining, arraySet, hM',
      Nat.mod_eq_of_lt hm, Nat.mod_eq_of_lt hx, Nat.mod_eq_of_lt hy, Nat.mod_eq_of_lt hf]

theorem mspFcProcessCommand_set_sensor_alignment (cfg : BuildConfig) (svc : Services)
    (fuel : Nat) (src : sbuf_t) (res : mspResult_e) (reply : mspPacket_t)
    (fn : Option mspPostProcessFnPtr) (st : FcState) :
    mspFcProcessCommand cfg svc (fuel + 1)
        { buf := src, cmd := MSP_SET_SENSOR_ALIGNMENT, result := res } reply fn st =
      some { ret := (mspSetSensorAlignment cfg st src).ret,
             cmd := { buf := (mspSetSensorAlignment cfg st src).src,
                      cmd := MSP_SET_SENSOR_ALIGNMENT, result := res },
             reply := { buf := reply.buf, cmd := MSP_SET_SENSOR_ALIGNMENT,
                        result := (mspSetSensorAlignment cfg st src).ret },
             mspPostProcessFn := fn, st := (mspSetSensorAlignment cfg st src).st } :=
  mspFcProcessCommand_in cfg svc fuel
    { buf := src, cmd := MSP_SET_SENSOR_ALIGNMENT, result := res } reply fn st rfl rfl rfl rfl rfl rfl

/-- The query `MSP_SENSOR_ALIGNMENT` through the whole dispatch chain: the reply
is the one `mspSensorAlignment` writes. -/
theorem mspFcProcessCommand_sensor_alignment (cfg : BuildConfig) (svc : Services)
    (fuel : Nat) (src : sbuf_t) (res : mspResult_e) (reply : mspPacket_t)
    (fn : Option mspPostProcessFnPtr) (st : FcState) :
    ∃ r1, mspFcProcessCommand cfg svc (fuel + 1)
        { buf := src, cmd := MSP_SENSOR_ALIGNMENT, result := res } reply fn st = some r1 ∧
      r1.ret = MSP_RESULT_ACK ∧ r1.reply.buf = mspSensorAlignment cfg st reply.buf := by
  have hc : mspProcessOutCommand cfg svc st MSP_SENSOR_ALIGNMENT reply.buf =
      (true, mspSensorAlignment cfg st reply.buf) := rfl
  have hc0 : (mspCommonProcessOutCommand cfg svc st MSP_SENSOR_ALIGNMENT reply.buf).1 = false :=
    rfl
  rw [mspFcProcessCommand_succ]
  simp only [hc0, hc, if_true, Bool.false_eq_true, if_false]
  exact ⟨_, rfl, rfl, rfl⟩

/-- C27 fails on the code: on the build `fullBuild` with the first gyro selected,
both gyros aligned 1 and only the first gyro detected (flags 1), the complete
reply of `MSP_SENSOR_ALIGNMENT` is `[1, 1, 1, 1, 0, 1, 1]`; fed back through
`MSP_SET_SENSOR_ALIGNMENT` it is acknowledged, but the detection flags are stored
as the selected gyro (0 becomes 1) and the selected-gyro byte as the alignment of
the first gyro (1 becomes 0). -/
theorem mspFcProcessCommand_sensor_alignment_counterexample :
    ∃ r1 r2, mspFcProcessCommand fullBuild idleServices (0 + 1)
        { buf := sbufOfPayload [] (fun _ => 0), cmd := MSP_SENSOR_ALIGNMENT,
          result := MSP_RESULT_ACK } (replyPacket 64) (some none) (idleState []) = some r1 ∧
      sbufWritten (replyPacket 64).buf.ptr r1.reply.buf = [1, 1, 1, 1, 0, 1, 1] ∧
      mspFcProcessCommand fullBuild idleServices (0 + 1)
          { buf := sbufOfPayload (sbufWritten (replyPacket 64).buf.ptr r1.reply.buf) (fun _ => 0),
            cmd := MSP_SET_SENSOR_ALIGNMENT, result := MSP_RESULT_ACK } (replyPacket 64)
          (some none) (idleState []) = some r2 ∧
      r2.ret = MSP_RESULT_ACK ∧
      (idleState []).gyro_to_use = 0 ∧ r2.st.gyro_to_use = 1 ∧
      (idleState []).gyroDeviceAlign 0 = 1 ∧ r2.st.gyroDeviceAlign 0 = 0 := by
  obtain ⟨r1, h1, -, hb⟩ := mspFcProcessCommand_sensor_alignment fullBuild idleServices 0
    (sbufOfPayload [] (fun _ => 0)) MSP_RESULT_ACK (replyPacket 64) (some none) (idleState [])
  have hw : sbufWritten (replyPacket 64).buf.ptr r1.reply.buf = [1, 1, 1, 1, 0, 1, 1] := by
    rw [hb, (mspSensorAlignment_writes fullBuild (idleState []) (replyPacket 64).buf).2.2.1]
    rfl
  obtain ⟨e1, -, e3, -, e5⟩ := mspSetSensorAlignment_decode7 fullBuild (idleState [])
    (fun _ => 0) 1 1 1 1 0 1 1 (by decide) (by decide) (by decide) (by decide)
  have h2 := mspFcProcessCommand_set_sensor_alignment fullBuild idleServices 0
    (sbufOfPayload [1, 1, 1, 1, 0, 1, 1] (fun _ => 0)) MSP_RESULT_ACK (replyPacket 64) (some none)
    (idleState [])
  refine ⟨r1, ?_⟩
  rw [hw]
  exact ⟨_, h1, rfl, h2, e1, rfl, e5, rfl, e3⟩

/-- C27 (amended): the reply of `MSP_SENSOR_ALIGNMENT` has seven bytes. Fed back
through `MSP_SET_SENSOR_ALIGNMENT` without its fourth byte, the gyro detection
flags, it is acknowledged and leaves the selected gyro, the alignment of both gyros
and the magnetometer alignment equal to their original values, in builds with and
without `USE_MULTI_GYRO`. Fed back complete it is acknowledged and keeps the
magnetometer alignment, but the bytes behind it are read one place early: in a
build with `USE_MULTI_GYRO` the detection flags become the selected gyro, the
selected gyro the alignment of the first gyro and the alignment of the first gyro
that of the second; in a build without, `GYRO_CONFIG_USE_GYRO_1` becomes the
alignment of the first gyro. The fields hold values of their C type, one byte. -/
theorem mspFcProcessCommand_sensor_alignment_roundtrip (cfg : BuildConfig) (svc : Services)
    (fuel : Nat) (src : sbuf_t) (res res2 : mspResult_e) (reply reply2 : mspPacket_t)
    (fn fn2 : Option mspPostProcessFnPtr) (st : FcState) (behind : Nat → Nat)
    (hg : st.gyro_to_use < 256) (h0 : st.gyroDeviceAlign 0 < 256)
    (h1 : st.gyroDeviceAlign 1 < 256) (hm : st.mag_align < 256) :
    ∃ r1, mspFcProcessCommand cfg svc (fuel + 1)
        { buf := src, cmd := MSP_SENSOR_ALIGNMENT, result := res } reply fn st = some r1 ∧
      (sbufWritten reply.buf.ptr r1.reply.buf).length = 7 ∧
      (∃ r2, mspFcProcessCommand cfg svc (fuel + 1)
          { buf := sbufOfPayload ((sbufWritten reply.buf.ptr r1.reply.buf).eraseIdx 3) behind,
            cmd := MSP_SET_SENSOR_ALIGNMENT, result := res2 } reply2 fn2 st = some r2 ∧
        r2.ret = MSP_RESULT_ACK ∧ r2.st.gyro_to_use = st.gyro_to_use ∧
        r2.st.gyroDeviceAlign 0 = st.gyroDeviceAlign 0 ∧
        r2.st.gyroDeviceAlign 1 = st.gyroDeviceAlign 1 ∧ r2.st.mag_align = st.mag_align) ∧
      ∃ r3, mspFcProcessCommand cfg svc (fuel + 1)
          { buf := sbufOfPayload (sbufWritten reply.buf.ptr r1.reply.buf) behind,
            cmd := MSP_SET_SENSOR_ALIGNMENT, result := res2 } reply2 fn2 st = some r3 ∧
        r3.ret = MSP_RESULT_ACK ∧ r3.st.mag_align = st.mag_align ∧
        r3.st.gyro_to_use =
          (if cfg.USE_MULTI_GYRO then st.gyroDetectionFlags % 256 else st.gyro_to_use) ∧
        r3.st.gyroDeviceAlign 0 =
          (if cfg.USE_MULTI_GYRO then st.gyro_to_use else cfg.GYRO_CONFIG_USE_GYRO_1 % 256) ∧
        r3.st.gyroDeviceAlign 1 =
          (if cfg.USE_MULTI_GYRO then st.gyroDeviceAlign 0 else st.gyroDeviceAlign 1) := by
  obtain ⟨r1, hr1, -, hb⟩ := mspFcProcessCommand_sensor_alignment cfg svc fuel src res reply fn st
  have hw := (mspSensorAlignment_writes cfg st reply.buf).2.2.1
  rw [← hb] at hw
  refine ⟨r1, hr1, ?_, ?_, ?_⟩
  · rw [hw]
    rfl
  · rw [hw]
    obtain ⟨e1, e2, e3, e4, e5⟩ := mspSetSensorAlignment_decode6 cfg st behind
      ((if cfg.USE_MULTI_GYRO then
          (if st.gyro_to_use = cfg.GYRO_CONFIG_USE_GYRO_2 then st.gyroDeviceAlign 1
           else st.gyroDeviceAlign 0)
         else st.gyroDeviceAlign 0) % 256)
      ((if cfg.USE_MULTI_GYRO then
          (if st.gyro_to_use = cfg.GYRO_CONFIG_USE_GYRO_2 then st.gyroDeviceAlign 1
           else st.gyroDeviceAlign 0)
         else st.gyroDeviceAlign 0) % 256)
      (st.mag_align % 256)
      ((if cfg.USE_MULTI_GYRO then st.gyro_to_use else cfg.GYRO_CONFIG_USE_GYRO_1) % 256)
      (st.gyroDeviceAlign 0 % 256)
      ((if cfg.USE_MULTI_GYRO then st.gyroDeviceAlign 1 else cfg.ALIGN_DEFAULT) % 256)
      (Nat.mod_lt _ (by decide)) (Nat.mod_lt _ (by decide)) (Nat.mod_lt _ (by decide))
      (Nat.mod_lt _ (by decide))
    refine ⟨_, mspFcProcessCommand_set_sensor_alignment cfg svc fuel _ _ _ _ _, e1, ?_, ?_, ?_, ?_⟩
    · refine e5.trans ?_
      split_ifs
      · exact Nat.mod_eq_of_lt hg
      · rfl
    · exact e3.trans (Nat.mod_eq_of_lt h0)
    · refine e4.trans ?_
      split_ifs
      · exact Nat.mod_eq_of_lt h1
      · rfl
    · exact e2.trans (Nat.mod_eq_of_lt hm)
  · rw [hw]
    obtain ⟨e1, e2, e3, e4, e5⟩ := mspSetSensorAlignment_decode7 cfg st behind
      ((if cfg.USE_MULTI_GYRO then
          (if st.gyro_to_use = cfg.GYRO_CONFIG_USE_GYRO_2 then st.gyroDeviceAlign 1
           else st.gyroDeviceAlign 0)
         else st.gyroDeviceAlign 0) % 256)
      ((if cfg.USE_MULTI_GYRO then
          (if st.gyro_to_use = cfg.GYRO_CONFIG_USE_GYRO_2 then st.gyroDeviceAlign 1
           else st.gyroDeviceAlign 0)
         else st.gyroDeviceAlign 0) % 256)
      (st.mag_align % 256) (st.gyroDetectionFlags % 256)
      ((if cfg.USE_MULTI_GYRO then st.gyro_to_use else cfg.GYRO_CONFIG_USE_GYRO_1) % 256)
      (st.gyroDeviceAlign 0 % 256)
      ((if cfg.USE_MULTI_GYRO then st.gyroDeviceAlign 1 else cfg.ALIGN_DEFAULT) % 256)
      (Nat.mod_lt _ (by decide)) (Nat.mod_lt _ (by decide)) (Nat.mod_lt _ (by decide))
      (Nat.mod_lt _ (by decide))
    refine ⟨_, mspFcProcessCommand_set_sensor_alignment cfg svc fuel _ _ _ _ _, e1,
      e2.trans (Nat.mod_eq_of_lt hm), ?_, ?_, ?_⟩
    · exact e5
    · refine e3.trans ?_
      split_ifs
      · exact Nat.mod_eq_of_lt hg
      · rfl
    · refine e4.trans ?_
      split_ifs
      · exact Nat.mod_eq_of_lt h0
      · rfl

/-- C27 (amended), evaluated on the build `fullBuild` with the second gyro
selected and magnetometer alignment 3. -/
theorem mspFcProcessCommand_sensor_alignment_roundtrip_witness :
    ∃ r1, mspFcProcessCommand fullBuild idleServices (0 + 1)
        { buf := sbufOfPayload [] (fun _ => 0), cmd := MSP_SENSOR_ALIGNMENT,
          result := MSP_RESULT_ACK } (replyPacket 64) (some none)
        { idleState [] with gyro_to_use := 1, mag_align := 3 } = some r1 ∧
      ∃ r2, mspFcProcessCommand fullBuild idleServices (0 + 1)
          { buf := sbufOfPayload
              ((sbufWritten (replyPacket 64).buf.ptr r1.reply.buf).eraseIdx 3) (fun _ => 0),
            cmd := MSP_SET_SENSOR_ALIGNMENT, result := MSP_RESULT_ACK } (replyPacket 64)
          (some none) { idleState [] with gyro_to_use := 1, mag_align := 3 } = some r2 ∧
        r2.ret = MSP_RESULT_ACK ∧ r2.st.gyro_to_use = 1 ∧ r2.st.mag_align = 3 := by
  obtain ⟨r1, h1, -, ⟨r2, h2, h3, h4, -, -, h7⟩, -⟩ :=
    mspFcProcessCommand_sensor_alignment_roundtrip fullBuild idleServices 0
      (sbufOfPayload [] (fun _ => 0)) MSP_RESULT_ACK MSP_RESULT_ACK (replyPacket 64)
      (replyPacket 64) (some none) (some none)
      { idleState [] with gyro_to_use := 1, mag_align := 3 } (fun _ => 0)
      (by decide) (by decide) (by decide) (by decide)
  exact ⟨r1, h1, r2, h2, h3, h4, h7⟩

theorem mspRcTuning_writes (st : FcState) (dst : sbuf_t) :
    WritesFrom dst (mspRcTuning st dst)
      ([st.currentControlRateProfile.rcRates 0 % 256, st.currentControlRateProfile.rcExpo 0 % 256,
        st.currentControlRateProfile.rates 0 % 256, st.currentControlRateProfile.rates 1 % 256,
        st.currentControlRateProfile.rates 2 % 256, st.currentControlRateProfile.dynThrPID % 256,
        st.currentControlRateProfile.thrMid8 % 256, st.currentControlRateProfile.thrExpo8 % 256] ++
        le16 st.currentControlRateProfile.tpa_breakpoint ++
        [st.currentControlRateProfile.rcExpo 2 % 256, st.currentControlRateProfile.rcRates 2 % 256,
         st.currentControlRateProfile.rcRates 1 % 256, st.currentControlRateProfile.rcExpo 1 % 256,
         st.currentControlRateProfile.throttle_limit_type % 256,
         st.currentControlRateProfile.throttle_limit_percent % 256]) := by
  have hr : (List.range 3).map (fun i => st.currentControlRateProfile.rates i % 256) =
      [st.currentControlRateProfile.rates 0 % 256, st.currentControlRateProfile.rates 1 % 256,
       st.currentControlRateProfile.rates 2 % 256] := rfl
  have h := writesFrom_u8 dst _ _ st.currentControlRateProfile.throttle_limit_percent
    (writesFrom_u8 dst _ _ st.currentControlRateProfile.throttle_limit_type
      (writesFrom_u8 dst _ _ (st.currentControlRateProfile.rcExpo FD_PITCH)
        (writesFrom_u8 dst _ _ (st.currentControlRateProfile.rcRates FD_PITCH)
          (writesFrom_u8 dst _ _ (st.currentControlRateProfile.rcRates FD_YAW)
            (writesFrom_u8 dst _ _ (st.currentControlRateProfile.rcExpo FD_YAW)
              (writesFrom_u16 dst _ _ st.currentControlRateProfile.tpa_breakpoint
                (writesFrom_u8 dst _ _ st.currentControlRateProfile.thrExpo8
                  (writesFrom_u8 dst _ _ st.currentControlRateProfile.thrMid8
                    (writesFrom_u8 dst _ _ st.currentControlRateProfile.dynThrPID
                      (writesFrom_u8s dst _ _ st.currentControlRateProfile.rates 3
                        (writesFrom_u8 dst _ _ (st.currentControlRateProfile.rcExpo FD_ROLL)
                          (writesFrom_u8 dst _ _ (st.currentControlRateProfile.rcRates FD_ROLL)
                            (writesFrom_refl dst)))))))))))))
  rw [hr] at h
  simpa [mspRcTuning, List.append_assoc, FD_ROLL, FD_PITCH, FD_YAW] using h

/-- The set command `MSP_SET_RC_TUNING` on a payload of sixteen bytes in the
layout of the reply of `MSP_RC_TUNING`: every field of the profile takes the value
of its byte, except `dynThrPID`, which takes the smaller of its byte and
`CONTROL_RATE_CONFIG_TPA_MAX`. -/
theorem mspSetRcTuning_decode (cfg : BuildConfig) (svc : Services) (st2 : FcState)
    (behind : Nat → Nat) (a0 a1 r0 r1 r2 d m e tpa ey ry rp ep tt tp : Nat)
    (ha0 : a0 < 256) (ha1 : a1 < 256) (hr0 : r0 < 256) (hr1 : r1 < 256) (hr2 : r2 < 256)
    (hd : d < 256) (hm : m < 256) (he : e < 256) (htpa : tpa < 65536) (hey : ey < 256)
    (hry : ry < 256) (hrp : rp < 256) (hep : ep < 256) (htt : tt < 256) (htp : tp < 256) :
    ∃ q, (mspSetRcTuning cfg svc st2
        (sbufOfPayload ([a0, a1, r0, r1, r2, d, m, e] ++ le16 tpa ++ [ey, ry, rp, ep, tt, tp])
          behind)).st.currentControlRateProfile = q ∧
      (mspSetRcTuning cfg svc st2
        (sbufOfPayload ([a0, a1, r0, r1, r2, d, m, e] ++ le16 tpa ++ [ey, ry, rp, ep, tt, tp])
          behind)).ret = MSP_RESULT_ACK ∧
      q.rcRates 0 = a0 ∧ q.rcRates 1 = rp ∧ q.rcRates 2 = ry ∧
      q.rcExpo 0 = a1 ∧ q.rcExpo 1 = ep ∧ q.rcExpo 2 = ey ∧
      q.rates 0 = r0 ∧ q.rates 1 = r1 ∧ q.rates 2 = r2 ∧
      q.dynThrPID = min d cfg.CONTROL_RATE_CONFIG_TPA_MAX ∧ q.thrMid8 = m ∧ q.thrExpo8 = e ∧
      q.tpa_breakpoint = tpa ∧ q.throttle_limit_type = tt ∧ q.throttle_limit_percent = tp := by
  refine ⟨_, rfl, ?_⟩
  by_cases h1 : st2.currentControlRateProfile.rcRates 1 = st2.currentControlRateProfile.rcRates 0 <;>
  by_cases h2 : st2.currentControlRateProfile.rcExpo 1 = st2.currentControlRateProfile.rcExpo 0 <;>
  · simp [mspSetRcTuning, storeValues, sbufOfPayload, sbufReadU8, sbufReadU16, sbufBytesRemaining,
      le16, arraySet, FD_ROLL, FD_PITCH, FD_YAW, h1, h2, Nat.mod_eq_of_lt ha0,
      Nat.mod_eq_of_lt ha1, Nat.mod_eq_of_lt hr0, Nat.mod_eq_of_lt hr1, Nat.mod_eq_of_lt hr2,
      Nat.mod_eq_of_lt hd, Nat.mod_eq_of_lt hm, Nat.mod_eq_of_lt he, Nat.mod_eq_of_lt hey,
      Nat.mod_eq_of_lt hry, Nat.mod_eq_of_lt hrp, Nat.mod_eq_of_lt hep, Nat.mod_eq_of_lt htt,
      Nat.mod_eq_of_lt htp]
    omega

theorem mspFcProcessCommand_set_rc_tuning (cfg : BuildConfig) (svc : Services)
    (fuel : Nat) (src : sbuf_t) (res : mspResult_e) (reply : mspPacket_t)
    (fn : Option mspPostProcessFnPtr) (st : FcState) :
    mspFcProcessCommand cfg svc (fuel + 1)
        { buf := src, cmd := MSP_SET_RC_TUNING, result := res } reply fn st =
      some { ret := (mspSetRcTuning cfg svc st src).ret,
             cmd := { buf := (mspSetRcTuning cfg svc st src).src,
                      cmd := MSP_SET_RC_TUNING, result := res },
             reply := { buf := reply.buf, cmd := MSP_SET_RC_TUNING,
                        result := (mspSetRcTuning cfg svc st src).ret },
             mspPostProcessFn := fn, st := (mspSetRcTuning cfg svc st src).st } :=
  mspFcProcessCommand_in cfg svc fuel
    { buf := src, cmd := MSP_SET_RC_TUNING, result := res } reply fn st rfl rfl rfl rfl rfl rfl

/-- The query `MSP_RC_TUNING` through the whole dispatch chain: the reply is the
one `mspRcTuning` writes. -/
theorem mspFcProcessCommand_rc_tuning (cfg : BuildConfig) (svc : Services)
    (fuel : Nat) (src : sbuf_t) (res : mspResult_e) (reply : mspPacket_t)
    (fn : Option mspPostProcessFnPtr) (st : FcState) :
    ∃ r1, mspFcProcessCommand cfg svc (fuel + 1)
        { buf := src, cmd := MSP_RC_TUNING, result := res } reply fn st = some r1 ∧
      r1.ret = MSP_RESULT_ACK ∧ r1.reply.buf = mspRcTuning st reply.buf := by
  have hc : mspProcessOutCommand cfg svc st MSP_RC_TUNING reply.buf =
      (true, mspRcTuning st reply.buf) := rfl
  have hc0 : (mspCommonProcessOutCommand cfg svc st MSP_RC_TUNING reply.buf).1 = false := rfl
  rw [mspFcProcessCommand_succ]
  simp only [hc0, hc, if_true, Bool.false_eq_true, if_false]
  exact ⟨_, rfl, rfl, rfl⟩

/-- The set command `MSP_SET_RC_TUNING` through the whole dispatch chain: result
and state are those of `mspSetRcTuning`. -/
theorem mspFcProcessCommand_set_rc_tuning_feed (cfg : BuildConfig) (svc : Services)
    (fuel : Nat) (src : sbuf_t) (res : mspResult_e) (reply : mspPacket_t)
    (fn : Option mspPostProcessFnPtr) (st : FcState) :
    ∃ r2, mspFcProcessCommand cfg svc (fuel + 1)
        { buf := src, cmd := MSP_SET_RC_TUNING, result := res } reply fn st = some r2 ∧
      r2.ret = (mspSetRcTuning cfg svc st src).ret ∧
      r2.st.currentControlRateProfile =
        (mspSetRcTuning cfg svc st src).st.currentControlRateProfile :=
  ⟨_, mspFcProcessCommand_set_rc_tuning cfg svc fuel src res reply fn st, rfl, rfl⟩

/-- C25 fails on the code: on the build `fullBuild`, where
`CONTROL_RATE_CONFIG_TPA_MAX` is 100, the profile of `idleState` with `dynThrPID`
200 is reported by `MSP_RC_TUNING`, and feeding that complete reply back through
`MSP_SET_RC_TUNING` is acknowledged and leaves `dynThrPID` at 100: the set command
stores `MIN(value, CONTROL_RATE_CONFIG_TPA_MAX)`. -/
theorem mspFcProcessCommand_rc_tuning_counterexample :
    ∃ r1 r2, mspFcProcessCommand fullBuild idleServices (0 + 1)
        { buf := sbufOfPayload [] (fun _ => 0), cmd := MSP_RC_TUNING,
          result := MSP_RESULT_ACK } (replyPacket 64) (some none)
        { idleState [] with currentControlRateProfile :=
          { (idleState []).currentControlRateProfile with dynThrPID := 200 } } = some r1 ∧
      mspFcProcessCommand fullBuild idleServices (0 + 1)
          { buf := sbufOfPayload (sbufWritten (replyPacket 64).buf.ptr r1.reply.buf) (fun _ => 0),
            cmd := MSP_SET_RC_TUNING, result := MSP_RESULT_ACK } (replyPacket 64) (some none)
          { idleState [] with currentControlRateProfile :=
            { (idleState []).currentControlRateProfile with dynThrPID := 200 } } = some r2 ∧
      r2.ret = MSP_RESULT_ACK ∧ r2.st.currentControlRateProfile.dynThrPID = 100 ∧
      r2.st.currentControlRateProfile.dynThrPID ≠ 200 := by
  obtain ⟨r1, h1, -, hb⟩ := mspFcProcessCommand_rc_tuning fullBuild idleServices 0
    (sbufOfPayload [] (fun _ => 0)) MSP_RESULT_ACK (replyPacket 64) (some none)
    { idleState [] with currentControlRateProfile :=
      { (idleState []).currentControlRateProfile with dynThrPID := 200 } }
  have hw : sbufWritten (replyPacket 64).buf.ptr r1.reply.buf =
      [100, 0, 70, 70, 70, 200, 50, 0] ++ le16 1650 ++ [0, 100, 100, 0, 0, 100] := by
    rw [hb, (mspRcTuning_writes { idleState [] with currentControlRateProfile :=
        { (idleState []).currentControlRateProfile with dynThrPID := 200 } }
      (replyPacket 64).buf).2.2.1]
    rfl
  obtain ⟨r2, h2, hret, hst⟩ := mspFcProcessCommand_set_rc_tuning_feed fullBuild idleServices 0
    (sbufOfPayload (sbufWritten (replyPacket 64).buf.ptr r1.reply.buf) (fun _ => 0))
    MSP_RESULT_ACK (replyPacket 64) (some none)
    { idleState [] with currentControlRateProfile :=
      { (idleState []).currentControlRateProfile with dynThrPID := 200 } }
  obtain ⟨q, hq, e1, -, -, -, -, -, -, -, -, -, ed, -⟩ := mspSetRcTuning_decode fullBuild
    idleServices { idleState [] with currentControlRateProfile :=
      { (idleState []).currentControlRateProfile with dynThrPID := 200 } } (fun _ => 0)
    100 0 70 70 70 200 50 0 1650 0 100 100 0 0 100
    (by decide) (by decide) (by decide) (by decide) (by decide) (by decide) (by decide)
    (by decide) (by decide) (by decide) (by decide) (by decide) (by decide) (by decide)
    (by decide)
  have hd : q.dynThrPID = 100 := ed.trans (by decide)
  rw [hw] at hret hst
  rw [hq] at hst
  rw [e1] at hret
  refine ⟨r1, r2, h1, h2, hret, ?_, ?_⟩
  · rw [hst]
    exact hd
  · rw [hst, hd]
    decide

/-- C25 (amended): the reply of `MSP_RC_TUNING` has sixteen bytes; feeding it
complete as the payload of `MSP_SET_RC_TUNING` is acknowledged and makes the rc
rates, expos and rates of roll, pitch and yaw, throttle mid and expo, the TPA
breakpoint and throttle limit type and percent equal to the values the reply was
made from, and `dynThrPID` equal to the smaller of its original value and
`CONTROL_RATE_CONFIG_TPA_MAX`, so that it too is unchanged when it was at most that
maximum. The fields hold values of their C types. -/
theorem mspFcProcessCommand_rc_tuning_roundtrip (cfg : BuildConfig) (svc : Services)
    (fuel : Nat) (src : sbuf_t) (res res2 : mspResult_e) (reply reply2 : mspPacket_t)
    (fn fn2 : Option mspPostProcessFnPtr) (st st2 : FcState) (behind : Nat → Nat)
    (hR : ∀ i, i < 3 → st.currentControlRateProfile.rcRates i < 256)
    (hE : ∀ i, i < 3 → st.currentControlRateProfile.rcExpo i < 256)
    (hA : ∀ i, i < 3 → st.currentControlRateProfile.rates i < 256)
    (hd : st.currentControlRateProfile.dynThrPID < 256)
    (hm : st.currentControlRateProfile.thrMid8 < 256)
    (he : st.currentControlRateProfile.thrExpo8 < 256)
    (ht : st.currentControlRateProfile.tpa_breakpoint < 65536)
    (htt : st.currentControlRateProfile.throttle_limit_type < 256)
    (htp : st.currentControlRateProfile.throttle_limit_percent < 256) :
    ∃ r1, mspFcProcessCommand cfg svc (fuel + 1)
        { buf := src, cmd := MSP_RC_TUNING, result := res } reply fn st = some r1 ∧
      (sbufWritten reply.buf.ptr r1.reply.buf).length = 16 ∧
      ∃ r2, mspFcProcessCommand cfg svc (fuel + 1)
          { buf := sbufOfPayload (sbufWritten reply.buf.ptr r1.reply.buf) behind,
            cmd := MSP_SET_RC_TUNING, result := res2 } reply2 fn2 st2 = some r2 ∧
        r2.ret = MSP_RESULT_ACK ∧
        (∀ i, i < 3 → r2.st.currentControlRateProfile.rcRates i =
          st.currentControlRateProfile.rcRates i) ∧
        (∀ i, i < 3 → r2.st.currentControlRateProfile.rcExpo i =
          st.currentControlRateProfile.rcExpo i) ∧
        (∀ i, i < 3 → r2.st.currentControlRateProfile.rates i =
          st.currentControlRateProfile.rates i) ∧
        r2.st.currentControlRateProfile.dynThrPID =
          min st.currentControlRateProfile.dynThrPID cfg.CONTROL_RATE_CONFIG_TPA_MAX ∧
        r2.st.currentControlRateProfile.thrMid8 = st.currentControlRateProfile.thrMid8 ∧
        r2.st.currentControlRateProfile.thrExpo8 = st.currentControlRateProfile.thrExpo8 ∧
        r2.st.currentControlRateProfile.tpa_breakpoint =
          st.currentControlRateProfile.tpa_breakpoint ∧
        r2.st.currentControlRateProfile.throttle_limit_type =
          st.currentControlRateProfile.throttle_limit_type ∧
        r2.st.currentControlRateProfile.throttle_limit_percent =
          st.currentControlRateProfile.throttle_limit_percent := by
  obtain ⟨r1, hr1, -, hb⟩ := mspFcProcessCommand_rc_tuning cfg svc fuel src res reply fn st
  have hw := (mspRcTuning_writes st reply.buf).2.2.1
  rw [← hb] at hw
  obtain ⟨r2, h2, hret, hst⟩ := mspFcProcessCommand_set_rc_tuning_feed cfg svc fuel
    (sbufOfPayload (sbufWritten reply.buf.ptr r1.reply.buf) behind) res2 reply2 fn2 st2
  refine ⟨r1, hr1, ?_, r2, h2, ?_⟩
  · rw [hw]
    rfl
  · obtain ⟨q, hq, e1, eR0, eR1, eR2, eE0, eE1, eE2, eA0, eA1, eA2, ed, em, ee, et, ett, etp⟩ :=
      mspSetRcTuning_decode cfg svc st2 behind _ _ _ _ _ _ _ _ _ _ _ _ _ _ _
        (Nat.mod_lt (st.currentControlRateProfile.rcRates 0) (by decide))
        (Nat.mod_lt (st.currentControlRateProfile.rcExpo 0) (by decide))
        (Nat.mod_lt (st.currentControlRateProfile.rates 0) (by decide))
        (Nat.mod_lt (st.currentControlRateProfile.rates 1) (by decide))
        (Nat.mod_lt (st.currentControlRateProfile.rates 2) (by decide))
        (Nat.mod_lt st.currentControlRateProfile.dynThrPID (by decide))
        (Nat.mod_lt st.currentControlRateProfile.thrMid8 (by decide))
        (Nat.mod_lt st.currentControlRateProfile.thrExpo8 (by decide))
        ht
        (Nat.mod_lt (st.currentControlRateProfile.rcExpo 2) (by decide))
        (Nat.mod_lt (st.currentControlRateProfile.rcRates 2) (by decide))
        (Nat.mod_lt (st.currentControlRateProfile.rcRates 1) (by decide))
        (Nat.mod_lt (st.currentControlRateProfile.rcExpo 1) (by decide))
        (Nat.mod_lt st.currentControlRateProfile.throttle_limit_type (by decide))
        (Nat.mod_lt st.currentControlRateProfile.throttle_limit_percent (by decide))
    rw [hw] at hret hst
    rw [hq] at hst
    rw [e1] at hret
    rw [hst]
    refine ⟨hret, ?_, ?_, ?_, ?_, ?_, ?_, ?_, ?_, ?_⟩
    · intro i hi
      interval_cases i
      · exact eR0.trans (Nat.mod_eq_of_lt (hR 0 (by decide)))
      · exact eR1.trans (Nat.mod_eq_of_lt (hR 1 (by decide)))
      · exact eR2.trans (Nat.mod_eq_of_lt (hR 2 (by decide)))
    · intro i hi
      interval_cases i
      · exact eE0.trans (Nat.mod_eq_of_lt (hE 0 (by decide)))
      · exact eE1.trans (Nat.mod_eq_of_lt (hE 1 (by decide)))
      · exact eE2.trans (Nat.mod_eq_of_lt (hE 2 (by decide)))
    · intro i hi
      interval_cases i
      · exact eA0.trans (Nat.mod_eq_of_lt (hA 0 (by decide)))
      · exact eA1.trans (Nat.mod_eq_of_lt (hA 1 (by decide)))
      · exact eA2.trans (Nat.mod_eq_of_lt (hA 2 (by decide)))
    · rw [ed, Nat.mod_eq_of_lt hd]
    · exact em.trans (Nat.mod_eq_of_lt hm)
    · exact ee.trans (Nat.mod_eq_of_lt he)
    · exact et
    · exact ett.trans (Nat.mod_eq_of_lt htt)
    · exact etp.trans (Nat.mod_eq_of_lt htp)

/-- C25 (amended), evaluated on the profile of `idleState` (rc rates 100, rates
70, `dynThrPID` 10, TPA breakpoint 1650), fed back to a controller whose profile
has `dynThrPID` 0 and TPA breakpoint 0. -/
theorem mspFcProcessCommand_rc_tuning_roundtrip_witness :
    ∃ r1, mspFcProcessCommand fullBuild idleServices (0 + 1)
        { buf := sbufOfPayload [] (fun _ => 0), cmd := MSP_RC_TUNING,
          result := MSP_RESULT_ACK } (replyPacket 64) (some none) (idleState []) = some r1 ∧
      ∃ r2, mspFcProcessCommand fullBuild idleServices (0 + 1)
          { buf := sbufOfPayload (sbufWritten (replyPacket 64).buf.ptr r1.reply.buf) (fun _ => 0),
            cmd := MSP_SET_RC_TUNING, result := MSP_RESULT_ACK } (replyPacket 64) (some none)
          { idleState [] with currentControlRateProfile :=
            { (idleState []).currentControlRateProfile with dynThrPID := 0,
                                                              tpa_breakpoint := 0 } }
          = some r2 ∧
        r2.ret = MSP_RESULT_ACK ∧ r2.st.currentControlRateProfile.dynThrPID = 10 ∧
        r2.st.currentControlRateProfile.tpa_breakpoint = 1650 := by
  obtain ⟨r1, h1, -, r2, h2, h3, -, -, -, h4, -, -, h5, -⟩ :=
    mspFcProcessCommand_rc_tuning_roundtrip fullBuild idleServices 0
      (sbufOfPayload [] (fun _ => 0)) MSP_RESULT_ACK MSP_RESULT_ACK (replyPacket 64)
      (replyPacket 64) (some none) (some none) (idleState [])
      { idleState [] with currentControlRateProfile :=
        { (idleState []).currentControlRateProfile with dynThrPID := 0, tpa_breakpoint := 0 } }
      (fun _ => 0) (fun _ _ => (by decide : (100 : Nat) < 256))
      (fun _ _ => (by decide : (0 : Nat) < 256)) (fun _ _ => (by decide : (70 : Nat) < 256))
      (by decide) (by decide) (by decide) (by decide) (by decide) (by decide)
  exact ⟨r1, h1, r2, h2, h3, h4.trans (by decide), h5.trans (by decide)⟩

/-- Every command other than the batch command and, in builds with the entropy
coder, the dataflash read is answered whenever there is fuel for one step. -/
theorem mspFcProcessCommand_returns (cfg : BuildConfig) (svc : Services) (fuel : Nat)
    (cmd reply : mspPacket_t) (fn : Option mspPostProcessFnPtr) (st : FcState)
    (hb : isMultipleMsp cmd.cmd = false)
    (hd : (cfg.USE_FLASHFS && cfg.USE_HUFFMAN && isDataflashRead cmd.cmd) = false)
    (hm : isSetModeRange cmd.cmd = false) :
    ∃ r, mspFcProcessCommand cfg svc (fuel + 1) cmd reply fn st = some r := by
  rw [mspFcProcessCommand_succ]
  by_cases h1 : (mspCommonProcessOutCommand cfg svc st cmd.cmd reply.buf).1 = true
  · rw [if_pos h1]
    exact ⟨_, rfl⟩
  · rw [if_neg h1]
    by_cases h2 : (mspProcessOutCommand cfg svc st cmd.cmd reply.buf).1 = true
    · rw [if_pos h2]
      exact ⟨_, rfl⟩
    · rw [if_neg h2]
      obtain ⟨w, hw⟩ := mspFcProcessOutCommandWithArg_isSome cfg svc
        (mspFcProcessCommand cfg svc fuel) fuel st cmd.cmd cmd.buf reply.buf fn hb
      rw [hw]
      dsimp only
      by_cases h3 : w.ret ≠ MSP_RESULT_CMD_UNKNOWN
      · rw [if_pos h3]
        exact ⟨_, rfl⟩
      · rw [if_neg h3]
        by_cases h4 : (cfg.USE_SERIAL_4WAY_BLHELI_INTERFACE && isSet4wayIf cmd.cmd) = true
        · rw [if_pos h4]
          exact ⟨_, rfl⟩
        · rw [if_neg h4]
          by_cases h5 : (cfg.USE_FLASHFS && isDataflashRead cmd.cmd) = true
          · rw [if_pos h5]
            have hH : cfg.USE_HUFFMAN = false := by
              simp only [Bool.and_eq_true] at h5
              simp only [h5.1, h5.2, Bool.true_and, Bool.and_true] at hd
              exact hd
            obtain ⟨r, hr⟩ := mspFcDataFlashReadCommand_isSome cfg svc w.st fuel w.dst w.src hH
            rw [hr]
            exact ⟨_, rfl⟩
          · rw [if_neg h5, mspCommonProcessInCommand_fault cfg svc w.st cmd.cmd w.src hm]
            exact ⟨_, rfl⟩

/-- The sizing loop of the batch handler returns when the fuel exceeds the number
of bytes left to read and every sub-command it dispatches is answered; it leaves
the request memory alone and counts at most one sub-command per byte. -/
theorem batchSizingLoop_returns (cfg : BuildConfig) (pc : ProcessCommand) (mem : Nat → Nat)
    (lo hi : Nat)
    (hpc : ∀ a, lo ≤ a → a < hi → ∀ (pin pout : mspPacket_t) (st : FcState),
      ∃ r, pc { pin with cmd := cfg.cmdOfCode (mem a % 256) } pout none st = some r) :
    ∀ (n fuel : Nat) (b : BatchState), b.src.mem = mem → b.src.end_ = hi → lo ≤ b.src.ptr →
      b.src.ptr + n = hi → n < fuel →
      ∃ b2, batchSizingLoop cfg pc fuel b = some b2 ∧ b2.src.mem = mem ∧
        b2.maxMSPs ≤ b.maxMSPs + n := by
  intro n
  induction n with
  | zero =>
    intro fuel b hm he hl hp hf
    obtain ⟨f, rfl⟩ : ∃ f, fuel = f + 1 := ⟨fuel - 1, by omega⟩
    have h0 : ¬ (sbufBytesRemaining b.src ≠ 0 ∧ b.bytesRemaining > 0) := by
      intro h
      apply h.1
      simp only [sbufBytesRemaining]
      omega
    rw [batchSizingLoop, if_neg h0]
    exact ⟨b, rfl, hm, by omega⟩
  | succ n ih =>
    intro fuel b hm he hl hp hf
    obtain ⟨f, rfl⟩ : ∃ f, fuel = f + 1 := ⟨fuel - 1, by omega⟩
    rw [batchSizingLoop]
    by_cases h0 : sbufBytesRemaining b.src ≠ 0 ∧ b.bytesRemaining > 0
    · rw [if_pos h0]
      dsimp only
      obtain ⟨r, hr⟩ := hpc b.src.ptr hl (by omega) b.packetIn
        { b.packetOut with buf := sbufInit b.dst.mem b.dst.ptr b.dst.end_ } b.st
      have hr2 : pc { b.packetIn with cmd := cfg.cmdOfCode (sbufReadU8 b.src).1 }
          { b.packetOut with buf := sbufInit b.dst.mem b.dst.ptr b.dst.end_ } none b.st
          = some r := by
        simpa only [sbufReadU8, hm] using hr
      rw [hr2]
      dsimp only
      obtain ⟨b2, hb2, hm2, hx2⟩ := ih f
        { src := (sbufReadU8 b.src).2, dst := { b.dst with mem := r.reply.buf.mem },
          packetIn := r.cmd, packetOut := r.reply, st := r.st,
          bytesRemaining := b.bytesRemaining - ((u8 ((sbufPtr r.reply.buf : Int) - b.dst.ptr) + 1) % 256 : Nat),
          maxMSPs := if b.bytesRemaining - ((u8 ((sbufPtr r.reply.buf : Int) - b.dst.ptr) + 1) % 256 : Nat) ≥ 0
            then (b.maxMSPs + 1) % 256 else b.maxMSPs,
          calls := b.calls ++
            [{ cmd := { b.packetIn with cmd := cfg.cmdOfCode (sbufReadU8 b.src).1 },
               reply := { b.packetOut with buf := sbufInit b.dst.mem b.dst.ptr b.dst.end_ },
               st := b.st, res := r }] }
        hm he (by simp only [sbufReadU8]; omega) (by simp only [sbufReadU8]; omega) (by omega)
      refine ⟨b2, hb2, hm2, le_trans hx2 ?_⟩
      dsimp only
      split_ifs
      · have := Nat.mod_le (b.maxMSPs + 1) 256
        omega
      · omega
    · rw [if_neg h0]
      exact ⟨b, rfl, hm, by omega⟩

/-- The emitting loop of the batch handler returns when every sub-command it
dispatches is answered. -/
theorem batchEmitLoop_returns (cfg : BuildConfig) (pc : ProcessCommand) (mem : Nat → Nat)
    (lo hi : Nat)
    (hpc : ∀ a, lo ≤ a → a < hi → ∀ (pin pout : mspPacket_t) (st : FcState),
      ∃ r, pc { pin with cmd := cfg.cmdOfCode (mem a % 256) } pout none st = some r) :
    ∀ (k : Nat) (b : BatchState), b.src.mem = mem → lo ≤ b.src.ptr → b.src.ptr + k ≤ hi →
      ∃ b2, batchEmitLoop cfg pc k b = some b2 := by
  intro k
  induction k with
  | zero =>
    intro b _ _ _
    exact ⟨b, rfl⟩
  | succ k ih =>
    intro b hm hl hp
    rw [batchEmitLoop]
    dsimp only
    obtain ⟨r, hr⟩ := hpc b.src.ptr hl (by omega) b.packetIn
      { b.packetOut with buf := sbufWriteU8 b.packetOut.buf 0 } b.st
    have hr2 : pc { b.packetIn with cmd := cfg.cmdOfCode (sbufReadU8 b.src).1 }
        { b.packetOut with buf := sbufWriteU8 b.packetOut.buf 0 } none b.st = some r := by
      simpa only [sbufReadU8, hm] using hr
    rw [hr2]
    dsimp only
    exact ih _ hm (by simp only [sbufReadU8]; omega) (by simp only [sbufReadU8]; omega)

/-- The batch command with nothing to read is refused at once. -/
theorem mspFcProcessCommand_batch_empty (cfg : BuildConfig) (svc : Services) (fuel : Nat)
    (src : sbuf_t) (res : mspResult_e) (reply : mspPacket_t) (fn : Option mspPostProcessFnPtr)
    (st : FcState) (h : sbufBytesRemaining src = 0) :
    mspFcProcessCommand cfg svc (fuel + 1)
        { buf := src, cmd := MSP_MULTIPLE_MSP, result := res } reply fn st =
      some { ret := MSP_RESULT_ERROR,
             cmd := { buf := src, cmd := MSP_MULTIPLE_MSP, result := res },
             reply := { buf := reply.buf, cmd := MSP_MULTIPLE_MSP, result := MSP_RESULT_ERROR },
             mspPostProcessFn := fn, st := st } := by
  have h1 : (mspCommonProcessOutCommand cfg svc st MSP_MULTIPLE_MSP reply.buf).1 = false := rfl
  have h2 : (mspProcessOutCommand cfg svc st MSP_MULTIPLE_MSP reply.buf).1 = false := rfl
  have hW : mspFcProcessOutCommandWithArg cfg svc (mspFcProcessCommand cfg svc fuel) fuel st
      MSP_MULTIPLE_MSP src reply.buf fn =
      some { ret := MSP_RESULT_ERROR, src := src, dst := reply.buf, mspPostProcessFn := fn,
             st := st } := by
    have hs : mspFcProcessOutCommandWithArg cfg svc (mspFcProcessCommand cfg svc fuel) fuel st
      MSP_MULTIPLE_MSP src reply.buf fn =
      if sbufBytesRemaining src = 0 then
        some { ret := MSP_RESULT_ERROR, src := src, dst := reply.buf, mspPostProcessFn := fn,
               st := st }
      else _ := rfl
    rw [hs, if_pos h]
  rw [mspFcProcessCommand_succ]
  simp only [h1, h2, hW, Bool.false_eq_true, if_false, ne_eq, reduceCtorEq, not_false_eq_true,
    if_true]

/-- The batch command with something to read: the sizing loop, then the emitting
loop over the count the sizing loop found, then `MSP_RESULT_ACK`. -/
theorem mspFcProcessCommand_batch (cfg : BuildConfig) (svc : Services) (fuel : Nat)
    (src : sbuf_t) (res : mspResult_e) (reply : mspPacket_t) (fn : Option mspPostProcessFnPtr)
    (st : FcState) (h : sbufBytesRemaining src ≠ 0) :
    mspFcProcessCommand cfg svc (fuel + 1)
        { buf := src, cmd := MSP_MULTIPLE_MSP, result := res } reply fn st =
      match batchSizingLoop cfg (mspFcProcessCommand cfg svc fuel) fuel
          { src := src, dst := reply.buf,
            packetIn := localPacket (sbufInit src.mem src.end_ src.end_),
            packetOut := localPacket reply.buf, st := st,
            bytesRemaining := sbufBytesRemaining reply.buf - 1, maxMSPs := 0 } with
      | none => none
      | some b =>
        match batchEmitLoop cfg (mspFcProcessCommand cfg svc fuel) b.maxMSPs
            { b with src := { b.src with ptr := src.ptr },
                     packetOut := { b.packetOut with
                       buf := sbufInit b.dst.mem b.dst.ptr b.dst.end_ } } with
        | none => none
        | some b2 =>
          some { ret := MSP_RESULT_ACK,
                 cmd := { buf := b2.src, cmd := MSP_MULTIPLE_MSP, result := res },
                 reply := { buf := { b2.packetOut.buf with end_ := reply.buf.end_ },
                            cmd := MSP_MULTIPLE_MSP, result := MSP_RESULT_ACK },
                 mspPostProcessFn := fn, st := b2.st } := by
  have h1 : (mspCommonProcessOutCommand cfg svc st MSP_MULTIPLE_MSP reply.buf).1 = false := rfl
  have h2 : (mspProcessOutCommand cfg svc st MSP_MULTIPLE_MSP reply.buf).1 = false := rfl
  have hs : mspFcProcessOutCommandWithArg cfg svc (mspFcProcessCommand cfg svc fuel) fuel st
      MSP_MULTIPLE_MSP src reply.buf fn =
      if sbufBytesRemaining src = 0 then
        some { ret := MSP_RESULT_ERROR, src := src, dst := reply.buf, mspPostProcessFn := fn,
               st := st }
      else
        match batchSizingLoop cfg (mspFcProcessCommand cfg svc fuel) fuel
          { src := src, dst := reply.buf,
            packetIn := localPacket (sbufInit src.mem src.end_ src.end_),
            packetOut := localPacket reply.buf, st := st,
            bytesRemaining := sbufBytesRemaining reply.buf - 1, maxMSPs := 0 } with
        | none => none
        | some b =>
          match batchEmitLoop cfg (mspFcProcessCommand cfg svc fuel) b.maxMSPs
            { b with src := { b.src with ptr := src.ptr },
                     packetOut := { b.packetOut with
                       buf := sbufInit b.dst.mem b.dst.ptr b.dst.end_ } } with
          | none => none
          | some b =>
            some { ret := MSP_RESULT_ACK, src := b.src,
                   dst := { b.packetOut.buf with end_ := reply.buf.end_ },
                   mspPostProcessFn := fn, st := b.st } := rfl
  rw [mspFcProcessCommand_succ]
  simp only [h1, h2, hs, if_neg h, Bool.false_eq_true, if_false]
  cases batchSizingLoop cfg (mspFcProcessCommand cfg svc fuel) fuel
          { src := src, dst := reply.buf,
            packetIn := localPacket (sbufInit src.mem src.end_ src.end_),
            packetOut := localPacket reply.buf, st := st,
            bytesRemaining := sbufBytesRemaining reply.buf - 1, maxMSPs := 0 } with
  | none => rfl
  | some b =>
    dsimp only
    cases batchEmitLoop cfg (mspFcProcessCommand cfg svc fuel) b.maxMSPs
            { b with src := { b.src with ptr := src.ptr },
                     packetOut := { b.packetOut with
                       buf := sbufInit b.dst.mem b.dst.ptr b.dst.end_ } } with
    | none => rfl
    | some b2 =>
      simp only [ne_eq, reduceCtorEq, not_false_eq_true, if_true]


theorem mspRebootReply_slot (cfg : BuildConfig) (st : FcState) (src dst : sbuf_t)
    (fn : Option mspPostProcessFnPtr) :
    (mspRebootReply cfg st src dst fn).mspPostProcessFn = fn ∨
    (mspRebootReply cfg st src dst fn).mspPostProcessFn =
      registerPostProcessFn fn PostProcessAction.mspRebootFn := by
  unfold mspRebootReply
  simp only []
  split_ifs
  · exact Or.inr rfl
  · exact Or.inl rfl
  · exact Or.inr rfl

/-- The sizing loop hands every sub-command the slot `none`: it does not depend on
what the entry point does with a slot. -/
theorem batchSizingLoop_congr (cfg : BuildConfig) (pc pc2 : ProcessCommand)
    (h : ∀ c r st, pc c r none st = pc2 c r none st) :
    ∀ (fuel : Nat) (b : BatchState),
      batchSizingLoop cfg pc fuel b = batchSizingLoop cfg pc2 fuel b := by
  intro fuel
  induction fuel with
  | zero =>
    intro b
    rfl
  | succ fuel ih =>
    intro b
    rw [batchSizingLoop, batchSizingLoop]
    by_cases h0 : sbufBytesRemaining b.src ≠ 0 ∧ b.bytesRemaining > 0
    · rw [if_pos h0, if_pos h0]
      dsimp only
      rw [h]
      cases pc2 { b.packetIn with cmd := cfg.cmdOfCode (sbufReadU8 b.src).1 }
          { b.packetOut with buf := sbufInit b.dst.mem b.dst.ptr b.dst.end_ } none b.st with
      | none => rfl
      | some r => exact ih _
    · rw [if_neg h0, if_neg h0]

/-- The emitting loop hands every sub-command the slot `none`. -/
theorem batchEmitLoop_congr (cfg : BuildConfig) (pc pc2 : ProcessCommand)
    (h : ∀ c r st, pc c r none st = pc2 c r none st) :
    ∀ (k : Nat) (b : BatchState), batchEmitLoop cfg pc k b = batchEmitLoop cfg pc2 k b := by
  intro k
  induction k with
  | zero =>
    intro b
    rfl
  | succ k ih =>
    intro b
    rw [batchEmitLoop, batchEmitLoop]
    dsimp only
    rw [h]
    cases pc2 { b.packetIn with cmd := cfg.cmdOfCode (sbufReadU8 b.src).1 }
        { b.packetOut with buf := sbufWriteU8 b.packetOut.buf 0 } none b.st with
    | none => rfl
    | some r => exact ih _

theorem mspFcProcessOutCommandWithArg_batch_congr (cfg : BuildConfig) (svc : Services)
    (pc pc2 : ProcessCommand) (h : ∀ c r st, pc c r none st = pc2 c r none st)
    (fuel : Nat) (st : FcState) (src dst : sbuf_t) (fn : Option mspPostProcessFnPtr) :
    mspFcProcessOutCommandWithArg cfg svc pc fuel st MSP_MULTIPLE_MSP src dst fn =
    mspFcProcessOutCommandWithArg cfg svc pc2 fuel st MSP_MULTIPLE_MSP src dst fn := by
  have hs : ∀ p : ProcessCommand,
      mspFcProcessOutCommandWithArg cfg svc p fuel st MSP_MULTIPLE_MSP src dst fn =
      if sbufBytesRemaining src = 0 then
        some { ret := MSP_RESULT_ERROR, src := src, dst := dst, mspPostProcessFn := fn,
               st := st }
      else
        match batchSizingLoop cfg p fuel
          { src := src, dst := dst,
            packetIn := localPacket (sbufInit src.mem src.end_ src.end_),
            packetOut := localPacket dst, st := st,
            bytesRemaining := sbufBytesRemaining dst - 1, maxMSPs := 0 } with
        | none => none
        | some b =>
          match batchEmitLoop cfg p b.maxMSPs
            { b with src := { b.src with ptr := src.ptr },
                     packetOut := { b.packetOut with
                       buf := sbufInit b.dst.mem b.dst.ptr b.dst.end_ } } with
          | none => none
          | some b =>
            some { ret := MSP_RESULT_ACK, src := b.src,
                   dst := { b.packetOut.buf with end_ := dst.end_ },
                   mspPostProcessFn := fn, st := b.st } := fun _ => rfl
  rw [hs pc, hs pc2, batchSizingLoop_congr cfg pc pc2 h]
  by_cases h0 : sbufBytesRemaining src = 0
  · rw [if_pos h0, if_pos h0]
  · rw [if_neg h0, if_neg h0]
    cases batchSizingLoop cfg pc2 fuel
          { src := src, dst := dst,
            packetIn := localPacket (sbufInit src.mem src.end_ src.end_),
            packetOut := localPacket dst, st := st,
            bytesRemaining := sbufBytesRemaining dst - 1, maxMSPs := 0 } with
    | none => rfl
    | some b =>
      dsimp only
      rw [batchEmitLoop_congr cfg pc pc2 h]

/-- The stage `mspFcProcessOutCommandWithArg` leaves the slot as it was or
registers the reboot action in it. -/
theorem mspFcProcessOutCommandWithArg_slot (cfg : BuildConfig) (svc : Services)
    (processCommand : ProcessCommand) (fuel : Nat) (st : FcState) (cmdMSP : MspCmd)
    (src dst : sbuf_t) (fn : Option mspPostProcessFnPtr) (w : StageResult)
    (h : mspFcProcessOutCommandWithArg cfg svc processCommand fuel st cmdMSP src dst fn = some w) :
    w.mspPostProcessFn = fn ∨
      w.mspPostProcessFn = registerPostProcessFn fn PostProcessAction.mspRebootFn := by
  unfold mspFcProcessOutCommandWithArg at h
  split at h
  · cases h; exact Or.inl rfl
  · cases h; exact Or.inl rfl
  · by_cases h0 : sbufBytesRemaining src ≠ 0
    · rw [if_pos h0] at h
      dsimp only at h
      split_ifs at h <;> cases h <;>
        first
        | exact Or.inl rfl
        | exact mspRebootReply_slot _ _ _ _ _
    · rw [if_neg h0] at h
      cases h
      exact mspRebootReply_slot _ _ _ _ _
  · by_cases h0 : sbufBytesRemaining src = 0
    · rw [if_pos h0] at h
      cases h
      exact Or.inl rfl
    · rw [if_neg h0] at h
      dsimp only at h
      split at h
      · cases h
      · split at h
        · cases h
        · cases h
          exact Or.inl rfl
  · cases h
    exact Or.inl rfl

theorem mspFc4waySerialCommand_slot (cfg : BuildConfig) (st : FcState) (dst src : sbuf_t)
    (fn : Option mspPostProcessFnPtr) :
    (mspFc4waySerialCommand cfg st dst src fn).2.2.1 = fn ∨
    ∃ a, (mspFc4waySerialCommand cfg st dst src fn).2.2.1 = registerPostProcessFn fn a := by
  unfold mspFc4waySerialCommand
  simp only []
  split_ifs <;> first | exact Or.inl rfl | exact Or.inr ⟨_, rfl⟩

theorem isMultipleMsp_eq (c : MspCmd) (h : isMultipleMsp c = true) : c = MSP_MULTIPLE_MSP := by
  cases c <;> first | rfl | cases h

/-- The batch command leaves the registration slot as it was. -/
theorem mspFcProcessCommand_batch_slot (cfg : BuildConfig) (svc : Services) (fuel : Nat)
    (src : sbuf_t) (res : mspResult_e) (reply : mspPacket_t) (fn : Option mspPostProcessFnPtr)
    (st : FcState) (r : ProcessResult)
    (h : mspFcProcessCommand cfg svc fuel
        { buf := src, cmd := MSP_MULTIPLE_MSP, result := res } reply fn st = some r) :
    r.mspPostProcessFn = fn ∧
      (sbufBytesRemaining src = 0 → r.ret = MSP_RESULT_ERROR) ∧
      (sbufBytesRemaining src ≠ 0 → r.ret = MSP_RESULT_ACK) := by
  cases fuel with
  | zero => cases h
  | succ fuel =>
    by_cases h0 : sbufBytesRemaining src = 0
    · rw [mspFcProcessCommand_batch_empty cfg svc fuel src res reply fn st h0] at h
      cases h
      exact ⟨rfl, fun _ => rfl, fun h1 => absurd h0 h1⟩
    · rw [mspFcProcessCommand_batch cfg svc fuel src res reply fn st h0] at h
      split at h
      · cases h
      · split at h
        · cases h
        · cases h
          exact ⟨rfl, fun h1 => absurd h1 h0, fun _ => rfl⟩

/-- A request leaves the registration slot as it was or registers one action in
it. -/
theorem mspFcProcessCommand_slot (cfg : BuildConfig) (svc : Services) (fuel : Nat)
    (cmd reply : mspPacket_t) (fn : Option mspPostProcessFnPtr) (st : FcState)
    (r : ProcessResult) (h : mspFcProcessCommand cfg svc fuel cmd reply fn st = some r) :
    r.mspPostProcessFn = fn ∨ ∃ a, r.mspPostProcessFn = registerPostProcessFn fn a := by
  cases fuel with
  | zero => cases h
  | succ fuel =>
    rw [mspFcProcessCommand_succ] at h
    by_cases h1 : (mspCommonProcessOutCommand cfg svc st cmd.cmd reply.buf).1 = true
    · rw [if_pos h1] at h
      cases h
      exact Or.inl rfl
    · rw [if_neg h1] at h
      by_cases h2 : (mspProcessOutCommand cfg svc st cmd.cmd reply.buf).1 = true
      · rw [if_pos h2] at h
        cases h
        exact Or.inl rfl
      · rw [if_neg h2] at h
        cases hw : mspFcProcessOutCommandWithArg cfg svc (mspFcProcessCommand cfg svc fuel) fuel
            st cmd.cmd cmd.buf reply.buf fn with
        | none =>
          rw [hw] at h
          cases h
        | some w =>
          rw [hw] at h
          dsimp only at h
          have hr := mspFcProcessOutCommandWithArg_ret _ _ _ _ _ _ _ _ _ _ hw
          have hs := mspFcProcessOutCommandWithArg_slot _ _ _ _ _ _ _ _ _ _ hw
          by_cases h3 : w.ret ≠ MSP_RESULT_CMD_UNKNOWN
          · rw [if_pos h3] at h
            cases h
            rcases hs with hs1 | hs1
            · exact Or.inl hs1
            · exact Or.inr ⟨_, hs1⟩
          · rw [if_neg h3] at h
            have hu : w.mspPostProcessFn = fn := by
              rcases hr with hr | hr
              · rcases hr with hr | hr
                · exact absurd (by rw [hr]; decide) h3
                · exact absurd (by rw [hr]; decide) h3
              · exact hr.2.2.2.1
            by_cases h4 : (cfg.USE_SERIAL_4WAY_BLHELI_INTERFACE && isSet4wayIf cmd.cmd) = true
            · rw [if_pos h4] at h
              cases h
              rw [hu]
              exact mspFc4waySerialCommand_slot _ _ _ _ _
            · rw [if_neg h4] at h
              by_cases h5 : (cfg.USE_FLASHFS && isDataflashRead cmd.cmd) = true
              · rw [if_pos h5] at h
                cases hd : mspFcDataFlashReadCommand cfg svc w.st fuel w.dst w.src with
                | none =>
                  rw [hd] at h
                  cases h
                | some d =>
                  rw [hd] at h
                  cases h
                  exact Or.inl hu
              · rw [if_neg h5] at h
                split at h
                · cases h
                · cases h
                  exact Or.inl hu

set_option maxRecDepth 1000000 in
/-- C20 fails on the code: with a box serialiser that produces 255 bytes, the
sub-command `MSP_BOXNAMES` (code 116) alone replies with 255 bytes, so that one
sub-reply with its length byte takes 256 bytes; a reply buffer with 100 bytes of
room has space for none (256 > 100 - 1). The batch of that one sub-command returns
`MSP_RESULT_ACK` with one sub-reply all the same: 256 bytes written into the room
of 100, the length byte reading 255. The sizing loop keeps the size in a
`uint8_t`, where 255 + 1 is 0. -/
theorem mspFcProcessCommand_batch_count_counterexample :
    (mspFcProcessCommand boxBuild (boxServices 255) 1
      (requestPacket MSP_BOXNAMES [] (fun _ => 0)) (replyPacket 100) none (idleState [])).map
        (fun r => (sbufWritten 0 r.reply.buf).length) = some 255 ∧
    (mspFcProcessCommand boxBuild (boxServices 255) 3
      (requestPacket MSP_MULTIPLE_MSP [116] (fun _ => 0)) (replyPacket 100) (some none)
      (idleState [])).map
        (fun r => (decide (r.ret = MSP_RESULT_ACK), (sbufWritten 0 r.reply.buf).length,
          r.reply.buf.end_, r.reply.buf.mem 0))
      = some (true, 256, 100, 255) := by
  decide

set_option maxRecDepth 1000000 in
/-- C21 fails on the code: with a box serialiser that produces 300 bytes, the
sub-command `MSP_BOXNAMES` (code 116) alone replies with 300 bytes; the batch of
that one sub-command into a reply buffer with 512 bytes of room returns
`MSP_RESULT_ACK` with a reply of 301 bytes whose first byte, the length prefix of
the block, is 44 (300 modulo 256) and not the number of bytes that follow. -/
theorem mspFcProcessCommand_batch_prefix_counterexample :
    (mspFcProcessCommand boxBuild (boxServices 300) 1
      (requestPacket MSP_BOXNAMES [] (fun _ => 0)) (replyPacket 512) none (idleState [])).map
        (fun r => (sbufWritten 0 r.reply.buf).length) = some 300 ∧
    (mspFcProcessCommand boxBuild (boxServices 300) 3
      (requestPacket MSP_MULTIPLE_MSP [116] (fun _ => 0)) (replyPacket 512) (some none)
      (idleState [])).map
        (fun r => (decide (r.ret = MSP_RESULT_ACK), (sbufWritten 0 r.reply.buf).length,
          r.reply.buf.mem 0))
      = some (true, 301, 44) := by
  decide

/-- A batch request whose payload holds no code of the batch command, none of
`MSP_SET_MODE_RANGE` and, in builds with the entropy coder, none of the dataflash
read is answered with `MSP_RESULT_ACK` when the fuel exceeds the number of
payload bytes. -/
theorem mspFcProcessCommand_batch_returns (cfg : BuildConfig) (svc : Services) (fuel : Nat)
    (src : sbuf_t) (res : mspResult_e) (reply : mspPacket_t) (fn : Option mspPostProcessFnPtr)
    (st : FcState) (hp : src.ptr < src.end_) (hf : src.end_ - src.ptr < fuel)
    (hc : ∀ a, src.ptr ≤ a → a < src.end_ →
      isMultipleMsp (cfg.cmdOfCode (src.mem a % 256)) = false ∧
      (cfg.USE_FLASHFS && cfg.USE_HUFFMAN &&
        isDataflashRead (cfg.cmdOfCode (src.mem a % 256))) = false ∧
      isSetModeRange (cfg.cmdOfCode (src.mem a % 256)) = false) :
    ∃ r, mspFcProcessCommand cfg svc (fuel + 1)
        { buf := src, cmd := MSP_MULTIPLE_MSP, result := res } reply fn st = some r ∧
      r.ret = MSP_RESULT_ACK ∧ r.mspPostProcessFn = fn := by
  have h0 : sbufBytesRemaining src ≠ 0 := by
    simp only [sbufBytesRemaining]
    omega
  obtain ⟨f, rfl⟩ : ∃ f, fuel = f + 1 := ⟨fuel - 1, by omega⟩
  have hpc : ∀ a, src.ptr ≤ a → a < src.end_ → ∀ (pin pout : mspPacket_t) (st : FcState),
      ∃ r, mspFcProcessCommand cfg svc (f + 1)
        { pin with cmd := cfg.cmdOfCode (src.mem a % 256) } pout none st = some r :=
    fun a h1 h2 pin pout st => mspFcProcessCommand_returns cfg svc f _ pout none st
      (hc a h1 h2).1 (hc a h1 h2).2.1 (hc a h1 h2).2.2
  obtain ⟨b, hb, hm, hx⟩ := batchSizingLoop_returns cfg (mspFcProcessCommand cfg svc (f + 1))
    src.mem src.ptr src.end_ hpc (src.end_ - src.ptr) (f + 1)
    { src := src, dst := reply.buf,
      packetIn := localPacket (sbufInit src.mem src.end_ src.end_),
      packetOut := localPacket reply.buf, st := st,
      bytesRemaining := sbufBytesRemaining reply.buf - 1, maxMSPs := 0 }
    rfl rfl (le_refl _) (by simp only []; omega) hf
  obtain ⟨b2, hb2⟩ := batchEmitLoop_returns cfg (mspFcProcessCommand cfg svc (f + 1))
    src.mem src.ptr src.end_ hpc b.maxMSPs
    { b with src := { b.src with ptr := src.ptr },
             packetOut := { b.packetOut with buf := sbufInit b.dst.mem b.dst.ptr b.dst.end_ } }
    hm (le_refl _) (by simp only [] at hx ⊢; omega)
  rw [mspFcProcessCommand_batch cfg svc (f + 1) src res reply fn st h0, hb]
  dsimp only
  rw [hb2]
  exact ⟨_, rfl, rfl, rfl⟩

/-- The results of a batch request (`MSP_MULTIPLE_MSP`): one whose payload is
empty returns `MSP_RESULT_ERROR`; one whose payload is not empty never returns
an error: every result it returns is `MSP_RESULT_ACK`, whatever the sub-commands
return and however few fit; and it does return when the fuel exceeds the number
of payload bytes and no payload byte is the code of the batch command, of
`MSP_SET_MODE_RANGE` or, in builds with the entropy coder, of the dataflash
read. -/
theorem mspFcProcessCommand_batch_result (cfg : BuildConfig) (svc : Services) :
    (∀ fuel src res reply fn st, sbufBytesRemaining src = 0 →
      ∃ r, mspFcProcessCommand cfg svc (fuel + 1)
          { buf := src, cmd := MSP_MULTIPLE_MSP, result := res } reply fn st = some r ∧
        r.ret = MSP_RESULT_ERROR) ∧
    (∀ fuel src res reply fn st r,
      mspFcProcessCommand cfg svc fuel
          { buf := src, cmd := MSP_MULTIPLE_MSP, result := res } reply fn st = some r →
      (r.ret = MSP_RESULT_ERROR ↔ sbufBytesRemaining src = 0) ∧
      (sbufBytesRemaining src ≠ 0 → r.ret = MSP_RESULT_ACK)) ∧
    (∀ fuel src res reply fn st, src.ptr < src.end_ → src.end_ - src.ptr < fuel →
      (∀ a, src.ptr ≤ a → a < src.end_ →
        isMultipleMsp (cfg.cmdOfCode (src.mem a % 256)) = false ∧
        (cfg.USE_FLASHFS && cfg.USE_HUFFMAN &&
          isDataflashRead (cfg.cmdOfCode (src.mem a % 256))) = false ∧
        isSetModeRange (cfg.cmdOfCode (src.mem a % 256)) = false) →
      ∃ r, mspFcProcessCommand cfg svc (fuel + 1)
          { buf := src, cmd := MSP_MULTIPLE_MSP, result := res } reply fn st = some r ∧
        r.ret = MSP_RESULT_ACK) := by
  refine ⟨?_, ?_, ?_⟩
  · intro fuel src res reply fn st h
    exact ⟨_, mspFcProcessCommand_batch_empty cfg svc fuel src res reply fn st h, rfl⟩
  · intro fuel src res reply fn st r h
    obtain ⟨-, h1, h2⟩ := mspFcProcessCommand_batch_slot cfg svc fuel src res reply fn st r h
    refine ⟨⟨fun he => ?_, h1⟩, h2⟩
    by_contra h0
    rw [h2 h0] at he
    cases he
  · intro fuel src res reply fn st hp hf hc
    obtain ⟨r, hr, ha, -⟩ := mspFcProcessCommand_batch_returns cfg svc fuel src res reply fn st
      hp hf hc
    exact ⟨r, hr, ha⟩

/-- A batch evaluated on the build `fullBuild`: a batch of a reboot (code 68,
which returns `MSP_RESULT_ACK`) and of the code 100, which `msp_protocol.h` assigns
to no command (it returns `MSP_RESULT_ERROR`), returns `MSP_RESULT_ACK`. -/
theorem mspFcProcessCommand_batch_result_witness :
    ∃ r, mspFcProcessCommand fullBuild idleServices (3 + 1)
        { buf := sbufOfPayload [68, 100] (fun _ => 0), cmd := MSP_MULTIPLE_MSP,
          result := MSP_RESULT_ACK } (replyPacket 64) (some none) (idleState []) = some r ∧
      r.ret = MSP_RESULT_ACK :=
  (mspFcProcessCommand_batch_result fullBuild idleServices).2.2 3
    (sbufOfPayload [68, 100] (fun _ => 0)) MSP_RESULT_ACK (replyPacket 64) (some none)
    (idleState []) (by decide) (by decide)
    (fun a _ h2 => by
      have h3 : a < 2 := h2
      interval_cases a
      · exact ⟨rfl, rfl, rfl⟩
      · exact ⟨rfl, rfl, rfl⟩)

/-- C23: a request leaves the registration slot as it was or registers one action
in it; a batch request leaves it as it was, whatever its sub-commands are; the
batch handler hands every sub-command the slot `none`, so its outcome does not
depend on what the entry point does with a slot; and a dispatch that is handed no
slot returns none. -/
theorem mspFcProcessCommand_batch_registers_nothing (cfg : BuildConfig) (svc : Services) :
    (∀ fuel cmd reply fn st r, mspFcProcessCommand cfg svc fuel cmd reply fn st = some r →
      r.mspPostProcessFn = fn ∨ ∃ a, r.mspPostProcessFn = registerPostProcessFn fn a) ∧
    (∀ fuel src res reply fn st r,
      mspFcProcessCommand cfg svc fuel
          { buf := src, cmd := MSP_MULTIPLE_MSP, result := res } reply fn st = some r →
      r.mspPostProcessFn = fn) ∧
    (∀ (pc pc2 : ProcessCommand), (∀ c r st, pc c r none st = pc2 c r none st) →
      ∀ fuel st src dst fn,
        mspFcProcessOutCommandWithArg cfg svc pc fuel st MSP_MULTIPLE_MSP src dst fn =
        mspFcProcessOutCommandWithArg cfg svc pc2 fuel st MSP_MULTIPLE_MSP src dst fn) ∧
    (∀ fuel cmd reply st r, mspFcProcessCommand cfg svc fuel cmd reply none st = some r →
      r.mspPostProcessFn = none) := by
  refine ⟨?_, ?_, ?_, ?_⟩
  · intro fuel cmd reply fn st r h
    exact mspFcProcessCommand_slot cfg svc fuel cmd reply fn st r h
  · intro fuel src res reply fn st r h
    exact (mspFcProcessCommand_batch_slot cfg svc fuel src res reply fn st r h).1
  · intro pc pc2 h fuel st src dst fn
    exact mspFcProcessOutCommandWithArg_batch_congr cfg svc pc pc2 h fuel st src dst fn
  · intro fuel cmd reply st r h
    rcases mspFcProcessCommand_slot cfg svc fuel cmd reply none st r h with h1 | ⟨a, h1⟩
    · exact h1
    · exact h1

/-- C23, evaluated on the build `fullBuild`: a batch of a reboot (code 68) and of
the passthrough command (code 245), sent with an empty registration slot, returns
with the slot still empty. -/
theorem mspFcProcessCommand_batch_registers_nothing_witness :
    ∃ r, mspFcProcessCommand fullBuild idleServices (3 + 1)
        { buf := sbufOfPayload [68, 245] (fun _ => 0), cmd := MSP_MULTIPLE_MSP,
          result := MSP_RESULT_ACK } (replyPacket 64) (some none) (idleState []) = some r ∧
      r.mspPostProcessFn = some none := by
  obtain ⟨r, hr, -, -⟩ := mspFcProcessCommand_batch_returns fullBuild idleServices 3
    (sbufOfPayload [68, 245] (fun _ => 0)) MSP_RESULT_ACK (replyPacket 64) (some none)
    (idleState []) (by decide) (by decide)
    (fun a _ h2 => by
      have h3 : a < 2 := h2
      interval_cases a
      · exact ⟨rfl, rfl, rfl⟩
      · exact ⟨rfl, rfl, rfl⟩)
  exact ⟨r, hr, (mspFcProcessCommand_batch_registers_nothing fullBuild idleServices).2.1 _ _ _ _
    _ _ r hr⟩

theorem fittingCount_le_length (sizes : List Int) :
    ∀ room, fittingCount sizes room ≤ sizes.length := by
  induction sizes with
  | nil => intro room; exact le_refl _
  | cons s rest ih =>
    intro room
    simp only [fittingCount, List.length_cons]
    split_ifs
    · have := ih (room - (s + 1))
      omega
    · omega

theorem prefixSum_nonneg (sizes : List Int) (hs : ∀ s ∈ sizes, 0 ≤ s) (k : Nat) :
    0 ≤ ((sizes.take k).map (fun s => s + 1)).sum := by
  apply List.sum_nonneg
  intro x hx
  obtain ⟨s, hs1, rfl⟩ := List.mem_map.1 hx
  have := hs s (List.mem_of_mem_take hs1)
  omega

/-- The function `fittingCount` is the largest `k` of the specification: for sizes that are
not negative, the first `k` of them with their prefix bytes add up to at most
`room` exactly when `k` is at most `fittingCount`. -/
theorem fittingCount_spec (sizes : List Int) :
    ∀ (room : Int) (k : Nat), (∀ s ∈ sizes, 0 ≤ s) → 1 ≤ k → k ≤ sizes.length →
      (((sizes.take k).map (fun s => s + 1)).sum ≤ room ↔ k ≤ fittingCount sizes room) := by
  induction sizes with
  | nil =>
    intro room k _ h1 h2
    simp only [List.length_nil] at h2
    omega
  | cons s rest ih =>
    intro room k hs h1 h2
    obtain ⟨j, rfl⟩ : ∃ j, k = j + 1 := ⟨k - 1, by omega⟩
    have hs0 := hs s (List.mem_cons_self _ _)
    have hrest : ∀ x ∈ rest, 0 ≤ x := fun x hx => hs x (List.mem_cons_of_mem _ hx)
    have hnn := prefixSum_nonneg rest hrest j
    simp only [List.take_succ_cons, List.map_cons, List.sum_cons, fittingCount,
      List.length_cons] at h2 ⊢
    by_cases hfit : s + 1 ≤ room
    · rw [if_pos hfit]
      by_cases hj : j = 0
      · subst hj
        simp only [List.take_zero, List.map_nil, List.sum_nil]
        constructor
        · intro _
          omega
        · intro _
          omega
      · have := ih (room - (s + 1)) j hrest (by omega) (by omega)
        constructor
        · intro h
          have := this.1 (by omega)
          omega
        · intro h
          have := this.2 (by omega)
          omega
    · rw [if_neg hfit]
      constructor
      · intro h
        omega
      · intro h
        omega

theorem batchMeasuredSizes_of_nonpos (cfg : BuildConfig) (pc : ProcessCommand) (fuel : Nat)
    (b : BatchState) (h : b.bytesRemaining ≤ 0) : batchMeasuredSizes cfg pc fuel b = [] := by
  cases fuel with
  | zero => rfl
  | succ fuel =>
    rw [batchMeasuredSizes, if_neg]
    intro h0
    omega

/-- The sizing loop counts as the specification says as long as no `uint8_t`
wraps: when every sub-reply it measures is shorter than 255 bytes and count and
measurements together stay below 256, the count it adds to `maxMSPs` is the largest number
of measured sub-replies that fit, with their prefix bytes, into the room it was
given; and it stops only when the request is read to its end or the room is used
up. -/
theorem batchSizingLoop_count (cfg : BuildConfig) (pc : ProcessCommand) :
    ∀ (fuel : Nat) (b b2 : BatchState), batchSizingLoop cfg pc fuel b = some b2 →
      (∀ s ∈ batchMeasuredSizes cfg pc fuel b, 0 ≤ s ∧ s ≤ 254) →
      b.maxMSPs + (batchMeasuredSizes cfg pc fuel b).length ≤ 255 →
      b2.maxMSPs = b.maxMSPs + fittingCount (batchMeasuredSizes cfg pc fuel b) b.bytesRemaining ∧
      (sbufBytesRemaining b2.src = 0 ∨ b2.bytesRemaining ≤ 0) := by
  intro fuel
  induction fuel with
  | zero =>
    intro b b2 h
    cases h
  | succ fuel ih =>
    intro b b2 h hs hl
    rw [batchSizingLoop] at h
    rw [batchMeasuredSizes] at hs hl ⊢
    by_cases h0 : sbufBytesRemaining b.src ≠ 0 ∧ b.bytesRemaining > 0
    · rw [if_pos h0] at h hs hl ⊢
      dsimp only at h hs hl ⊢
      cases hr : pc { b.packetIn with cmd := cfg.cmdOfCode (sbufReadU8 b.src).1 }
          { b.packetOut with buf := sbufInit b.dst.mem b.dst.ptr b.dst.end_ } none b.st with
      | none =>
        rw [hr] at h
        cases h
      | some r =>
        rw [hr] at h hs hl
        dsimp only at h hs hl ⊢
        have hsz := hs _ (List.mem_cons_self _ _)
        have hu2 : (((u8 ((sbufPtr r.reply.buf : Int) - b.dst.ptr) + 1) % 256 : Nat) : Int) =
            (sbufPtr r.reply.buf : Int) - b.dst.ptr + 1 := by
          simp only [u8]
          omega
        rw [hu2] at h hs hl ⊢
        by_cases hfit : (sbufPtr r.reply.buf : Int) - b.dst.ptr + 1 ≤ b.bytesRemaining
        · have hge : b.bytesRemaining - ((sbufPtr r.reply.buf : Int) - b.dst.ptr + 1) ≥ 0 := by
            omega
          simp only [List.length_cons] at hl
          have hm : (b.maxMSPs + 1) % 256 = b.maxMSPs + 1 := Nat.mod_eq_of_lt (by omega)
          rw [if_pos hge, hm] at h hs hl ⊢
          obtain ⟨e1, e2⟩ := ih _ b2 h (fun s hs2 => hs s (List.mem_cons_of_mem _ hs2)) (by
            dsimp only
            omega)
          refine ⟨?_, e2⟩
          rw [e1]
          simp only [fittingCount, if_pos hfit]
          omega
        · have hge : ¬ (b.bytesRemaining - ((sbufPtr r.reply.buf : Int) - b.dst.ptr + 1) ≥ 0) := by
            omega
          rw [if_neg hge] at h hs hl ⊢
          rw [batchMeasuredSizes_of_nonpos cfg pc fuel _ (by dsimp only; omega)] at hs hl ⊢
          obtain ⟨e1, e2⟩ := ih _ b2 h (by
            rw [batchMeasuredSizes_of_nonpos cfg pc fuel _ (by dsimp only; omega)]
            intro s hs2
            cases hs2) (by
            rw [batchMeasuredSizes_of_nonpos cfg pc fuel _ (by dsimp only; omega)]
            dsimp only
            simp only [List.length_cons, List.length_nil] at hl ⊢
            omega)
          refine ⟨?_, e2⟩
          rw [e1, batchMeasuredSizes_of_nonpos cfg pc fuel _ (by dsimp only; omega)]
          simp only [fittingCount, if_neg hfit]
    · rw [if_neg h0] at h hs hl ⊢
      cases h
      refine ⟨by simp [fittingCount], ?_⟩
      by_contra hc
      push_neg at hc
      exact h0 ⟨hc.1, by omega⟩


/-- Where no `uint8_t` wraps, a batch request counts as the specification says:
when every sub-reply its sizing loop measures is shorter than 255 bytes and there
are at most 255 of them, the emitting loop runs exactly `fittingCount` times, once
per sub-reply that fits with its prefix byte into the room of the reply buffer
less one byte, and the sizing loop has stopped only at the end of the request or
with the room used up. -/
theorem mspFcProcessCommand_batch_count (cfg : BuildConfig) (svc : Services) (fuel : Nat)
    (src : sbuf_t) (res : mspResult_e) (reply : mspPacket_t) (fn : Option mspPostProcessFnPtr)
    (st : FcState) (r : ProcessResult) (h0 : sbufBytesRemaining src ≠ 0)
    (h : mspFcProcessCommand cfg svc (fuel + 1)
        { buf := src, cmd := MSP_MULTIPLE_MSP, result := res } reply fn st = some r)
    (hs : ∀ s ∈ batchMeasuredSizes cfg (mspFcProcessCommand cfg svc fuel) fuel
        { src := src, dst := reply.buf,
          packetIn := localPacket (sbufInit src.mem src.end_ src.end_),
          packetOut := localPacket reply.buf, st := st,
          bytesRemaining := sbufBytesRemaining reply.buf - 1, maxMSPs := 0 }, 0 ≤ s ∧ s ≤ 254)
    (hl : (batchMeasuredSizes cfg (mspFcProcessCommand cfg svc fuel) fuel
        { src := src, dst := reply.buf,
          packetIn := localPacket (sbufInit src.mem src.end_ src.end_),
          packetOut := localPacket reply.buf, st := st,
          bytesRemaining := sbufBytesRemaining reply.buf - 1, maxMSPs := 0 }).length ≤ 255) :
    ∃ b b2, batchSizingLoop cfg (mspFcProcessCommand cfg svc fuel) fuel
        { src := src, dst := reply.buf,
          packetIn := localPacket (sbufInit src.mem src.end_ src.end_),
          packetOut := localPacket reply.buf, st := st,
          bytesRemaining := sbufBytesRemaining reply.buf - 1, maxMSPs := 0 } = some b ∧
      (sbufBytesRemaining b.src = 0 ∨ b.bytesRemaining ≤ 0) ∧
      batchEmitLoop cfg (mspFcProcessCommand cfg svc fuel)
        (fittingCount (batchMeasuredSizes cfg (mspFcProcessCommand cfg svc fuel) fuel
          { src := src, dst := reply.buf,
            packetIn := localPacket (sbufInit src.mem src.end_ src.end_),
            packetOut := localPacket reply.buf, st := st,
            bytesRemaining := sbufBytesRemaining reply.buf - 1, maxMSPs := 0 })
          (sbufBytesRemaining reply.buf - 1))
        { b with src := { b.src with ptr := src.ptr },
                 packetOut := { b.packetOut with
                   buf := sbufInit b.dst.mem b.dst.ptr b.dst.end_ } } = some b2 ∧
      r.ret = MSP_RESULT_ACK ∧
      r.reply.buf = { b2.packetOut.buf with end_ := reply.buf.end_ } := by
  rw [mspFcProcessCommand_batch cfg svc fuel src res reply fn st h0] at h
  cases hb : batchSizingLoop cfg (mspFcProcessCommand cfg svc fuel) fuel
        { src := src, dst := reply.buf,
          packetIn := localPacket (sbufInit src.mem src.end_ src.end_),
          packetOut := localPacket reply.buf, st := st,
          bytesRemaining := sbufBytesRemaining reply.buf - 1, maxMSPs := 0 } with
  | none =>
    rw [hb] at h
    cases h
  | some b =>
    rw [hb] at h
    dsimp only at h
    obtain ⟨e1, e2⟩ := batchSizingLoop_count cfg (mspFcProcessCommand cfg svc fuel) fuel _ b hb hs
      (by simpa using hl)
    simp only [zero_add] at e1
    cases hb2 : batchEmitLoop cfg (mspFcProcessCommand cfg svc fuel) b.maxMSPs
        { b with src := { b.src with ptr := src.ptr },
                 packetOut := { b.packetOut with
                   buf := sbufInit b.dst.mem b.dst.ptr b.dst.end_ } } with
    | none =>
      rw [hb2] at h
      cases h
    | some b2 =>
      rw [hb2] at h
      cases h
      refine ⟨b, b2, rfl, e2, ?_, rfl, rfl⟩
      rw [← e1]
      exact hb2

set_option maxHeartbeats 4000000 in
set_option maxRecDepth 1000000 in
/-- The example of the specification, for the sizing loop on the build
`fullBuild`: three sub-commands `MSP_FEATURE_CONFIG` (code 36), each with a reply
of 4 bytes, and a reply buffer with 12 bytes of room, which less the reserved byte
holds two sub-replies of 5 bytes with their prefix and not three: the loop counts
two. -/
theorem batchSizingLoop_count_example :
    ∃ b2, batchSizingLoop fullBuild (mspFcProcessCommand fullBuild idleServices 4) 4
        { src := sbufOfPayload [36, 36, 36] (fun _ => 0), dst := (replyPacket 12).buf,
          packetIn := localPacket (sbufInit (sbufOfPayload [36, 36, 36] (fun _ => 0)).mem 3 3),
          packetOut := localPacket (replyPacket 12).buf, st := idleState [],
          bytesRemaining := sbufBytesRemaining (replyPacket 12).buf - 1, maxMSPs := 0 }
        = some b2 ∧
      b2.maxMSPs = 2 := by
  have hsome : (batchSizingLoop fullBuild (mspFcProcessCommand fullBuild idleServices 4) 4
        { src := sbufOfPayload [36, 36, 36] (fun _ => 0), dst := (replyPacket 12).buf,
          packetIn := localPacket (sbufInit (sbufOfPayload [36, 36, 36] (fun _ => 0)).mem 3 3),
          packetOut := localPacket (replyPacket 12).buf, st := idleState [],
          bytesRemaining := sbufBytesRemaining (replyPacket 12).buf - 1, maxMSPs := 0 }).isSome
      = true := by decide
  obtain ⟨b2, hb2⟩ := Option.isSome_iff_exists.1 hsome
  have hm : batchMeasuredSizes fullBuild (mspFcProcessCommand fullBuild idleServices 4) 4
        { src := sbufOfPayload [36, 36, 36] (fun _ => 0), dst := (replyPacket 12).buf,
          packetIn := localPacket (sbufInit (sbufOfPayload [36, 36, 36] (fun _ => 0)).mem 3 3),
          packetOut := localPacket (replyPacket 12).buf, st := idleState [],
          bytesRemaining := sbufBytesRemaining (replyPacket 12).buf - 1, maxMSPs := 0 }
      = [4, 4, 4] := by decide
  have key := batchSizingLoop_count fullBuild (mspFcProcessCommand fullBuild idleServices 4)
    4 _ b2 hb2
  rw [hm] at key
  exact ⟨b2, hb2, (key (by decide) (by decide)).1⟩

theorem mspCommonProcessInCommand_set_osd_config (cfg : BuildConfig) (svc : Services)
    (st : FcState) (src : sbuf_t) (h : cfg.USE_OSD = true) :
    mspCommonProcessInCommand cfg svc st MSP_SET_OSD_CONFIG src =
      mspSetOsdConfig cfg svc st src := by
  have hc : mspCommonProcessInCommandCase cfg svc st MSP_SET_OSD_CONFIG src =
      if cfg.USE_OSD then some (mspSetOsdConfig cfg svc st src) else none := rfl
  unfold mspCommonProcessInCommand
  rw [hc, h]
  rfl

/-- The timer sub-command of `MSP_SET_OSD_CONFIG` through the whole dispatch
chain, in a build with `USE_OSD`: for a payload that starts with the address byte
254, a timer index and a little-endian u16 value, the result is
`MSP_RESULT_ERROR` whatever the index; for an index up to and including
`OSD_TIMER_COUNT` the value is stored at that index of `timers`, and for a larger
index the controller state is as it was. -/
theorem mspFcProcessCommand_set_osd_timer (cfg : BuildConfig) (svc : Services) (fuel : Nat)
    (res : mspResult_e) (reply : mspPacket_t) (fn : Option mspPostProcessFnPtr) (st : FcState)
    (index lo hi : Nat) (rest : List Nat) (behind : Nat → Nat) (hO : cfg.USE_OSD = true)
    (hi1 : index < 256) (hlo : lo < 256) (hhi : hi < 256) :
    ∃ r, mspFcProcessCommand cfg svc (fuel + 1)
        { buf := sbufOfPayload (254 :: index :: lo :: hi :: rest) behind,
          cmd := MSP_SET_OSD_CONFIG, result := res } reply fn st = some r ∧
      r.ret = MSP_RESULT_ERROR ∧
      (index ≤ cfg.OSD_TIMER_COUNT →
        r.st = { st with osdConfig :=
          { st.osdConfig with timers := arraySet st.osdConfig.timers index (lo + hi * 256) } }) ∧
      (cfg.OSD_TIMER_COUNT < index → r.st = st) := by
  rw [mspFcProcessCommand_in cfg svc fuel
    { buf := sbufOfPayload (254 :: index :: lo :: hi :: rest) behind,
      cmd := MSP_SET_OSD_CONFIG, result := res } reply fn st rfl rfl rfl rfl rfl rfl]
  refine ⟨_, rfl, ?_, ?_, ?_⟩
  · show (mspCommonProcessInCommand cfg svc st MSP_SET_OSD_CONFIG _).ret = MSP_RESULT_ERROR
    rw [mspCommonProcessInCommand_set_osd_config cfg svc st _ hO]
    by_cases h : index ≤ cfg.OSD_TIMER_COUNT
    · simp [mspSetOsdConfig, mspSetOsdConfigTimer, sbufOfPayload, sbufReadU8,
        Nat.mod_eq_of_lt hi1, Nat.not_lt.2 h]
    · simp [mspSetOsdConfig, mspSetOsdConfigTimer, sbufOfPayload, sbufReadU8,
        Nat.mod_eq_of_lt hi1, Nat.lt_of_not_le h]
  · intro h
    show (mspCommonProcessInCommand cfg svc st MSP_SET_OSD_CONFIG _).st = _
    rw [mspCommonProcessInCommand_set_osd_config cfg svc st _ hO]
    simp [mspSetOsdConfig, mspSetOsdConfigTimer, sbufOfPayload, sbufReadU8, sbufReadU16,
      Nat.mod_eq_of_lt hi1, Nat.mod_eq_of_lt hlo, Nat.mod_eq_of_lt hhi, Nat.not_lt.2 h]
  · intro h
    show (mspCommonProcessInCommand cfg svc st MSP_SET_OSD_CONFIG _).st = _
    rw [mspCommonProcessInCommand_set_osd_config cfg svc st _ hO]
    simp [mspSetOsdConfig, mspSetOsdConfigTimer, sbufOfPayload, sbufReadU8,
      Nat.mod_eq_of_lt hi1, h]

set_option maxRecDepth 100000 in
/-- C31 fails on the code: on the build `fullBuild`, where `OSD_TIMER_COUNT` is 2,
the timer sub-command with the valid index 1 and the value 0x1234 stores the value
in timer 1 and returns `MSP_RESULT_ERROR`, not `MSP_RESULT_ACK`; and with the
index 2, which is out of range, it returns `MSP_RESULT_ERROR` after storing the
value at index 2, behind the array of two timers. -/
theorem mspFcProcessCommand_set_osd_timer_counterexample :
    (idleState []).osdConfig.timers 1 = 0 ∧ (idleState []).osdConfig.timers 2 = 0 ∧
    (mspFcProcessCommand fullBuild idleServices 1
      (requestPacket MSP_SET_OSD_CONFIG [254, 1, 0x34, 0x12] (fun _ => 0))
      (replyPacket 64) (some none) (idleState [])).map
        (fun r => (decide (r.ret = MSP_RESULT_ERROR), r.st.osdConfig.timers 1))
      = some (true, 0x1234) ∧
    (mspFcProcessCommand fullBuild idleServices 1
      (requestPacket MSP_SET_OSD_CONFIG [254, 2, 0x34, 0x12] (fun _ => 0))
      (replyPacket 64) (some none) (idleState [])).map
        (fun r => (decide (r.ret = MSP_RESULT_ERROR), r.st.osdConfig.timers 2))
      = some (true, 0x1234) := by
  decide

/-- The set command `MSP_SET_BATTERY_CONFIG` on a payload of the seven legacy
bytes: the cell voltages are ten times their bytes and the cursor stands behind
the seventh byte. -/
theorem mspSetBatteryConfig_decode7 (st2 : FcState) (behind : Nat → Nat)
    (a b c cap vs cs : Nat) (ha : a < 256) (hb : b < 256) (hc : c < 256) (hcap : cap < 65536)
    (hvs : vs < 256) (hcs : cs < 256) :
    (mspSetBatteryConfig st2 (sbufOfPayload ([a, b, c] ++ le16 cap ++ [vs, cs]) behind)).ret
      = MSP_RESULT_ACK ∧
    (mspSetBatteryConfig st2
      (sbufOfPayload ([a, b, c] ++ le16 cap ++ [vs, cs]) behind)).st.batteryConfig =
      { vbatmincellvoltage := a * 10, vbatmaxcellvoltage := b * 10,
        vbatwarningcellvoltage := c * 10, batteryCapacity := cap, voltageMeterSource := vs,
        currentMeterSource := cs } ∧
    (mspSetBatteryConfig st2
      (sbufOfPayload ([a, b, c] ++ le16 cap ++ [vs, cs]) behind)).src.ptr = 7 := by
  simp [mspSetBatteryConfig, sbufOfPayload, sbufReadU8, sbufReadU16, sbufBytesRemaining, le16,
    Nat.mod_eq_of_lt ha, Nat.mod_eq_of_lt hb, Nat.mod_eq_of_lt hc, Nat.mod_eq_of_lt hvs,
    Nat.mod_eq_of_lt hcs]
  omega

/-- C32: `MSP_SET_BATTERY_CONFIG` on a payload of exactly the seven legacy bytes
sets the minimum, maximum and warning cell voltage to ten times its legacy byte
and reads nothing behind the seventh byte; on a payload that carries the three
u16 fields behind them it sets the three voltages to those u16 values; so the
first seven bytes of the reply to `MSP_BATTERY_CONFIG`, written back, change each
cell voltage `v` with `(v + 5) / 10 ≤ 255` to `(v + 5) / 10 * 10`. -/
theorem mspFcProcessCommand_set_battery_config_versions (cfg : BuildConfig) (svc : Services)
    (fuel : Nat) (res : mspResult_e) (reply : mspPacket_t) (fn : Option mspPostProcessFnPtr)
    (st st2 : FcState) (behind : Nat → Nat) (a b c cap vs cs mn mx wn : Nat)
    (ha : a < 256) (hb : b < 256) (hc : c < 256) (hcap : cap < 65536) (hvs : vs < 256)
    (hcs : cs < 256) (hmn : mn < 65536) (hmx : mx < 65536) (hwn : wn < 65536)
    (hcs2 : st.batteryConfig.batteryCapacity < 65536)
    (hv1 : (st.batteryConfig.vbatmincellvoltage + 5) / 10 ≤ 255)
    (hv2 : (st.batteryConfig.vbatmaxcellvoltage + 5) / 10 ≤ 255)
    (hv3 : (st.batteryConfig.vbatwarningcellvoltage + 5) / 10 ≤ 255) :
    (∃ r, mspFcProcessCommand cfg svc (fuel + 1)
        { buf := sbufOfPayload ([a, b, c] ++ le16 cap ++ [vs, cs]) behind,
          cmd := MSP_SET_BATTERY_CONFIG, result := res } reply fn st2 = some r ∧
      r.ret = MSP_RESULT_ACK ∧ r.cmd.buf.ptr = 7 ∧
      r.st.batteryConfig.vbatmincellvoltage = a * 10 ∧
      r.st.batteryConfig.vbatmaxcellvoltage = b * 10 ∧
      r.st.batteryConfig.vbatwarningcellvoltage = c * 10) ∧
    (∃ r, mspFcProcessCommand cfg svc (fuel + 1)
        { buf := sbufOfPayload ([a, b, c] ++ le16 cap ++ [vs % 256, cs % 256] ++ le16 mn ++
            le16 mx ++ le16 wn) behind,
          cmd := MSP_SET_BATTERY_CONFIG, result := res } reply fn st2 = some r ∧
      r.ret = MSP_RESULT_ACK ∧
      r.st.batteryConfig.vbatmincellvoltage = mn ∧
      r.st.batteryConfig.vbatmaxcellvoltage = mx ∧
      r.st.batteryConfig.vbatwarningcellvoltage = wn) ∧
    (∃ r, mspFcProcessCommand cfg svc (fuel + 1)
        { buf := sbufOfPayload ((sbufWritten reply.buf.ptr (mspBatteryConfig st reply.buf)).take 7)
            behind,
          cmd := MSP_SET_BATTERY_CONFIG, result := res } reply fn st2 = some r ∧
      r.ret = MSP_RESULT_ACK ∧
      r.st.batteryConfig.vbatmincellvoltage =
        (st.batteryConfig.vbatmincellvoltage + 5) / 10 * 10 ∧
      r.st.batteryConfig.vbatmaxcellvoltage =
        (st.batteryConfig.vbatmaxcellvoltage + 5) / 10 * 10 ∧
      r.st.batteryConfig.vbatwarningcellvoltage =
        (st.batteryConfig.vbatwarningcellvoltage + 5) / 10 * 10) := by
  refine ⟨?_, ?_, ?_⟩
  · obtain ⟨e1, e2, e3⟩ := mspSetBatteryConfig_decode7 st2 behind a b c cap vs cs ha hb hc hcap
      hvs hcs
    refine ⟨_, mspFcProcessCommand_set_battery_config cfg svc fuel _ res reply fn st2, e1, e3,
      ?_, ?_, ?_⟩
    · exact congrArg batteryConfig_t.vbatmincellvoltage e2
    · exact congrArg batteryConfig_t.vbatmaxcellvoltage e2
    · exact congrArg batteryConfig_t.vbatwarningcellvoltage e2
  · obtain ⟨e1, e2⟩ := mspSetBatteryConfig_decode st2 behind a b c cap vs cs mn mx wn hcap
      hvs hcs hmn hmx hwn
    refine ⟨_, mspFcProcessCommand_set_battery_config cfg svc fuel _ res reply fn st2, e1,
      ?_, ?_, ?_⟩
    · exact congrArg batteryConfig_t.vbatmincellvoltage e2
    · exact congrArg batteryConfig_t.vbatmaxcellvoltage e2
    · exact congrArg batteryConfig_t.vbatwarningcellvoltage e2
  · have hw := (mspBatteryConfig_writes st reply.buf).2.2.1
    have ht : (sbufWritten reply.buf.ptr (mspBatteryConfig st reply.buf)).take 7 =
        [(st.batteryConfig.vbatmincellvoltage + 5) / 10, (st.batteryConfig.vbatmaxcellvoltage + 5) / 10,
          (st.batteryConfig.vbatwarningcellvoltage + 5) / 10] ++
          le16 st.batteryConfig.batteryCapacity ++
          [st.batteryConfig.voltageMeterSource % 256, st.batteryConfig.currentMeterSource % 256] := by
      rw [hw]
      simp [le16, Nat.mod_eq_of_lt (Nat.lt_succ_of_le hv1), Nat.mod_eq_of_lt (Nat.lt_succ_of_le hv2),
        Nat.mod_eq_of_lt (Nat.lt_succ_of_le hv3)]
    rw [ht]
    obtain ⟨e1, e2, -⟩ := mspSetBatteryConfig_decode7 st2 behind _ _ _
      st.batteryConfig.batteryCapacity (st.batteryConfig.voltageMeterSource % 256)
      (st.batteryConfig.currentMeterSource % 256) (Nat.lt_succ_of_le hv1)
      (Nat.lt_succ_of_le hv2) (Nat.lt_succ_of_le hv3) hcs2 (Nat.mod_lt _ (by decide))
      (Nat.mod_lt _ (by decide))
    refine ⟨_, mspFcProcessCommand_set_battery_config cfg svc fuel _ res reply fn st2, e1,
      ?_, ?_, ?_⟩
    · exact congrArg batteryConfig_t.vbatmincellvoltage e2
    · exact congrArg batteryConfig_t.vbatmaxcellvoltage e2
    · exact congrArg batteryConfig_t.vbatwarningcellvoltage e2

/-- C32, evaluated on the build `fullBuild`: the legacy payload with the bytes 33,
43 and 35 sets the cell voltages to 330, 430 and 350; and the first seven bytes
of the reply for the voltages 334, 435 and 350, written back, give 330, 440 and
350. -/
theorem mspFcProcessCommand_set_battery_config_versions_witness :
    (∃ r, mspFcProcessCommand fullBuild idleServices (0 + 1)
        { buf := sbufOfPayload ([33, 43, 35] ++ le16 1300 ++ [1, 1]) (fun _ => 0),
          cmd := MSP_SET_BATTERY_CONFIG, result := MSP_RESULT_ACK } (replyPacket 64) (some none)
        (idleState []) = some r ∧
      r.ret = MSP_RESULT_ACK ∧ r.cmd.buf.ptr = 7 ∧
      r.st.batteryConfig.vbatmincellvoltage = 330 ∧
      r.st.batteryConfig.vbatmaxcellvoltage = 430 ∧
      r.st.batteryConfig.vbatwarningcellvoltage = 350) ∧
    (∃ r, mspFcProcessCommand fullBuild idleServices (0 + 1)
        { buf := sbufOfPayload ((sbufWritten (replyPacket 64).buf.ptr
            (mspBatteryConfig { idleState [] with batteryConfig :=
              { (idleState []).batteryConfig with vbatmincellvoltage := 334,
                                                  vbatmaxcellvoltage := 435 } }
              (replyPacket 64).buf)).take 7) (fun _ => 0),
          cmd := MSP_SET_BATTERY_CONFIG, result := MSP_RESULT_ACK } (replyPacket 64) (some none)
        (idleState []) = some r ∧
      r.ret = MSP_RESULT_ACK ∧
      r.st.batteryConfig.vbatmincellvoltage = 330 ∧
      r.st.batteryConfig.vbatmaxcellvoltage = 440 ∧
      r.st.batteryConfig.vbatwarningcellvoltage = 350) := by
  have h := mspFcProcessCommand_set_battery_config_versions fullBuild idleServices 0
    MSP_RESULT_ACK (replyPacket 64) (some none)
    { idleState [] with batteryConfig :=
      { (idleState []).batteryConfig with vbatmincellvoltage := 334, vbatmaxcellvoltage := 435 } }
    (idleState []) (fun _ => 0) 33 43 35 1300 1 1 330 430 350
    (by decide) (by decide) (by decide) (by decide) (by decide) (by decide) (by decide)
    (by decide) (by decide) (by decide) (by decide) (by decide) (by decide)
  exact ⟨h.1, h.2.2⟩

/-- The set command `MSP_SET_RC_TUNING` on a payload of exactly ten bytes. -/
theorem mspSetRcTuning_decode10 (cfg : BuildConfig) (svc : Services) (st2 : FcState)
    (behind : Nat → Nat) (a0 a1 r0 r1 r2 d m e tpa : Nat)
    (ha0 : a0 < 256) (ha1 : a1 < 256) (hr0 : r0 < 256) (hr1 : r1 < 256) (hr2 : r2 < 256)
    (hd : d < 256) (hm : m < 256) (he : e < 256) (htpa : tpa < 65536) :
    ∃ q, (mspSetRcTuning cfg svc st2
        (sbufOfPayload ([a0, a1, r0, r1, r2, d, m, e] ++ le16 tpa) behind)).st.currentControlRateProfile
          = q ∧
      (mspSetRcTuning cfg svc st2
        (sbufOfPayload ([a0, a1, r0, r1, r2, d, m, e] ++ le16 tpa) behind)).ret = MSP_RESULT_ACK ∧
      q.rcRates 0 = a0 ∧ q.rcExpo 0 = a1 ∧
      q.rcRates 1 = (if st2.currentControlRateProfile.rcRates 1 =
        st2.currentControlRateProfile.rcRates 0 then a0
        else st2.currentControlRateProfile.rcRates 1) ∧
      q.rcExpo 1 = (if st2.currentControlRateProfile.rcExpo 1 =
        st2.currentControlRateProfile.rcExpo 0 then a1
        else st2.currentControlRateProfile.rcExpo 1) ∧
      q.rcRates 2 = st2.currentControlRateProfile.rcRates 2 ∧
      q.rcExpo 2 = st2.currentControlRateProfile.rcExpo 2 ∧
      q.rates 0 = r0 ∧ q.rates 1 = r1 ∧ q.rates 2 = r2 ∧
      q.dynThrPID = min d cfg.CONTROL_RATE_CONFIG_TPA_MAX ∧ q.thrMid8 = m ∧ q.thrExpo8 = e ∧
      q.tpa_breakpoint = tpa ∧
      q.throttle_limit_type = st2.currentControlRateProfile.throttle_limit_type ∧
      q.throttle_limit_percent = st2.currentControlRateProfile.throttle_limit_percent := by
  refine ⟨_, rfl, ?_⟩
  by_cases h1 : st2.currentControlRateProfile.rcRates 1 = st2.currentControlRateProfile.rcRates 0 <;>
  by_cases h2 : st2.currentControlRateProfile.rcExpo 1 = st2.currentControlRateProfile.rcExpo 0 <;>
  · simp [mspSetRcTuning, storeValues, sbufOfPayload, sbufReadU8, sbufReadU16, sbufBytesRemaining,
      le16, arraySet, FD_ROLL, FD_PITCH, FD_YAW, h1, h2, Nat.mod_eq_of_lt ha0,
      Nat.mod_eq_of_lt ha1, Nat.mod_eq_of_lt hr0, Nat.mod_eq_of_lt hr1, Nat.mod_eq_of_lt hr2,
      Nat.mod_eq_of_lt hd, Nat.mod_eq_of_lt hm, Nat.mod_eq_of_lt he]
    omega

/-- C38: `MSP_SET_RC_TUNING` on a payload of exactly ten bytes is acknowledged;
the rc-rate and expo of roll become the first two bytes; the rc-rate of pitch
becomes that new rc-rate if it was equal to the rc-rate of roll before the request
and is unchanged otherwise, and likewise the expo of pitch; `dynThrPID` becomes
the smaller of its byte and `CONTROL_RATE_CONFIG_TPA_MAX`; the rc-rate and expo of
yaw and the throttle limit type and percent are unchanged. On a payload of fewer
than ten bytes the command returns `MSP_RESULT_ERROR` and leaves request cursor
and controller state as they were. -/
theorem mspFcProcessCommand_set_rc_tuning_legacy (cfg : BuildConfig) (svc : Services)
    (fuel : Nat) (res : mspResult_e) (reply : mspPacket_t) (fn : Option mspPostProcessFnPtr)
    (st : FcState) (behind : Nat → Nat) (a0 a1 r0 r1 r2 d m e tpa : Nat) (src : sbuf_t)
    (ha0 : a0 < 256) (ha1 : a1 < 256) (hr0 : r0 < 256) (hr1 : r1 < 256) (hr2 : r2 < 256)
    (hd : d < 256) (hm : m < 256) (he : e < 256) (htpa : tpa < 65536)
    (hshort : sbufBytesRemaining src < 10) :
    (∃ r, mspFcProcessCommand cfg svc (fuel + 1)
        { buf := sbufOfPayload ([a0, a1, r0, r1, r2, d, m, e] ++ le16 tpa) behind,
          cmd := MSP_SET_RC_TUNING, result := res } reply fn st = some r ∧
      r.ret = MSP_RESULT_ACK ∧
      r.st.currentControlRateProfile.rcRates 0 = a0 ∧
      r.st.currentControlRateProfile.rcExpo 0 = a1 ∧
      r.st.currentControlRateProfile.rcRates 1 =
        (if st.currentControlRateProfile.rcRates 1 = st.currentControlRateProfile.rcRates 0
          then a0 else st.currentControlRateProfile.rcRates 1) ∧
      r.st.currentControlRateProfile.rcExpo 1 =
        (if st.currentControlRateProfile.rcExpo 1 = st.currentControlRateProfile.rcExpo 0
          then a1 else st.currentControlRateProfile.rcExpo 1) ∧
      r.st.currentControlRateProfile.dynThrPID = min d cfg.CONTROL_RATE_CONFIG_TPA_MAX ∧
      r.st.currentControlRateProfile.rcRates 2 = st.currentControlRateProfile.rcRates 2 ∧
      r.st.currentControlRateProfile.rcExpo 2 = st.currentControlRateProfile.rcExpo 2 ∧
      r.st.currentControlRateProfile.throttle_limit_type =
        st.currentControlRateProfile.throttle_limit_type ∧
      r.st.currentControlRateProfile.throttle_limit_percent =
        st.currentControlRateProfile.throttle_limit_percent) ∧
    (∃ r, mspFcProcessCommand cfg svc (fuel + 1)
        { buf := src, cmd := MSP_SET_RC_TUNING, result := res } reply fn st = some r ∧
      r.ret = MSP_RESULT_ERROR ∧ r.st = st ∧ r.cmd.buf = src) := by
  constructor
  · obtain ⟨r, hr, hret, hst⟩ := mspFcProcessCommand_set_rc_tuning_feed cfg svc fuel
      (sbufOfPayload ([a0, a1, r0, r1, r2, d, m, e] ++ le16 tpa) behind) res reply fn st
    obtain ⟨q, hq, e1, eR0, eE0, eR1, eE1, eR2, eE2, -, -, -, ed, -, -, -, ett, etp⟩ :=
      mspSetRcTuning_decode10 cfg svc st behind a0 a1 r0 r1 r2 d m e tpa ha0 ha1 hr0 hr1 hr2 hd
        hm he htpa
    rw [hq] at hst
    rw [e1] at hret
    refine ⟨r, hr, hret, ?_⟩
    rw [hst]
    exact ⟨eR0, eE0, eR1, eE1, ed, eR2, eE2, ett, etp⟩
  · have hn : ¬ sbufBytesRemaining src ≥ 10 := by omega
    have hs : mspSetRcTuning cfg svc st src = { ret := MSP_RESULT_ERROR, src := src, st := st } := by
      unfold mspSetRcTuning
      rw [if_neg hn]
    refine ⟨_, mspFcProcessCommand_set_rc_tuning cfg svc fuel src res reply fn st, ?_, ?_, ?_⟩
    · rw [hs]
    · rw [hs]
    · rw [hs]

/-- C38, evaluated on the build `fullBuild` and the profile of `idleState`, where
pitch and roll have the same rc-rate and expo: the ten-byte payload sets the
rc-rate of roll and of pitch to 120 and `dynThrPID` to 100, the byte 130 being
above the maximum; the nine-byte payload is refused. -/
theorem mspFcProcessCommand_set_rc_tuning_legacy_witness :
    (∃ r, mspFcProcessCommand fullBuild idleServices (0 + 1)
        { buf := sbufOfPayload ([120, 5, 70, 71, 72, 130, 50, 0] ++ le16 1650) (fun _ => 0),
          cmd := MSP_SET_RC_TUNING, result := MSP_RESULT_ACK } (replyPacket 64) (some none)
        (idleState []) = some r ∧
      r.ret = MSP_RESULT_ACK ∧
      r.st.currentControlRateProfile.rcRates 0 = 120 ∧
      r.st.currentControlRateProfile.rcRates 1 = 120 ∧
      r.st.currentControlRateProfile.dynThrPID = 100) ∧
    (∃ r, mspFcProcessCommand fullBuild idleServices (0 + 1)
        { buf := sbufOfPayload [120, 5, 70, 71, 72, 130, 50, 0, 114] (fun _ => 0),
          cmd := MSP_SET_RC_TUNING, result := MSP_RESULT_ACK } (replyPacket 64) (some none)
        (idleState []) = some r ∧
      r.ret = MSP_RESULT_ERROR ∧ r.st = idleState []) := by
  obtain ⟨⟨r, h1, h2, h3, -, h5, -, h7, -⟩, ⟨r2, g1, g2, g3, -⟩⟩ :=
    mspFcProcessCommand_set_rc_tuning_legacy fullBuild idleServices 0 MSP_RESULT_ACK
      (replyPacket 64) (some none) (idleState []) (fun _ => 0) 120 5 70 71 72 130 50 0 1650
      (sbufOfPayload [120, 5, 70, 71, 72, 130, 50, 0, 114] (fun _ => 0))
      (by decide) (by decide) (by decide) (by decide) (by decide) (by decide) (by decide)
      (by decide) (by decide) (by decide)
  exact ⟨⟨r, h1, h2, h3, h5.trans (by decide), h7.trans (by decide)⟩, ⟨r2, g1, g2, g3⟩⟩

theorem mspProcessInCommand_set_led_strip_config (cfg : BuildConfig) (svc : Services)
    (st : FcState) (src : sbuf_t) (h : cfg.USE_LED_STRIP = true) :
    mspCommonProcessInCommand cfg svc st MSP_SET_LED_STRIP_CONFIG src =
      mspSetLedStripConfig cfg svc st src := by
  have hc : mspCommonProcessInCommandCase cfg svc st MSP_SET_LED_STRIP_CONFIG src = none := rfl
  have hp : mspProcessInCommandCase cfg svc st MSP_SET_LED_STRIP_CONFIG src =
      if cfg.USE_LED_STRIP then some (mspSetLedStripConfig cfg svc st src) else none := rfl
  unfold mspCommonProcessInCommand mspProcessInCommand
  rw [hc, hp, h]
  rfl

theorem storeValues_ledstrip_profile (svc : Services) (c : MspCmd) (vals : List Nat)
    (st : FcState) : (storeValues svc c vals st).ledstrip_profile = st.ledstrip_profile := rfl

/-- The handler of `MSP_SET_LED_STRIP_CONFIG` on a request cursor whose distance to
its end is an `int`: the selected ledstrip profile stays as it was; the result is
`MSP_RESULT_ACK` only for a payload of exactly 5 bytes, of which it reads all;
and every payload of another length is refused with the controller state as it
was. -/
theorem mspSetLedStripConfig_profile (cfg : BuildConfig) (svc : Services) (st : FcState)
    (src : sbuf_t) (hlo : -2147483648 ≤ sbufBytesRemaining src)
    (hhi : sbufBytesRemaining src < 2147483648) :
    (mspSetLedStripConfig cfg svc st src).st.ledstrip_profile = st.ledstrip_profile ∧
    ((mspSetLedStripConfig cfg svc st src).ret = MSP_RESULT_ACK →
      sbufBytesRemaining src = 5 ∧ (mspSetLedStripConfig cfg svc st src).src.ptr = src.ptr + 5) ∧
    (sbufBytesRemaining src ≠ 5 →
      (mspSetLedStripConfig cfg svc st src).ret = MSP_RESULT_ERROR ∧
      (mspSetLedStripConfig cfg svc st src).st = st) := by
  have hu : u32 (sbufBytesRemaining src) = 1 + 4 ↔ sbufBytesRemaining src = 5 := by
    simp only [u32]
    omega
  unfold mspSetLedStripConfig
  by_cases h1 : (sbufReadU8 src).1 ≥ cfg.LED_MAX_STRIP_LENGTH ∨
      u32 (sbufBytesRemaining src) ≠ 1 + 4
  · simp only [h1, if_true]
    refine ⟨trivial, fun h => ?_, fun _ => ⟨trivial, trivial⟩⟩
    cases h
  · have h5 : sbufBytesRemaining src = 5 := by
      apply hu.1
      by_contra hne
      exact h1 (Or.inr hne)
    have hrem : ¬ sbufBytesRemaining (sbufReadU32 (sbufReadU8 src).2).2 ≥ 1 := by
      simp only [sbufBytesRemaining, sbufReadU32, sbufReadU8] at h5 ⊢
      omega
    simp only [h1, if_false, hrem]
    refine ⟨?_, fun _ => ⟨h5, ?_⟩, fun hne => absurd h5 hne⟩
    · split_ifs
      · rfl
      · rfl
    · simp only [sbufReadU32, sbufReadU8]

/-- C36: in a build with `USE_LED_STRIP`, `MSP_SET_LED_STRIP_CONFIG` never changes
the selected ledstrip profile: whenever it returns `MSP_RESULT_ACK` the payload is
exactly 5 bytes long, the LED index and the u32 LED configuration, and all of it
is read; a payload of 6 bytes, which carries the profile byte of API 1.41, is
refused with `MSP_RESULT_ERROR` and the controller state as it was. The distance
of the request cursor to its end is an `int`. -/
theorem mspFcProcessCommand_set_led_strip_config_profile (cfg : BuildConfig) (svc : Services)
    (fuel : Nat) (src : sbuf_t) (res : mspResult_e) (reply : mspPacket_t)
    (fn : Option mspPostProcessFnPtr) (st : FcState) (hL : cfg.USE_LED_STRIP = true)
    (hlo : -2147483648 ≤ sbufBytesRemaining src) (hhi : sbufBytesRemaining src < 2147483648) :
    ∃ r, mspFcProcessCommand cfg svc (fuel + 1)
        { buf := src, cmd := MSP_SET_LED_STRIP_CONFIG, result := res } reply fn st = some r ∧
      r.st.ledstrip_profile = st.ledstrip_profile ∧
      (r.ret = MSP_RESULT_ACK → sbufBytesRemaining src = 5 ∧ r.cmd.buf.ptr = src.ptr + 5) ∧
      (sbufBytesRemaining src = 6 → r.ret = MSP_RESULT_ERROR ∧ r.st = st) := by
  obtain ⟨e1, e2, e3⟩ := mspSetLedStripConfig_profile cfg svc st src hlo hhi
  rw [mspFcProcessCommand_in cfg svc fuel
    { buf := src, cmd := MSP_SET_LED_STRIP_CONFIG, result := res } reply fn st rfl rfl rfl rfl rfl rfl]
  refine ⟨_, rfl, ?_, ?_, ?_⟩
  · show (mspCommonProcessInCommand cfg svc st MSP_SET_LED_STRIP_CONFIG src).st.ledstrip_profile
      = _
    rw [mspProcessInCommand_set_led_strip_config cfg svc st src hL]
    exact e1
  · show (mspCommonProcessInCommand cfg svc st MSP_SET_LED_STRIP_CONFIG src).ret = _ →
      _ ∧ (mspCommonProcessInCommand cfg svc st MSP_SET_LED_STRIP_CONFIG src).src.ptr = _
    rw [mspProcessInCommand_set_led_strip_config cfg svc st src hL]
    exact e2
  · intro h6
    show (mspCommonProcessInCommand cfg svc st MSP_SET_LED_STRIP_CONFIG src).ret = _ ∧
      (mspCommonProcessInCommand cfg svc st MSP_SET_LED_STRIP_CONFIG src).st = _
    rw [mspProcessInCommand_set_led_strip_config cfg svc st src hL]
    exact e3 (by omega)

/-- C36, evaluated on the build `fullBuild`: the payload of LED index 3, an LED
configuration and the profile byte 2 is refused and the selected profile stays
0. -/
theorem mspFcProcessCommand_set_led_strip_config_profile_witness :
    ∃ r, mspFcProcessCommand fullBuild idleServices (0 + 1)
        { buf := sbufOfPayload [3, 1, 2, 3, 4, 2] (fun _ => 0), cmd := MSP_SET_LED_STRIP_CONFIG,
          result := MSP_RESULT_ACK } (replyPacket 64) (some none) (idleState []) = some r ∧
      r.ret = MSP_RESULT_ERROR ∧ r.st.ledstrip_profile = 0 := by
  obtain ⟨r, h1, h2, -, h4⟩ := mspFcProcessCommand_set_led_strip_config_profile fullBuild
    idleServices 0 (sbufOfPayload [3, 1, 2, 3, 4, 2] (fun _ => 0)) MSP_RESULT_ACK (replyPacket 64)
    (some none) (idleState []) rfl (by decide) (by decide)
  exact ⟨r, h1, (h4 (by decide)).1, h2⟩

theorem mspFc4waySerialCommand_reply (cfg : BuildConfig) (st : FcState) (dst src : sbuf_t)
    (fn : Option mspPostProcessFnPtr) :
    ∃ v, (mspFc4waySerialCommand cfg st dst src fn).1 = sbufWriteU8 dst v := by
  unfold mspFc4waySerialCommand
  simp only []
  split_ifs <;> exact ⟨_, rfl⟩

theorem mspFc4waySerialCommand_legacy (cfg : BuildConfig) (st : FcState) (dst src : sbuf_t)
    (fn : Option mspPostProcessFnPtr) (h : sbufBytesRemaining src = 0) :
    mspFc4waySerialCommand cfg st dst src fn =
      (sbufWriteU8 dst st.esc4wayCount, src,
        registerPostProcessFn fn PostProcessAction.esc4wayProcess,
        { st with escMode := ESC_4WAY }) := by
  have hu : u32 (sbufBytesRemaining src) = 0 := by rw [h]; rfl
  unfold mspFc4waySerialCommand
  simp only [hu, if_true]

theorem mspFc4waySerialCommand_unsupported (cfg : BuildConfig) (st : FcState) (dst src : sbuf_t)
    (fn : Option mspPostProcessFnPtr) (h : u32 (sbufBytesRemaining src) ≠ 0)
    (hm : (sbufReadU8 src).1 ≠ ESC_4WAY)
    (hs : ¬ (cfg.USE_ESCSERIAL ∧
      ((sbufReadU8 src).1 = cfg.PROTOCOL_SIMONK ∨ (sbufReadU8 src).1 = cfg.PROTOCOL_BLHELI ∨
        (sbufReadU8 src).1 = cfg.PROTOCOL_KISS ∨ (sbufReadU8 src).1 = cfg.PROTOCOL_KISSALL ∨
        (sbufReadU8 src).1 = cfg.PROTOCOL_CASTLE) ∧
      ((sbufReadU8 (sbufReadU8 src).2).1 < st.motorCount ∨
        ((sbufReadU8 src).1 = cfg.PROTOCOL_KISS ∧
          (sbufReadU8 (sbufReadU8 src).2).1 = cfg.ALL_MOTORS)))) :
    mspFc4waySerialCommand cfg st dst src fn =
      (sbufWriteU8 dst 0, (sbufReadU8 (sbufReadU8 src).2).2, fn,
        { st with escMode := (sbufReadU8 src).1,
                  escPortIndex := (sbufReadU8 (sbufReadU8 src).2).1 }) := by
  unfold mspFc4waySerialCommand
  simp only [h, if_false, hm, hs]

/-- C39: in a build with the 4-way interface, `MSP_SET_4WAY_IF` returns
`MSP_RESULT_ACK` with a reply of exactly one byte. With an empty payload the mode
is `ESC_4WAY`, the reply byte is the count `esc4wayInit()` returns and
`esc4wayProcess` is registered in the slot passed. With a mode byte that is
neither `ESC_4WAY` nor, in a build with `USE_ESCSERIAL`, one of the five ESC
protocols with a motor index below the motor count (or `PROTOCOL_KISS` with
`ALL_MOTORS`), the reply byte is 0 and the slot is as it was. -/
theorem mspFcProcessCommand_set_4way_if (cfg : BuildConfig) (svc : Services) (fuel : Nat)
    (src : sbuf_t) (res : mspResult_e) (reply : mspPacket_t) (fn : Option mspPostProcessFnPtr)
    (st : FcState) (h4 : cfg.USE_SERIAL_4WAY_BLHELI_INTERFACE = true) :
    ∃ r, mspFcProcessCommand cfg svc (fuel + 1)
        { buf := src, cmd := MSP_SET_4WAY_IF, result := res } reply fn st = some r ∧
      r.ret = MSP_RESULT_ACK ∧
      (∃ b, sbufWritten reply.buf.ptr r.reply.buf = [b]) ∧
      (sbufBytesRemaining src = 0 →
        r.st.escMode = ESC_4WAY ∧
        sbufWritten reply.buf.ptr r.reply.buf = [st.esc4wayCount % 256] ∧
        r.mspPostProcessFn = registerPostProcessFn fn PostProcessAction.esc4wayProcess) ∧
      (u32 (sbufBytesRemaining src) ≠ 0 → (sbufReadU8 src).1 ≠ ESC_4WAY →
        ¬ (cfg.USE_ESCSERIAL ∧
          ((sbufReadU8 src).1 = cfg.PROTOCOL_SIMONK ∨ (sbufReadU8 src).1 = cfg.PROTOCOL_BLHELI ∨
            (sbufReadU8 src).1 = cfg.PROTOCOL_KISS ∨ (sbufReadU8 src).1 = cfg.PROTOCOL_KISSALL ∨
            (sbufReadU8 src).1 = cfg.PROTOCOL_CASTLE) ∧
          ((sbufReadU8 (sbufReadU8 src).2).1 < st.motorCount ∨
            ((sbufReadU8 src).1 = cfg.PROTOCOL_KISS ∧
              (sbufReadU8 (sbufReadU8 src).2).1 = cfg.ALL_MOTORS))) →
        sbufWritten reply.buf.ptr r.reply.buf = [0] ∧ r.mspPostProcessFn = fn) := by
  have h1 : (mspCommonProcessOutCommand cfg svc st MSP_SET_4WAY_IF reply.buf).1 = false := rfl
  have h2 : (mspProcessOutCommand cfg svc st MSP_SET_4WAY_IF reply.buf).1 = false := rfl
  have hW : mspFcProcessOutCommandWithArg cfg svc (mspFcProcessCommand cfg svc fuel) fuel st
      MSP_SET_4WAY_IF src reply.buf fn =
      some { ret := MSP_RESULT_CMD_UNKNOWN, src := src, dst := reply.buf,
             mspPostProcessFn := fn, st := st } := rfl
  have hi : isSet4wayIf MSP_SET_4WAY_IF = true := rfl
  rw [mspFcProcessCommand_succ]
  simp only [h1, h2, hW, h4, hi, Bool.false_eq_true, if_false, ne_eq, not_true_eq_false,
    Bool.and_self, if_true]
  refine ⟨_, rfl, rfl, ?_, ?_, ?_⟩
  · obtain ⟨v, hv⟩ := mspFc4waySerialCommand_reply cfg st reply.buf src fn
    refine ⟨v % 256, ?_⟩
    show sbufWritten reply.buf.ptr (mspFc4waySerialCommand cfg st reply.buf src fn).1 = _
    rw [hv]
    exact (writesFrom_u8 reply.buf reply.buf [] v (writesFrom_refl _)).2.2.1
  · intro h0
    show (mspFc4waySerialCommand cfg st reply.buf src fn).2.2.2.escMode = _ ∧
      sbufWritten reply.buf.ptr (mspFc4waySerialCommand cfg st reply.buf src fn).1 = _ ∧
      (mspFc4waySerialCommand cfg st reply.buf src fn).2.2.1 = _
    rw [mspFc4waySerialCommand_legacy cfg st reply.buf src fn h0]
    exact ⟨rfl, (writesFrom_u8 reply.buf reply.buf [] _ (writesFrom_refl _)).2.2.1, rfl⟩
  · intro h0 hm hs
    show sbufWritten reply.buf.ptr (mspFc4waySerialCommand cfg st reply.buf src fn).1 = _ ∧
      (mspFc4waySerialCommand cfg st reply.buf src fn).2.2.1 = _
    rw [mspFc4waySerialCommand_unsupported cfg st reply.buf src fn h0 hm hs]
    exact ⟨(writesFrom_u8 reply.buf reply.buf [] 0 (writesFrom_refl _)).2.2.1, rfl⟩

/-- C39, evaluated on the build `fullBuild` with three ESCs found: the empty
payload is answered with the byte 3 and registers `esc4wayProcess`. -/
theorem mspFcProcessCommand_set_4way_if_witness :
    ∃ r, mspFcProcessCommand fullBuild idleServices (0 + 1)
        { buf := sbufOfPayload [] (fun _ => 0), cmd := MSP_SET_4WAY_IF,
          result := MSP_RESULT_ACK } (replyPacket 64) (some none)
        { idleState [] with esc4wayCount := 3 } = some r ∧
      r.ret = MSP_RESULT_ACK ∧
      sbufWritten (replyPacket 64).buf.ptr r.reply.buf = [3] ∧
      r.mspPostProcessFn = some (some PostProcessAction.esc4wayProcess) := by
  obtain ⟨r, h1, h2, -, h3, -⟩ := mspFcProcessCommand_set_4way_if fullBuild idleServices 0
    (sbufOfPayload [] (fun _ => 0)) MSP_RESULT_ACK (replyPacket 64) (some none)
    { idleState [] with esc4wayCount := 3 } rfl
  exact ⟨r, h1, h2, (h3 rfl).2.1, (h3 rfl).2.2⟩

/-- The command `MSP_DATAFLASH_READ` through the whole dispatch chain, in a build
with `USE_FLASHFS`: the result of `mspFcDataFlashReadCommand`, acknowledged. -/
theorem mspFcProcessCommand_dataflash_read (cfg : BuildConfig) (svc : Services) (fuel : Nat)
    (src : sbuf_t) (res : mspResult_e) (reply : mspPacket_t) (fn : Option mspPostProcessFnPtr)
    (st : FcState) (hF : cfg.USE_FLASHFS = true) :
    mspFcProcessCommand cfg svc (fuel + 1)
        { buf := src, cmd := MSP_DATAFLASH_READ, result := res } reply fn st =
      (mspFcDataFlashReadCommand cfg svc st fuel reply.buf src).map (fun r =>
        { ret := MSP_RESULT_ACK,
          cmd := { buf := r.2, cmd := MSP_DATAFLASH_READ, result := res },
          reply := { buf := r.1, cmd := MSP_DATAFLASH_READ, result := MSP_RESULT_ACK },
          mspPostProcessFn := fn, st := st }) := by
  have h1 : (mspCommonProcessOutCommand cfg svc st MSP_DATAFLASH_READ reply.buf).1 = false := rfl
  have h2 : (mspProcessOutCommand cfg svc st MSP_DATAFLASH_READ reply.buf).1 = false := rfl
  have hW : mspFcProcessOutCommandWithArg cfg svc (mspFcProcessCommand cfg svc fuel) fuel st
      MSP_DATAFLASH_READ src reply.buf fn =
      some { ret := MSP_RESULT_CMD_UNKNOWN, src := src, dst := reply.buf,
             mspPostProcessFn := fn, st := st } := rfl
  have hi : isSet4wayIf MSP_DATAFLASH_READ = false := rfl
  have hd : isDataflashRead MSP_DATAFLASH_READ = true := rfl
  rw [mspFcProcessCommand_succ]
  simp only [h1, h2, hW, hi, hd, hF, Bool.false_eq_true, if_false, ne_eq, not_true_eq_false,
    Bool.and_false, Bool.and_self, if_true]
  cases mspFcDataFlashReadCommand cfg svc st fuel reply.buf src with
  | none => rfl
  | some r => rfl

/-- The decoding of a dataflash-read request whose payload has `n` bytes left
before the cursor `src`, `n` being a non-negative `int`. -/
theorem mspFcDataFlashReadCommand_decode (cfg : BuildConfig) (svc : Services) (st : FcState)
    (fuel : Nat) (dst src : sbuf_t) (h0 : 0 ≤ sbufBytesRemaining src)
    (h1 : sbufBytesRemaining src < 2147483648) :
    (6 ≤ sbufBytesRemaining src →
      mspFcDataFlashReadCommand cfg svc st fuel dst src =
        (serializeDataflashReadReply cfg svc st fuel dst
          (src.mem src.ptr % 256 + src.mem (src.ptr + 1) % 256 * 256 +
            src.mem (src.ptr + 2) % 256 * 65536 + src.mem (src.ptr + 3) % 256 * 16777216)
          (src.mem (src.ptr + 4) % 256 + src.mem (src.ptr + 5) % 256 * 256) false
          (decide (7 ≤ sbufBytesRemaining src ∧ src.mem (src.ptr + 6) % 256 ≠ 0))).map
          (fun d => (d, { src with
            ptr := src.ptr + (if 7 ≤ sbufBytesRemaining src then 7 else 6) }))) ∧
    (sbufBytesRemaining src < 6 →
      mspFcDataFlashReadCommand cfg svc st fuel dst src =
        (serializeDataflashReadReply cfg svc st fuel dst
          (src.mem src.ptr % 256 + src.mem (src.ptr + 1) % 256 * 256 +
            src.mem (src.ptr + 2) % 256 * 65536 + src.mem (src.ptr + 3) % 256 * 16777216)
          128 true false).map (fun d => (d, { src with ptr := src.ptr + 4 }))) := by
  have hu : u32 (sbufBytesRemaining src) = (sbufBytesRemaining src).toNat := by
    simp only [u32]
    omega
  constructor
  · intro h6
    have hge : u32 (sbufBytesRemaining src) ≥ 4 + 2 := by
      rw [hu]
      omega
    unfold mspFcDataFlashReadCommand
    simp only [hge, if_true]
    by_cases h7 : 7 ≤ sbufBytesRemaining src
    · have hne : sbufBytesRemaining (sbufReadU16 (sbufReadU32 src).2).2 ≠ 0 := by
        simp only [sbufBytesRemaining, sbufReadU16, sbufReadU32, sbufReadU8] at h7 ⊢
        omega
      simp only [hne, h7, ne_eq, not_false_eq_true, if_true, true_and]
      simp [sbufReadU16, sbufReadU32, sbufReadU8, Nat.add_assoc]
    · have hne : ¬ sbufBytesRemaining (sbufReadU16 (sbufReadU32 src).2).2 ≠ 0 := by
        simp only [sbufBytesRemaining, sbufReadU16, sbufReadU32, sbufReadU8] at h7 h6 ⊢
        omega
      simp only [hne, h7, if_false, false_and, decide_False]
      simp [sbufReadU16, sbufReadU32, sbufReadU8, Nat.add_assoc]
  · intro h6
    have hlt : ¬ u32 (sbufBytesRemaining src) ≥ 4 + 2 := by
      rw [hu]
      omega
    unfold mspFcDataFlashReadCommand
    simp only [hlt, if_false]
    simp [sbufReadU32, sbufReadU8, Nat.add_assoc]


/-- The function `serializeDataflashReadReply` returns for every request when the fuel
exceeds the largest 16-bit length, whatever the format, provided the entropy coder
keeps its output-region length, counts at most `k` bytes beyond it and counts at
least one more byte for every chunk it accepts. -/
theorem serializeDataflashReadReply_returns (cfg : BuildConfig) (svc : Services) (st : FcState)
    (fuel : Nat) (dst : sbuf_t) (address size : Nat) (useLegacyFormat allowCompression : Bool)
    (k : Nat) (hs : size < 65536) (hfuel : 65536 ≤ fuel)
    (hover : ∀ state mem input, state.bytesWritten < state.outBufLen →
      (svc.huffmanEncodeBufStreaming state mem input).2.1.outBufLen = state.outBufLen ∧
      (svc.huffmanEncodeBufStreaming state mem input).2.1.bytesWritten ≤ state.outBufLen + k)
    (hprog : ∀ state mem input, input ≠ [] →
      (svc.huffmanEncodeBufStreaming state mem input).1 ≠ -1 →
      state.bytesWritten < (svc.huffmanEncodeBufStreaming state mem input).2.1.bytesWritten) :
    ∃ d, serializeDataflashReadReply cfg svc st fuel dst address size useLegacyFormat
      allowCompression = some d := by
  by_cases hm : (if cfg.USE_HUFFMAN = true then
      (if (!allowCompression || useLegacyFormat) = true then NO_COMPRESSION else HUFFMAN)
      else NO_COMPRESSION) = NO_COMPRESSION
  · simp only [serializeDataflashReadReply, hm, if_true]
    exact ⟨_, rfl⟩
  · have hlt := dataflashReadLen_lt cfg st dst address size hs
    obtain ⟨r, hr, -⟩ := huffmanReadLoop_returns svc st address
      (dataflashReadLen cfg st dst address size) k hover hprog fuel
      { bytesWritten := 0,
        outByte := sbufPtr (sbufWriteU32 dst address) + 2 + 1 + cfg.HUFFMAN_INFO_SIZE,
        outBufLen := dataflashReadLen cfg st dst address size, outBit := 128 }
      (memWrite (sbufWriteU32 dst address).mem
        (sbufPtr (sbufWriteU32 dst address) + 2 + 1 + cfg.HUFFMAN_INFO_SIZE) [0]) 0
      rfl (Nat.zero_le _) (by simp only []; omega)
    simp only [serializeDataflashReadReply, hm, if_false, hr]
    exact ⟨_, rfl⟩

/-- C40: in a build with `USE_FLASHFS`, a dataflash-read request whose payload has
`n` bytes is decoded as follows. The address is the little-endian u32 at the bytes
0..3 from the cursor. With `n` at least 6 the reply is the one
`serializeDataflashReadReply` makes in the modern format for the length in the
little-endian u16 at the bytes 4..5, compression allowed exactly when there is a
seventh byte and it is not zero; with `n` below 6 it is the one it makes in the
legacy format for the length 128 with compression not allowed. Every result
returned is `MSP_RESULT_ACK`; the request returns with any fuel unless the build has
the entropy coder and compression is allowed, and in that case too when the fuel
exceeds the largest 16-bit length and the coder counts at least one more byte for
every chunk it accepts. -/
theorem mspFcProcessCommand_dataflash_read_decoding (cfg : BuildConfig) (svc : Services)
    (fuel : Nat) (src : sbuf_t) (res : mspResult_e) (reply : mspPacket_t)
    (fn : Option mspPostProcessFnPtr) (st : FcState) (hF : cfg.USE_FLASHFS = true)
    (h0 : 0 ≤ sbufBytesRemaining src) (h1 : sbufBytesRemaining src < 2147483648) :
    (6 ≤ sbufBytesRemaining src →
      mspFcProcessCommand cfg svc (fuel + 1)
          { buf := src, cmd := MSP_DATAFLASH_READ, result := res } reply fn st =
        (serializeDataflashReadReply cfg svc st fuel reply.buf
          (src.mem src.ptr % 256 + src.mem (src.ptr + 1) % 256 * 256 +
            src.mem (src.ptr + 2) % 256 * 65536 + src.mem (src.ptr + 3) % 256 * 16777216)
          (src.mem (src.ptr + 4) % 256 + src.mem (src.ptr + 5) % 256 * 256) false
          (decide (7 ≤ sbufBytesRemaining src ∧ src.mem (src.ptr + 6) % 256 ≠ 0))).map
          (fun d =>
            { ret := MSP_RESULT_ACK,
              cmd := { buf := { src with
                         ptr := src.ptr + (if 7 ≤ sbufBytesRemaining src then 7 else 6) },
                       cmd := MSP_DATAFLASH_READ, result := res },
              reply := { buf := d, cmd := MSP_DATAFLASH_READ, result := MSP_RESULT_ACK },
              mspPostProcessFn := fn, st := st })) ∧
    (sbufBytesRemaining src < 6 →
      mspFcProcessCommand cfg svc (fuel + 1)
          { buf := src, cmd := MSP_DATAFLASH_READ, result := res } reply fn st =
        (serializeDataflashReadReply cfg svc st fuel reply.buf
          (src.mem src.ptr % 256 + src.mem (src.ptr + 1) % 256 * 256 +
            src.mem (src.ptr + 2) % 256 * 65536 + src.mem (src.ptr + 3) % 256 * 16777216)
          128 true false).map
          (fun d =>
            { ret := MSP_RESULT_ACK,
              cmd := { buf := { src with ptr := src.ptr + 4 },
                       cmd := MSP_DATAFLASH_READ, result := res },
              reply := { buf := d, cmd := MSP_DATAFLASH_READ, result := MSP_RESULT_ACK },
              mspPostProcessFn := fn, st := st })) ∧
    (∀ r, mspFcProcessCommand cfg svc (fuel + 1)
        { buf := src, cmd := MSP_DATAFLASH_READ, result := res } reply fn st = some r →
      r.ret = MSP_RESULT_ACK) ∧
    (cfg.USE_HUFFMAN = false ∨ sbufBytesRemaining src < 6 ∨
        ¬ (7 ≤ sbufBytesRemaining src ∧ src.mem (src.ptr + 6) % 256 ≠ 0) →
      ∃ r, mspFcProcessCommand cfg svc (fuel + 1)
          { buf := src, cmd := MSP_DATAFLASH_READ, result := res } reply fn st = some r ∧
        r.ret = MSP_RESULT_ACK) ∧
    (∀ k, 65536 ≤ fuel →
      (∀ state mem input, state.bytesWritten < state.outBufLen →
        (svc.huffmanEncodeBufStreaming state mem input).2.1.outBufLen = state.outBufLen ∧
        (svc.huffmanEncodeBufStreaming state mem input).2.1.bytesWritten ≤ state.outBufLen + k) →
      (∀ state mem input, input ≠ [] →
        (svc.huffmanEncodeBufStreaming state mem input).1 ≠ -1 →
        state.bytesWritten < (svc.huffmanEncodeBufStreaming state mem input).2.1.bytesWritten) →
      ∃ r, mspFcProcessCommand cfg svc (fuel + 1)
          { buf := src, cmd := MSP_DATAFLASH_READ, result := res } reply fn st = some r ∧
        r.ret = MSP_RESULT_ACK) := by
  obtain ⟨d1, d2⟩ := mspFcDataFlashReadCommand_decode cfg svc st fuel reply.buf src h0 h1
  have hm := mspFcProcessCommand_dataflash_read cfg svc fuel src res reply fn st hF
  have hret : ∀ r, mspFcProcessCommand cfg svc (fuel + 1)
        { buf := src, cmd := MSP_DATAFLASH_READ, result := res } reply fn st = some r →
      r.ret = MSP_RESULT_ACK := by
    intro r hr
    rw [hm] at hr
    cases hd : mspFcDataFlashReadCommand cfg svc st fuel reply.buf src with
    | none =>
      rw [hd] at hr
      cases hr
    | some x =>
      rw [hd] at hr
      cases hr
      rfl
  refine ⟨?_, ?_, hret, ?_, ?_⟩
  · intro h6
    rw [hm, d1 h6, Option.map_map]
    rfl
  · intro h6
    rw [hm, d2 h6, Option.map_map]
    rfl
  · intro hc
    by_cases h6 : 6 ≤ sbufBytesRemaining src
    · have hu : cfg.USE_HUFFMAN = false ∨
          decide (7 ≤ sbufBytesRemaining src ∧ src.mem (src.ptr + 6) % 256 ≠ 0) = false ∨
          false = true := by
        rcases hc with hc | hc | hc
        · exact Or.inl hc
        · omega
        · exact Or.inr (Or.inl (decide_eq_false hc))
      rw [hm, d1 h6, serializeDataflashReadReply_uncompressed_eq cfg svc st fuel reply.buf _ _
        false _ hu]
      exact ⟨_, rfl, rfl⟩
    · rw [hm, d2 (by omega), serializeDataflashReadReply_uncompressed_eq cfg svc st fuel
        reply.buf _ _ true false (Or.inr (Or.inr rfl))]
      exact ⟨_, rfl, rfl⟩
  · intro k hfuel hover hprog
    by_cases h6 : 6 ≤ sbufBytesRemaining src
    · obtain ⟨d, hd⟩ := serializeDataflashReadReply_returns cfg svc st fuel reply.buf
        (src.mem src.ptr % 256 + src.mem (src.ptr + 1) % 256 * 256 +
          src.mem (src.ptr + 2) % 256 * 65536 + src.mem (src.ptr + 3) % 256 * 16777216)
        (src.mem (src.ptr + 4) % 256 + src.mem (src.ptr + 5) % 256 * 256) false
        (decide (7 ≤ sbufBytesRemaining src ∧ src.mem (src.ptr + 6) % 256 ≠ 0)) k
        (by omega) hfuel hover hprog
      rw [hm, d1 h6, hd]
      exact ⟨_, rfl, rfl⟩
    · rw [hm, d2 (by omega), serializeDataflashReadReply_uncompressed_eq cfg svc st fuel
        reply.buf _ _ true false (Or.inr (Or.inr rfl))]
      exact ⟨_, rfl, rfl⟩

/-- C40, evaluated on the build `fullBuild`: the payload of six bytes, address 2
and length 10, is answered with `MSP_RESULT_ACK`. -/
theorem mspFcProcessCommand_dataflash_read_decoding_witness :
    ∃ r, mspFcProcessCommand fullBuild idleServices (0 + 1)
        { buf := sbufOfPayload [2, 0, 0, 0, 10, 0] (fun _ => 0), cmd := MSP_DATAFLASH_READ,
          result := MSP_RESULT_ACK } (replyPacket 64) (some none) (idleState flash200) = some r ∧
      r.ret = MSP_RESULT_ACK :=
  (mspFcProcessCommand_dataflash_read_decoding fullBuild idleServices 0
    (sbufOfPayload [2, 0, 0, 0, 10, 0] (fun _ => 0)) MSP_RESULT_ACK (replyPacket 64) (some none)
    (idleState flash200) rfl (by decide) (by decide)).2.2.2.1 (Or.inr (Or.inr (by decide)))

theorem readBytes_fst (n : Nat) : ∀ (src : sbuf_t),
    (readBytes n src).1 = (List.range n).map (fun i => src.mem (src.ptr + i) % 256) := by
  induction n with
  | zero => intro src; rfl
  | succ n ih =>
    intro src
    rw [readBytes]
    simp only [ih, sbufReadU8, List.range_succ_eq_map, List.map_cons, List.map_map, Nat.add_zero]
    congr 1
    apply List.map_congr_left
    intro i _
    simp only [Function.comp, Nat.succ_eq_add_one]
    congr 2
    omega

theorem readBytes_payload (p : List Nat) (behind : Nat → Nat) (n : Nat) (hn : n ≤ p.length)
    (hp : ∀ b ∈ p, b < 256) : (readBytes n (sbufOfPayload p behind)).1 = p.take n := by
  rw [readBytes_fst]
  apply List.ext_getElem
  · simp [hn]
  · intro i h1 h2
    simp only [List.length_map, List.length_range] at h1
    simp only [sbufOfPayload, List.getElem_map, List.getElem_range, Nat.zero_add,
      List.getElem_take]
    rw [if_pos (by omega), List.getD_eq_getElem _ _ (by omega)]
    exact Nat.mod_eq_of_lt (hp _ (List.getElem_mem _))

theorem takeWhile_congr_mem {α : Type} (f g : α → Bool) :
    ∀ (l : List α), (∀ x ∈ l, f x = g x) → l.takeWhile f = l.takeWhile g := by
  intro l
  induction l with
  | nil => intro _; rfl
  | cons x l ih =>
    intro h
    simp only [List.takeWhile_cons, h x (List.mem_cons_self _ _)]
    rw [ih (fun y hy => h y (List.mem_cons_of_mem _ hy))]

theorem strlen_congr (a b : Nat → Nat) (n : Nat) (h : ∀ i, i < n → a i = b i) :
    strlen a n = strlen b n := by
  unfold strlen
  rw [takeWhile_congr_mem (fun i => a i != 0) (fun i => b i != 0)]
  intro i hi
  rw [h i (List.mem_range.1 hi)]

theorem strlen_getD (q : List Nat) : ∀ N, q.length ≤ N →
    strlen (fun i => q.getD i 0) (N + 1) = (q.takeWhile (fun b => b != 0)).length := by
  induction q with
  | nil =>
    intro N _
    simp [strlen, List.range_succ_eq_map]
  | cons x q ih =>
    intro N hN
    obtain ⟨M, rfl⟩ : ∃ M, N = M + 1 := ⟨N - 1, by simp only [List.length_cons] at hN; omega⟩
    have hM : q.length ≤ M := by simp only [List.length_cons] at hN; omega
    have := ih M hM
    unfold strlen at this ⊢
    rw [List.range_succ_eq_map]
    simp only [List.takeWhile_cons, List.getD_cons_zero]
    by_cases hx : (x != 0) = true
    · simp only [hx, if_true, List.length_cons, List.takeWhile_map, List.length_map]
      rw [← this]
      rfl
    · simp only [hx, if_false, List.length_nil]
      rfl

theorem map_getD_range (q : List Nat) (L : Nat) (hL : L ≤ q.length) :
    (List.range L).map (fun i => q.getD i 0) = q.take L := by
  apply List.ext_getElem
  · simp [hL]
  · intro i h1 h2
    simp only [List.length_map, List.length_range] at h1
    simp only [List.getElem_map, List.getElem_range, List.getElem_take]
    exact List.getD_eq_getElem _ _ (by omega)

theorem takeWhile_eq_take_length {α : Type} (f : α → Bool) (l : List α) :
    l.takeWhile f = l.take (l.takeWhile f).length := by
  induction l with
  | nil => rfl
  | cons x l ih =>
    simp only [List.takeWhile_cons]
    by_cases hx : f x = true
    · simp only [hx, if_true, List.length_cons, List.take_succ_cons]
      rw [← ih]
    · simp [hx]

/-- The name stored by `MSP_SET_NAME` for the payload `p`, as `MSP_NAME` reads it. -/
theorem mspSetName_name (cfg : BuildConfig) (st : FcState) (p : List Nat) (behind : Nat → Nat)
    (hp : ∀ b ∈ p, b < 256) (hlen : p.length < 2147483648) :
    ∀ i, i < cfg.MAX_NAME_LENGTH + 1 →
      (mspSetName cfg st (sbufOfPayload p behind)).st.name i =
        (p.take cfg.MAX_NAME_LENGTH).getD i 0 := by
  intro i hi
  have hu : u32 (sbufBytesRemaining (sbufOfPayload p behind)) = p.length := by
    simp only [u32, sbufBytesRemaining, sbufOfPayload]
    omega
  have hmin : min cfg.MAX_NAME_LENGTH p.length ≤ p.length := Nat.min_le_right _ _
  have hq : ∀ b ∈ p.take (min cfg.MAX_NAME_LENGTH p.length), b < 256 :=
    fun b hb => hp b (List.mem_of_mem_take hb)
  have ht : p.take (min cfg.MAX_NAME_LENGTH p.length) = p.take cfg.MAX_NAME_LENGTH := by
    rcases Nat.le_total cfg.MAX_NAME_LENGTH p.length with h | h
    · rw [Nat.min_eq_left h]
    · rw [Nat.min_eq_right h, List.take_of_length_le (le_refl _), List.take_of_length_le h]
  simp only [mspSetName, hu, readBytes_payload p behind _ hmin hp, ht]
  unfold memWrite
  by_cases h1 : i < (p.take cfg.MAX_NAME_LENGTH).length
  · rw [if_pos (by omega), Nat.sub_zero, List.getD_eq_getElem _ _ h1]
    exact Nat.mod_eq_of_lt (hp _ (List.mem_of_mem_take (List.getElem_mem _)))
  · rw [if_neg (by omega)]
    beta_reduce
    rw [if_pos hi, List.getD_eq_default _ _ (by omega)]

theorem mspProcessInCommand_set_name (cfg : BuildConfig) (svc : Services)
    (st : FcState) (src : sbuf_t) :
    mspCommonProcessInCommand cfg svc st MSP_SET_NAME src = mspSetName cfg st src := rfl

/-- The bytes `MSP_NAME` writes for a stored name that reads `q`, a list of at
most `MAX_NAME_LENGTH` bytes, padded with zero bytes: `q` up to its first zero
byte. -/
theorem mspName_writes (cfg : BuildConfig) (st : FcState) (dst : sbuf_t) (q : List Nat)
    (hq : ∀ b ∈ q, b < 256) (hlen : q.length ≤ cfg.MAX_NAME_LENGTH)
    (hname : ∀ i, i < cfg.MAX_NAME_LENGTH + 1 → st.name i = q.getD i 0) :
    WritesFrom dst (mspName cfg st dst) (q.takeWhile (fun b => b != 0)) := by
  have hs : strlen st.name (cfg.MAX_NAME_LENGTH + 1) = (q.takeWhile (fun b => b != 0)).length := by
    rw [strlen_congr st.name (fun i => q.getD i 0) _ hname]
    exact strlen_getD q _ hlen
  have hle : (q.takeWhile (fun b => b != 0)).length ≤ q.length :=
    (List.takeWhile_sublist _).length_le
  have hw := writesFrom_u8s dst dst [] st.name
    (q.takeWhile (fun b => b != 0)).length (writesFrom_refl dst)
  have hbytes : (List.range (q.takeWhile (fun b => b != 0)).length).map
      (fun i => st.name i % 256) = q.takeWhile (fun b => b != 0) := by
    refine Eq.trans ?_ (takeWhile_eq_take_length (fun b => b != 0) q).symm
    rw [← map_getD_range q _ hle]
    apply List.map_congr_left
    intro i hi
    have hi2 : i < q.length := lt_of_lt_of_le (List.mem_range.1 hi) hle
    rw [hname i (by omega), List.getD_eq_getElem _ _ hi2]
    exact Nat.mod_eq_of_lt (hq _ (List.getElem_mem _))
  rw [List.nil_append, hbytes] at hw
  unfold mspName
  rw [hs]
  exact hw

/-- C37: the name round trip. `MSP_SET_NAME` with a payload `p` of bytes is
acknowledged, and `MSP_NAME` on the state it leaves is acknowledged with a reply
of exactly `p` truncated to `MAX_NAME_LENGTH` bytes and cut at its first zero
byte. -/
theorem mspFcProcessCommand_name_roundtrip (cfg : BuildConfig) (svc : Services)
    (fuel fuel2 : Nat) (p : List Nat) (behind : Nat → Nat) (res res2 : mspResult_e)
    (reply reply2 : mspPacket_t) (src2 : sbuf_t) (fn fn2 : Option mspPostProcessFnPtr)
    (st : FcState) (hp : ∀ b ∈ p, b < 256) (hlen : p.length < 2147483648) :
    ∃ r1, mspFcProcessCommand cfg svc (fuel + 1)
        { buf := sbufOfPayload p behind, cmd := MSP_SET_NAME, result := res } reply fn st
        = some r1 ∧
      r1.ret = MSP_RESULT_ACK ∧
      ∃ r2, mspFcProcessCommand cfg svc (fuel2 + 1)
          { buf := src2, cmd := MSP_NAME, result := res2 } reply2 fn2 r1.st = some r2 ∧
        r2.ret = MSP_RESULT_ACK ∧
        sbufWritten reply2.buf.ptr r2.reply.buf =
          (p.take cfg.MAX_NAME_LENGTH).takeWhile (fun b => b != 0) := by
  rw [mspFcProcessCommand_in cfg svc fuel
    { buf := sbufOfPayload p behind, cmd := MSP_SET_NAME, result := res } reply fn st
    rfl rfl rfl rfl rfl rfl]
  refine ⟨_, rfl, rfl, ?_⟩
  have hc : ∀ s, mspCommonProcessOutCommand cfg svc s MSP_NAME reply2.buf =
      (false, reply2.buf) := fun _ => rfl
  have ho : ∀ s, mspProcessOutCommand cfg svc s MSP_NAME reply2.buf =
      (true, mspName cfg s reply2.buf) := fun _ => rfl
  rw [mspFcProcessCommand_succ]
  simp only [hc, ho, Bool.false_eq_true, if_false, if_true]
  refine ⟨_, rfl, rfl, ?_⟩
  have hw := mspName_writes cfg (mspSetName cfg st (sbufOfPayload p behind)).st reply2.buf
    (p.take cfg.MAX_NAME_LENGTH) (fun b hb => hp b (List.mem_of_mem_take hb))
    (by rw [List.length_take]; exact Nat.min_le_left _ _)
    (mspSetName_name cfg st p behind hp hlen)
  exact hw.2.2.1

/-- C37, evaluated: on the build `fullBuild` with the controller idle, the name
`AB`, a zero byte and `C` is stored and read back as `AB`. -/
theorem mspFcProcessCommand_name_roundtrip_witness :
    ∃ r1, mspFcProcessCommand fullBuild idleServices (0 + 1)
        { buf := sbufOfPayload [65, 66, 0, 67] (fun _ => 0), cmd := MSP_SET_NAME,
          result := MSP_RESULT_ACK } (replyPacket 64) (some none) (idleState []) = some r1 ∧
      r1.ret = MSP_RESULT_ACK ∧
      ∃ r2, mspFcProcessCommand fullBuild idleServices (0 + 1)
          { buf := sbufOfPayload [] (fun _ => 0), cmd := MSP_NAME, result := MSP_RESULT_ACK }
          (replyPacket 64) (some none) r1.st = some r2 ∧
        r2.ret = MSP_RESULT_ACK ∧
        sbufWritten (replyPacket 64).buf.ptr r2.reply.buf = [65, 66] :=
  mspFcProcessCommand_name_roundtrip fullBuild idleServices 0 0 [65, 66, 0, 67] (fun _ => 0)
    MSP_RESULT_ACK MSP_RESULT_ACK (replyPacket 64) (replyPacket 64) (sbufOfPayload [] (fun _ => 0))
    (some none) (some none) (idleState []) (by decide) (by decide)

/-- The terminating NUL of `readNameBuffer` is written at the index `length`,
whatever the capacity of the array is. -/
theorem readNameBuffer_nul (capacity length : Nat) (src : sbuf_t) (stack : Nat → Nat) :
    readNameBuffer capacity length src stack length = 0 := by
  simp [readNameBuffer, arraySet]

/-- At most `capacity` bytes are copied by `readNameBuffer`: a cell from the index
`capacity` on, other than the cell of the terminating NUL, keeps what it held. -/
theorem readNameBuffer_copied (capacity length : Nat) (src : sbuf_t) (stack : Nat → Nat)
    (i : Nat) (hi : capacity ≤ i) (hne : i ≠ length) :
    readNameBuffer capacity length src stack i = stack i := by
  have hlen : (readBytes (min length capacity) src).1.length = min length capacity := by
    rw [readBytes_fst]
    simp
  unfold readNameBuffer arraySet
  rw [if_neg hne]
  apply memWrite_of_not_mem
  right
  rw [hlen]
  have := Nat.min_le_right length capacity
  omega

/-- A length byte within the capacity: the terminating NUL is inside the array
and the memory behind the array is as it was. -/
theorem readNameBuffer_within (capacity length : Nat) (src : sbuf_t) (stack : Nat → Nat)
    (h : length ≤ capacity) (i : Nat) (hi : capacity < i) :
    readNameBuffer capacity length src stack i = stack i :=
  readNameBuffer_copied capacity length src stack i (by omega) (by omega)

/-- A length byte above the capacity: the terminating NUL is written behind the
array, at the index `length`, and the last cell of the array, the index
`capacity`, keeps what the stack held. -/
theorem readNameBuffer_overrun (capacity length : Nat) (src : sbuf_t) (stack : Nat → Nat)
    (h : capacity < length) :
    readNameBuffer capacity length src stack length = 0 ∧
    readNameBuffer capacity length src stack capacity = stack capacity :=
  ⟨readNameBuffer_nul capacity length src stack,
   readNameBuffer_copied capacity length src stack capacity (le_refl _) (by omega)⟩

/-- The local arrays of the `MSP_SET_BOARD_INFO` handler for any length bytes: the
NUL of the board name is written at the index of the first length byte and the
NUL of the manufacturer id at the index of the second, neither bounded by the
capacity of its array. -/
theorem mspSetBoardInfoLocals_nul (cfg : BuildConfig) (src : sbuf_t)
    (stackName stackId : Nat → Nat) :
    (mspSetBoardInfoLocals cfg src stackName stackId).1 (sbufReadU8 src).1 = 0 ∧
    (cfg.MAX_BOARD_NAME_LENGTH < (sbufReadU8 src).1 →
      (mspSetBoardInfoLocals cfg src stackName stackId).1 cfg.MAX_BOARD_NAME_LENGTH =
        stackName cfg.MAX_BOARD_NAME_LENGTH) :=
  ⟨readNameBuffer_nul _ _ _ _, fun h => (readNameBuffer_overrun _ _ _ _ h).2⟩

set_option maxRecDepth 1000000 in
/-- C35 fails on the code: on the build `fullBuild` (`MAX_BOARD_NAME_LENGTH` 20,
`MAX_MANUFACTURER_ID_LENGTH` 4, so `boardName` has the indices 0..20 and
`manufacturerId` the indices 0..4), the stack holding the byte 7 everywhere:
the payload of the length byte 21, 21 name bytes `A`, the length byte 5 and 5 id
bytes `B` is acknowledged; the handler writes the NUL of the board name at the
index 21 and that of the manufacturer id at the index 5, both behind the arrays,
and no cell of either array is NUL. -/
theorem mspSetBoardInfoLocals_nul_counterexample :
    (mspFcProcessCommand fullBuild idleServices 1
        { buf := sbufOfPayload (21 :: List.replicate 21 65 ++ 5 :: List.replicate 5 66)
            (fun _ => 0),
          cmd := MSP_SET_BOARD_INFO, result := MSP_RESULT_ACK }
        (replyPacket 64) none (idleState [])).map (fun r => r.ret) = some MSP_RESULT_ACK ∧
    (mspSetBoardInfoLocals fullBuild
        (sbufOfPayload (21 :: List.replicate 21 65 ++ 5 :: List.replicate 5 66) (fun _ => 0))
        (fun _ => 7) (fun _ => 7)).1 21 = 0 ∧
    (∀ i ∈ List.range (fullBuild.MAX_BOARD_NAME_LENGTH + 1),
      (mspSetBoardInfoLocals fullBuild
        (sbufOfPayload (21 :: List.replicate 21 65 ++ 5 :: List.replicate 5 66) (fun _ => 0))
        (fun _ => 7) (fun _ => 7)).1 i ≠ 0) ∧
    (mspSetBoardInfoLocals fullBuild
        (sbufOfPayload (21 :: List.replicate 21 65 ++ 5 :: List.replicate 5 66) (fun _ => 0))
        (fun _ => 7) (fun _ => 7)).2 5 = 0 ∧
    (∀ i ∈ List.range (fullBuild.MAX_MANUFACTURER_ID_LENGTH + 1),
      (mspSetBoardInfoLocals fullBuild
        (sbufOfPayload (21 :: List.replicate 21 65 ++ 5 :: List.replicate 5 66) (fun _ => 0))
        (fun _ => 7) (fun _ => 7)).2 i ≠ 0) := by
  decide

theorem mspSelectSetting_src (cfg : BuildConfig) (st : FcState) (src : sbuf_t) :
    (mspSelectSetting cfg st src).src = (sbufReadU8 src).2 := by
  unfold mspSelectSetting
  dsimp only
  split_ifs <;> rfl

/-- The sizing loop in front of the sub-commands `MSP_SELECT_SETTING`,
`MSP_MULTIPLE_MSP`, with the shared cursor `packetIn` still at its end and the
codes of the same two commands in the two bytes behind that end: the first
dispatch moves `packetIn` one byte behind its end, the second dispatches the
batch command on it. When that dispatch gives no result, the loop gives none. -/
theorem batchSizingLoop_behind_end (cfg : BuildConfig) (svc : Services) (f : Nat)
    (h210 : cfg.cmdOfCode 210 = MSP_SELECT_SETTING)
    (h230 : cfg.cmdOfCode 230 = MSP_MULTIPLE_MSP)
    (hS : ∀ (cmd reply : mspPacket_t) (fn : Option mspPostProcessFnPtr) (st : FcState),
      cmd.cmd = MSP_MULTIPLE_MSP → BehindEnd cmd.buf → 3 ≤ sbufBytesRemaining reply.buf →
      mspFcProcessCommand cfg svc f cmd reply fn st = none)
    (fuel : Nat) (b : BatchState)
    (hs1 : b.src.mem b.src.ptr % 256 = 210) (hs2 : b.src.mem (b.src.ptr + 1) % 256 = 230)
    (hr1 : sbufBytesRemaining b.src ≠ 0) (hr2 : sbufBytesRemaining b.src ≠ 1)
    (hin : b.packetIn.buf.ptr = b.packetIn.buf.end_)
    (hi1 : b.packetIn.buf.mem (b.packetIn.buf.end_ + 1) % 256 = 210)
    (hi2 : b.packetIn.buf.mem (b.packetIn.buf.end_ + 2) % 256 = 230)
    (hroom : 3 ≤ sbufBytesRemaining b.dst) (hbytes : 2 ≤ b.bytesRemaining) :
    batchSizingLoop cfg (mspFcProcessCommand cfg svc f) fuel b = none := by
  cases fuel with
  | zero => rfl
  | succ fuel1 =>
    rw [batchSizingLoop]
    rw [if_pos ⟨hr1, by omega⟩]
    dsimp only
    have hcode : cfg.cmdOfCode (sbufReadU8 b.src).1 = MSP_SELECT_SETTING := by
      simp only [sbufReadU8, hs1, h210]
    rw [hcode]
    cases f with
    | zero => rfl
    | succ f1 =>
      have hsel : mspFcProcessCommand cfg svc (f1 + 1)
          { b.packetIn with cmd := MSP_SELECT_SETTING }
          { b.packetOut with buf := sbufInit b.dst.mem b.dst.ptr b.dst.end_ } none b.st = _ :=
        mspFcProcessCommand_select_setting cfg svc f1 b.packetIn.buf b.packetIn.result
          { b.packetOut with buf := sbufInit b.dst.mem b.dst.ptr b.dst.end_ } none b.st
      rw [hsel]
      dsimp only
      cases fuel1 with
      | zero => rfl
      | succ fuel2 =>
        rw [batchSizingLoop]
        have hu : u8 ((sbufPtr (sbufInit b.dst.mem b.dst.ptr b.dst.end_) : Int)
            - b.dst.ptr) = 0 := by
          simp [u8, sbufPtr, sbufInit]
        have hcond : sbufBytesRemaining (sbufReadU8 b.src).2 ≠ 0 ∧
            b.bytesRemaining - ((u8 ((sbufPtr
              (sbufInit b.dst.mem b.dst.ptr b.dst.end_) : Int)
              - b.dst.ptr) + 1) % 256 : Nat) > 0 := by
          rw [hu]
          constructor
          · simp only [sbufBytesRemaining, sbufReadU8] at hr1 hr2 ⊢
            omega
          · norm_num
            omega
        rw [if_pos hcond]
        dsimp only
        have hcode2 : cfg.cmdOfCode (sbufReadU8 (sbufReadU8 b.src).2).1 = MSP_MULTIPLE_MSP := by
          simp only [sbufReadU8, hs2, h230]
        rw [hcode2]
        rw [hS _ _ none _ rfl ?_ hroom]
        show BehindEnd (mspSelectSetting cfg b.st b.packetIn.buf).src
        rw [mspSelectSetting_src]
        exact ⟨by simp only [sbufReadU8, hin], hi1, hi2⟩

/-- A batch request whose cursor stands one byte behind its end, with the codes of
`MSP_SELECT_SETTING` and `MSP_MULTIPLE_MSP` in the two bytes that follow, into
a reply with room for 3 bytes: no amount of fuel gives a result. The sizing loop
dispatches `MSP_SELECT_SETTING` on the cursor `(end, end)`, which reads one
byte, and then the batch command on that cursor, which is a request of the same
kind. -/
theorem mspFcProcessCommand_batch_behind_end (cfg : BuildConfig) (svc : Services)
    (h210 : cfg.cmdOfCode 210 = MSP_SELECT_SETTING)
    (h230 : cfg.cmdOfCode 230 = MSP_MULTIPLE_MSP) :
    ∀ (fuel : Nat) (cmd reply : mspPacket_t) (fn : Option mspPostProcessFnPtr) (st : FcState),
      cmd.cmd = MSP_MULTIPLE_MSP → BehindEnd cmd.buf → 3 ≤ sbufBytesRemaining reply.buf →
      mspFcProcessCommand cfg svc fuel cmd reply fn st = none := by
  intro fuel
  induction fuel with
  | zero => intro cmd reply fn st _ _ _; rfl
  | succ f ih =>
    intro cmd reply fn st hc hB hroom
    obtain ⟨src, c, res⟩ := cmd
    obtain ⟨hp, hm1, hm2⟩ := hB
    simp only at hc hp hm1 hm2
    subst hc
    have h0 : sbufBytesRemaining src ≠ 0 := by
      simp only [sbufBytesRemaining]
      omega
    rw [mspFcProcessCommand_batch cfg svc f src res reply fn st h0]
    rw [batchSizingLoop_behind_end cfg svc f h210 h230 ih f _
      (by show src.mem src.ptr % 256 = 210; rw [hp]; exact hm1)
      (by show src.mem (src.ptr + 1) % 256 = 230; rw [hp]; exact hm2)
      h0 (by simp only [sbufBytesRemaining]; omega) rfl hm1 hm2 hroom
      (by show 2 ≤ sbufBytesRemaining reply.buf - 1; omega)]

/-- C33 fails on the code: the top-level dispatch of the batch request with the
payload `MSP_SELECT_SETTING`, `MSP_MULTIPLE_MSP` (codes 210, 230), read from a
buffer that holds the bytes 210, 230 at the addresses 3 and 4 behind the
payload, into a reply buffer of 64 bytes, gives no result for any amount of
fuel: the nested batch command finds its cursor one byte behind its end, not an
empty payload, does not return `MSP_RESULT_ERROR` and dispatches a batch command
on a cursor of the same kind again, without end. -/
theorem mspFcProcessCommand_batch_never_returns :
    ∀ fuel : Nat, mspFcProcessCommand fullBuild idleServices fuel
      (requestPacket MSP_MULTIPLE_MSP [210, 230]
        (fun a => if a = 3 then 210 else if a = 4 then 230 else 0))
      (replyPacket 64) none (idleState []) = none := by
  intro fuel
  cases fuel with
  | zero => rfl
  | succ f =>
    have h0 : sbufBytesRemaining (sbufOfPayload [210, 230]
        (fun a => if a = 3 then 210 else if a = 4 then 230 else 0)) ≠ 0 := by decide
    show mspFcProcessCommand fullBuild idleServices (f + 1)
      { buf := sbufOfPayload [210, 230]
          (fun a => if a = 3 then 210 else if a = 4 then 230 else 0),
        cmd := MSP_MULTIPLE_MSP, result := MSP_RESULT_ACK } (replyPacket 64) none (idleState [])
      = none
    rw [mspFcProcessCommand_batch fullBuild idleServices f _ MSP_RESULT_ACK (replyPacket 64) none
      (idleState []) h0]
    rw [batchSizingLoop_behind_end fullBuild idleServices f rfl rfl
      (mspFcProcessCommand_batch_behind_end fullBuild idleServices rfl rfl f) f _
      (by decide) (by decide) (by decide) (by decide) rfl (by decide) (by decide) (by decide)
      (by decide)]

/-- A request that reaches the state-mutating stages and faults there has no
return value, whatever the fuel. -/
theorem mspFcProcessCommand_fault (cfg : BuildConfig) (svc : Services) (fuel : Nat)
    (cmd reply : mspPacket_t) (fn : Option mspPostProcessFnPtr) (st : FcState)
    (h1 : (mspCommonProcessOutCommand cfg svc st cmd.cmd reply.buf).1 = false)
    (h2 : (mspProcessOutCommand cfg svc st cmd.cmd reply.buf).1 = false)
    (h3 : mspFcProcessOutCommandWithArg cfg svc (mspFcProcessCommand cfg svc fuel) fuel st
      cmd.cmd cmd.buf reply.buf fn =
      some { ret := MSP_RESULT_CMD_UNKNOWN, src := cmd.buf, dst := reply.buf,
             mspPostProcessFn := fn, st := st })
    (h4 : isSet4wayIf cmd.cmd = false) (h5 : isDataflashRead cmd.cmd = false)
    (h6 : (mspCommonProcessInCommand cfg svc st cmd.cmd cmd.buf).fault = true) :
    mspFcProcessCommand cfg svc (fuel + 1) cmd reply fn st = none := by
  rw [mspFcProcessCommand_succ]
  simp only [h1, h2, h3, h4, h5, h6, Bool.false_eq_true, if_false, Bool.and_false, ne_eq,
    not_true_eq_false, if_true]

/-- The handler of `MSP_SET_MODE_RANGE` on a payload of a condition index in
range, a box identifier that is found, three bytes and, behind them, the mode
logic and the identifier of a linked box that is not found: a fault. -/
theorem mspCommonProcessInCommand_set_mode_range_fault (cfg : BuildConfig) (svc : Services)
    (st : FcState) (src : sbuf_t)
    (hi : (sbufReadU8 src).1 < cfg.MAX_MODE_ACTIVATION_CONDITION_COUNT)
    (hbox : svc.accepts MSP_SET_MODE_RANGE [(sbufReadU8 (sbufReadU8 src).2).1] st = true)
    (hrem : sbufBytesRemaining (readBytes 3 (sbufReadU8 (sbufReadU8 src).2).2).2 ≠ 0)
    (hlinked : svc.accepts MSP_SET_MODE_RANGE
      [(readBytes 2 (readBytes 3 (sbufReadU8 (sbufReadU8 src).2).2).2).1.getD 1 0] st = false) :
    (mspCommonProcessInCommand cfg svc st MSP_SET_MODE_RANGE src).fault = true := by
  have hc : mspCommonProcessInCommandCase cfg svc st MSP_SET_MODE_RANGE src = none := rfl
  have hp : mspProcessInCommandCase cfg svc st MSP_SET_MODE_RANGE src =
      if (sbufReadU8 src).1 < cfg.MAX_MODE_ACTIVATION_CONDITION_COUNT then
        if svc.accepts MSP_SET_MODE_RANGE [(sbufReadU8 (sbufReadU8 src).2).1] st then
          if sbufBytesRemaining (readBytes 3 (sbufReadU8 (sbufReadU8 src).2).2).2 ≠ 0 then
            if svc.accepts MSP_SET_MODE_RANGE
                [(readBytes 2 (readBytes 3 (sbufReadU8 (sbufReadU8 src).2).2).2).1.getD 1 0] st
            then _ else _
          else _
        else _
      else _ := rfl
  unfold mspCommonProcessInCommand mspProcessInCommand
  rw [hc, hp, if_pos hi, if_pos hbox, if_pos hrem, hlinked]
  rfl

/-- The request `MSP_SET_MODE_RANGE` with a linked box that is not found has no
return value, whatever the fuel. -/
theorem mspFcProcessCommand_set_mode_range_fault (cfg : BuildConfig) (svc : Services)
    (src : sbuf_t) (res : mspResult_e) (reply : mspPacket_t) (fn : Option mspPostProcessFnPtr)
    (st : FcState)
    (hi : (sbufReadU8 src).1 < cfg.MAX_MODE_ACTIVATION_CONDITION_COUNT)
    (hbox : svc.accepts MSP_SET_MODE_RANGE [(sbufReadU8 (sbufReadU8 src).2).1] st = true)
    (hrem : sbufBytesRemaining (readBytes 3 (sbufReadU8 (sbufReadU8 src).2).2).2 ≠ 0)
    (hlinked : svc.accepts MSP_SET_MODE_RANGE
      [(readBytes 2 (readBytes 3 (sbufReadU8 (sbufReadU8 src).2).2).2).1.getD 1 0] st = false) :
    ∀ fuel, mspFcProcessCommand cfg svc fuel
      { buf := src, cmd := MSP_SET_MODE_RANGE, result := res } reply fn st = none := by
  intro fuel
  cases fuel with
  | zero => rfl
  | succ fuel =>
    exact mspFcProcessCommand_fault cfg svc fuel
      { buf := src, cmd := MSP_SET_MODE_RANGE, result := res } reply fn st rfl rfl rfl rfl rfl
      (mspCommonProcessInCommand_set_mode_range_fault cfg svc st src hi hbox hrem hlinked)

set_option maxRecDepth 100000 in
/-- C1 fails on the code: on the build `fullBuild`, with the box identifiers
below 40 the ones `findBoxByPermanentId` finds, the request `MSP_SET_MODE_RANGE`
for the condition 0, the box 1, the channel 0, the steps 32 to 48, the mode logic
0 and the linked box 200 has no return value, neither `MSP_RESULT_ACK` nor
`MSP_RESULT_ERROR`, for any amount of fuel: line 1792 dereferences the `NULL`
that the lookup of the box 200 returns. The same request with the linked box 2
returns `MSP_RESULT_ACK`, and with the box 200 in the first place, whose lookup
is tested, `MSP_RESULT_ERROR`. -/
theorem mspFcProcessCommand_set_mode_range_no_result :
    (∀ fuel : Nat, mspFcProcessCommand fullBuild (boxIdServices 40) fuel
      (requestPacket MSP_SET_MODE_RANGE [0, 1, 0, 32, 48, 0, 200] (fun _ => 0))
      (replyPacket 64) none (idleState []) = none) ∧
    (mspFcProcessCommand fullBuild (boxIdServices 40) 1
      (requestPacket MSP_SET_MODE_RANGE [0, 1, 0, 32, 48, 0, 2] (fun _ => 0))
      (replyPacket 64) none (idleState [])).map (fun r => decide (r.ret = MSP_RESULT_ACK))
      = some true ∧
    (mspFcProcessCommand fullBuild (boxIdServices 40) 1
      (requestPacket MSP_SET_MODE_RANGE [0, 200, 0, 32, 48, 0, 2] (fun _ => 0))
      (replyPacket 64) none (idleState [])).map (fun r => decide (r.ret = MSP_RESULT_ERROR))
      = some true := by
  refine ⟨?_, by decide, by decide⟩
  exact mspFcProcessCommand_set_mode_range_fault fullBuild (boxIdServices 40)
    (sbufOfPayload [0, 1, 0, 32, 48, 0, 200] (fun _ => 0)) MSP_RESULT_ACK (replyPacket 64) none
    (idleState []) (by decide) (by decide) (by decide) (by decide)

/-- C22 fails on the code: the batch request with the payload
`MSP_SELECT_SETTING`, `MSP_MULTIPLE_MSP` (codes 210, 230), which is not empty,
read from a buffer that holds the bytes 210, 230 at the addresses 3 and 4 behind
the payload, does not return `MSP_RESULT_ACK`: for every reply buffer with at
least 4 bytes of room, every registration slot, every controller state and every
amount of fuel it has no return value. -/
theorem mspFcProcessCommand_batch_result_counterexample :
    ∀ (fuel capacity : Nat) (fn : Option mspPostProcessFnPtr) (st : FcState),
      mspFcProcessCommand fullBuild idleServices fuel
        (requestPacket MSP_MULTIPLE_MSP [210, 230]
          (fun a => if a = 3 then 210 else if a = 4 then 230 else 0))
        (replyPacket (capacity + 4)) fn st = none := by
  intro fuel capacity fn st
  have hroom : (3 : Int) ≤ sbufBytesRemaining (replyPacket (capacity + 4)).buf := by
    simp only [replyPacket, sbufOfCapacity, sbufBytesRemaining]
    omega
  cases fuel with
  | zero => rfl
  | succ f =>
    have h0 : sbufBytesRemaining (sbufOfPayload [210, 230]
        (fun a => if a = 3 then 210 else if a = 4 then 230 else 0)) ≠ 0 := by decide
    show mspFcProcessCommand fullBuild idleServices (f + 1)
      { buf := sbufOfPayload [210, 230]
          (fun a => if a = 3 then 210 else if a = 4 then 230 else 0),
        cmd := MSP_MULTIPLE_MSP, result := MSP_RESULT_ACK } (replyPacket (capacity + 4)) fn st
      = none
    rw [mspFcProcessCommand_batch fullBuild idleServices f _ MSP_RESULT_ACK
      (replyPacket (capacity + 4)) fn st h0]
    have h1 : sbufBytesRemaining (sbufOfPayload [210, 230]
        (fun a => if a = 3 then 210 else if a = 4 then 230 else 0)) ≠ 1 := by decide
    rw [batchSizingLoop_behind_end fullBuild idleServices f rfl rfl
      (mspFcProcessCommand_batch_behind_end fullBuild idleServices rfl rfl f) f
      { src := sbufOfPayload [210, 230]
          (fun a => if a = 3 then 210 else if a = 4 then 230 else 0),
        dst := (replyPacket (capacity + 4)).buf,
        packetIn := localPacket (sbufInit
          (sbufOfPayload [210, 230]
            (fun a => if a = 3 then 210 else if a = 4 then 230 else 0)).mem
          (sbufOfPayload [210, 230]
            (fun a => if a = 3 then 210 else if a = 4 then 230 else 0)).end_
          (sbufOfPayload [210, 230]
            (fun a => if a = 3 then 210 else if a = 4 then 230 else 0)).end_),
        packetOut := localPacket (replyPacket (capacity + 4)).buf, st := st,
        bytesRemaining := sbufBytesRemaining (replyPacket (capacity + 4)).buf - 1, maxMSPs := 0 }
      rfl rfl h0 h1 rfl rfl rfl hroom
      (by show (2 : Int) ≤ sbufBytesRemaining (replyPacket (capacity + 4)).buf - 1; omega)]

end Msp
